import Mathlib

/-!
ReShade Direct3D 10 effect pipeline: embedding and verified properties.

Source files embedded here:

* `src/src/Runtimes/RuntimeD3D10.cpp` (the effect compiler `D3D10EffectCompiler`, `D3D10Runtime::CompileEffect`,
  `D3D10Effect`, `D3D10Texture`, `D3D10Constant`);
* `src/source/runtime.hpp` (the interface of the uniform store).

Conventions of the embedding.

* `UINT` values are natural numbers reduced modulo `2 ^ 32` where the source computes with them;
  `std::size_t` is taken at 64 bits.
* A C++ operation without defined behaviour (null dereference, access outside an allocation,
  `std::vector` index out of range) makes the embedded function return `none`.
* The Direct3D device is external. It is represented by the history of the calls made on it and by
  a function that answers each request from the history (`Device.respond`), so a theorem that
  quantifies over the device covers every pattern of failing and succeeding calls.
* The visitors of statements and expressions only write text into `mCurrentSource`; they enter the
  embedding as the parameter `Lowering`.
-/

set_option autoImplicit false
set_option linter.unusedVariables false

namespace ReShade

/-! ## Machine arithmetic -/

/-- Modulus of the 32-bit type `UINT`. -/
def UINT_MOD : Nat := 2 ^ 32

/-- Modulus of `std::size_t`. -/
def SIZE_MOD : Nat := 2 ^ 64

/-- Difference of two `std::size_t` values (unsigned wrap-around). -/
def SizeSub (a b : Nat) : Nat := (a % SIZE_MOD + SIZE_MOD - b % SIZE_MOD) % SIZE_MOD

/-- The function `RoundToMultipleOf16` computes `(size + 15) & ~15` on `UINT`. -/
def RoundToMultipleOf16 (size : Nat) : Nat := ((size + 15) % UINT_MOD) &&& 0xFFFFFFF0

abbrev HRESULT := Int

def FAILED (hr : HRESULT) : Bool := decide (hr < 0)

def SUCCEEDED (hr : HRESULT) : Bool := decide (0 ≤ hr)

/-- Element `i` of a two-element C array. -/
def At2 {α : Type} (a : α × α) (i : Nat) : α := if i = 0 then a.1 else a.2

/-- Assignment to element `i` of a two-element C array. -/
def Set2 {α : Type} (a : α × α) (i : Nat) (x : α) : α × α := if i = 0 then (x, a.2) else (a.1, x)

/-! ## Memory blocks

A block obtained from `realloc` is the list of its bytes; the null pointer is `none`. -/

abbrev Storage := Option (List Nat)

/-- Bytes `[off, off + n)` of a block, as `memcmp` and `CopyMemory` read them. -/
def ReadBytes (mem : List Nat) (off n : Nat) : Option (List Nat) :=
  if off + n ≤ mem.length then some ((mem.drop off).take n) else none

/-- Block after `CopyMemory(block + off, src, src.length)`. -/
def WriteBytes (mem : List Nat) (off : Nat) (src : List Nat) : Option (List Nat) :=
  if off + src.length ≤ mem.length then some (mem.take off ++ src ++ mem.drop (off + src.length))
  else none

/-- The call `realloc(block, size)`: the old content is kept up to `size`, the bytes beyond it
are indeterminate and taken from `garbage`; a request of size zero gives no usable block. -/
def Realloc (garbage : Nat → Nat) (block : Storage) (size : Nat) : Storage :=
  if size = 0 then none
  else
    let old := (block.getD []).take size
    some (old ++ (List.range (size - old.length)).map (fun i => garbage (old.length + i)))

/-! ## Direct3D 10 descriptors (SDK headers) -/

abbrev DXGI_FORMAT := Nat

def DXGI_FORMAT_UNKNOWN : DXGI_FORMAT := 0
def DXGI_FORMAT_R32G32B32A32_FLOAT : DXGI_FORMAT := 2
def DXGI_FORMAT_R16G16B16A16_FLOAT : DXGI_FORMAT := 10
def DXGI_FORMAT_R16G16B16A16_UNORM : DXGI_FORMAT := 11
def DXGI_FORMAT_R8G8B8A8_TYPELESS : DXGI_FORMAT := 27
def DXGI_FORMAT_R8G8B8A8_UNORM : DXGI_FORMAT := 28
def DXGI_FORMAT_R8G8B8A8_UNORM_SRGB : DXGI_FORMAT := 29
def DXGI_FORMAT_R32_FLOAT : DXGI_FORMAT := 41
def DXGI_FORMAT_R8G8_UNORM : DXGI_FORMAT := 49
def DXGI_FORMAT_R8_UNORM : DXGI_FORMAT := 61
def DXGI_FORMAT_BC1_TYPELESS : DXGI_FORMAT := 70
def DXGI_FORMAT_BC1_UNORM : DXGI_FORMAT := 71
def DXGI_FORMAT_BC1_UNORM_SRGB : DXGI_FORMAT := 72
def DXGI_FORMAT_BC2_TYPELESS : DXGI_FORMAT := 73
def DXGI_FORMAT_BC2_UNORM : DXGI_FORMAT := 74
def DXGI_FORMAT_BC2_UNORM_SRGB : DXGI_FORMAT := 75
def DXGI_FORMAT_BC3_TYPELESS : DXGI_FORMAT := 76
def DXGI_FORMAT_BC3_UNORM : DXGI_FORMAT := 77
def DXGI_FORMAT_BC3_UNORM_SRGB : DXGI_FORMAT := 78
def DXGI_FORMAT_BC4_UNORM : DXGI_FORMAT := 80
def DXGI_FORMAT_BC5_UNORM : DXGI_FORMAT := 83

def D3D10_USAGE_DEFAULT : Nat := 0
def D3D10_USAGE_DYNAMIC : Nat := 2
def D3D10_BIND_CONSTANT_BUFFER : Nat := 0x4
def D3D10_BIND_SHADER_RESOURCE : Nat := 0x8
def D3D10_BIND_RENDER_TARGET : Nat := 0x20
def D3D10_CPU_ACCESS_WRITE : Nat := 0x10000
def D3D10_RESOURCE_MISC_GENERATE_MIPS : Nat := 0x1
def D3D10_SRV_DIMENSION_TEXTURE2D : Nat := 4
def D3D10_RTV_DIMENSION_TEXTURE2D : Nat := 4
def D3D10_RTV_DIMENSION_TEXTURE2DMS : Nat := 6
def D3D10_COMPARISON_NEVER : Nat := 1
def D3D10_FILTER_MIN_MAG_MIP_POINT : Nat := 0x0
def D3D10_FILTER_MIN_MAG_POINT_MIP_LINEAR : Nat := 0x1
def D3D10_FILTER_MIN_POINT_MAG_LINEAR_MIP_POINT : Nat := 0x4
def D3D10_FILTER_MIN_POINT_MAG_MIP_LINEAR : Nat := 0x5
def D3D10_FILTER_MIN_LINEAR_MAG_MIP_POINT : Nat := 0x10
def D3D10_FILTER_MIN_LINEAR_MAG_POINT_MIP_LINEAR : Nat := 0x11
def D3D10_FILTER_MIN_MAG_LINEAR_MIP_POINT : Nat := 0x14
def D3D10_FILTER_MIN_MAG_MIP_LINEAR : Nat := 0x15
def D3D10_FILTER_ANISOTROPIC : Nat := 0x55
def D3D10_STENCIL_OP_ZERO : Nat := 2
def D3D10_BLEND_ZERO : Nat := 1
def D3D10_BLEND_ONE : Nat := 2
def D3D10_DEPTH_WRITE_MASK_ZERO : Nat := 0
def D3D10_DEPTH_WRITE_MASK_ALL : Nat := 1
def D3D10_FILL_SOLID : Nat := 3
def D3D10_CULL_NONE : Nat := 1
def D3DCOMPILE_SKIP_OPTIMIZATION : Nat := 0x4
def D3DCOMPILE_ENABLE_STRICTNESS : Nat := 0x800

/-- A `float` value, kept as its 32-bit pattern; the compiler only copies such values. -/
abbrev FLOAT := Nat

structure D3D10_TEXTURE2D_DESC where
  Width : Nat
  Height : Nat
  MipLevels : Nat
  ArraySize : Nat
  Format : DXGI_FORMAT
  SampleDescCount : Nat
  SampleDescQuality : Nat
  Usage : Nat
  BindFlags : Nat
  CPUAccessFlags : Nat
  MiscFlags : Nat
deriving DecidableEq, Repr

structure D3D10_SHADER_RESOURCE_VIEW_DESC where
  Format : DXGI_FORMAT
  ViewDimension : Nat
  MostDetailedMip : Nat
  MipLevels : Nat
deriving DecidableEq, Repr

structure D3D10_RENDER_TARGET_VIEW_DESC where
  Format : DXGI_FORMAT
  ViewDimension : Nat
deriving DecidableEq, Repr

structure D3D10_DEPTH_STENCIL_VIEW_DESC where
  Format : DXGI_FORMAT
  ViewDimension : Nat
deriving DecidableEq, Repr

/-- The descriptor of a sampler state. `BorderColor` holds the four words of the array
`FLOAT BorderColor[4]`. -/
structure D3D10_SAMPLER_DESC where
  Filter : Nat
  AddressU : Nat
  AddressV : Nat
  AddressW : Nat
  MipLODBias : FLOAT
  MaxAnisotropy : Nat
  ComparisonFunc : Nat
  BorderColor : List FLOAT
  MinLOD : FLOAT
  MaxLOD : FLOAT
deriving DecidableEq, Repr

structure D3D10_BUFFER_DESC where
  ByteWidth : Nat
  Usage : Nat
  BindFlags : Nat
  CPUAccessFlags : Nat
  MiscFlags : Nat
deriving DecidableEq, Repr

structure D3D10_DEPTH_STENCILOP_DESC where
  StencilFailOp : Nat
  StencilDepthFailOp : Nat
  StencilPassOp : Nat
  StencilFunc : Nat
deriving DecidableEq, Repr

structure D3D10_DEPTH_STENCIL_DESC where
  DepthEnable : Bool
  DepthWriteMask : Nat
  DepthFunc : Nat
  StencilEnable : Bool
  StencilReadMask : Nat
  StencilWriteMask : Nat
  FrontFace : D3D10_DEPTH_STENCILOP_DESC
  BackFace : D3D10_DEPTH_STENCILOP_DESC
deriving DecidableEq, Repr

/-- The members `SrcBlendAlpha` and `DestBlendAlpha` are never assigned by `Visit(Pass)`. -/
structure D3D10_BLEND_DESC where
  AlphaToCoverageEnable : Bool
  BlendEnable : List Bool
  SrcBlend : Nat
  DestBlend : Nat
  BlendOp : Nat
  BlendOpAlpha : Nat
  RenderTargetWriteMask : List Nat
deriving DecidableEq, Repr

structure D3D10_RASTERIZER_DESC where
  FillMode : Nat
  CullMode : Nat
  DepthClipEnable : Bool
deriving DecidableEq, Repr

structure D3D10_VIEWPORT where
  TopLeftX : Int
  TopLeftY : Int
  Width : Nat
  Height : Nat
  MinDepth : FLOAT
  MaxDepth : FLOAT
deriving DecidableEq, Repr

/-! ## Device objects and the device

Every interface pointer of the source is an `Option`: `none` is `nullptr`. An object carries
the identity by which the source compares pointers, and what its `GetDesc` and `GetResource`
return. -/

/-- Identity of a device object: created by the host before compilation, or created by the
numbered call of the device history. -/
inductive ObjectId : Type
  | Host (n : Nat) : ObjectId
  | Created (call : Nat) : ObjectId
deriving DecidableEq, Repr

structure ID3D10Texture2D where
  id : ObjectId
  desc : D3D10_TEXTURE2D_DESC
deriving DecidableEq, Repr

structure ID3D10ShaderResourceView where
  id : ObjectId
  resource : ID3D10Texture2D
  desc : D3D10_SHADER_RESOURCE_VIEW_DESC
deriving DecidableEq, Repr

structure ID3D10RenderTargetView where
  id : ObjectId
  resource : ID3D10Texture2D
  desc : D3D10_RENDER_TARGET_VIEW_DESC
deriving DecidableEq, Repr

structure ID3D10SamplerState where
  id : ObjectId
  desc : D3D10_SAMPLER_DESC
deriving DecidableEq, Repr

/-- A constant buffer with its descriptor and its content. -/
structure ID3D10Buffer where
  id : ObjectId
  desc : D3D10_BUFFER_DESC
  content : List Nat
deriving DecidableEq, Repr

structure ID3D10DepthStencilState where
  id : ObjectId
  desc : D3D10_DEPTH_STENCIL_DESC
deriving DecidableEq, Repr

structure ID3D10BlendState where
  id : ObjectId
  desc : D3D10_BLEND_DESC
deriving DecidableEq, Repr

structure ID3D10RasterizerState where
  id : ObjectId
  desc : D3D10_RASTERIZER_DESC
deriving DecidableEq, Repr

/-- A vertex or pixel shader object with the byte code it was created from. -/
structure ID3D10Shader where
  id : ObjectId
  bytecode : List Nat
deriving DecidableEq, Repr

/-- The calls the compiler and the runtime make on the device, on its objects and on the
shader compiler. -/
inductive DeviceRequest : Type
  | CreateTexture2D (desc : D3D10_TEXTURE2D_DESC) : DeviceRequest
  | CreateShaderResourceView (resource : ID3D10Texture2D)
      (desc : D3D10_SHADER_RESOURCE_VIEW_DESC) : DeviceRequest
  | CreateRenderTargetView (resource : ID3D10Texture2D)
      (desc : D3D10_RENDER_TARGET_VIEW_DESC) : DeviceRequest
  | CreateSamplerState (desc : D3D10_SAMPLER_DESC) : DeviceRequest
  | CreateBuffer (desc : D3D10_BUFFER_DESC) (initial : List Nat) : DeviceRequest
  | CreateDepthStencilState (desc : D3D10_DEPTH_STENCIL_DESC) : DeviceRequest
  | CreateBlendState (desc : D3D10_BLEND_DESC) : DeviceRequest
  | CreateRasterizerState (desc : D3D10_RASTERIZER_DESC) : DeviceRequest
  | D3DCompile (source : String) (entrypoint : String) (target : String) (flags : Nat) :
      DeviceRequest
  | CreateVertexShader (bytecode : List Nat) : DeviceRequest
  | CreatePixelShader (bytecode : List Nat) : DeviceRequest
  | CreateDepthStencilView (resource : ID3D10Texture2D)
      (desc : D3D10_DEPTH_STENCIL_VIEW_DESC) : DeviceRequest
  | Map (buffer : ID3D10Buffer) : DeviceRequest
deriving DecidableEq, Repr

/-- Answer to a request: the `HRESULT`, and for `D3DCompile` the two blobs (`none` is a null
blob pointer). -/
structure DeviceResponse where
  hr : HRESULT
  compiled : Option (List Nat)
  errors : Option String
deriving DecidableEq, Repr

structure DeviceCall where
  request : DeviceRequest
  response : DeviceResponse
deriving DecidableEq, Repr

/-- The device: it answers a request knowing the calls made before. -/
structure Device where
  respond : List DeviceCall → DeviceRequest → DeviceResponse

/-- One call on the device: the answer, and the history extended by the call. -/
def Device.call (dev : Device) (history : List DeviceCall) (req : DeviceRequest) :
    DeviceResponse × List DeviceCall :=
  (dev.respond history req, history ++ [{ request := req, response := dev.respond history req }])

/-- A call of the history is a failed creation of a texture or of a shader-resource view. -/
def DeviceCall.isFailedTextureOrSRV (c : DeviceCall) : Bool :=
  match c.request with
  | DeviceRequest.CreateTexture2D _ => FAILED c.response.hr
  | DeviceRequest.CreateShaderResourceView _ _ => FAILED c.response.hr
  | _ => false

def DeviceCall.isFailedRTV (c : DeviceCall) : Bool :=
  match c.request with
  | DeviceRequest.CreateRenderTargetView _ _ => FAILED c.response.hr
  | _ => false

def DeviceCall.isFailedDepthStencilState (c : DeviceCall) : Bool :=
  match c.request with
  | DeviceRequest.CreateDepthStencilState _ => FAILED c.response.hr
  | _ => false

def DeviceCall.isFailedBlendState (c : DeviceCall) : Bool :=
  match c.request with
  | DeviceRequest.CreateBlendState _ => FAILED c.response.hr
  | _ => false

def DeviceCall.isFailedCompile (c : DeviceCall) : Bool :=
  match c.request with
  | DeviceRequest.D3DCompile _ _ _ _ => FAILED c.response.hr
  | _ => false

/-! ## The effect-language tree (`FX::Tree`)

The node declarations live in `EffectTree.hpp`, which is not among the sources; the types below
hold the members that `RuntimeD3D10.cpp` reads. -/

namespace FX

structure Location where
  Source : String
  Line : Nat
  Column : Nat
deriving DecidableEq, Repr

/-- Modelled from the spec: the base classes of a type (section 4.1), with the texture and string
classes that the source tests through `IsTexture` and `Class::String`. -/
inductive Class : Type
  | Void | Bool | Int | Uint | Float | Sampler2D | Texture2D | Struct | String
deriving DecidableEq, Repr

/-- Modelled from the spec: the qualifier flags of a type (section 4.1). -/
inductive Qualifier : Type
  | Extern | Static | Const | Volatile | Precise | Linear | NoPerspective | Centroid
  | NoInterpolation | In | Out | InOut | Uniform
deriving DecidableEq, Repr

/-- Node identifiers of expressions (`FX::Node::Id`), as listed by `Visit(Expression)`. -/
inductive Id : Type
  | LValue | Literal | Sequence | Unary | Binary | Intrinsic | Conditional | Swizzle
  | FieldSelection | Assignment | Call | Constructor | InitializerList
deriving DecidableEq, Repr

/-- An expression node as far as the declaration visitors read it: its node identifier and, for a
literal, the object representation of `Literal::Value`. The member `node` names the subtree for
`Lowering`. -/
structure Expression where
  NodeId : Id
  Value : List Nat
  node : Nat
deriving DecidableEq, Repr

/-- A statement subtree (a function body); `node` names it for `Lowering`. -/
structure Statement where
  node : Nat
deriving DecidableEq, Repr

/-- The value node of an annotation: a literal with its base class, raw value and string. -/
structure AnnotationValue where
  BaseClass : Class
  Value : List Nat
  StringValue : String
deriving DecidableEq, Repr

structure AnnotationNode where
  Name : String
  Value : AnnotationValue
deriving DecidableEq, Repr

/-- The record `Variable::Properties`. The member `Texture` points to the variable node of the
sampled texture, of which the source reads the name only. -/
structure Properties where
  Texture : Option String
  Width : Nat
  Height : Nat
  MipLevels : Nat
  Format : Nat
  SRGBTexture : Bool
  AddressU : Nat
  AddressV : Nat
  AddressW : Nat
  MinFilter : Nat
  MagFilter : Nat
  MipFilter : Nat
  MaxAnisotropy : Nat
  MinLOD : FLOAT
  MaxLOD : FLOAT
  MipLODBias : FLOAT
deriving DecidableEq, Repr

mutual
/-- The node `FX::Nodes::Type` (the name `Type` is reserved); `Definition` points to the structure of a struct type. -/
inductive TypeNode : Type
  | mk (BaseClass : Class) (Qualifiers : List Qualifier) (Rows : Nat) (Cols : Nat)
      (ArrayLength : Int) (Definition : Option Struct) : TypeNode
/-- The node `FX::Nodes::Struct`. -/
inductive Struct : Type
  | mk (Name : String) (Fields : List Variable) (Location : Location) : Struct
/-- The node `FX::Nodes::Variable`. -/
inductive Variable : Type
  | mk (Ty : TypeNode) (Name : String) (Semantic : String) (Annotations : List AnnotationNode)
      (Initializer : Option Expression) (Properties : Properties) (Location : Location) :
      Variable
end

def TypeNode.BaseClass : TypeNode → Class
  | TypeNode.mk b _ _ _ _ _ => b

def TypeNode.Qualifiers : TypeNode → List Qualifier
  | TypeNode.mk _ q _ _ _ _ => q

def TypeNode.Rows : TypeNode → Nat
  | TypeNode.mk _ _ r _ _ _ => r

def TypeNode.Cols : TypeNode → Nat
  | TypeNode.mk _ _ _ c _ _ => c

def TypeNode.ArrayLength : TypeNode → Int
  | TypeNode.mk _ _ _ _ a _ => a

def TypeNode.Definition : TypeNode → Option Struct
  | TypeNode.mk _ _ _ _ _ d => d

def Struct.Name : Struct → String
  | Struct.mk n _ _ => n

def Struct.Fields : Struct → List Variable
  | Struct.mk _ f _ => f

def Variable.Ty : Variable → TypeNode
  | Variable.mk t _ _ _ _ _ _ => t

def Variable.Name : Variable → String
  | Variable.mk _ n _ _ _ _ _ => n

def Variable.Semantic : Variable → String
  | Variable.mk _ _ s _ _ _ _ => s

def Variable.Annotations : Variable → List AnnotationNode
  | Variable.mk _ _ _ a _ _ _ => a

def Variable.Initializer : Variable → Option Expression
  | Variable.mk _ _ _ _ i _ _ => i

def Variable.Properties : Variable → Properties
  | Variable.mk _ _ _ _ _ p _ => p

def Variable.Location : Variable → Location
  | Variable.mk _ _ _ _ _ _ l => l

/-- Modelled from the spec: `Type::HasQualifier` of `EffectTree.hpp`; `inout` is the
combination of `in` and `out`. -/
def TypeNode.HasQualifier (t : TypeNode) (q : Qualifier) : Bool :=
  match q with
  | Qualifier.InOut =>
      t.Qualifiers.contains Qualifier.InOut ||
        (t.Qualifiers.contains Qualifier.In && t.Qualifiers.contains Qualifier.Out)
  | Qualifier.In => t.Qualifiers.contains Qualifier.In || t.Qualifiers.contains Qualifier.InOut
  | Qualifier.Out => t.Qualifiers.contains Qualifier.Out || t.Qualifiers.contains Qualifier.InOut
  | q => t.Qualifiers.contains q

/-- Modelled from the spec: `Type::IsStruct` of `EffectTree.hpp`. -/
def TypeNode.IsStruct (t : TypeNode) : Bool := decide (t.BaseClass = Class.Struct)

/-- Modelled from the spec: `Type::IsTexture` of `EffectTree.hpp`. -/
def TypeNode.IsTexture (t : TypeNode) : Bool := decide (t.BaseClass = Class.Texture2D)

/-- Modelled from the spec: `Type::IsSampler` of `EffectTree.hpp`. -/
def TypeNode.IsSampler (t : TypeNode) : Bool := decide (t.BaseClass = Class.Sampler2D)

/-- Modelled from the spec: `Type::IsArray` of `EffectTree.hpp`. -/
def TypeNode.IsArray (t : TypeNode) : Bool := decide (t.ArrayLength ≠ 0)

/-- Modelled from the spec: `Type::IsMatrix` of `EffectTree.hpp`. -/
def TypeNode.IsMatrix (t : TypeNode) : Bool := decide (1 ≤ t.Rows ∧ 1 < t.Cols)

/-- Modelled from the spec: `Type::IsVector` of `EffectTree.hpp`. -/
def TypeNode.IsVector (t : TypeNode) : Bool := decide (1 < t.Rows) && !t.IsMatrix

/-- The node `FX::Nodes::Function`. -/
structure Function where
  ReturnType : TypeNode
  Name : String
  Parameters : List Variable
  ReturnSemantic : String
  Definition : Statement
  Location : Location

/-- The record `Pass::States`. `RenderTargets` is the array of eight pointers to texture
variables, of which the source reads the name only. -/
structure States where
  RenderTargets : List (Option String)
  VertexShader : Option Function
  PixelShader : Option Function
  SRGBWriteEnable : Bool
  BlendEnable : Bool
  DepthEnable : Bool
  StencilEnable : Bool
  RenderTargetWriteMask : Nat
  DepthWriteMask : Bool
  StencilReadMask : Nat
  StencilWriteMask : Nat
  BlendOp : Nat
  BlendOpAlpha : Nat
  SrcBlend : Nat
  DestBlend : Nat
  DepthFunc : Nat
  StencilFunc : Nat
  StencilRef : Nat
  StencilOpPass : Nat
  StencilOpFail : Nat
  StencilOpDepthFail : Nat

/-- The node `FX::Nodes::Pass`. -/
structure Pass where
  States : States
  Location : Location

/-- The node `FX::Nodes::Technique`. -/
structure Technique where
  Name : String
  Passes : List Pass
  Annotations : List AnnotationNode

/-- The tree `FX::Tree`: the four lists that `Traverse` walks. -/
structure Tree where
  Types : List Struct
  Uniforms : List Variable
  Functions : List Function
  Techniques : List Technique

/-- The enumerators of `EffectTree.hpp` that the compiler compares literals with. The header is
not among the sources, so their values are parameters. -/
structure Literals where
  R8 : Nat
  R32F : Nat
  RG8 : Nat
  RGBA8 : Nat
  RGBA16 : Nat
  RGBA16F : Nat
  RGBA32F : Nat
  DXT1 : Nat
  DXT3 : Nat
  DXT5 : Nat
  LATC1 : Nat
  LATC2 : Nat
  POINT : Nat
  LINEAR : Nat
  ANISOTROPIC : Nat
  ZERO : Nat
  ONE : Nat

/-- Modelled from the spec: the formats of a texture (section 3), `FX::Effect::Texture::Format`. -/
inductive TextureFormat : Type
  | Unknown | R8 | R32F | RG8 | RGBA8 | RGBA16 | RGBA16F | RGBA32F | DXT1 | DXT3 | DXT5
  | LATC1 | LATC2
deriving DecidableEq, Repr

/-- Modelled from the spec: the value of an annotation of an effect object
(`FX::Effect::Annotation`), by the member of the literal it was assigned from. -/
inductive AnnotationData : Type
  | Empty : AnnotationData
  | Int (raw : List Nat) : AnnotationData
  | Uint (raw : List Nat) : AnnotationData
  | Float (raw : List Nat) : AnnotationData
  | String (s : String) : AnnotationData
deriving DecidableEq, Repr

/-- Modelled from the spec: `FX::Effect::Constant::Type`, the base class of a uniform. -/
inductive ConstantType : Type
  | Bool | Int | Uint | Float | Struct
deriving DecidableEq, Repr

/-- The record `FX::Effect::Texture::Description`. -/
structure TextureDescription where
  Width : Nat
  Height : Nat
  Levels : Nat
  Format : TextureFormat
deriving DecidableEq, Repr

/-- The record `FX::Effect::Constant::Description`; `Ty` is `none` when the source leaves the
member `Type` unassigned. -/
structure ConstantDescription where
  Ty : Option ConstantType
  Rows : Nat
  Columns : Nat
  Elements : Int
  Fields : Nat
  Size : Nat
deriving DecidableEq, Repr

end FX

/-! ## The compiled effect (`D3D10Effect` and the objects it owns) -/

inductive Source : Type
  | Memory | BackBuffer | DepthStencil
deriving DecidableEq, Repr

/-- The class `D3D10Texture`. -/
structure D3D10Texture where
  mDesc : FX.TextureDescription
  mAnnotations : List (String × FX.AnnotationData)
  mSource : Source
  mTexture : Option ID3D10Texture2D
  mShaderResourceView : Option ID3D10ShaderResourceView × Option ID3D10ShaderResourceView
  mRenderTargetView : Option ID3D10RenderTargetView × Option ID3D10RenderTargetView
  mRegister : Nat
deriving DecidableEq, Repr

/-- The class `D3D10Constant`: a uniform with its place in the mirror storage. -/
structure D3D10Constant where
  mDesc : FX.ConstantDescription
  mAnnotations : List (String × FX.AnnotationData)
  mBufferIndex : Nat
  mBufferOffset : Nat
deriving DecidableEq, Repr

/-- The record `D3D10Technique::Pass`. -/
structure Pass where
  VS : Option ID3D10Shader
  PS : Option ID3D10Shader
  BS : Option ID3D10BlendState
  DSS : Option ID3D10DepthStencilState
  StencilRef : Nat
  Viewport : D3D10_VIEWPORT
  RT : List (Option ID3D10RenderTargetView)
  RTSRV : List (Option ID3D10ShaderResourceView)
  SRV : List (Option ID3D10ShaderResourceView)
deriving DecidableEq, Repr

/-- The class `D3D10Technique`; `mDescPasses` is `Description::Passes`. -/
structure D3D10Technique where
  mDescPasses : Nat
  mAnnotations : List (String × FX.AnnotationData)
  mPasses : List Pass
deriving DecidableEq, Repr

/-- The class `D3D10Effect`. The maps of textures, constants and techniques are kept as lists
of named entries in the order of registration. -/
structure D3D10Effect where
  mRasterizerState : Option ID3D10RasterizerState
  mSamplerStates : List ID3D10SamplerState
  mShaderResources : List (Option ID3D10ShaderResourceView)
  mConstantBuffers : List (Option ID3D10Buffer)
  mConstantStorages : List Storage
  mConstantsDirty : Bool
  mTextures : List (String × D3D10Texture)
  mConstants : List (String × D3D10Constant)
  mTechniques : List (String × D3D10Technique)
deriving DecidableEq, Repr

/-- The constructor `D3D10Effect::D3D10Effect`: no rasterizer state, the dirty flag set. -/
def D3D10Effect.new : D3D10Effect :=
  { mRasterizerState := none, mSamplerStates := [], mShaderResources := [],
    mConstantBuffers := [], mConstantStorages := [], mConstantsDirty := true,
    mTextures := [], mConstants := [], mTechniques := [] }

/-- Modelled from the spec: `Effect::AddTexture`, declared outside the sources; the effect owns
its textures by name. -/
def D3D10Effect.AddTexture (e : D3D10Effect) (name : String) (t : D3D10Texture) : D3D10Effect :=
  { e with mTextures := e.mTextures ++ [(name, t)] }

/-- Modelled from the spec: `Effect::GetTexture`, declared outside the sources; the texture
registered under the name, or a null pointer. -/
def D3D10Effect.GetTexture (e : D3D10Effect) (name : String) : Option D3D10Texture :=
  (e.mTextures.find? (fun p => p.1 == name)).map (fun p => p.2)

/-- Assignment through the pointer that `GetTexture` returned for `name`. -/
def SetTexture (ts : List (String × D3D10Texture)) (name : String) (t : D3D10Texture) :
    List (String × D3D10Texture) :=
  match ts with
  | [] => []
  | p :: rest => if p.1 == name then (p.1, t) :: rest else p :: SetTexture rest name t

/-- Modelled from the spec: `Effect::AddConstant`, declared outside the sources; the effect owns
its uniforms by name. -/
def D3D10Effect.AddConstant (e : D3D10Effect) (name : String) (u : D3D10Constant) : D3D10Effect :=
  { e with mConstants := e.mConstants ++ [(name, u)] }

/-- Modelled from the spec: `Effect::AddTechnique`, declared outside the sources; the effect owns
its techniques by name. -/
def D3D10Effect.AddTechnique (e : D3D10Effect) (name : String) (t : D3D10Technique) :
    D3D10Effect :=
  { e with mTechniques := e.mTechniques ++ [(name, t)] }

/-! ## The uniform store (`D3D10Constant::GetValue`, `D3D10Constant::SetValue`) -/

/-- The method `D3D10Constant::GetValue(data, size)`: the result is the caller's buffer `data`
after the copy. -/
def GetValue (e : D3D10Effect) (u : D3D10Constant) (data : List Nat) (size : Nat) :
    Option (List Nat) :=
  let size := min size u.mDesc.Size
  match e.mConstantStorages[u.mBufferIndex]? with
  | some (some storage) =>
      match ReadBytes storage u.mBufferOffset size with
      | some bytes => WriteBytes data 0 bytes
      | none => none
  | _ => none

/-- The method `D3D10Constant::SetValue(data, size)`: the result is the effect after the call. -/
def SetValue (e : D3D10Effect) (u : D3D10Constant) (data : List Nat) (size : Nat) :
    Option D3D10Effect :=
  let size := min size u.mDesc.Size
  match e.mConstantStorages[u.mBufferIndex]? with
  | some (some storage) =>
      match ReadBytes storage u.mBufferOffset size, ReadBytes data 0 size with
      | some current, some bytes =>
          if current = bytes then some e
          else
            match WriteBytes storage u.mBufferOffset bytes with
            | some storage1 =>
                some { e with
                  mConstantStorages := e.mConstantStorages.set u.mBufferIndex (some storage1),
                  mConstantsDirty := true }
            | none => none
      | _, _ => none
  | _ => none

/-! ## The runtime as the compiler reads it (`D3D10Runtime`) -/

structure D3D10Runtime where
  mDevice : Device
  mBackBufferTextureSRV : Option ID3D10ShaderResourceView × Option ID3D10ShaderResourceView
  mBackBufferTargets : Option ID3D10RenderTargetView × Option ID3D10RenderTargetView
  mDepthStencilTextureSRV : Option ID3D10ShaderResourceView
  mSwapChainDescWidth : Nat
  mSwapChainDescHeight : Nat
  mSkipShaderOptimization : Bool

/-- The visitors of statements and expressions (lines 308 to 1324 of `RuntimeD3D10.cpp`) as
transformations of `mCurrentSource`. -/
structure Lowering where
  VisitStatement : FX.Statement → String → String
  VisitExpression : FX.Expression → String → String

/-! ## The effect compiler (`D3D10EffectCompiler`) -/

/-- The members of the visitor. `mAST` and `mSkipShaderOptimization` do not change and are
passed along; `mDeviceCalls` is the history of the device `mEffect->mRuntime->mDevice`. -/
structure D3D10EffectCompiler where
  mEffect : D3D10Effect
  mCurrentSource : String
  mErrors : String
  mFatal : Bool
  mSamplerDescs : List (Nat × Nat)
  mCurrentGlobalConstants : String
  mCurrentGlobalSize : Nat
  mCurrentGlobalStorageSize : Nat
  mCurrentInForInitialization : Nat
  mCurrentBlockName : String
  mCurrentInParameterBlock : Bool
  mCurrentInFunctionBlock : Bool
  mDeviceCalls : List DeviceCall

/-- The constructor of the visitor (line 20); `mEffect` is assigned by `Traverse`. -/
def D3D10EffectCompiler.new (history : List DeviceCall) : D3D10EffectCompiler :=
  { mEffect := D3D10Effect.new, mCurrentSource := "", mErrors := "", mFatal := false,
    mSamplerDescs := [], mCurrentGlobalConstants := "", mCurrentGlobalSize := 0,
    mCurrentGlobalStorageSize := 0, mCurrentInForInitialization := 0, mCurrentBlockName := "",
    mCurrentInParameterBlock := false, mCurrentInFunctionBlock := false,
    mDeviceCalls := history }

/-- What surrounds one compilation: the runtime with its device, the enumerators of the tree,
the lowering of statements and expressions, the content of fresh memory, the object
representation of a sampler descriptor, and the content of the storage that `VisitSampler`
reads without having written it: `D3D10_SAMPLER_DESC desc;` (line 1551) is declared without an
initialiser and `desc.BorderColor` is never assigned, so at each call the four words are what
the work done before has left there, given here as a function of the state of the visitor at
the call. -/
structure Env where
  mRuntime : D3D10Runtime
  literals : FX.Literals
  lowering : Lowering
  garbage : Nat → Nat
  samplerDescBytes : D3D10_SAMPLER_DESC → List Nat
  indeterminate : D3D10EffectCompiler → List FLOAT

def LiteralToStencilOp (k : FX.Literals) (value : Nat) : Nat :=
  if value = k.ZERO then D3D10_STENCIL_OP_ZERO else value

def LiteralToBlend (k : FX.Literals) (value : Nat) : Nat :=
  if value = k.ZERO then D3D10_BLEND_ZERO
  else if value = k.ONE then D3D10_BLEND_ONE
  else value

/-- The function `LiteralToFormat`: the format for the device and the format written to `name`. -/
def LiteralToFormat (k : FX.Literals) (value : Nat) : DXGI_FORMAT × FX.TextureFormat :=
  if value = k.R8 then (DXGI_FORMAT_R8_UNORM, FX.TextureFormat.R8)
  else if value = k.R32F then (DXGI_FORMAT_R32_FLOAT, FX.TextureFormat.R32F)
  else if value = k.RG8 then (DXGI_FORMAT_R8G8_UNORM, FX.TextureFormat.RG8)
  else if value = k.RGBA8 then (DXGI_FORMAT_R8G8B8A8_TYPELESS, FX.TextureFormat.RGBA8)
  else if value = k.RGBA16 then (DXGI_FORMAT_R16G16B16A16_UNORM, FX.TextureFormat.RGBA16)
  else if value = k.RGBA16F then (DXGI_FORMAT_R16G16B16A16_FLOAT, FX.TextureFormat.RGBA16F)
  else if value = k.RGBA32F then (DXGI_FORMAT_R32G32B32A32_FLOAT, FX.TextureFormat.RGBA32F)
  else if value = k.DXT1 then (DXGI_FORMAT_BC1_TYPELESS, FX.TextureFormat.DXT1)
  else if value = k.DXT3 then (DXGI_FORMAT_BC2_TYPELESS, FX.TextureFormat.DXT3)
  else if value = k.DXT5 then (DXGI_FORMAT_BC3_TYPELESS, FX.TextureFormat.DXT5)
  else if value = k.LATC1 then (DXGI_FORMAT_BC4_UNORM, FX.TextureFormat.LATC1)
  else if value = k.LATC2 then (DXGI_FORMAT_BC5_UNORM, FX.TextureFormat.LATC2)
  else (DXGI_FORMAT_UNKNOWN, FX.TextureFormat.Unknown)

def MakeTypelessFormat (format : DXGI_FORMAT) : DXGI_FORMAT :=
  if format = DXGI_FORMAT_R8G8B8A8_UNORM ∨ format = DXGI_FORMAT_R8G8B8A8_UNORM_SRGB then
    DXGI_FORMAT_R8G8B8A8_TYPELESS
  else if format = DXGI_FORMAT_BC1_UNORM ∨ format = DXGI_FORMAT_BC1_UNORM_SRGB then
    DXGI_FORMAT_BC1_TYPELESS
  else if format = DXGI_FORMAT_BC2_UNORM ∨ format = DXGI_FORMAT_BC2_UNORM_SRGB then
    DXGI_FORMAT_BC2_TYPELESS
  else if format = DXGI_FORMAT_BC3_UNORM ∨ format = DXGI_FORMAT_BC3_UNORM_SRGB then
    DXGI_FORMAT_BC3_TYPELESS
  else format

def MakeSRGBFormat (format : DXGI_FORMAT) : DXGI_FORMAT :=
  if format = DXGI_FORMAT_R8G8B8A8_TYPELESS ∨ format = DXGI_FORMAT_R8G8B8A8_UNORM then
    DXGI_FORMAT_R8G8B8A8_UNORM_SRGB
  else if format = DXGI_FORMAT_BC1_TYPELESS ∨ format = DXGI_FORMAT_BC1_UNORM then
    DXGI_FORMAT_BC1_UNORM_SRGB
  else if format = DXGI_FORMAT_BC2_TYPELESS ∨ format = DXGI_FORMAT_BC2_UNORM then
    DXGI_FORMAT_BC2_UNORM_SRGB
  else if format = DXGI_FORMAT_BC3_TYPELESS ∨ format = DXGI_FORMAT_BC3_UNORM then
    DXGI_FORMAT_BC3_UNORM_SRGB
  else format

def MakeNonSRBFormat (format : DXGI_FORMAT) : DXGI_FORMAT :=
  if format = DXGI_FORMAT_R8G8B8A8_TYPELESS ∨ format = DXGI_FORMAT_R8G8B8A8_UNORM_SRGB then
    DXGI_FORMAT_R8G8B8A8_UNORM
  else if format = DXGI_FORMAT_BC1_TYPELESS ∨ format = DXGI_FORMAT_BC1_UNORM_SRGB then
    DXGI_FORMAT_BC1_UNORM
  else if format = DXGI_FORMAT_BC2_TYPELESS ∨ format = DXGI_FORMAT_BC2_UNORM_SRGB then
    DXGI_FORMAT_BC2_UNORM
  else if format = DXGI_FORMAT_BC3_TYPELESS ∨ format = DXGI_FORMAT_BC3_UNORM_SRGB then
    DXGI_FORMAT_BC3_UNORM
  else format

/-- The hash `D3D10_SAMPLER_DESC_HASH` over the bytes of the descriptor, in `std::size_t`. -/
def D3D10_SAMPLER_DESC_HASH (bytes : List Nat) : Nat :=
  bytes.foldl (fun h b => ((h * 16777619) % SIZE_MOD) ^^^ b) 2166136261

/-- The function `boost::starts_with` on strings: the elements of `test` are compared, one by
one, with the first elements of `input`. -/
def StartsWith (input test : String) : Bool := test.data.isPrefixOf input.data

/-- The function `ConvertSemantic` (lines 209 to 229). -/
def ConvertSemantic (semantic : String) : String :=
  if semantic = "VERTEXID" then "SV_VERTEXID"
  else if semantic = "POSITION" ∨ semantic = "VPOS" then "SV_POSITION"
  else if StartsWith semantic "COLOR" then "SV_TARGET" ++ semantic.drop 5
  else if semantic = "DEPTH" then "SV_DEPTH"
  else semantic

def PrintLocation (location : FX.Location) : String :=
  location.Source ++ "(" ++ toString location.Line ++ ", " ++ toString location.Column ++ "): "

/-- The function `PrintType`; a struct type without definition is a null dereference. -/
def PrintType (type : FX.TypeNode) : Option String :=
  let suffix : String :=
    if type.IsMatrix then toString type.Rows ++ "x" ++ toString type.Cols
    else if type.IsVector then toString type.Rows
    else ""
  match type.BaseClass with
  | FX.Class.Void => some ("void" ++ suffix)
  | FX.Class.Bool => some ("bool" ++ suffix)
  | FX.Class.Int => some ("int" ++ suffix)
  | FX.Class.Uint => some ("uint" ++ suffix)
  | FX.Class.Float => some ("float" ++ suffix)
  | FX.Class.Sampler2D => some ("__sampler2D" ++ suffix)
  | FX.Class.Struct =>
      match type.Definition with
      | some d => some (d.Name ++ suffix)
      | none => none
  | _ => some suffix

def PrintTypeWithQualifiers (type : FX.TypeNode) : Option String :=
  let q0 : String := if type.HasQualifier FX.Qualifier.Extern then "extern " else ""
  let q1 := if type.HasQualifier FX.Qualifier.Static then q0 ++ "static " else q0
  let q2 := if type.HasQualifier FX.Qualifier.Const then q1 ++ "const " else q1
  let q3 := if type.HasQualifier FX.Qualifier.Volatile then q2 ++ "volatile " else q2
  let q4 := if type.HasQualifier FX.Qualifier.Precise then q3 ++ "precise " else q3
  let q5 := if type.HasQualifier FX.Qualifier.Linear then q4 ++ "linear " else q4
  let q6 := if type.HasQualifier FX.Qualifier.NoPerspective then q5 ++ "noperspective " else q5
  let q7 := if type.HasQualifier FX.Qualifier.Centroid then q6 ++ "centroid " else q6
  let q8 := if type.HasQualifier FX.Qualifier.NoInterpolation then q7 ++ "nointerpolation " else q7
  let q9 :=
    if type.HasQualifier FX.Qualifier.InOut then q8 ++ "inout "
    else if type.HasQualifier FX.Qualifier.In then q8 ++ "in "
    else if type.HasQualifier FX.Qualifier.Out then q8 ++ "out "
    else if type.HasQualifier FX.Qualifier.Uniform then q8 ++ "uniform "
    else q8
  match PrintType type with
  | some t => some (q9 ++ t)
  | none => none

/-- The text `[n]` or `[]` that the declaration visitors emit for an array type. -/
def PrintArray (type : FX.TypeNode) : String :=
  if type.IsArray then "[" ++ (if 1 ≤ type.ArrayLength then toString type.ArrayLength else "") ++ "]"
  else ""

/-- The template `Visit(annotations, object)`: the annotations added to the object. -/
def VisitAnnotations (annotations : List FX.AnnotationNode) :
    List (String × FX.AnnotationData) :=
  annotations.map (fun a =>
    (a.Name,
      match a.Value.BaseClass with
      | FX.Class.Bool => FX.AnnotationData.Int a.Value.Value
      | FX.Class.Int => FX.AnnotationData.Int a.Value.Value
      | FX.Class.Uint => FX.AnnotationData.Uint a.Value.Value
      | FX.Class.Float => FX.AnnotationData.Float a.Value.Value
      | FX.Class.String => FX.AnnotationData.String a.Value.StringValue
      | _ => FX.AnnotationData.Empty))

/-- Assignment `pass.SRV[index] = view` into the vector of a pass. -/
def SetSRV (srv : List (Option ID3D10ShaderResourceView)) (index : Nat)
    (view : Option ID3D10ShaderResourceView) : Option (List (Option ID3D10ShaderResourceView)) :=
  if index < srv.length then some (srv.set index view) else none

/-- The last loop of `ChangeSource` (lines 2999 to 3006) on the passes of one technique. -/
def ChangeSourcePasses (register : Nat)
    (views : Option ID3D10ShaderResourceView × Option ID3D10ShaderResourceView) :
    List Pass → Option (List Pass)
  | [] => some []
  | pass :: rest =>
      match SetSRV pass.SRV register views.1 with
      | none => none
      | some srv1 =>
          match SetSRV srv1 (register + 1) views.2 with
          | none => none
          | some srv2 =>
              match ChangeSourcePasses register views rest with
              | none => none
              | some rest1 => some ({ pass with SRV := srv2 } :: rest1)

def ChangeSourceTechniques (register : Nat)
    (views : Option ID3D10ShaderResourceView × Option ID3D10ShaderResourceView) :
    List (String × D3D10Technique) → Option (List (String × D3D10Technique))
  | [] => some []
  | t :: rest =>
      match ChangeSourcePasses register views t.2.mPasses with
      | none => none
      | some passes =>
          match ChangeSourceTechniques register views rest with
          | none => none
          | some rest1 => some ((t.1, { t.2 with mPasses := passes }) :: rest1)

/-- The method `D3D10Texture::ChangeSource`: the texture and the techniques of its effect after
the call. -/
def ChangeSource (t : D3D10Texture) (srv srvSRGB : Option ID3D10ShaderResourceView)
    (techniques : List (String × D3D10Technique)) :
    Option (D3D10Texture × List (String × D3D10Technique)) :=
  let srvSRGB := if srvSRGB.isNone then srv else srvSRGB
  if srv.map (fun v => v.id) = t.mShaderResourceView.1.map (fun v => v.id) ∧
      srvSRGB.map (fun v => v.id) = t.mShaderResourceView.2.map (fun v => v.id) then
    some (t, techniques)
  else
    let t1 : D3D10Texture :=
      match srv with
      | some view =>
          { t with
            mRenderTargetView := (none, none),
            mShaderResourceView := (some view, srvSRGB),
            mTexture := some view.resource,
            mDesc := { Width := view.resource.desc.Width, Height := view.resource.desc.Height,
                       Format := FX.TextureFormat.Unknown,
                       Levels := view.resource.desc.MipLevels } }
      | none =>
          { t with
            mRenderTargetView := (none, none),
            mShaderResourceView := (none, none),
            mTexture := none,
            mDesc := { Width := 0, Height := 0, Levels := 0,
                       Format := FX.TextureFormat.Unknown } }
    match ChangeSourceTechniques t1.mRegister t1.mShaderResourceView techniques with
    | none => none
    | some techniques1 => some (t1, techniques1)

/-- Lines 1531 to 1540 of `VisitTexture`: the declaration is emitted, the two views are pushed
and the texture is registered. -/
def VisitTextureRegister (c : D3D10EffectCompiler) (node : FX.Variable) (obj : D3D10Texture) :
    D3D10EffectCompiler :=
  { c with
    mCurrentSource :=
      c.mCurrentSource ++ "Texture2D " ++ node.Name ++ " : register(t" ++
        toString c.mEffect.mShaderResources.length ++ "), __" ++ node.Name ++
        "SRGB : register(t" ++ toString (c.mEffect.mShaderResources.length + 1) ++ ");\n",
    mEffect :=
      ({ c.mEffect with
          mShaderResources :=
            c.mEffect.mShaderResources ++
              [obj.mShaderResourceView.1, obj.mShaderResourceView.2] }).AddTexture node.Name obj }

/-- Lines 1485 to 1528 of `VisitTexture`: creation of a memory texture and of its views. -/
def VisitTextureCreate (env : Env) (c : D3D10EffectCompiler) (node : FX.Variable)
    (obj : D3D10Texture) (texdesc0 : D3D10_TEXTURE2D_DESC) : D3D10EffectCompiler :=
  let c1 : D3D10EffectCompiler :=
    if texdesc0.MipLevels = 0 then
      { c with
        mErrors := c.mErrors ++ PrintLocation node.Location ++
          "warning: a texture cannot have 0 miplevels, changed it to 1.\n" }
    else c
  let texdesc : D3D10_TEXTURE2D_DESC :=
    if texdesc0.MipLevels = 0 then { texdesc0 with MipLevels := 1 } else texdesc0
  let r1 := env.mRuntime.mDevice.call c1.mDeviceCalls (DeviceRequest.CreateTexture2D texdesc)
  if FAILED r1.1.hr then
    { c1 with
      mDeviceCalls := r1.2,
      mErrors := c1.mErrors ++ PrintLocation node.Location ++
        "error: 'ID3D10Device::CreateTexture2D' failed with " ++ toString r1.1.hr ++ "!\n",
      mFatal := true }
  else
    let texture : ID3D10Texture2D := { id := ObjectId.Created c1.mDeviceCalls.length, desc := texdesc }
    let srvdesc : D3D10_SHADER_RESOURCE_VIEW_DESC :=
      { Format := MakeNonSRBFormat texdesc.Format, ViewDimension := D3D10_SRV_DIMENSION_TEXTURE2D,
        MostDetailedMip := 0, MipLevels := texdesc.MipLevels }
    let r2 := env.mRuntime.mDevice.call r1.2 (DeviceRequest.CreateShaderResourceView texture srvdesc)
    if FAILED r2.1.hr then
      { c1 with
        mDeviceCalls := r2.2,
        mErrors := c1.mErrors ++ PrintLocation node.Location ++
          "error: 'ID3D10Device::CreateShaderResourceView' failed with " ++ toString r2.1.hr ++
          "!\n",
        mFatal := true }
    else
      let view0 : ID3D10ShaderResourceView :=
        { id := ObjectId.Created r1.2.length, resource := texture, desc := srvdesc }
      let srvdesc1 : D3D10_SHADER_RESOURCE_VIEW_DESC :=
        { srvdesc with Format := MakeSRGBFormat texdesc.Format }
      if srvdesc1.Format ≠ texdesc.Format then
        let r3 :=
          env.mRuntime.mDevice.call r2.2 (DeviceRequest.CreateShaderResourceView texture srvdesc1)
        if FAILED r3.1.hr then
          { c1 with
            mDeviceCalls := r3.2,
            mErrors := c1.mErrors ++ PrintLocation node.Location ++
              "error: 'ID3D10Device::CreateShaderResourceView' failed with " ++
              toString r3.1.hr ++ "!\n",
            mFatal := true }
        else
          let view1 : ID3D10ShaderResourceView :=
            { id := ObjectId.Created r2.2.length, resource := texture, desc := srvdesc1 }
          VisitTextureRegister { c1 with mDeviceCalls := r3.2 } node
            { obj with mTexture := some texture, mShaderResourceView := (some view0, some view1) }
      else
        VisitTextureRegister { c1 with mDeviceCalls := r2.2 } node
          { obj with mTexture := some texture, mShaderResourceView := (some view0, none) }

/-- The method `VisitTexture`. -/
def VisitTexture (env : Env) (c : D3D10EffectCompiler) (node : FX.Variable) :
    Option D3D10EffectCompiler :=
  let format := LiteralToFormat env.literals node.Properties.Format
  let texdesc : D3D10_TEXTURE2D_DESC :=
    { Width := node.Properties.Width, Height := node.Properties.Height,
      MipLevels := node.Properties.MipLevels, ArraySize := 1, Format := format.1,
      SampleDescCount := 1, SampleDescQuality := 0, Usage := D3D10_USAGE_DEFAULT,
      BindFlags := D3D10_BIND_SHADER_RESOURCE ||| D3D10_BIND_RENDER_TARGET,
      CPUAccessFlags := 0, MiscFlags := D3D10_RESOURCE_MISC_GENERATE_MIPS }
  let obj : D3D10Texture :=
    { mDesc := { Width := node.Properties.Width, Height := node.Properties.Height,
                 Levels := node.Properties.MipLevels, Format := format.2 },
      mAnnotations := VisitAnnotations node.Annotations,
      mSource := Source.Memory, mTexture := none, mShaderResourceView := (none, none),
      mRenderTargetView := (none, none), mRegister := c.mEffect.mShaderResources.length }
  let changed : Option (D3D10Texture × List (String × D3D10Technique)) :=
    if node.Semantic = "COLOR" ∨ node.Semantic = "SV_TARGET" then
      ChangeSource { obj with mSource := Source.BackBuffer } env.mRuntime.mBackBufferTextureSRV.1
        env.mRuntime.mBackBufferTextureSRV.2 c.mEffect.mTechniques
    else if node.Semantic = "DEPTH" ∨ node.Semantic = "SV_DEPTH" then
      ChangeSource { obj with mSource := Source.DepthStencil } env.mRuntime.mDepthStencilTextureSRV
        none c.mEffect.mTechniques
    else some (obj, c.mEffect.mTechniques)
  match changed with
  | none => none
  | some (obj1, techniques) =>
      let c1 : D3D10EffectCompiler := { c with mEffect := { c.mEffect with mTechniques := techniques } }
      if obj1.mSource ≠ Source.Memory then
        if texdesc.Width ≠ 1 ∨ texdesc.Height ≠ 1 ∨ texdesc.MipLevels ≠ 1 ∨
            texdesc.Format ≠ DXGI_FORMAT_R8G8B8A8_TYPELESS then
          some (VisitTextureRegister
            { c1 with
              mErrors := c1.mErrors ++ PrintLocation node.Location ++
                "warning: texture property on backbuffer textures are ignored.\n" } node obj1)
        else some (VisitTextureRegister c1 node obj1)
      else some (VisitTextureCreate env c1 node obj1 texdesc)

/-- Lines 1565 to 1600 of `VisitSampler`: the filter of the descriptor. -/
def SamplerFilter (k : FX.Literals) (minfilter magfilter mipfilter : Nat) : Nat :=
  if minfilter = k.ANISOTROPIC ∨ magfilter = k.ANISOTROPIC ∨ mipfilter = k.ANISOTROPIC then
    D3D10_FILTER_ANISOTROPIC
  else if minfilter = k.POINT ∧ magfilter = k.POINT ∧ mipfilter = k.LINEAR then
    D3D10_FILTER_MIN_MAG_POINT_MIP_LINEAR
  else if minfilter = k.POINT ∧ magfilter = k.LINEAR ∧ mipfilter = k.POINT then
    D3D10_FILTER_MIN_POINT_MAG_LINEAR_MIP_POINT
  else if minfilter = k.POINT ∧ magfilter = k.LINEAR ∧ mipfilter = k.LINEAR then
    D3D10_FILTER_MIN_POINT_MAG_MIP_LINEAR
  else if minfilter = k.LINEAR ∧ magfilter = k.POINT ∧ mipfilter = k.POINT then
    D3D10_FILTER_MIN_LINEAR_MAG_MIP_POINT
  else if minfilter = k.LINEAR ∧ magfilter = k.POINT ∧ mipfilter = k.LINEAR then
    D3D10_FILTER_MIN_LINEAR_MAG_POINT_MIP_LINEAR
  else if minfilter = k.LINEAR ∧ magfilter = k.LINEAR ∧ mipfilter = k.POINT then
    D3D10_FILTER_MIN_MAG_LINEAR_MIP_POINT
  else if minfilter = k.LINEAR ∧ magfilter = k.LINEAR ∧ mipfilter = k.LINEAR then
    D3D10_FILTER_MIN_MAG_MIP_LINEAR
  else D3D10_FILTER_MIN_MAG_MIP_POINT

/-- Lines 1633 to 1648 of `VisitSampler`: the `__sampler2D` initializer. -/
def VisitSamplerEmit (c : D3D10EffectCompiler) (node : FX.Variable) (textureName : String)
    (texture : D3D10Texture) (index : Nat) : D3D10EffectCompiler :=
  { c with
    mCurrentSource :=
      c.mCurrentSource ++ "static const __sampler2D " ++ node.Name ++ " = \x7b " ++
        (if node.Properties.SRGBTexture ∧ texture.mShaderResourceView.2.isSome then
          "__" ++ textureName ++ "SRGB"
         else textureName) ++
        ", __SamplerState" ++ toString index ++ " \x7d;\n" }

/-- The method `VisitSampler`. -/
def VisitSampler (env : Env) (c : D3D10EffectCompiler) (node : FX.Variable) :
    Option D3D10EffectCompiler :=
  match node.Properties.Texture with
  | none =>
      some { c with
        mErrors := c.mErrors ++ PrintLocation node.Location ++ "error: sampler '" ++ node.Name ++
          "' is missing required 'Texture' required.\n",
        mFatal := true }
  | some textureName =>
      let desc : D3D10_SAMPLER_DESC :=
        { Filter := SamplerFilter env.literals node.Properties.MinFilter
            node.Properties.MagFilter node.Properties.MipFilter,
          AddressU := node.Properties.AddressU, AddressV := node.Properties.AddressV,
          AddressW := node.Properties.AddressW, MipLODBias := node.Properties.MipLODBias,
          MaxAnisotropy := node.Properties.MaxAnisotropy,
          ComparisonFunc := D3D10_COMPARISON_NEVER, BorderColor := env.indeterminate c,
          MinLOD := node.Properties.MinLOD, MaxLOD := node.Properties.MaxLOD }
      match c.mEffect.GetTexture textureName with
      | none =>
          some { c with
            mErrors := c.mErrors ++ PrintLocation node.Location ++ "error: texture '" ++
              textureName ++ "' for sampler '" ++ node.Name ++
              "' is missing due to previous error.\n",
            mFatal := true }
      | some texture =>
          let descHash := D3D10_SAMPLER_DESC_HASH (env.samplerDescBytes desc)
          match c.mSamplerDescs.find? (fun p => p.1 == descHash) with
          | some it => some (VisitSamplerEmit c node textureName texture it.2)
          | none =>
              let r := env.mRuntime.mDevice.call c.mDeviceCalls (DeviceRequest.CreateSamplerState desc)
              if FAILED r.1.hr then
                some { c with
                  mDeviceCalls := r.2,
                  mErrors := c.mErrors ++ PrintLocation node.Location ++
                    "error: 'ID3D10Device::CreateSamplerState' failed with " ++ toString r.1.hr ++
                    "!\n",
                  mFatal := true }
              else
                let sampler : ID3D10SamplerState :=
                  { id := ObjectId.Created c.mDeviceCalls.length, desc := desc }
                let index := c.mEffect.mSamplerStates.length
                let c1 : D3D10EffectCompiler :=
                  { c with
                    mDeviceCalls := r.2,
                    mEffect := { c.mEffect with mSamplerStates := c.mEffect.mSamplerStates ++ [sampler] },
                    mSamplerDescs := c.mSamplerDescs ++ [(descHash, index)],
                    mCurrentSource :=
                      c.mCurrentSource ++ "SamplerState __SamplerState" ++ toString index ++
                        " : register(s" ++ toString index ++ ");\n" }
                some (VisitSamplerEmit c1 node textureName texture index)

/-- Lines 1665 to 1690 (and 1734 to 1759): the description of the uniform of a variable. The
product of rows and columns is an `unsigned int`; the switch has no default case. -/
def ConstantDescriptionOf (type : FX.TypeNode) : FX.ConstantDescription :=
  let n := (type.Rows * type.Cols) % UINT_MOD
  let sized (t : FX.ConstantType) : FX.ConstantDescription :=
    { Ty := some t, Rows := type.Rows, Columns := type.Cols, Elements := type.ArrayLength,
      Fields := 0, Size := n * 4 }
  match type.BaseClass with
  | FX.Class.Bool => sized FX.ConstantType.Bool
  | FX.Class.Int => sized FX.ConstantType.Int
  | FX.Class.Uint => sized FX.ConstantType.Uint
  | FX.Class.Float => sized FX.ConstantType.Float
  | _ =>
      { Ty := none, Rows := type.Rows, Columns := type.Cols, Elements := type.ArrayLength,
        Fields := 0, Size := n }

/-- Lines 1692 and 1693 (and 1761 and 1762): the used size after a uniform of `size` bytes is
placed behind `used` bytes. -/
def AdvanceSize (used size : Nat) : Nat :=
  let alignment := 16 - used % 16
  (used +
    (if size > alignment ∧ (alignment ≠ 16 ∨ size ≤ 16) then size + alignment else size) %
      UINT_MOD) % UINT_MOD

/-- Lines 1701 to 1704 (and 1768 to 1771): the mirror grows by 128 bytes when the used size has
reached its capacity. The result is the capacity and the block. -/
def GrowStorage (garbage : Nat → Nat) (used capacity : Nat) (storage : Storage) :
    Nat × Storage :=
  if used ≥ capacity then
    ((capacity + 128) % UINT_MOD, Realloc garbage storage ((capacity + 128) % UINT_MOD))
  else (capacity, storage)

/-- Lines 1706 to 1713 (and 1773 to 1780): the bytes a uniform is initialised with, copied from
the value of a literal initializer or zero. -/
def InitialBytes (initializer : Option FX.Expression) (size : Nat) : Option (List Nat) :=
  match initializer with
  | some e =>
      if e.NodeId = FX.Id.Literal then ReadBytes e.Value 0 size
      else some (List.replicate size 0)
  | none => some (List.replicate size 0)

/-- The write `CopyMemory` or `ZeroMemory` of a uniform at `storage + offset`. -/
def InitStorage (storage : Storage) (offset : Nat) (initializer : Option FX.Expression)
    (size : Nat) : Storage :=
  match storage, InitialBytes initializer size with
  | some mem, some bytes => WriteBytes mem offset bytes
  | _, _ => none

/-- The method `VisitUniform`. -/
def VisitUniform (env : Env) (c : D3D10EffectCompiler) (node : FX.Variable) :
    Option D3D10EffectCompiler :=
  match PrintTypeWithQualifiers node.Ty with
  | none => none
  | some typeText =>
      let objdesc := ConstantDescriptionOf node.Ty
      let used := AdvanceSize c.mCurrentGlobalSize objdesc.Size
      let obj : D3D10Constant :=
        { mDesc := objdesc, mAnnotations := VisitAnnotations node.Annotations,
          mBufferIndex := 0, mBufferOffset := SizeSub used objdesc.Size }
      match c.mEffect.mConstantStorages with
      | [] => none
      | storage0 :: storages =>
          let grown := GrowStorage env.garbage used c.mCurrentGlobalStorageSize storage0
          match InitStorage grown.2 obj.mBufferOffset node.Initializer objdesc.Size with
          | none => none
          | some mem =>
              some { c with
                mCurrentGlobalConstants :=
                  c.mCurrentGlobalConstants ++ typeText ++ " " ++ node.Name ++
                    PrintArray node.Ty ++ ";\n",
                mCurrentGlobalSize := used,
                mCurrentGlobalStorageSize := grown.1,
                mEffect :=
                  ({ c.mEffect with mConstantStorages := some mem :: storages }).AddConstant
                    node.Name obj }

/-- The local variables `storage`, `totalsize` and `currentsize` of `VisitUniformBuffer`. -/
structure BlockLocals where
  storage : Storage
  totalsize : Nat
  currentsize : Nat
deriving DecidableEq, Repr

/-- Lines 1719 to 1728 of `VisitUniformBuffer`: the header of the block is emitted and the
name of the block is set. -/
def UniformBufferBegin (c : D3D10EffectCompiler) (name : String) : D3D10EffectCompiler :=
  { c with
    mCurrentSource :=
      c.mCurrentSource ++ "cbuffer " ++ name ++ " : register(b" ++
        toString c.mEffect.mConstantBuffers.length ++ ")" ++ "\n\x7b\n",
    mCurrentBlockName := name }

/-- Lines 1734 to 1782 of `VisitUniformBuffer`: the body of the loop over the fields that
follows `Visit(field)`. -/
def UniformBufferField (env : Env) (name : String) (c : D3D10EffectCompiler)
    (locals : BlockLocals) (field : FX.Variable) : Option (D3D10EffectCompiler × BlockLocals) :=
  let objdesc := ConstantDescriptionOf field.Ty
  let totalsize := AdvanceSize locals.totalsize objdesc.Size
  let obj : D3D10Constant :=
    { mDesc := objdesc, mAnnotations := [],
      mBufferIndex := c.mEffect.mConstantBuffers.length,
      mBufferOffset := SizeSub totalsize objdesc.Size }
  let grown := GrowStorage env.garbage totalsize locals.currentsize locals.storage
  match InitStorage grown.2 obj.mBufferOffset field.Initializer objdesc.Size with
  | none => none
  | some mem =>
      some ({ c with mEffect := c.mEffect.AddConstant (name ++ "." ++ field.Name) obj },
            { storage := some mem, totalsize := totalsize, currentsize := grown.1 })

/-- Lines 1785 to 1822 of `VisitUniformBuffer`: the block is closed and registered as a uniform
of struct type, and its constant buffer is created. -/
def UniformBufferEnd (env : Env) (name : String) (annotations : List FX.AnnotationNode)
    (fields : Nat) (c : D3D10EffectCompiler) (locals : BlockLocals) :
    Option D3D10EffectCompiler :=
  let obj : D3D10Constant :=
    { mDesc := { Ty := some FX.ConstantType.Struct, Rows := 0, Columns := 0, Elements := 0,
                 Fields := fields % UINT_MOD, Size := locals.totalsize },
      mAnnotations := VisitAnnotations annotations,
      mBufferIndex := c.mEffect.mConstantBuffers.length, mBufferOffset := 0 }
  let desc : D3D10_BUFFER_DESC :=
    { ByteWidth := RoundToMultipleOf16 locals.totalsize, BindFlags := D3D10_BIND_CONSTANT_BUFFER,
      Usage := D3D10_USAGE_DYNAMIC, CPUAccessFlags := D3D10_CPU_ACCESS_WRITE, MiscFlags := 0 }
  let initial : Option (List Nat) :=
    match locals.storage with
    | some mem => ReadBytes mem 0 desc.ByteWidth
    | none => some []
  match initial with
  | none => none
  | some bytes =>
      let r := env.mRuntime.mDevice.call c.mDeviceCalls (DeviceRequest.CreateBuffer desc bytes)
      let c1 : D3D10EffectCompiler :=
        { c with
          mCurrentBlockName := "",
          mCurrentSource := c.mCurrentSource ++ "\x7d;\n",
          mDeviceCalls := r.2,
          mEffect := c.mEffect.AddConstant name obj }
      if SUCCEEDED r.1.hr then
        some { c1 with
          mEffect :=
            { c1.mEffect with
              mConstantBuffers :=
                c1.mEffect.mConstantBuffers ++
                  [some { id := ObjectId.Created c.mDeviceCalls.length, desc := desc,
                          content := bytes }],
              mConstantStorages := c1.mEffect.mConstantStorages ++ [locals.storage] } }
      else some c1

/-- Lines 1399 to 1438 of `Visit(Variable)`: the declaration of a variable that is none of a
uniform block, a texture, a sampler or a uniform. -/
def VisitVariableDecl (env : Env) (c : D3D10EffectCompiler) (node : FX.Variable) :
    Option D3D10EffectCompiler :=
  let typed : Option String :=
    if c.mCurrentInForInitialization ≤ 1 then
      match PrintTypeWithQualifiers node.Ty with
      | some t => some (c.mCurrentSource ++ t)
      | none => none
    else some c.mCurrentSource
  match typed with
  | none => none
  | some s1 =>
      let s2 :=
        if node.Name ≠ "" then
          s1 ++ " " ++ (if c.mCurrentBlockName ≠ "" then c.mCurrentBlockName ++ "_" else "") ++
            node.Name
        else s1
      let s3 := s2 ++ PrintArray node.Ty
      let s4 := if node.Semantic ≠ "" then s3 ++ " : " ++ ConvertSemantic node.Semantic else s3
      let s5 :=
        match node.Initializer with
        | some e => env.lowering.VisitExpression e (s4 ++ " = ")
        | none => s4
      let s6 :=
        if !(c.mCurrentInParameterBlock || c.mCurrentInFunctionBlock) then s5 ++ ";\n" else s5
      some { c with mCurrentSource := s6 }

mutual
/-- The method `Visit(const FX::Nodes::Variable *)` with `VisitUniformBuffer` (lines 1373 to
1398 and 1717 to 1823). -/
def VisitVariable (env : Env) (c : D3D10EffectCompiler) : FX.Variable → Option D3D10EffectCompiler
  | FX.Variable.mk (FX.TypeNode.mk b q r k a d) name semantic annotations init props loc =>
      if !(c.mCurrentInParameterBlock || c.mCurrentInFunctionBlock) then
        if (FX.TypeNode.mk b q r k a d).IsStruct &&
            (FX.TypeNode.mk b q r k a d).HasQualifier FX.Qualifier.Uniform then
          match d with
          | some (FX.Struct.mk _ fields _) =>
              match VisitUniformBufferFields env name (UniformBufferBegin c name)
                  { storage := none, totalsize := 0, currentsize := 0 } fields with
              | none => none
              | some (c1, locals) => UniformBufferEnd env name annotations fields.length c1 locals
          | none => none
        else if (FX.TypeNode.mk b q r k a d).IsTexture then
          VisitTexture env c
            (FX.Variable.mk (FX.TypeNode.mk b q r k a d) name semantic annotations init props loc)
        else if (FX.TypeNode.mk b q r k a d).IsSampler then
          VisitSampler env c
            (FX.Variable.mk (FX.TypeNode.mk b q r k a d) name semantic annotations init props loc)
        else if (FX.TypeNode.mk b q r k a d).HasQualifier FX.Qualifier.Uniform then
          VisitUniform env c
            (FX.Variable.mk (FX.TypeNode.mk b q r k a d) name semantic annotations init props loc)
        else
          VisitVariableDecl env c
            (FX.Variable.mk (FX.TypeNode.mk b q r k a d) name semantic annotations init props loc)
      else
        VisitVariableDecl env c
          (FX.Variable.mk (FX.TypeNode.mk b q r k a d) name semantic annotations init props loc)
/-- The loop over the fields of `VisitUniformBuffer` (lines 1730 to 1783). -/
def VisitUniformBufferFields (env : Env) (name : String) (c : D3D10EffectCompiler)
    (locals : BlockLocals) : List FX.Variable → Option (D3D10EffectCompiler × BlockLocals)
  | [] => some (c, locals)
  | field :: rest =>
      match VisitVariable env c field with
      | none => none
      | some c1 =>
          match UniformBufferField env name c1 locals field with
          | none => none
          | some (c2, locals2) => VisitUniformBufferFields env name c2 locals2 rest
end

/-- A loop `for (auto node : nodes) Visit(node)` over variables. -/
def VisitVariables (env : Env) (c : D3D10EffectCompiler) :
    List FX.Variable → Option D3D10EffectCompiler
  | [] => some c
  | node :: rest =>
      match VisitVariable env c node with
      | none => none
      | some c1 => VisitVariables env c1 rest

/-- The method `Visit(const FX::Nodes::Struct *)`. -/
def VisitStruct (env : Env) (c : D3D10EffectCompiler) (node : FX.Struct) :
    Option D3D10EffectCompiler :=
  let c1 : D3D10EffectCompiler :=
    { c with mCurrentSource := c.mCurrentSource ++ "struct " ++ node.Name ++ "\n\x7b\n" }
  let body : Option D3D10EffectCompiler :=
    if !node.Fields.isEmpty then VisitVariables env c1 node.Fields
    else some { c1 with mCurrentSource := c1.mCurrentSource ++ "float _dummy;\n" }
  match body with
  | none => none
  | some c2 => some { c2 with mCurrentSource := c2.mCurrentSource ++ "\x7d;\n" }

/-- The loop over the parameters of `Visit(const FX::Nodes::Function *)`. -/
def VisitParameters (env : Env) (c : D3D10EffectCompiler) :
    List FX.Variable → Option D3D10EffectCompiler
  | [] => some c
  | parameter :: rest =>
      match VisitVariable env c parameter with
      | none => none
      | some c1 => VisitParameters env { c1 with mCurrentSource := c1.mCurrentSource ++ ", " } rest

/-- The method `Visit(const FX::Nodes::Function *)`. -/
def VisitFunction (env : Env) (c : D3D10EffectCompiler) (node : FX.Function) :
    Option D3D10EffectCompiler :=
  match PrintType node.ReturnType with
  | none => none
  | some returnType =>
      let c1 : D3D10EffectCompiler :=
        { c with
          mCurrentSource := c.mCurrentSource ++ returnType ++ " " ++ node.Name ++ "(",
          mCurrentInParameterBlock := true }
      match VisitParameters env c1 node.Parameters with
      | none => none
      | some c2 =>
          let s1 :=
            if !node.Parameters.isEmpty then c2.mCurrentSource.dropRight 2 else c2.mCurrentSource
          let s2 := s1 ++ ")"
          let s3 :=
            if node.ReturnSemantic ≠ "" then s2 ++ " : " ++ ConvertSemantic node.ReturnSemantic
            else s2
          some { c2 with
            mCurrentInParameterBlock := false,
            mCurrentInFunctionBlock := false,
            mCurrentSource := env.lowering.VisitStatement node.Definition (s3 ++ "\n") }

/-- The fixed text that `VisitShader` puts in front of every shader (lines 2037 to 2046). -/
def ShaderPreamble : String :=
  "struct __sampler2D \x7b Texture2D t; SamplerState s; \x7d;\n" ++
  "inline float4 __tex2D(__sampler2D s, float2 c) \x7b return s.t.Sample(s.s, c); \x7d\n" ++
  "inline float4 __tex2Doffset(__sampler2D s, float2 c, int2 offset) \x7b return s.t.Sample(s.s, c, offset); \x7d\n" ++
  "inline float4 __tex2Dlod(__sampler2D s, float4 c) \x7b return s.t.SampleLevel(s.s, c.xy, c.w); \x7d\n" ++
  "inline float4 __tex2Dlodoffset(__sampler2D s, float4 c, int2 offset) \x7b return s.t.SampleLevel(s.s, c.xy, c.w, offset); \x7d\n" ++
  "inline float4 __tex2Dgather(__sampler2D s, float2 c) \x7b return s.t.Gather(s.s, c); \x7d\n" ++
  "inline float4 __tex2Dgatheroffset(__sampler2D s, float2 c, int2 offset) \x7b return s.t.Gather(s.s, c, offset); \x7d\n" ++
  "inline float4 __tex2Dfetch(__sampler2D s, int4 c) \x7b return s.t.Load(c.xyw); \x7d\n" ++
  "inline int2 __tex2Dsize(__sampler2D s, int lod) \x7b uint w, h, l; s.t.GetDimensions(lod, w, h, l); return int2(w, h); \x7d\n"

/-- The source text that `VisitShader` hands to `D3DCompile` (lines 2037 to 2053). -/
def ShaderSource (c : D3D10EffectCompiler) : String :=
  ShaderPreamble ++
    (if c.mCurrentGlobalConstants ≠ "" then
      "cbuffer __GLOBAL__ : register(b0)\n\x7b\n" ++ c.mCurrentGlobalConstants ++ "\x7d;\n"
     else "") ++
    c.mCurrentSource

/-- The method `VisitShader`: the visitor and the pass after the call. -/
def VisitShader (env : Env) (c : D3D10EffectCompiler) (node : FX.Function) (shadertype : String)
    (pass : Pass) : Option (D3D10EffectCompiler × Pass) :=
  let flags :=
    if env.mRuntime.mSkipShaderOptimization then
      D3DCOMPILE_ENABLE_STRICTNESS ||| D3DCOMPILE_SKIP_OPTIMIZATION
    else D3DCOMPILE_ENABLE_STRICTNESS
  let r := env.mRuntime.mDevice.call c.mDeviceCalls
    (DeviceRequest.D3DCompile (ShaderSource c) node.Name (shadertype ++ "_4_0") flags)
  let c1 : D3D10EffectCompiler :=
    { c with
      mDeviceCalls := r.2,
      mErrors := match r.1.errors with
        | some text => c.mErrors ++ text
        | none => c.mErrors }
  if FAILED r.1.hr then some ({ c1 with mFatal := true }, pass)
  else
    match r.1.compiled with
    | none => none
    | some bytecode =>
        if shadertype = "vs" then
          let r2 := env.mRuntime.mDevice.call c1.mDeviceCalls (DeviceRequest.CreateVertexShader bytecode)
          if FAILED r2.1.hr then
            some ({ c1 with
                    mDeviceCalls := r2.2,
                    mErrors := c1.mErrors ++ PrintLocation node.Location ++
                      "error: 'CreateShader' failed!\n",
                    mFatal := true }, pass)
          else
            some ({ c1 with mDeviceCalls := r2.2 },
                  { pass with
                    VS := some { id := ObjectId.Created c1.mDeviceCalls.length, bytecode := bytecode } })
        else if shadertype = "ps" then
          let r2 := env.mRuntime.mDevice.call c1.mDeviceCalls (DeviceRequest.CreatePixelShader bytecode)
          if FAILED r2.1.hr then
            some ({ c1 with
                    mDeviceCalls := r2.2,
                    mErrors := c1.mErrors ++ PrintLocation node.Location ++
                      "error: 'CreateShader' failed!\n",
                    mFatal := true }, pass)
          else
            some ({ c1 with mDeviceCalls := r2.2 },
                  { pass with
                    PS := some { id := ObjectId.Created c1.mDeviceCalls.length, bytecode := bytecode } })
        else some (c1, pass)

/-- How the loop over the render targets of `Visit(Pass)` ends: it runs to its end with the
pass built so far, or the method returns from inside the loop. -/
inductive TargetsResult : Type
  | Done (pass : Pass) : TargetsResult
  | Return : TargetsResult

/-- One iteration of the loop over the render targets (lines 1909 to 1953) for a target that
is declared: the visitor after it, and the pass or the early return. -/
def VisitPassTarget (env : Env) (node : FX.Pass) (c : D3D10EffectCompiler) (pass : Pass)
    (i : Nat) (name : String) : Option (D3D10EffectCompiler × TargetsResult) :=
  let targetIndex := if node.States.SRGBWriteEnable then 1 else 0
  match c.mEffect.GetTexture name with
  | none => some ({ c with mFatal := true }, TargetsResult.Return)
  | some texture =>
      match texture.mTexture with
      | none => none
      | some resource =>
          let desc := resource.desc
          if pass.Viewport.Width ≠ 0 ∧ pass.Viewport.Height ≠ 0 ∧
              (desc.Width ≠ pass.Viewport.Width ∨ desc.Height ≠ pass.Viewport.Height) then
            some ({ c with
                    mErrors := c.mErrors ++ PrintLocation node.Location ++
                      "error: cannot use multiple rendertargets with different sized textures.\n",
                    mFatal := true }, TargetsResult.Return)
          else
            let viewport : D3D10_VIEWPORT :=
              { pass.Viewport with Width := desc.Width, Height := desc.Height }
            let rtvdesc : D3D10_RENDER_TARGET_VIEW_DESC :=
              { Format :=
                  if node.States.SRGBWriteEnable then MakeSRGBFormat desc.Format
                  else MakeNonSRBFormat desc.Format,
                ViewDimension :=
                  if desc.SampleDescCount > 1 then D3D10_RTV_DIMENSION_TEXTURE2DMS
                  else D3D10_RTV_DIMENSION_TEXTURE2D }
            let created : D3D10EffectCompiler × D3D10Texture :=
              if (At2 texture.mRenderTargetView targetIndex).isNone then
                let r := env.mRuntime.mDevice.call c.mDeviceCalls
                  (DeviceRequest.CreateRenderTargetView resource rtvdesc)
                if FAILED r.1.hr then
                  ({ c with
                     mDeviceCalls := r.2,
                     mErrors := c.mErrors ++ PrintLocation node.Location ++
                       "warning: 'CreateRenderTargetView' failed!\n" }, texture)
                else
                  ({ c with mDeviceCalls := r.2 },
                   { texture with
                     mRenderTargetView :=
                       Set2 texture.mRenderTargetView targetIndex
                         (some { id := ObjectId.Created c.mDeviceCalls.length,
                                 resource := resource, desc := rtvdesc }) })
              else (c, texture)
            some ({ created.1 with
                    mEffect :=
                      { created.1.mEffect with
                        mTextures := SetTexture created.1.mEffect.mTextures name created.2 } },
                  TargetsResult.Done
                    { pass with
                      Viewport := viewport,
                      RT := pass.RT.set i (At2 created.2.mRenderTargetView targetIndex),
                      RTSRV := pass.RTSRV.set i (At2 created.2.mShaderResourceView targetIndex) })

/-- The loop `for (unsigned int i = 0; i < 8; ++i)` of `Visit(Pass)` over the indices that
remain. -/
def VisitPassTargets (env : Env) (node : FX.Pass) (c : D3D10EffectCompiler) (pass : Pass) :
    List Nat → Option (D3D10EffectCompiler × TargetsResult)
  | [] => some (c, TargetsResult.Done pass)
  | i :: rest =>
      match node.States.RenderTargets.getD i none with
      | none => VisitPassTargets env node c pass rest
      | some name =>
          match VisitPassTarget env node c pass i name with
          | none => none
          | some (c1, TargetsResult.Return) => some (c1, TargetsResult.Return)
          | some (c1, TargetsResult.Done pass1) => VisitPassTargets env node c1 pass1 rest

/-- Lines 2015 to 2030 of `Visit(Pass)`: a view is reset when its resource is the resource of
a bound render target. -/
def AliasesTarget (rt : List (Option ID3D10RenderTargetView))
    (srv : ID3D10ShaderResourceView) : Bool :=
  rt.any (fun rtv =>
    match rtv with
    | some v => decide (srv.resource.id = v.resource.id)
    | none => false)

/-- Lines 1961 to 1971 of `Visit(Pass)`: the descriptor of the depth-stencil state. -/
def PassDepthStencilDesc (k : FX.Literals) (node : FX.Pass) : D3D10_DEPTH_STENCIL_DESC :=
  let stencilop : D3D10_DEPTH_STENCILOP_DESC :=
    { StencilFunc := node.States.StencilFunc,
      StencilPassOp := LiteralToStencilOp k node.States.StencilOpPass,
      StencilFailOp := LiteralToStencilOp k node.States.StencilOpFail,
      StencilDepthFailOp := LiteralToStencilOp k node.States.StencilOpDepthFail }
  { DepthEnable := node.States.DepthEnable,
    DepthWriteMask :=
      if node.States.DepthWriteMask then D3D10_DEPTH_WRITE_MASK_ALL
      else D3D10_DEPTH_WRITE_MASK_ZERO,
    DepthFunc := node.States.DepthFunc,
    StencilEnable := node.States.StencilEnable,
    StencilReadMask := node.States.StencilReadMask,
    StencilWriteMask := node.States.StencilWriteMask,
    FrontFace := stencilop, BackFace := stencilop }

/-- Lines 1981 to 1994 of `Visit(Pass)`: the descriptor of the blend state. -/
def PassBlendDesc (k : FX.Literals) (node : FX.Pass) : D3D10_BLEND_DESC :=
  { AlphaToCoverageEnable := false,
    RenderTargetWriteMask := List.replicate 8 node.States.RenderTargetWriteMask,
    BlendEnable := List.replicate 8 node.States.BlendEnable,
    BlendOp := node.States.BlendOp,
    BlendOpAlpha := node.States.BlendOpAlpha,
    SrcBlend := LiteralToBlend k node.States.SrcBlend,
    DestBlend := LiteralToBlend k node.States.DestBlend }

/-- Lines 1962 to 2033 of `Visit(Pass)`: the depth-stencil state and the blend state are
created, the views that alias a render target are reset, and the pass is appended. -/
def VisitPassStates (env : Env) (node : FX.Pass) (c : D3D10EffectCompiler) (pass0 : Pass)
    (passes : List Pass) : D3D10EffectCompiler × List Pass :=
  let ddesc := PassDepthStencilDesc env.literals node
  let pass1 : Pass := { pass0 with StencilRef := node.States.StencilRef }
  let r1 := env.mRuntime.mDevice.call c.mDeviceCalls (DeviceRequest.CreateDepthStencilState ddesc)
  let c1 : D3D10EffectCompiler :=
    if FAILED r1.1.hr then
      { c with
        mDeviceCalls := r1.2,
        mErrors := c.mErrors ++ PrintLocation node.Location ++
          "warning: 'ID3D10Device::CreateDepthStencilState' failed!\n" }
    else { c with mDeviceCalls := r1.2 }
  let pass2 : Pass :=
    if FAILED r1.1.hr then pass1
    else { pass1 with DSS := some { id := ObjectId.Created c.mDeviceCalls.length, desc := ddesc } }
  let bdesc := PassBlendDesc env.literals node
  let r2 := env.mRuntime.mDevice.call c1.mDeviceCalls (DeviceRequest.CreateBlendState bdesc)
  let c2 : D3D10EffectCompiler :=
    if FAILED r2.1.hr then
      { c1 with
        mDeviceCalls := r2.2,
        mErrors := c1.mErrors ++ PrintLocation node.Location ++
          "warning: 'ID3D10Device::CreateBlendState' failed!\n" }
    else { c1 with mDeviceCalls := r2.2 }
  let pass3 : Pass :=
    if FAILED r2.1.hr then pass2
    else { pass2 with BS := some { id := ObjectId.Created c1.mDeviceCalls.length, desc := bdesc } }
  let pass4 : Pass :=
    { pass3 with
      SRV := pass3.SRV.map (fun srv =>
        match srv with
        | some v => if AliasesTarget pass3.RT v then none else some v
        | none => none) }
  (c2, passes ++ [pass4])

/-- Lines 1881 to 1892 of `Visit(Pass)`: the pass before anything is bound to it. -/
def InitialPass (c : D3D10EffectCompiler) : Pass :=
  { VS := none, PS := none, BS := none, DSS := none, StencilRef := 0,
    Viewport := { TopLeftX := 0, TopLeftY := 0, Width := 0, Height := 0,
                  MinDepth := 0, MaxDepth := 0x3F800000 },
    RT := List.replicate 8 none, RTSRV := List.replicate 8 none,
    SRV := c.mEffect.mShaderResources }

/-- Lines 1894 to 1901 of `Visit(Pass)`: the vertex and the pixel shader are compiled. -/
def VisitPassShaders (env : Env) (node : FX.Pass) (c : D3D10EffectCompiler) (pass : Pass) :
    Option (D3D10EffectCompiler × Pass) :=
  let vs : Option (D3D10EffectCompiler × Pass) :=
    match node.States.VertexShader with
    | some f => VisitShader env c f "vs" pass
    | none => some (c, pass)
  match vs with
  | none => none
  | some (c1, pass1) =>
      match node.States.PixelShader with
      | some f => VisitShader env c1 f "ps" pass1
      | none => some (c1, pass1)

/-- The method `Visit(const FX::Nodes::Pass *, passes)`: the visitor and the vector of passes
after the call. -/
def VisitPass (env : Env) (c : D3D10EffectCompiler) (node : FX.Pass) (passes : List Pass) :
    Option (D3D10EffectCompiler × List Pass) :=
  match VisitPassShaders env node c (InitialPass c) with
  | none => none
  | some (c1, pass1) =>
      let targetIndex := if node.States.SRGBWriteEnable then 1 else 0
      let pass2 : Pass :=
        { pass1 with
          RT := pass1.RT.set 0 (At2 env.mRuntime.mBackBufferTargets targetIndex),
          RTSRV := pass1.RTSRV.set 0 (At2 env.mRuntime.mBackBufferTextureSRV targetIndex) }
      match VisitPassTargets env node c1 pass2 (List.range 8) with
      | none => none
      | some (c2, TargetsResult.Return) => some (c2, passes)
      | some (c2, TargetsResult.Done pass3) =>
          let pass4 : Pass :=
            if pass3.Viewport.Width = 0 ∧ pass3.Viewport.Height = 0 then
              { pass3 with
                Viewport :=
                  { pass3.Viewport with
                    Width := env.mRuntime.mSwapChainDescWidth,
                    Height := env.mRuntime.mSwapChainDescHeight } }
            else pass3
          some (VisitPassStates env node c2 pass4 passes)

/-- The loop over the passes of `Visit(const FX::Nodes::Technique *)`. -/
def VisitPasses (env : Env) (c : D3D10EffectCompiler) (passes : List Pass) :
    List FX.Pass → Option (D3D10EffectCompiler × List Pass)
  | [] => some (c, passes)
  | node :: rest =>
      match VisitPass env c node passes with
      | none => none
      | some (c1, passes1) => VisitPasses env c1 passes1 rest

/-- The method `Visit(const FX::Nodes::Technique *)`. -/
def VisitTechnique (env : Env) (c : D3D10EffectCompiler) (node : FX.Technique) :
    Option D3D10EffectCompiler :=
  match VisitPasses env c [] node.Passes with
  | none => none
  | some (c1, passes) =>
      some { c1 with
        mEffect :=
          c1.mEffect.AddTechnique node.Name
            { mDescPasses := node.Passes.length % UINT_MOD,
              mAnnotations := VisitAnnotations node.Annotations,
              mPasses := passes } }

def VisitStructs (env : Env) (c : D3D10EffectCompiler) :
    List FX.Struct → Option D3D10EffectCompiler
  | [] => some c
  | node :: rest =>
      match VisitStruct env c node with
      | none => none
      | some c1 => VisitStructs env c1 rest

def VisitFunctions (env : Env) (c : D3D10EffectCompiler) :
    List FX.Function → Option D3D10EffectCompiler
  | [] => some c
  | node :: rest =>
      match VisitFunction env c node with
      | none => none
      | some c1 => VisitFunctions env c1 rest

def VisitTechniques (env : Env) (c : D3D10EffectCompiler) :
    List FX.Technique → Option D3D10EffectCompiler
  | [] => some c
  | node :: rest =>
      match VisitTechnique env c node with
      | none => none
      | some c1 => VisitTechniques env c1 rest

/-- Lines 26 to 33 of `Traverse`: the visitor takes the effect, its texts and its fatal flag
are reset, and the slot of the global constant buffer is pushed. -/
def TraverseBegin (c : D3D10EffectCompiler) (effect : D3D10Effect) : D3D10EffectCompiler :=
  { c with
    mEffect :=
      { effect with
        mConstantBuffers := effect.mConstantBuffers ++ [none],
        mConstantStorages := effect.mConstantStorages ++ [none] },
    mErrors := "", mFatal := false, mCurrentSource := "" }

/-- Lines 35 to 50 of `Traverse`: the four loops over the tree. -/
def TraverseVisit (env : Env) (ast : FX.Tree) (c : D3D10EffectCompiler) :
    Option D3D10EffectCompiler :=
  match VisitStructs env c ast.Types with
  | none => none
  | some c1 =>
      match VisitVariables env c1 ast.Uniforms with
      | none => none
      | some c2 =>
          match VisitFunctions env c2 ast.Functions with
          | none => none
          | some c3 => VisitTechniques env c3 ast.Techniques

/-- The request with which `Traverse` creates the global constant buffer (lines 54 to 58); the
initial data are read from the mirror of slot 0. -/
def GlobalBufferRequest (c : D3D10EffectCompiler) : Option (D3D10_BUFFER_DESC × List Nat) :=
  let desc : D3D10_BUFFER_DESC :=
    { ByteWidth := RoundToMultipleOf16 c.mCurrentGlobalSize,
      BindFlags := D3D10_BIND_CONSTANT_BUFFER, Usage := D3D10_USAGE_DYNAMIC,
      CPUAccessFlags := D3D10_CPU_ACCESS_WRITE, MiscFlags := 0 }
  match c.mEffect.mConstantStorages with
  | some mem :: _ =>
      match ReadBytes mem 0 desc.ByteWidth with
      | some bytes => some (desc, bytes)
      | none => none
  | none :: _ => some (desc, [])
  | [] => none

/-- Lines 52 to 59 of `Traverse`: the global constant buffer is created when global uniforms
were laid out. The result of `CreateBuffer` is not tested by the source. -/
def TraverseEnd (env : Env) (c : D3D10EffectCompiler) : Option D3D10EffectCompiler :=
  if c.mCurrentGlobalSize ≠ 0 then
    match GlobalBufferRequest c, c.mEffect.mConstantBuffers with
    | some (desc, bytes), _ :: buffers =>
        let r := env.mRuntime.mDevice.call c.mDeviceCalls (DeviceRequest.CreateBuffer desc bytes)
        if SUCCEEDED r.1.hr then
          some { c with
            mDeviceCalls := r.2,
            mEffect :=
              { c.mEffect with
                mConstantBuffers :=
                  some { id := ObjectId.Created c.mDeviceCalls.length, desc := desc,
                         content := bytes } :: buffers } }
        else some { c with mDeviceCalls := r.2 }
    | _, _ => none
  else some c

/-- The method `Traverse(effect, errors)`: the returned flag, the string `errors` after the
call, and the visitor (with the effect it filled). -/
def Traverse (env : Env) (ast : FX.Tree) (c : D3D10EffectCompiler) (effect : D3D10Effect)
    (errors : String) : Option (Bool × String × D3D10EffectCompiler) :=
  match TraverseVisit env ast (TraverseBegin c effect) with
  | none => none
  | some c1 =>
      match TraverseEnd env c1 with
      | none => none
      | some c2 => some (!c2.mFatal, errors ++ c2.mErrors, c2)

/-- The method `D3D10Runtime::CompileEffect(ast, errors)`: the effect or a null pointer, the
string `errors` after the call, and the history of the device. -/
def CompileEffect (env : Env) (history : List DeviceCall) (ast : FX.Tree) (errors : String) :
    Option (Option D3D10Effect × String × List DeviceCall) :=
  match Traverse env ast (D3D10EffectCompiler.new history) D3D10Effect.new errors with
  | none => none
  | some (ok, errors1, c) =>
      if !ok then some (none, errors1, c.mDeviceCalls)
      else
        let rsdesc : D3D10_RASTERIZER_DESC :=
          { FillMode := D3D10_FILL_SOLID, CullMode := D3D10_CULL_NONE, DepthClipEnable := true }
        let r := env.mRuntime.mDevice.call c.mDeviceCalls (DeviceRequest.CreateRasterizerState rsdesc)
        if FAILED r.1.hr then some (none, errors1, r.2)
        else
          some (some { c.mEffect with
                  mRasterizerState :=
                    some { id := ObjectId.Created c.mDeviceCalls.length, desc := rsdesc } },
                errors1, r.2)

/-! ## Predicates of the specification -/

/-- The packing rule of constant buffers for one uniform: it does not straddle a 16-byte
boundary unless it is larger than 16 bytes, and a uniform larger than 16 bytes starts on a
16-byte boundary. -/
def Packed (u : D3D10Constant) : Prop :=
  (u.mBufferOffset % 16 + u.mDesc.Size ≤ 16 ∨ u.mDesc.Size > 16) ∧
    (u.mDesc.Size > 16 → u.mBufferOffset % 16 = 0)

/-- The text contains a diagnostic of the compiler of severity `error`. -/
def HasErrorDiagnostic (s : String) : Prop := ∃ a b : String, s = a ++ "error: " ++ b

/-- The history `b` extends the history `a` by calls none of which is a failed creation of a
texture or of a shader-resource view. -/
def QuietCalls (a b : List DeviceCall) : Prop :=
  ∃ added, b = a ++ added ∧ ∀ e ∈ added, e.isFailedTextureOrSRV = false

/-- What every visitor of a declaration guarantees between the visitor state before and after
it. -/
structure Step (c c1 : D3D10EffectCompiler) : Prop where
  fatal : c.mFatal = true → c1.mFatal = true
  constants : ∃ added, c1.mEffect.mConstants = c.mEffect.mConstants ++ added ∧
    ∀ p ∈ added, Packed p.2
  buffers : ∃ added, c1.mEffect.mConstantBuffers = c.mEffect.mConstantBuffers ++ added
  calls : ∃ added, c1.mDeviceCalls = c.mDeviceCalls ++ added ∧
    ((∃ e ∈ added, e.isFailedTextureOrSRV = true) → c1.mFatal = true)
  errors : ∃ t, c1.mErrors = c.mErrors ++ t
  diagnosed : c1.mFatal = true → c.mFatal = true ∨ HasErrorDiagnostic c1.mErrors
  parameterBlock : c1.mCurrentInParameterBlock = c.mCurrentInParameterBlock
  functionBlock : c1.mCurrentInFunctionBlock = c.mCurrentInFunctionBlock

/-- The type of a uniform of the effect language: base class bool, int, uint or float, with
between one and four rows and columns. -/
def IsNumericUniformType (t : FX.TypeNode) : Prop :=
  (t.BaseClass = FX.Class.Bool ∨ t.BaseClass = FX.Class.Int ∨ t.BaseClass = FX.Class.Uint ∨
      t.BaseClass = FX.Class.Float) ∧
    1 ≤ t.Rows ∧ t.Rows ≤ 4 ∧ 1 ≤ t.Cols ∧ t.Cols ≤ 4

/-- A file-scope declaration of a non-struct uniform. -/
def IsGlobalUniform (v : FX.Variable) : Prop :=
  IsNumericUniformType v.Ty ∧ v.Ty.HasQualifier FX.Qualifier.Uniform = true

/-- A file-scope declaration of a uniform block whose fields have numeric types. -/
def IsUniformBlock (v : FX.Variable) : Prop :=
  v.Ty.IsStruct = true ∧ v.Ty.HasQualifier FX.Qualifier.Uniform = true ∧
    ∃ definition, v.Ty.Definition = some definition ∧
      ∀ f ∈ definition.Fields, IsNumericUniformType f.Ty

/-- The mirror of a constant buffer during layout: its capacity is a multiple of 128 below
`2 ^ 32`, the used size does not exceed it, and the block has exactly that capacity. -/
def LayoutInv (used capacity : Nat) (storage : Storage) : Prop :=
  capacity % 128 = 0 ∧ capacity < 2 ^ 32 ∧ used ≤ capacity ∧
    (storage.getD []).length = capacity

/-- The state of the visitor while global uniforms are laid out: the visitor is at file scope,
the mirror of slot 0 satisfies `LayoutInv`, and every registered uniform ends at or before the
used size. -/
def GlobalLayoutInv (c : D3D10EffectCompiler) : Prop :=
  c.mCurrentInParameterBlock = false ∧ c.mCurrentInFunctionBlock = false ∧
    (∃ s0 rest, c.mEffect.mConstantStorages = s0 :: rest ∧
      LayoutInv c.mCurrentGlobalSize c.mCurrentGlobalStorageSize s0) ∧
    ∀ p ∈ c.mEffect.mConstants, p.2.mBufferOffset + p.2.mDesc.Size ≤ c.mCurrentGlobalSize

/-- A pass of the list names, among its eight render targets, a texture that the effect of the
visitor does not hold. -/
def Unresolved (c : D3D10EffectCompiler) (passes : List FX.Pass) : Prop :=
  ∃ p ∈ passes, ∃ i, i < 8 ∧ ∃ name,
    p.States.RenderTargets.getD i none = some name ∧ c.mEffect.GetTexture name = none

/-- Among the calls that the history `b` adds to the history `a` there is a failed call of
`D3DCompile`, and the text of its error blob, when it returned one, stands in `errors` after
the text `before`. -/
def CompileFailed (a b : List DeviceCall) (before errors : String) : Prop :=
  ∃ e ∈ b.drop a.length, e.isFailedCompile = true ∧
    ∀ text, e.response.errors = some text → ∃ x y, errors = before ++ x ++ text ++ y

/-- What every visitor of a technique, of a pass or of a shader guarantees between the visitor
state before and after it; `passes` are the pass nodes it visited. -/
structure PassStep (passes : List FX.Pass) (c c1 : D3D10EffectCompiler) : Prop where
  fatal : c.mFatal = true → c1.mFatal = true
  constants : c1.mEffect.mConstants = c.mEffect.mConstants
  buffers : c1.mEffect.mConstantBuffers = c.mEffect.mConstantBuffers
  storages : c1.mEffect.mConstantStorages = c.mEffect.mConstantStorages
  globalSize : c1.mCurrentGlobalSize = c.mCurrentGlobalSize
  names : c1.mEffect.mTextures.map Prod.fst = c.mEffect.mTextures.map Prod.fst
  calls : QuietCalls c.mDeviceCalls c1.mDeviceCalls
  errors : ∃ t, c1.mErrors = c.mErrors ++ t
  diagnosed : c1.mFatal = true →
    c.mFatal = true ∨ HasErrorDiagnostic c1.mErrors ∨
      CompileFailed c.mDeviceCalls c1.mDeviceCalls c.mErrors c1.mErrors ∨
      Unresolved c1 passes
  parameterBlock : c1.mCurrentInParameterBlock = c.mCurrentInParameterBlock
  functionBlock : c1.mCurrentInFunctionBlock = c.mCurrentInFunctionBlock

/-- The variable is routed to `VisitUniformBuffer` or to `VisitUniform` by `Visit(Variable)` at
file scope: it has the `uniform` qualifier and is neither a texture nor a sampler. -/
def DeclaresUniform (v : FX.Variable) : Bool :=
  v.Ty.HasQualifier FX.Qualifier.Uniform && !v.Ty.IsTexture && !v.Ty.IsSampler

/-- The tree declares no uniform: neither a variable of its list of uniforms nor a field of
one of its structures is routed to `VisitUniformBuffer` or `VisitUniform`. -/
def NoUniformDeclarations (ast : FX.Tree) : Prop :=
  (∀ s ∈ ast.Types, ∀ f ∈ s.Fields, DeclaresUniform f = false) ∧
    ∀ v ∈ ast.Uniforms, DeclaresUniform v = false

/-- The call of `CreateDepthStencilState` of line 1974 on a device with the given history. -/
def DepthStencilStateCall (env : Env) (node : FX.Pass) (history : List DeviceCall) : DeviceCall :=
  { request := DeviceRequest.CreateDepthStencilState (PassDepthStencilDesc env.literals node),
    response := env.mRuntime.mDevice.respond history
      (DeviceRequest.CreateDepthStencilState (PassDepthStencilDesc env.literals node)) }

/-- The call of `CreateBlendState` of line 1996 on a device with the given history. -/
def BlendStateCall (env : Env) (node : FX.Pass) (history : List DeviceCall) : DeviceCall :=
  { request := DeviceRequest.CreateBlendState (PassBlendDesc env.literals node),
    response := env.mRuntime.mDevice.respond history
      (DeviceRequest.CreateBlendState (PassBlendDesc env.literals node)) }

/-! ## Expression and statement trees

The nodes of `EffectTree.hpp` that `Visit(Expression)` and `Visit(Statement)` walk. The header
is not among the sources; each node holds the members that `RuntimeD3D10.cpp` reads. A child
pointer that the source dereferences without a test is a child of the node; a pointer that the
source tests against `nullptr` is an `Option`. The declaration visitors above read the
initializer of a variable through `FX.Expression` and `Lowering`; the trees below are the
subtrees behind them. -/

namespace FX

/-- The enumerators of `Nodes::Unary::Op` that the switch of `Visit(Unary)` names. -/
inductive UnaryOp : Type
  | Negate | BitwiseNot | LogicalNot | Increase | Decrease | PostIncrease | PostDecrease | Cast
deriving DecidableEq, Repr

/-- The enumerators of `Nodes::Binary::Op` that the switch of `Visit(Binary)` names. -/
inductive BinaryOp : Type
  | Add | Subtract | Multiply | Divide | Modulo | Less | Greater | LessOrEqual | GreaterOrEqual
  | Equal | NotEqual | LeftShift | RightShift | BitwiseAnd | BitwiseOr | BitwiseXor
  | LogicalAnd | LogicalOr | ElementExtract
deriving DecidableEq, Repr

/-- The enumerators of `Nodes::Assignment::Op` that the switch of `Visit(Assignment)` names. -/
inductive AssignmentOp : Type
  | None | Add | Subtract | Multiply | Divide | Modulo | LeftShift | RightShift | BitwiseAnd
  | BitwiseOr | BitwiseXor
deriving DecidableEq, Repr

/-- The enumerators of `Nodes::Intrinsic::Op` that the switch of `Visit(Intrinsic)` names. -/
inductive IntrinsicOp : Type
  | Abs | Acos | All | Any | BitCastInt2Float | BitCastUint2Float | Asin | BitCastFloat2Int
  | BitCastFloat2Uint | Atan | Atan2 | Ceil | Clamp | Cos | Cosh | Cross | PartialDerivativeX
  | PartialDerivativeY | Degrees | Determinant | Distance | Dot | Exp | Exp2 | FaceForward
  | Floor | Frac | Frexp | Fwidth | Ldexp | Length | Lerp | Log | Log10 | Log2 | Mad | Max | Min
  | Modf | Mul | Normalize | Pow | Radians | Rcp | Reflect | Refract | Round | Rsqrt | Saturate
  | Sign | Sin | SinCos | Sinh | SmoothStep | Sqrt | Step | Tan | Tanh | Tex2D | Tex2DFetch
  | Tex2DGather | Tex2DGatherOffset | Tex2DLevel | Tex2DLevelOffset | Tex2DOffset | Tex2DSize
  | Transpose | Trunc
deriving DecidableEq, Repr

/-- The enumerators of `Nodes::Jump` that the switch of `Visit(Jump)` names. -/
inductive JumpMode : Type
  | Break | Continue
deriving DecidableEq, Repr

/-- The expression nodes. `Ty` is the member `Type` of `Nodes::Expression`. `Value` of a literal
holds the 32-bit words of the union `Literal::Value`. Of the arguments of an intrinsic the
source reads the first three. `Mask` is the array `signed char Mask[4]`. -/
inductive Expr : Type
  | LValue (Ty : TypeNode) (Reference : Variable) : Expr
  | Literal (Ty : TypeNode) (Value : List Nat) : Expr
  | Sequence (Ty : TypeNode) (Expressions : List Expr) : Expr
  | Unary (Ty : TypeNode) (Operator : UnaryOp) (Operand : Expr) : Expr
  | Binary (Ty : TypeNode) (Operator : BinaryOp) (Operand0 Operand1 : Expr) : Expr
  | Intrinsic (Ty : TypeNode) (Operator : IntrinsicOp)
      (Argument0 Argument1 Argument2 : Option Expr) : Expr
  | Conditional (Ty : TypeNode) (Condition ExpressionOnTrue ExpressionOnFalse : Expr) : Expr
  | Swizzle (Ty : TypeNode) (Operand : Expr) (Mask : Int × Int × Int × Int) : Expr
  | FieldSelection (Ty : TypeNode) (Operand : Expr) (Field : Variable) : Expr
  | Assignment (Ty : TypeNode) (Operator : AssignmentOp) (Left Right : Expr) : Expr
  | Call (Ty : TypeNode) (CalleeName : String) (Arguments : List Expr) : Expr
  | Constructor (Ty : TypeNode) (Arguments : List Expr) : Expr
  | InitializerList (Ty : TypeNode) (Values : List Expr) : Expr

/-- The member `Type` of an expression node. -/
def Expr.Ty : Expr → TypeNode
  | Expr.LValue t _ => t
  | Expr.Literal t _ => t
  | Expr.Sequence t _ => t
  | Expr.Unary t _ _ => t
  | Expr.Binary t _ _ _ => t
  | Expr.Intrinsic t _ _ _ _ => t
  | Expr.Conditional t _ _ _ => t
  | Expr.Swizzle t _ _ => t
  | Expr.FieldSelection t _ _ => t
  | Expr.Assignment t _ _ _ => t
  | Expr.Call t _ _ => t
  | Expr.Constructor t _ => t
  | Expr.InitializerList t _ => t

/-- The literal of a `case` label: its type and the words of its value. -/
structure Label where
  Ty : TypeNode
  Value : List Nat

mutual
/-- The statement nodes. -/
inductive Stmt : Type
  | Compound (Statements : List Stmt) : Stmt
  | DeclaratorList (Declarators : List Variable) : Stmt
  | ExpressionStatement (Expression : Expr) : Stmt
  | If (Attributes : List String) (Condition : Expr)
      (StatementOnTrue StatementOnFalse : Option Stmt) : Stmt
  | Switch (Attributes : List String) (Test : Expr) (Cases : List Case) : Stmt
  | For (Attributes : List String) (Initialization : Option Stmt)
      (Condition Increment : Option Expr) (Statements : Option Stmt) : Stmt
  | While (Attributes : List String) (DoWhile : Bool) (Condition : Expr)
      (Statements : Option Stmt) : Stmt
  | Return (Discard : Bool) (Value : Option Expr) : Stmt
  | Jump (Mode : JumpMode) : Stmt
/-- The node `Nodes::Case`; a null label is the label `default`. -/
inductive Case : Type
  | mk (Labels : List (Option Label)) (Statements : Option Stmt) : Case
end

/-- Modelled from the spec: `Type::IsNumeric` of `EffectTree.hpp`, the base classes bool, int,
uint and float. -/
def TypeNode.IsNumeric (t : TypeNode) : Bool :=
  decide (t.BaseClass = Class.Bool) || decide (t.BaseClass = Class.Int) ||
    decide (t.BaseClass = Class.Uint) || decide (t.BaseClass = Class.Float)

/-- Modelled from the spec: `Type::IsScalar` of `EffectTree.hpp`, a numeric type that is
neither an array nor a matrix nor a vector. -/
def TypeNode.IsScalar (t : TypeNode) : Bool :=
  !t.IsArray && !t.IsMatrix && !t.IsVector && t.IsNumeric

end FX

/-! ## The visitors of expressions -/

/-- The call `std::string::pop_back`; on an empty string it has no defined behaviour. The
strings of the source hold one `char` per character of the emitted text. -/
def PopBack (s : String) : Option String :=
  if s.data = [] then none else some ⟨s.data.dropLast⟩

/-- Two calls of `pop_back` in a row. -/
def PopBack2 (s : String) : Option String :=
  match PopBack s with
  | none => none
  | some s1 => PopBack s1

/-- The value of the `int` whose object representation is the 32-bit word `word`. -/
def ToInt32 (word : Nat) : Int :=
  if word % 2 ^ 32 < 2 ^ 31 then (word % 2 ^ 32 : Nat) else (word % 2 ^ 32 : Nat) - 2 ^ 32

/-- The text of component `i` of a literal (lines 637 to 651); `printFloat` is
`std::to_string` on the `float` with the given word. The switch has no default case. The
arrays of the union have as many elements as `value` has words. -/
def LiteralComponent (printFloat : Nat → String) (type : FX.TypeNode) (value : List Nat)
    (i : Nat) : Option String :=
  match type.BaseClass with
  | FX.Class.Bool =>
      match value[i]? with
      | some w => some (if ToInt32 w ≠ 0 then "true" else "false")
      | none => none
  | FX.Class.Int =>
      match value[i]? with
      | some w => some (toString (ToInt32 w))
      | none => none
  | FX.Class.Uint =>
      match value[i]? with
      | some w => some (toString (w % 2 ^ 32))
      | none => none
  | FX.Class.Float =>
      match value[i]? with
      | some w => some (printFloat w ++ "f")
      | none => none
  | _ => some ""

/-- The loop of lines 635 to 654 over the indices that remain. -/
def VisitLiteralComponents (printFloat : Nat → String) (type : FX.TypeNode) (value : List Nat) :
    List Nat → String → Option String
  | [], s => some s
  | i :: rest, s =>
      match LiteralComponent printFloat type value i with
      | none => none
      | some text => VisitLiteralComponents printFloat type value rest (s ++ text ++ ", ")

/-- The method `Visit(const FX::Nodes::Literal *)` on the shader source. -/
def VisitLiteral (printFloat : Nat → String) (type : FX.TypeNode) (value : List Nat)
    (s : String) : Option String :=
  let opened : Option String :=
    if !type.IsScalar then
      match PrintType type with
      | some t => some (s ++ t ++ "(")
      | none => none
    else some s
  match opened with
  | none => none
  | some s1 =>
      match VisitLiteralComponents printFloat type value
          (List.range ((type.Rows * type.Cols) % UINT_MOD)) s1 with
      | none => none
      | some s2 =>
          match PopBack2 s2 with
          | none => none
          | some s3 => some (if !type.IsScalar then s3 ++ ")" else s3)

/-- The switch of `Visit(Unary)` (lines 680 to 707): the texts before and after the operand. -/
def UnaryParts (type : FX.TypeNode) : FX.UnaryOp → Option (String × String)
  | FX.UnaryOp.Negate => some ("-", "")
  | FX.UnaryOp.BitwiseNot => some ("~", "")
  | FX.UnaryOp.LogicalNot => some ("!", "")
  | FX.UnaryOp.Increase => some ("++", "")
  | FX.UnaryOp.Decrease => some ("--", "")
  | FX.UnaryOp.PostIncrease => some ("", "++")
  | FX.UnaryOp.PostDecrease => some ("", "--")
  | FX.UnaryOp.Cast =>
      match PrintType type with
      | some t => some (t ++ "(", ")")
      | none => none

/-- The switch of `Visit(Binary)` (lines 717 to 813). -/
def BinaryParts : FX.BinaryOp → String × String × String
  | FX.BinaryOp.Add => ("(", " + ", ")")
  | FX.BinaryOp.Subtract => ("(", " - ", ")")
  | FX.BinaryOp.Multiply => ("(", " * ", ")")
  | FX.BinaryOp.Divide => ("(", " / ", ")")
  | FX.BinaryOp.Modulo => ("(", " % ", ")")
  | FX.BinaryOp.Less => ("(", " < ", ")")
  | FX.BinaryOp.Greater => ("(", " > ", ")")
  | FX.BinaryOp.LessOrEqual => ("(", " <= ", ")")
  | FX.BinaryOp.GreaterOrEqual => ("(", " >= ", ")")
  | FX.BinaryOp.Equal => ("(", " == ", ")")
  | FX.BinaryOp.NotEqual => ("(", " != ", ")")
  | FX.BinaryOp.LeftShift => ("(", " << ", ")")
  | FX.BinaryOp.RightShift => ("(", " >> ", ")")
  | FX.BinaryOp.BitwiseAnd => ("(", " & ", ")")
  | FX.BinaryOp.BitwiseOr => ("(", " | ", ")")
  | FX.BinaryOp.BitwiseXor => ("(", " ^ ", ")")
  | FX.BinaryOp.LogicalAnd => ("(", " && ", ")")
  | FX.BinaryOp.LogicalOr => ("(", " || ", ")")
  | FX.BinaryOp.ElementExtract => ("", "[", "]")

/-- The switch of `Visit(Intrinsic)` (lines 825 to 1137): `part1` to `part4`. -/
def IntrinsicParts : FX.IntrinsicOp → String × String × String × String
  | FX.IntrinsicOp.Abs => ("abs(", ")", "", "")
  | FX.IntrinsicOp.Acos => ("acos(", ")", "", "")
  | FX.IntrinsicOp.All => ("all(", ")", "", "")
  | FX.IntrinsicOp.Any => ("any(", ")", "", "")
  | FX.IntrinsicOp.BitCastInt2Float => ("asfloat(", ")", "", "")
  | FX.IntrinsicOp.BitCastUint2Float => ("asfloat(", ")", "", "")
  | FX.IntrinsicOp.Asin => ("asin(", ")", "", "")
  | FX.IntrinsicOp.BitCastFloat2Int => ("asint(", ")", "", "")
  | FX.IntrinsicOp.BitCastFloat2Uint => ("asuint(", ")", "", "")
  | FX.IntrinsicOp.Atan => ("atan(", ")", "", "")
  | FX.IntrinsicOp.Atan2 => ("atan2(", ", ", ")", "")
  | FX.IntrinsicOp.Ceil => ("ceil(", ")", "", "")
  | FX.IntrinsicOp.Clamp => ("clamp(", ", ", ", ", ")")
  | FX.IntrinsicOp.Cos => ("cos(", ")", "", "")
  | FX.IntrinsicOp.Cosh => ("cosh(", ")", "", "")
  | FX.IntrinsicOp.Cross => ("cross(", ", ", ")", "")
  | FX.IntrinsicOp.PartialDerivativeX => ("ddx(", ")", "", "")
  | FX.IntrinsicOp.PartialDerivativeY => ("ddy(", ")", "", "")
  | FX.IntrinsicOp.Degrees => ("degrees(", ")", "", "")
  | FX.IntrinsicOp.Determinant => ("determinant(", ")", "", "")
  | FX.IntrinsicOp.Distance => ("distance(", ", ", ")", "")
  | FX.IntrinsicOp.Dot => ("dot(", ", ", ")", "")
  | FX.IntrinsicOp.Exp => ("exp(", ")", "", "")
  | FX.IntrinsicOp.Exp2 => ("exp2(", ")", "", "")
  | FX.IntrinsicOp.FaceForward => ("faceforward(", ", ", ", ", ")")
  | FX.IntrinsicOp.Floor => ("floor(", ")", "", "")
  | FX.IntrinsicOp.Frac => ("frac(", ")", "", "")
  | FX.IntrinsicOp.Frexp => ("frexp(", ", ", ")", "")
  | FX.IntrinsicOp.Fwidth => ("fwidth(", ")", "", "")
  | FX.IntrinsicOp.Ldexp => ("ldexp(", ", ", ")", "")
  | FX.IntrinsicOp.Length => ("length(", ")", "", "")
  | FX.IntrinsicOp.Lerp => ("lerp(", ", ", ", ", ")")
  | FX.IntrinsicOp.Log => ("log(", ")", "", "")
  | FX.IntrinsicOp.Log10 => ("log10(", ")", "", "")
  | FX.IntrinsicOp.Log2 => ("log2(", ")", "", "")
  | FX.IntrinsicOp.Mad => ("((", ") * (", ") + (", "))")
  | FX.IntrinsicOp.Max => ("max(", ", ", ")", "")
  | FX.IntrinsicOp.Min => ("min(", ", ", ")", "")
  | FX.IntrinsicOp.Modf => ("modf(", ", ", ")", "")
  | FX.IntrinsicOp.Mul => ("mul(", ", ", ")", "")
  | FX.IntrinsicOp.Normalize => ("normalize(", ")", "", "")
  | FX.IntrinsicOp.Pow => ("pow(", ", ", ")", "")
  | FX.IntrinsicOp.Radians => ("radians(", ")", "", "")
  | FX.IntrinsicOp.Rcp => ("(1.0f / ", ")", "", "")
  | FX.IntrinsicOp.Reflect => ("reflect(", ", ", ")", "")
  | FX.IntrinsicOp.Refract => ("refract(", ", ", ", ", ")")
  | FX.IntrinsicOp.Round => ("round(", ")", "", "")
  | FX.IntrinsicOp.Rsqrt => ("rsqrt(", ")", "", "")
  | FX.IntrinsicOp.Saturate => ("saturate(", ")", "", "")
  | FX.IntrinsicOp.Sign => ("sign(", ")", "", "")
  | FX.IntrinsicOp.Sin => ("sin(", ")", "", "")
  | FX.IntrinsicOp.SinCos => ("sincos(", ", ", ", ", ")")
  | FX.IntrinsicOp.Sinh => ("sinh(", ")", "", "")
  | FX.IntrinsicOp.SmoothStep => ("smoothstep(", ", ", ", ", ")")
  | FX.IntrinsicOp.Sqrt => ("sqrt(", ")", "", "")
  | FX.IntrinsicOp.Step => ("step(", ", ", ")", "")
  | FX.IntrinsicOp.Tan => ("tan(", ")", "", "")
  | FX.IntrinsicOp.Tanh => ("tanh(", ")", "", "")
  | FX.IntrinsicOp.Tex2D => ("__tex2D(", ", ", ")", "")
  | FX.IntrinsicOp.Tex2DFetch => ("__tex2Dfetch(", ", ", ")", "")
  | FX.IntrinsicOp.Tex2DGather => ("__tex2Dgather(", ", ", ")", "")
  | FX.IntrinsicOp.Tex2DGatherOffset => ("__tex2Dgatheroffset(", ", ", ", ", ")")
  | FX.IntrinsicOp.Tex2DLevel => ("__tex2Dlod(", ", ", ")", "")
  | FX.IntrinsicOp.Tex2DLevelOffset => ("__tex2Dlodoffset(", ", ", ", ", ")")
  | FX.IntrinsicOp.Tex2DOffset => ("__tex2Doffset(", ", ", ", ", ")")
  | FX.IntrinsicOp.Tex2DSize => ("__tex2Dsize(", ", ", ")", "")
  | FX.IntrinsicOp.Transpose => ("transpose(", ")", "", "")
  | FX.IntrinsicOp.Trunc => ("trunc(", ")", "", "")

/-- The switch of `Visit(Assignment)` (lines 1231 to 1266). -/
def AssignmentToken : FX.AssignmentOp → String
  | FX.AssignmentOp.None => "="
  | FX.AssignmentOp.Add => "+="
  | FX.AssignmentOp.Subtract => "-="
  | FX.AssignmentOp.Multiply => "*="
  | FX.AssignmentOp.Divide => "/="
  | FX.AssignmentOp.Modulo => "%="
  | FX.AssignmentOp.LeftShift => "<<="
  | FX.AssignmentOp.RightShift => ">>="
  | FX.AssignmentOp.BitwiseAnd => "&="
  | FX.AssignmentOp.BitwiseOr => "|="
  | FX.AssignmentOp.BitwiseXor => "^="

/-- The table `swizzle` of lines 1180 to 1186. -/
def MatrixSwizzle : List String :=
  ["_m00", "_m01", "_m02", "_m03", "_m10", "_m11", "_m12", "_m13",
   "_m20", "_m21", "_m22", "_m23", "_m30", "_m31", "_m32", "_m33"]

/-- The table `swizzle` of lines 1195 to 1198. -/
def VectorSwizzle : List String := ["x", "y", "z", "w"]

/-- The loops of lines 1188 to 1191 and 1200 to 1203 over the entries of the mask that remain:
the loop ends at the first negative entry; an entry outside the table is an access outside the
array. -/
def VisitMask (table : List String) : List Int → String → Option String
  | [], s => some s
  | m :: rest, s =>
      if m < 0 then some s
      else
        match table[m.toNat]? with
        | some t => VisitMask table rest (s ++ t)
        | none => none

mutual
/-- The method `Visit(const FX::Nodes::Expression *)` with the methods it dispatches to (lines
349 to 396 and 623 to 1324), on the shader source. -/
def VisitExpression (printFloat : Nat → String) : FX.Expr → String → Option String
  | FX.Expr.LValue _ reference, s => some (s ++ reference.Name)
  | FX.Expr.Literal type value, s => VisitLiteral printFloat type value s
  | FX.Expr.Sequence _ expressions, s =>
      match VisitExpressionList printFloat expressions s with
      | none => none
      | some s1 => PopBack2 s1
  | FX.Expr.Unary type operator operand, s =>
      match UnaryParts type operator with
      | none => none
      | some parts =>
          match VisitExpression printFloat operand (s ++ parts.1) with
          | none => none
          | some s1 => some (s1 ++ parts.2)
  | FX.Expr.Binary _ operator operand0 operand1, s =>
      match VisitExpression printFloat operand0 (s ++ (BinaryParts operator).1) with
      | none => none
      | some s1 =>
          match VisitExpression printFloat operand1 (s1 ++ (BinaryParts operator).2.1) with
          | none => none
          | some s2 => some (s2 ++ (BinaryParts operator).2.2)
  | FX.Expr.Intrinsic _ operator argument0 argument1 argument2, s =>
      match VisitArgument printFloat argument0 (s ++ (IntrinsicParts operator).1) with
      | none => none
      | some s1 =>
          match VisitArgument printFloat argument1 (s1 ++ (IntrinsicParts operator).2.1) with
          | none => none
          | some s2 =>
              match VisitArgument printFloat argument2
                  (s2 ++ (IntrinsicParts operator).2.2.1) with
              | none => none
              | some s3 => some (s3 ++ (IntrinsicParts operator).2.2.2)
  | FX.Expr.Conditional _ condition onTrue onFalse, s =>
      match VisitExpression printFloat condition (s ++ "(") with
      | none => none
      | some s1 =>
          match VisitExpression printFloat onTrue (s1 ++ " ? ") with
          | none => none
          | some s2 =>
              match VisitExpression printFloat onFalse (s2 ++ " : ") with
              | none => none
              | some s3 => some (s3 ++ ")")
  | FX.Expr.Swizzle _ operand mask, s =>
      match VisitExpression printFloat operand s with
      | none => none
      | some s1 =>
          VisitMask (if operand.Ty.IsMatrix then MatrixSwizzle else VectorSwizzle)
            [mask.1, mask.2.1, mask.2.2.1, mask.2.2.2] (s1 ++ ".")
  | FX.Expr.FieldSelection _ operand field, s =>
      match VisitExpression printFloat operand (s ++ "(") with
      | none => none
      | some s1 =>
          some (s1 ++ (if field.Ty.HasQualifier FX.Qualifier.Uniform then "_" else ".") ++
            field.Name ++ ")")
  | FX.Expr.Assignment _ operator left right, s =>
      match VisitExpression printFloat left (s ++ "(") with
      | none => none
      | some s1 =>
          match VisitExpression printFloat right
              (s1 ++ " " ++ AssignmentToken operator ++ " ") with
          | none => none
          | some s2 => some (s2 ++ ")")
  | FX.Expr.Call _ callee arguments, s =>
      match VisitExpressionList printFloat arguments (s ++ callee ++ "(") with
      | none => none
      | some s1 =>
          if !arguments.isEmpty then
            match PopBack2 s1 with
            | none => none
            | some s2 => some (s2 ++ ")")
          else some (s1 ++ ")")
  | FX.Expr.Constructor type arguments, s =>
      match PrintType type with
      | none => none
      | some t =>
          match VisitExpressionList printFloat arguments (s ++ t ++ "(") with
          | none => none
          | some s1 =>
              if !arguments.isEmpty then
                match PopBack2 s1 with
                | none => none
                | some s2 => some (s2 ++ ")")
              else some (s1 ++ ")")
  | FX.Expr.InitializerList _ values, s =>
      match VisitExpressionList printFloat values (s ++ "\x7b ") with
      | none => none
      | some s1 => some (s1 ++ " \x7d")
/-- An argument of an intrinsic: a null argument is skipped (lines 1141 to 1158). -/
def VisitArgument (printFloat : Nat → String) : Option FX.Expr → String → Option String
  | none, s => some s
  | some argument, s => VisitExpression printFloat argument s
/-- The loops `for (auto expression : ...)` that follow every element by `", "`. -/
def VisitExpressionList (printFloat : Nat → String) : List FX.Expr → String → Option String
  | [], s => some s
  | expression :: rest, s =>
      match VisitExpression printFloat expression s with
      | none => none
      | some s1 => VisitExpressionList printFloat rest (s1 ++ ", ")
end

/-! ## The visitors of statements -/

/-- The loops `for (auto &attribute : node->Attributes)` of the statement visitors. -/
def VisitAttributes (attributes : List String) (s : String) : String :=
  attributes.foldl (fun text name => text ++ "[" ++ name ++ "]") s

/-- A call of `Visit(Expression)` from a statement: only the shader source changes. -/
def VisitExpressionIn (printFloat : Nat → String) (expression : FX.Expr)
    (c : D3D10EffectCompiler) : Option D3D10EffectCompiler :=
  match VisitExpression printFloat expression c.mCurrentSource with
  | none => none
  | some s => some { c with mCurrentSource := s }

/-- The method `Visit(const FX::Nodes::DeclaratorList *)` (lines 409 to 425); the counter
`mCurrentInForInitialization` is a `UINT`. -/
def VisitDeclarators (env : Env) : List FX.Variable → D3D10EffectCompiler →
    Option D3D10EffectCompiler
  | [], c => some c
  | declarator :: rest, c =>
      match VisitVariable env c declarator with
      | none => none
      | some c1 =>
          if c1.mCurrentInForInitialization ≠ 0 then
            VisitDeclarators env rest
              { c1 with
                mCurrentSource := c1.mCurrentSource ++ ", ",
                mCurrentInForInitialization := (c1.mCurrentInForInitialization + 1) % UINT_MOD }
          else
            VisitDeclarators env rest { c1 with mCurrentSource := c1.mCurrentSource ++ ";\n" }

/-- The loop over the labels of `Visit(const FX::Nodes::Case *)` (lines 483 to 497). -/
def VisitLabels (printFloat : Nat → String) : List (Option FX.Label) → String → Option String
  | [], s => some s
  | none :: rest, s => VisitLabels printFloat rest (s ++ "default" ++ ":\n")
  | some label :: rest, s =>
      match VisitLiteral printFloat label.Ty label.Value (s ++ "case ") with
      | none => none
      | some s1 => VisitLabels printFloat rest (s1 ++ ":\n")

mutual
/-- The methods that `Visit(const FX::Nodes::Statement *)` dispatches to (lines 315 to 347 and
398 to 621). -/
def VisitStatement (env : Env) (printFloat : Nat → String) :
    FX.Stmt → D3D10EffectCompiler → Option D3D10EffectCompiler
  | FX.Stmt.Compound statements, c =>
      match VisitStatements env printFloat statements
          { c with mCurrentSource := c.mCurrentSource ++ "\x7b\n" } with
      | none => none
      | some c1 => some { c1 with mCurrentSource := c1.mCurrentSource ++ "\x7d\n" }
  | FX.Stmt.DeclaratorList declarators, c => VisitDeclarators env declarators c
  | FX.Stmt.ExpressionStatement expression, c =>
      match VisitExpressionIn printFloat expression c with
      | none => none
      | some c1 => some { c1 with mCurrentSource := c1.mCurrentSource ++ ";\n" }
  | FX.Stmt.If attributes condition onTrue onFalse, c =>
      match VisitExpressionIn printFloat condition
          { c with mCurrentSource := VisitAttributes attributes c.mCurrentSource ++ "if (" } with
      | none => none
      | some c1 =>
          let taken : Option D3D10EffectCompiler :=
            match onTrue with
            | some _ =>
                VisitOptionalStatement env printFloat onTrue
                  { c1 with mCurrentSource := c1.mCurrentSource ++ ")\n" }
            | none => some { c1 with mCurrentSource := c1.mCurrentSource ++ ")\n" ++ "\t;" }
          match taken with
          | none => none
          | some c2 =>
              match onFalse with
              | some _ =>
                  VisitOptionalStatement env printFloat onFalse
                    { c2 with mCurrentSource := c2.mCurrentSource ++ "else\n" }
              | none => some c2
  | FX.Stmt.Switch attributes test cases, c =>
      match VisitExpressionIn printFloat test
          { c with
            mCurrentSource := VisitAttributes attributes c.mCurrentSource ++ "switch (" } with
      | none => none
      | some c1 =>
          match VisitCases env printFloat cases
              { c1 with mCurrentSource := c1.mCurrentSource ++ ")\n\x7b\n" } with
          | none => none
          | some c2 => some { c2 with mCurrentSource := c2.mCurrentSource ++ "\x7d\n" }
  | FX.Stmt.For attributes initialization condition increment statements, c =>
      let opened : D3D10EffectCompiler :=
        { c with mCurrentSource := VisitAttributes attributes c.mCurrentSource ++ "for (" }
      let prepared : Option D3D10EffectCompiler :=
        match initialization with
        | some _ =>
            match VisitOptionalStatement env printFloat initialization
                { opened with mCurrentInForInitialization := 1 } with
            | none => none
            | some c1 =>
                match PopBack2 c1.mCurrentSource with
                | none => none
                | some s => some { c1 with mCurrentInForInitialization := 0, mCurrentSource := s }
        | none => some opened
      match prepared with
      | none => none
      | some c2 =>
          match VisitArgument printFloat condition (c2.mCurrentSource ++ "; ") with
          | none => none
          | some s3 =>
              match VisitArgument printFloat increment (s3 ++ "; ") with
              | none => none
              | some s4 =>
                  match statements with
                  | some _ =>
                      VisitOptionalStatement env printFloat statements
                        { c2 with mCurrentSource := s4 ++ ")\n" }
                  | none => some { c2 with mCurrentSource := s4 ++ ")\n" ++ "\t;" }
  | FX.Stmt.While attributes doWhile condition statements, c =>
      let opened : D3D10EffectCompiler :=
        { c with mCurrentSource := VisitAttributes attributes c.mCurrentSource }
      if doWhile then
        match VisitOptionalStatement env printFloat statements
            { opened with mCurrentSource := opened.mCurrentSource ++ "do\n\x7b\n" } with
        | none => none
        | some c1 =>
            match VisitExpressionIn printFloat condition
                { c1 with mCurrentSource := c1.mCurrentSource ++ "\x7d\n" ++ "while (" } with
            | none => none
            | some c2 => some { c2 with mCurrentSource := c2.mCurrentSource ++ ");\n" }
      else
        match VisitExpressionIn printFloat condition
            { opened with mCurrentSource := opened.mCurrentSource ++ "while (" } with
        | none => none
        | some c1 =>
            match statements with
            | some _ =>
                VisitOptionalStatement env printFloat statements
                  { c1 with mCurrentSource := c1.mCurrentSource ++ ")\n" }
            | none => some { c1 with mCurrentSource := c1.mCurrentSource ++ ")\n" ++ "\t;" }
  | FX.Stmt.Return discard value, c =>
      if discard then some { c with mCurrentSource := c.mCurrentSource ++ "discard" ++ ";\n" }
      else
        match value with
        | some expression =>
            match VisitExpressionIn printFloat expression
                { c with mCurrentSource := c.mCurrentSource ++ "return" ++ " " } with
            | none => none
            | some c1 => some { c1 with mCurrentSource := c1.mCurrentSource ++ ";\n" }
        | none => some { c with mCurrentSource := c.mCurrentSource ++ "return" ++ ";\n" }
  | FX.Stmt.Jump FX.JumpMode.Break, c =>
      some { c with mCurrentSource := c.mCurrentSource ++ "break" ++ ";\n" }
  | FX.Stmt.Jump FX.JumpMode.Continue, c =>
      some { c with mCurrentSource := c.mCurrentSource ++ "continue" ++ ";\n" }
/-- The method `Visit(const FX::Nodes::Statement *)`: a null statement is skipped (lines 310
to 313). -/
def VisitOptionalStatement (env : Env) (printFloat : Nat → String) :
    Option FX.Stmt → D3D10EffectCompiler → Option D3D10EffectCompiler
  | none, c => some c
  | some statement, c => VisitStatement env printFloat statement c
/-- The loop over the statements of `Visit(const FX::Nodes::Compound *)`. -/
def VisitStatements (env : Env) (printFloat : Nat → String) :
    List FX.Stmt → D3D10EffectCompiler → Option D3D10EffectCompiler
  | [], c => some c
  | statement :: rest, c =>
      match VisitStatement env printFloat statement c with
      | none => none
      | some c1 => VisitStatements env printFloat rest c1
/-- The loop over the cases of `Visit(const FX::Nodes::Switch *)`. -/
def VisitCases (env : Env) (printFloat : Nat → String) :
    List FX.Case → D3D10EffectCompiler → Option D3D10EffectCompiler
  | [], c => some c
  | node :: rest, c =>
      match VisitCase env printFloat node c with
      | none => none
      | some c1 => VisitCases env printFloat rest c1
/-- The method `Visit(const FX::Nodes::Case *)` (lines 481 to 500). -/
def VisitCase (env : Env) (printFloat : Nat → String) :
    FX.Case → D3D10EffectCompiler → Option D3D10EffectCompiler
  | FX.Case.mk labels statements, c =>
      match VisitLabels printFloat labels c.mCurrentSource with
      | none => none
      | some s => VisitOptionalStatement env printFloat statements { c with mCurrentSource := s }
end

/-! ## Relations closed under the visitors of declarations -/

/-- A relation between the visitor before and after a step that is reflexive, transitive and
holds for each primitive step of `Visit(Variable)`. -/
structure StepRelation (env : Env) (R : D3D10EffectCompiler → D3D10EffectCompiler → Prop) :
    Prop where
  refl : ∀ c, R c c
  trans : ∀ a b c, R a b → R b c → R a c
  texture : ∀ c v c1, VisitTexture env c v = some c1 → R c c1
  sampler : ∀ c v c1, VisitSampler env c v = some c1 → R c c1
  uniform : ∀ c v c1, VisitUniform env c v = some c1 → R c c1
  decl : ∀ c v c1, VisitVariableDecl env c v = some c1 → R c c1
  blockBegin : ∀ c name, R c (UniformBufferBegin c name)
  blockField : ∀ name c l f c1 l1, UniformBufferField env name c l f = some (c1, l1) → R c c1
  blockEnd : ∀ name ann n c l c1, UniformBufferEnd env name ann n c l = some c1 → R c c1

/-! ## Concrete inputs -/

namespace Example

/-- A device on which every call succeeds; the shader compiler returns an empty byte code. -/
def okDevice : Device :=
  { respond := fun _ _ => { hr := 0, compiled := some [], errors := none } }

/-- A device on which every call fails with `E_INVALIDARG` and no error blob. -/
def failingDevice : Device :=
  { respond := fun _ _ => { hr := -2147024809, compiled := none, errors := none } }

/-- A device on which only the creation of render-target views fails. -/
def noTargetViewDevice : Device :=
  { respond := fun _ req =>
      match req with
      | DeviceRequest.CreateRenderTargetView _ _ =>
          { hr := -2147024809, compiled := none, errors := none }
      | _ => { hr := 0, compiled := some [], errors := none } }

def literals : FX.Literals :=
  { R8 := 50, R32F := 114, RG8 := 51, RGBA8 := 32, RGBA16 := 36, RGBA16F := 113, RGBA32F := 116,
    DXT1 := 827611204, DXT3 := 861165636, DXT5 := 894720068, LATC1 := 826889281,
    LATC2 := 843666497, POINT := 1, LINEAR := 2, ANISOTROPIC := 3, ZERO := 0, ONE := 1 }

def runtime (device : Device) : D3D10Runtime :=
  { mDevice := device, mBackBufferTextureSRV := (none, none), mBackBufferTargets := (none, none),
    mDepthStencilTextureSRV := none, mSwapChainDescWidth := 640, mSwapChainDescHeight := 480,
    mSkipShaderOptimization := false }

def env (device : Device) : Env :=
  { mRuntime := runtime device, literals := literals,
    lowering := { VisitStatement := fun _ s => s, VisitExpression := fun _ s => s },
    garbage := fun _ => 0xCD, samplerDescBytes := fun _ => [],
    indeterminate := fun _ => [0, 0, 0, 0] }

def properties : FX.Properties :=
  { Texture := none, Width := 1, Height := 1, MipLevels := 1, Format := 32, SRGBTexture := false,
    AddressU := 3, AddressV := 3, AddressW := 3, MinFilter := 2, MagFilter := 2, MipFilter := 2,
    MaxAnisotropy := 1, MinLOD := 0, MaxLOD := 0, MipLODBias := 0 }

def location : FX.Location := { Source := "effect.fx", Line := 3, Column := 9 }

/-- A variable of numeric type without semantic, annotations and initializer. -/
def numeric (base : FX.Class) (qualifiers : List FX.Qualifier) (rows cols : Nat)
    (name : String) : FX.Variable :=
  FX.Variable.mk (FX.TypeNode.mk base qualifiers rows cols 0 none) name "" [] none properties
    location

/-- The declaration `uniform float gain;`. -/
def gain : FX.Variable := numeric FX.Class.Float [FX.Qualifier.Uniform] 1 1 "gain"

/-- The declaration `uniform float3 tint;`. -/
def tint : FX.Variable := numeric FX.Class.Float [FX.Qualifier.Uniform] 3 1 "tint"

/-- The declaration `uniform float4x4 view;`. -/
def view : FX.Variable := numeric FX.Class.Float [FX.Qualifier.Uniform] 4 4 "view"

/-- A uniform block `Params` with the fields `float2 scale; int mode; float4 color;`. -/
def block : FX.Variable :=
  FX.Variable.mk
    (FX.TypeNode.mk FX.Class.Struct [FX.Qualifier.Uniform] 0 0 0
      (some (FX.Struct.mk "ParamsType"
        [numeric FX.Class.Float [] 2 1 "scale", numeric FX.Class.Int [] 1 1 "mode",
         numeric FX.Class.Float [] 4 1 "color"] location)))
    "Params" "" [] none properties location

/-- The visitor at the start of `Traverse` on a fresh effect. -/
def start : D3D10EffectCompiler :=
  TraverseBegin (D3D10EffectCompiler.new []) D3D10Effect.new

/-- The effect as `D3D10Effect::D3D10Effect` leaves it, with one mirror of four zero bytes. -/
def zeroEffect : D3D10Effect := { D3D10Effect.new with mConstantStorages := [some [0, 0, 0, 0]] }

/-- A four-byte uniform at offset 0 of mirror 0. -/
def scalar : D3D10Constant :=
  { mDesc := { Ty := some FX.ConstantType.Float, Rows := 1, Columns := 1, Elements := 0,
               Fields := 0, Size := 4 },
    mAnnotations := [], mBufferIndex := 0, mBufferOffset := 0 }

end Example

namespace Example

/-- A device on which only the creation of depth-stencil states and of blend states fails. -/
def noStateDevice : Device :=
  { respond := fun _ req =>
      match req with
      | DeviceRequest.CreateDepthStencilState _ =>
          { hr := -2147024809, compiled := none, errors := none }
      | DeviceRequest.CreateBlendState _ =>
          { hr := -2147024809, compiled := none, errors := none }
      | _ => { hr := 0, compiled := some [], errors := none } }

/-- A device on which only `D3DCompile` fails, without an error blob. -/
def noCompilerDevice : Device :=
  { respond := fun _ req =>
      match req with
      | DeviceRequest.D3DCompile _ _ _ _ =>
          { hr := -2147467259, compiled := none, errors := none }
      | _ => { hr := 0, compiled := some [], errors := none } }

/-- A device on which only `D3DCompile` fails, with an error blob. -/
def blobDevice : Device :=
  { respond := fun _ req =>
      match req with
      | DeviceRequest.D3DCompile _ _ _ _ =>
          { hr := -2147467259, compiled := none,
            errors := some "entry(1,1): error X3000: syntax error\n" }
      | _ => { hr := 0, compiled := some [], errors := none } }

/-- The function `float4 entry() : SV_Position` with an empty body. -/
def entry : FX.Function :=
  { ReturnType := FX.TypeNode.mk FX.Class.Float [] 4 1 0 none, Name := "entry",
    Parameters := [], ReturnSemantic := "SV_Position", Definition := { node := 0 },
    Location := location }

/-- The declaration `texture T;` of a memory texture of one pixel. -/
def target : FX.Variable :=
  FX.Variable.mk (FX.TypeNode.mk FX.Class.Texture2D [] 0 0 0 none) "T" "" [] none properties
    location

/-- The declaration `sampler S;` of a sampler without the property `Texture`. -/
def sampler : FX.Variable :=
  FX.Variable.mk (FX.TypeNode.mk FX.Class.Sampler2D [] 0 0 0 none) "S" "" [] none properties
    location

/-- The states of a pass without shaders that renders to the named textures. -/
def states (targets : List (Option String)) : FX.States :=
  { RenderTargets := targets, VertexShader := none, PixelShader := none,
    SRGBWriteEnable := false, BlendEnable := false, DepthEnable := false,
    StencilEnable := false, RenderTargetWriteMask := 15, DepthWriteMask := false,
    StencilReadMask := 255, StencilWriteMask := 255, BlendOp := 1, BlendOpAlpha := 1,
    SrcBlend := 1, DestBlend := 0, DepthFunc := 2, StencilFunc := 8, StencilRef := 0,
    StencilOpPass := 1, StencilOpFail := 1, StencilOpDepthFail := 1 }

def pass (targets : List (Option String)) : FX.Pass :=
  { States := states targets, Location := location }

/-- A technique `Main` with one pass. -/
def technique (targets : List (Option String)) : FX.Technique :=
  { Name := "Main", Passes := [pass targets], Annotations := [] }

/-- The effect file that holds `uniform float gain;` only. -/
def gainTree : FX.Tree := { Types := [], Uniforms := [gain], Functions := [], Techniques := [] }

/-- An effect file with the function `entry` and a technique whose pass has it as vertex
shader and renders to the back buffer. -/
def shaderTree : FX.Tree :=
  { Types := [], Uniforms := [], Functions := [entry],
    Techniques :=
      [{ Name := "Main",
         Passes := [{ States := { states [] with VertexShader := some entry },
                      Location := location }],
         Annotations := [] }] }

/-- An effect file that declares the texture `T` and renders to it. -/
def targetTree : FX.Tree :=
  { Types := [], Uniforms := [target], Functions := [], Techniques := [technique [some "T"]] }

/-- An effect file that declares no texture and whose pass renders to `T`. -/
def orphanTree : FX.Tree :=
  { Types := [], Uniforms := [], Functions := [], Techniques := [technique [some "T"]] }

/-- An effect file that holds `sampler S;` only. -/
def samplerTree : FX.Tree :=
  { Types := [], Uniforms := [sampler], Functions := [], Techniques := [] }

end Example

/-! ## Predicates on emitted text -/

/-- The texts of a list, each followed by the separator `", "`. -/
def Terminated : List String → String
  | [] => ""
  | text :: rest => text ++ ", " ++ Terminated rest

/-- The text of one declarator as lines 1399 to 1433 of `Visit(Variable)` write it: the text
of the type (empty when the type is not printed), the name with the name of the block in
front, the array suffix, the semantic and the initializer. -/
def DeclaratorText (typeText blockName : String) (initializer : FX.Expression → String)
    (v : FX.Variable) : String :=
  typeText ++
    (if v.Name ≠ "" then " " ++ (if blockName ≠ "" then blockName ++ "_" else "") ++ v.Name
     else "") ++
    PrintArray v.Ty ++
    (if v.Semantic ≠ "" then " : " ++ ConvertSemantic v.Semantic else "") ++
    (match v.Initializer with
     | some e => " = " ++ initializer e
     | none => "")

/-- The expression `x` is emitted as the text `X`: wherever the visitor stands, it appends
`X` to the shader source. -/
def EmitsText (printFloat : Nat → String) (x : FX.Expr) (X : String) : Prop :=
  ∀ s : String, VisitExpression printFloat x s = some (s ++ X)

namespace Example

/-- The type `float`. -/
def float : FX.TypeNode := FX.TypeNode.mk FX.Class.Float [] 1 1 0 none

/-- A printer of floats that writes every value as `0.500000`. -/
def printHalf : Nat → String := fun _ => "0.500000"

/-- A reference to a local variable of type `float`. -/
def reference (name : String) : FX.Expr := FX.Expr.LValue float (numeric FX.Class.Float [] 1 1 name)

/-- The visitor inside the body of a function of a fresh effect. -/
def inFunction : D3D10EffectCompiler := { start with mCurrentInFunctionBlock := true }

/-- The statement `for (int i, j; i; ) ;` with a null increment and a null body. -/
def forLoop : FX.Stmt :=
  FX.Stmt.For []
    (some (FX.Stmt.DeclaratorList
      [numeric FX.Class.Int [] 1 1 "i", numeric FX.Class.Int [] 1 1 "j"]))
    (some (FX.Expr.LValue (FX.TypeNode.mk FX.Class.Int [] 1 1 0 none)
      (numeric FX.Class.Int [] 1 1 "i")))
    none none

end Example

/-! ## Registers of textures and of uniform blocks -/

/-- The numbering of textures in an effect: the table of shader-resource views holds two slots
for every registered texture, and the texture registered as number `k` (counted from 0) has
register `2 * k`, its linear view in slot `2 * k` and its sRGB view in slot `2 * k + 1`. -/
def TextureRegisters (e : D3D10Effect) : Prop :=
  e.mShaderResources.length = 2 * e.mTextures.length ∧
    ∀ (k : Nat) (name : String) (t : D3D10Texture), e.mTextures[k]? = some (name, t) →
      t.mRegister = 2 * k ∧
        e.mShaderResources[2 * k]? = some t.mShaderResourceView.1 ∧
        e.mShaderResources[2 * k + 1]? = some t.mShaderResourceView.2

/-- A call of the history is a failed creation of a buffer. -/
def DeviceCall.isFailedBuffer (c : DeviceCall) : Bool :=
  match c.request with
  | DeviceRequest.CreateBuffer _ _ => FAILED c.response.hr
  | _ => false

/-- The variable is routed to `VisitUniformBuffer` by `Visit(Variable)` at file scope: its type
is a structure with the `uniform` qualifier. -/
def DeclaresBlock (v : FX.Variable) : Bool :=
  v.Ty.IsStruct && v.Ty.HasQualifier FX.Qualifier.Uniform

/-- The value of the local `totalsize` of `VisitUniformBuffer` after the loop has laid out the
fields, starting from `used`. -/
def LaidOutSize (used : Nat) : List FX.Variable → Nat
  | [] => used
  | field :: rest => LaidOutSize (AdvanceSize used (ConstantDescriptionOf field.Ty).Size) rest

namespace Example

/-- The declaration `texture name;` of a memory texture of one pixel. -/
def texture (name : String) : FX.Variable :=
  FX.Variable.mk (FX.TypeNode.mk FX.Class.Texture2D [] 0 0 0 none) name "" [] none properties
    location

/-- A uniform block `name` with the fields `float3 axis; float angle;`. -/
def blockNamed (name : String) : FX.Variable :=
  FX.Variable.mk
    (FX.TypeNode.mk FX.Class.Struct [FX.Qualifier.Uniform] 0 0 0
      (some (FX.Struct.mk "RotationType"
        [numeric FX.Class.Float [] 3 1 "axis", numeric FX.Class.Float [] 1 1 "angle"]
        location)))
    name "" [] none properties location

end Example

/-! ## The runtime at run time (`D3D10Runtime`, lines 2131 to 2763)

The hooks of the depth-stencil views, the detection of the depth source, the replacement of
the back buffer and of the depth-stencil, and the presentation of a frame. Pointers are
compared by the identity `id` of the objects. -/

def DXGI_FORMAT_R32G8X24_TYPELESS : DXGI_FORMAT := 19
def DXGI_FORMAT_D32_FLOAT_S8X24_UINT : DXGI_FORMAT := 20
def DXGI_FORMAT_R32_FLOAT_X8X24_TYPELESS : DXGI_FORMAT := 21
def DXGI_FORMAT_R32_TYPELESS : DXGI_FORMAT := 39
def DXGI_FORMAT_D32_FLOAT : DXGI_FORMAT := 40
def DXGI_FORMAT_R24G8_TYPELESS : DXGI_FORMAT := 44
def DXGI_FORMAT_D24_UNORM_S8_UINT : DXGI_FORMAT := 45
def DXGI_FORMAT_R24_UNORM_X8_TYPELESS : DXGI_FORMAT := 46
def DXGI_FORMAT_R16_TYPELESS : DXGI_FORMAT := 53
def DXGI_FORMAT_R16_FLOAT : DXGI_FORMAT := 54
def DXGI_FORMAT_D16_UNORM : DXGI_FORMAT := 55

def D3D10_BIND_DEPTH_STENCIL : Nat := 0x40
def D3D10_DSV_DIMENSION_TEXTURE2D : Nat := 3
def D3D10_SIMULTANEOUS_RENDER_TARGET_COUNT : Nat := 8

/-- A resource as the host hands it to `OnCreateDepthStencilView`: a 2D texture, or a resource
on which `QueryInterface(ID3D10Texture2D)` fails. -/
inductive ID3D10Resource : Type
  | Texture2D (texture : ID3D10Texture2D) : ID3D10Resource
  | Other (id : ObjectId) : ID3D10Resource
deriving DecidableEq, Repr

/-- A depth-stencil view with what its `GetResource` returns. -/
structure ID3D10DepthStencilView where
  id : ObjectId
  resource : ID3D10Resource
deriving DecidableEq, Repr

/-- Modelled from the spec: the record `DepthSourceInfo` of `RuntimeD3D10.hpp`, which is outside
the sources: per candidate depth-stencil view `(width, height, draw_call_count,
draw_vertex_count)`. The two counters are of type `FLOAT` (line 2293 casts the number of draw
calls to `FLOAT`). A counter holds a finite value, which is a rational number: the code assigns
it zero, the conversion of an unsigned integer or a sum of such, none of which is an infinity
or a NaN. -/
structure DepthSourceInfo where
  Width : Nat
  Height : Nat
  DrawCallCount : ℚ
  DrawVerticesCount : ℚ
deriving DecidableEq

/-- The output-merger and rasterizer bindings of the device `mDevice` that the runtime reads
and writes. -/
structure PipelineState where
  RenderTargets : List (Option ID3D10RenderTargetView)
  DepthStencil : Option ID3D10DepthStencilView
  Viewport : Option D3D10_VIEWPORT
deriving DecidableEq

/-- The call `OMSetRenderTargets(count, targets, depthstencil)` of the device: it overrides all
bound render targets and the depth-stencil, whatever the number of views given. -/
def OMSetRenderTargets (count : Nat) (targets : List (Option ID3D10RenderTargetView))
    (depthstencil : Option ID3D10DepthStencilView) (p : PipelineState) : PipelineState :=
  { p with
    RenderTargets :=
      (List.range D3D10_SIMULTANEOUS_RENDER_TARGET_COUNT).map
        (fun i => if i < count then targets.getD i none else none),
    DepthStencil := depthstencil }

/-- The render targets that `OMGetRenderTargets(count, targets, ...)` writes to `targets`. -/
def OMGetRenderTargets (count : Nat) (p : PipelineState) :
    List (Option ID3D10RenderTargetView) :=
  (List.range count).map (fun i => p.RenderTargets.getD i none)

/-- The members of `D3D10Runtime` that change at run time, with the function-local statics
`cooldown` and `traffic` of `DetectDepthSource`, the bindings `pipeline` of the device and the
history `calls` of the device. `mDepthSourceTable` lists the entries of the unordered map in
the order in which a loop iterates over them. -/
structure D3D10RuntimeState where
  mLost : Bool
  mSwapChainDescWidth : Nat
  mSwapChainDescHeight : Nat
  mSwapChainDescSampleCount : Nat
  mSwapChainDescFormat : DXGI_FORMAT
  mBackBuffer : Option ID3D10Texture2D
  mBackBufferReplacement : Option ID3D10Texture2D
  mBackBufferTexture : Option ID3D10Texture2D
  mBackBufferTextureSRV : Option ID3D10ShaderResourceView × Option ID3D10ShaderResourceView
  mBackBufferTargets : Option ID3D10RenderTargetView × Option ID3D10RenderTargetView
  mDefaultDepthStencil : Option ID3D10DepthStencilView
  mDepthStencil : Option ID3D10DepthStencilView
  mDepthStencilReplacement : Option ID3D10DepthStencilView
  mDepthStencilTexture : Option ID3D10Texture2D
  mDepthStencilTextureSRV : Option ID3D10ShaderResourceView
  mDepthSourceTable : List (ID3D10DepthStencilView × DepthSourceInfo)
  mLastDrawCalls : Nat
  mEffect : Option D3D10Effect
  cooldown : Int
  traffic : Int
  pipeline : PipelineState
  calls : List DeviceCall

/-- Equality of two pointers to depth-stencil views. -/
def SameView (a b : Option ID3D10DepthStencilView) : Prop :=
  a.map (fun v => v.id) = b.map (fun v => v.id)

instance (a b : Option ID3D10DepthStencilView) : Decidable (SameView a b) := by
  unfold SameView
  exact inferInstance

/-! ### The hooks of the depth-stencil views (lines 2361 to 2430) -/

/-- The call `mDepthSourceTable.emplace(view, info)`: nothing is inserted when the table holds
an entry of the view. -/
def Emplace (table : List (ID3D10DepthStencilView × DepthSourceInfo))
    (view : ID3D10DepthStencilView) (info : DepthSourceInfo) :
    List (ID3D10DepthStencilView × DepthSourceInfo) :=
  if table.any (fun e => decide (e.1.id = view.id)) then table else table ++ [(view, info)]

/-- The entry that `mDepthSourceTable.find(view)` returns. -/
def Find (table : List (ID3D10DepthStencilView × DepthSourceInfo))
    (view : ID3D10DepthStencilView) : Option (ID3D10DepthStencilView × DepthSourceInfo) :=
  table.find? (fun e => decide (e.1.id = view.id))

/-- The method `OnCreateDepthStencilView` (lines 2361 to 2396). -/
def OnCreateDepthStencilView (r : D3D10RuntimeState) (resource : ID3D10Resource)
    (depthstencil : ID3D10DepthStencilView) : D3D10RuntimeState :=
  if r.mLost then r
  else
    match resource with
    | ID3D10Resource.Other _ => r
    | ID3D10Resource.Texture2D texture =>
        let desc := texture.desc
        if desc.Width ≠ r.mSwapChainDescWidth ∨ desc.Height ≠ r.mSwapChainDescHeight ∨
            desc.SampleDescCount > 1 then r
        else
          { r with
            mDepthSourceTable :=
              Emplace r.mDepthSourceTable depthstencil
                { Width := desc.Width, Height := desc.Height, DrawCallCount := 0,
                  DrawVerticesCount := 0 } }

/-- The method `OnDeleteDepthStencilView` (lines 2397 to 2409). -/
def OnDeleteDepthStencilView (r : D3D10RuntimeState) (depthstencil : ID3D10DepthStencilView) :
    D3D10RuntimeState :=
  { r with
    mDepthSourceTable := r.mDepthSourceTable.eraseP (fun e => decide (e.1.id = depthstencil.id)) }

/-- The method `OnSetDepthStencilView` (lines 2410 to 2416): the runtime, which no statement
assigns, and the argument after the call. -/
def OnSetDepthStencilView (r : D3D10RuntimeState) (depthstencil : Option ID3D10DepthStencilView) :
    D3D10RuntimeState × Option ID3D10DepthStencilView :=
  if r.mDepthStencilReplacement.isSome ∧ SameView depthstencil r.mDepthStencil then
    (r, r.mDepthStencilReplacement)
  else (r, depthstencil)

/-- The method `OnGetDepthStencilView` (lines 2417 to 2423). -/
def OnGetDepthStencilView (r : D3D10RuntimeState) (depthstencil : Option ID3D10DepthStencilView) :
    D3D10RuntimeState × Option ID3D10DepthStencilView :=
  if r.mDepthStencilReplacement.isSome ∧ SameView depthstencil r.mDepthStencilReplacement then
    (r, r.mDepthStencil)
  else (r, depthstencil)

/-- The method `OnClearDepthStencilView` (lines 2424 to 2430). -/
def OnClearDepthStencilView (r : D3D10RuntimeState)
    (depthstencil : Option ID3D10DepthStencilView) :
    D3D10RuntimeState × Option ID3D10DepthStencilView :=
  if r.mDepthStencilReplacement.isSome ∧ SameView depthstencil r.mDepthStencil then
    (r, r.mDepthStencilReplacement)
  else (r, depthstencil)

/-! ### The replacement of the depth-stencil (lines 2604 to 2763) -/

/-- The first switch of `CreateDepthStencilReplacement` (lines 2625 to 2643). -/
def DepthTypelessFormat (format : DXGI_FORMAT) : DXGI_FORMAT :=
  if format = DXGI_FORMAT_R16_TYPELESS ∨ format = DXGI_FORMAT_D16_UNORM then
    DXGI_FORMAT_R16_TYPELESS
  else if format = DXGI_FORMAT_R32_TYPELESS ∨ format = DXGI_FORMAT_D32_FLOAT then
    DXGI_FORMAT_R32_TYPELESS
  else if format = DXGI_FORMAT_R32G8X24_TYPELESS ∨
      format = DXGI_FORMAT_D32_FLOAT_S8X24_UINT then
    DXGI_FORMAT_R32G8X24_TYPELESS
  else DXGI_FORMAT_R24G8_TYPELESS

/-- The switch of lines 2655 to 2669 on a descriptor filled with zeros. -/
def DepthViewFormat (format : DXGI_FORMAT) : DXGI_FORMAT :=
  if format = DXGI_FORMAT_R16_TYPELESS then DXGI_FORMAT_D16_UNORM
  else if format = DXGI_FORMAT_R32_TYPELESS then DXGI_FORMAT_D32_FLOAT
  else if format = DXGI_FORMAT_R24G8_TYPELESS then DXGI_FORMAT_D24_UNORM_S8_UINT
  else if format = DXGI_FORMAT_R32G8X24_TYPELESS then DXGI_FORMAT_D32_FLOAT_S8X24_UINT
  else DXGI_FORMAT_UNKNOWN

/-- The switch of lines 2695 to 2709 on a descriptor filled with zeros. -/
def DepthResourceFormat (format : DXGI_FORMAT) : DXGI_FORMAT :=
  if format = DXGI_FORMAT_R16_TYPELESS then DXGI_FORMAT_R16_FLOAT
  else if format = DXGI_FORMAT_R32_TYPELESS then DXGI_FORMAT_R32_FLOAT
  else if format = DXGI_FORMAT_R24G8_TYPELESS then DXGI_FORMAT_R24_UNORM_X8_TYPELESS
  else if format = DXGI_FORMAT_R32G8X24_TYPELESS then DXGI_FORMAT_R32_FLOAT_X8X24_TYPELESS
  else DXGI_FORMAT_UNKNOWN

/-- The loop of lines 2753 to 2761 over the textures of the effect that remain: the textures
and the techniques of the effect after it. -/
def UpdateDepthTextures (srv : Option ID3D10ShaderResourceView) :
    List (String × D3D10Texture) → List (String × D3D10Technique) →
    Option (List (String × D3D10Texture) × List (String × D3D10Technique))
  | [], techniques => some ([], techniques)
  | entry :: rest, techniques =>
      if entry.2.mSource = Source.DepthStencil then
        match ChangeSource entry.2 srv none techniques with
        | none => none
        | some (texture, techniques1) =>
            match UpdateDepthTextures srv rest techniques1 with
            | none => none
            | some (rest1, techniques2) => some ((entry.1, texture) :: rest1, techniques2)
      else
        match UpdateDepthTextures srv rest techniques with
        | none => none
        | some (rest1, techniques1) => some (entry :: rest1, techniques1)

/-- Lines 2749 to 2762 of `CreateDepthStencilReplacement`: the effect of the runtime after its
textures of source `DepthStencil` were pointed at the view. -/
def UpdateEffectTextures (effect : Option D3D10Effect)
    (srv : Option ID3D10ShaderResourceView) : Option (Option D3D10Effect) :=
  match effect with
  | none => some none
  | some e =>
      match UpdateDepthTextures srv e.mTextures e.mTechniques with
      | none => none
      | some (textures, techniques) =>
          some (some { e with mTextures := textures, mTechniques := techniques })

/-- Lines 2726 to 2747 of `CreateDepthStencilReplacement`: when the depth source is bound to
the device, the replacement is bound in its place. -/
def RebindDepthStencil (r : D3D10RuntimeState) : D3D10RuntimeState :=
  if ¬ SameView r.mDepthStencil r.mDepthStencilReplacement then
    if r.pipeline.DepthStencil.isSome ∧ SameView r.pipeline.DepthStencil r.mDepthStencil then
      { r with
        pipeline :=
          OMSetRenderTargets D3D10_SIMULTANEOUS_RENDER_TARGET_COUNT
            (OMGetRenderTargets D3D10_SIMULTANEOUS_RENDER_TARGET_COUNT r.pipeline)
            r.mDepthStencilReplacement r.pipeline }
    else r
  else r

/-- Lines 2611 to 2747 of `CreateDepthStencilReplacement` for a view that is not null: the
runtime, and whether the method goes on (`false` is the early `return false`). The resource of
the view is taken for a 2D texture. -/
def InstallDepthStencil (device : Device) (view : ID3D10DepthStencilView)
    (r : D3D10RuntimeState) : Option (D3D10RuntimeState × Bool) :=
  match view.resource with
  | ID3D10Resource.Other _ => none
  | ID3D10Resource.Texture2D texture =>
      let created : D3D10RuntimeState × HRESULT × D3D10_TEXTURE2D_DESC :=
        if texture.desc.BindFlags &&& D3D10_BIND_SHADER_RESOURCE = 0 then
          let texdesc : D3D10_TEXTURE2D_DESC :=
            { texture.desc with
              Format := DepthTypelessFormat texture.desc.Format,
              BindFlags := D3D10_BIND_DEPTH_STENCIL ||| D3D10_BIND_SHADER_RESOURCE }
          let c1 := device.call r.calls (DeviceRequest.CreateTexture2D texdesc)
          if SUCCEEDED c1.1.hr then
            let replacement : ID3D10Texture2D :=
              { id := ObjectId.Created r.calls.length, desc := texdesc }
            let dsvdesc : D3D10_DEPTH_STENCIL_VIEW_DESC :=
              { Format := DepthViewFormat texdesc.Format,
                ViewDimension := D3D10_DSV_DIMENSION_TEXTURE2D }
            let c2 := device.call c1.2 (DeviceRequest.CreateDepthStencilView replacement dsvdesc)
            ({ r with
               mDepthStencil := some view,
               mDepthStencilTexture := some replacement,
               mDepthStencilReplacement :=
                 if SUCCEEDED c2.1.hr then
                   some { id := ObjectId.Created c1.2.length,
                          resource := ID3D10Resource.Texture2D replacement }
                 else none,
               calls := c2.2 }, c2.1.hr, texdesc)
          else
            ({ r with mDepthStencil := some view, mDepthStencilTexture := none, calls := c1.2 },
             c1.1.hr, texdesc)
        else
          ({ r with
             mDepthStencil := some view,
             mDepthStencilTexture := some texture,
             mDepthStencilReplacement := some view }, 0, texture.desc)
      if FAILED created.2.1 then
        some ({ created.1 with mDepthStencil := none, mDepthStencilTexture := none }, false)
      else
        match created.1.mDepthStencilTexture with
        | none => none
        | some resource =>
            let srvdesc : D3D10_SHADER_RESOURCE_VIEW_DESC :=
              { Format := DepthResourceFormat created.2.2.Format,
                ViewDimension := D3D10_SRV_DIMENSION_TEXTURE2D, MostDetailedMip := 0,
                MipLevels := 1 }
            let c3 := device.call created.1.calls
              (DeviceRequest.CreateShaderResourceView resource srvdesc)
            if FAILED c3.1.hr then
              some ({ created.1 with
                      mDepthStencil := none, mDepthStencilReplacement := none,
                      mDepthStencilTexture := none, calls := c3.2 }, false)
            else
              some (RebindDepthStencil
                { created.1 with
                  mDepthStencilTextureSRV :=
                    some { id := ObjectId.Created created.1.calls.length, resource := resource,
                           desc := srvdesc },
                  calls := c3.2 }, true)

/-- The method `CreateDepthStencilReplacement` (lines 2604 to 2763): the runtime and the value
returned. -/
def CreateDepthStencilReplacement (device : Device)
    (depthstencil : Option ID3D10DepthStencilView) (r : D3D10RuntimeState) :
    Option (D3D10RuntimeState × Bool) :=
  let released : D3D10RuntimeState :=
    { r with
      mDepthStencil := none, mDepthStencilReplacement := none, mDepthStencilTexture := none,
      mDepthStencilTextureSRV := none }
  let installed : Option (D3D10RuntimeState × Bool) :=
    match depthstencil with
    | none => some (released, true)
    | some view => InstallDepthStencil device view released
  match installed with
  | none => none
  | some (r1, false) => some (r1, false)
  | some (r1, true) =>
      match UpdateEffectTextures r1.mEffect r1.mDepthStencilTextureSRV with
      | none => none
      | some effect => some ({ r1 with mEffect := effect }, true)

/-! ### The arithmetic of the type `float`

Line 2490 computes with operands of the type `FLOAT`: every operation gives the value of the
type that is nearest to the exact result. -/

/-- A value of the type `float` (IEEE 754 binary32): a finite value, an infinity or a NaN. The
two zeros are one value: the operations below are those of line 2490, whose only divisor is
converted from an unsigned integer and whose result is compared, and neither tells the zeros
apart. -/
inductive Float32 : Type
  | finite (value : ℚ) : Float32
  | infinite (negative : Bool) : Float32
  | nan : Float32
deriving DecidableEq

/-- The exponent of the binade of a rational that is not negative, found among the `k`
lowest exponents above -126: the largest `e` with `2 ^ e ≤ a`, and -126, the exponent of the
subnormal values, when there is none. -/
def Float32.exponent (a : ℚ) : Nat → Int
  | 0 => -126
  | k + 1 => if (2 : ℚ) ^ ((k : Int) - 125) ≤ a then (k : Int) - 125 else Float32.exponent a k

/-- The integer nearest to a rational that is not negative; of two nearest integers the even
one. -/
def RoundHalfEven (x : ℚ) : Int :=
  if x - ⌊x⌋ < 1 / 2 then ⌊x⌋
  else if 1 / 2 < x - ⌊x⌋ then ⌊x⌋ + 1
  else if ⌊x⌋ % 2 = 0 then ⌊x⌋ else ⌊x⌋ + 1

/-- The value of the type `float` that is nearest to a rational (rounding to nearest, ties to
even, the rounding of the arithmetic of C++ on `float`): a multiple of `2 ^ (e - 23)`, where
`e` is the exponent of the rational, between -126 and 127, or an infinity from `2 ^ 128`
on. -/
def Float32.round (q : ℚ) : Float32 :=
  let quantum : ℚ := 2 ^ (Float32.exponent |q| 253 - 23)
  let r : ℚ := RoundHalfEven (|q| / quantum) * quantum
  if (2 : ℚ) ^ (128 : Int) ≤ r then Float32.infinite (decide (q < 0))
  else Float32.finite (if q < 0 then -r else r)

/-- The conversion of an unsigned integer to `float`. -/
def Float32.ofNat (n : Nat) : Float32 := Float32.round n

/-- The literal `1.2f`: the value of the type `float` nearest to 1.2, which is
`0x3F99999A`. -/
def FLOAT_1_2 : Float32 := Float32.round (6 / 5)

/-- The quotient of two values of the type `float`, the divisor being no negative zero. -/
def Float32.div : Float32 → Float32 → Float32
  | Float32.finite x, Float32.finite y =>
      if y = 0 then (if x = 0 then Float32.nan else Float32.infinite (decide (x < 0)))
      else Float32.round (x / y)
  | Float32.finite _, Float32.infinite _ => Float32.finite 0
  | Float32.infinite s, Float32.finite y => Float32.infinite (xor s (decide (y < 0)))
  | Float32.infinite _, Float32.infinite _ => Float32.nan
  | Float32.nan, _ => Float32.nan
  | _, Float32.nan => Float32.nan

/-- The difference of two values of the type `float`. -/
def Float32.sub : Float32 → Float32 → Float32
  | Float32.finite x, Float32.finite y => Float32.round (x - y)
  | Float32.finite _, Float32.infinite t => Float32.infinite (!t)
  | Float32.infinite s, Float32.finite _ => Float32.infinite s
  | Float32.infinite s, Float32.infinite t => if s = t then Float32.nan else Float32.infinite s
  | Float32.nan, _ => Float32.nan
  | _, Float32.nan => Float32.nan

/-- The product of two values of the type `float`. -/
def Float32.mul : Float32 → Float32 → Float32
  | Float32.finite x, Float32.finite y => Float32.round (x * y)
  | Float32.finite x, Float32.infinite t =>
      if x = 0 then Float32.nan else Float32.infinite (xor (decide (x < 0)) t)
  | Float32.infinite s, Float32.finite y =>
      if y = 0 then Float32.nan else Float32.infinite (xor s (decide (y < 0)))
  | Float32.infinite s, Float32.infinite t => Float32.infinite (xor s t)
  | Float32.nan, _ => Float32.nan
  | _, Float32.nan => Float32.nan

/-- The comparison `a >= b` of two values of the type `float`; it is false when one of them is
a NaN. -/
def Float32.ge : Float32 → Float32 → Bool
  | Float32.finite x, Float32.finite y => decide (y ≤ x)
  | Float32.finite _, Float32.infinite t => t
  | Float32.infinite s, Float32.finite _ => !s
  | Float32.infinite s, Float32.infinite t => !s || t
  | Float32.nan, _ => false
  | _, Float32.nan => false

/-- The value is a finite value that is not negative, or the positive infinity. -/
def Float32.NonNeg : Float32 → Prop
  | Float32.finite x => 0 ≤ x
  | Float32.infinite s => s = false
  | Float32.nan => False

/-! ### The detection of the depth source (lines 2449 to 2505) -/

/-- The score of a candidate as line 2490 computes it, in the arithmetic of `float`:
`DrawVerticesCount * (1.2f - DrawCallCount / mLastDrawCalls)`, where `total` is the unsigned
integer `mLastDrawCalls`, converted to `float` for the division. -/
def Score (total : Nat) (info : DepthSourceInfo) : Float32 :=
  Float32.mul (Float32.finite info.DrawVerticesCount)
    (Float32.sub FLOAT_1_2
      (Float32.div (Float32.finite info.DrawCallCount) (Float32.ofNat total)))

/-- The score of the specification, `vertices * (1.2 - calls / total_calls)`, in exact
arithmetic. -/
def ExactScore (total : Nat) (info : DepthSourceInfo) : ℚ :=
  info.DrawVerticesCount * (6 / 5 - info.DrawCallCount / (total : ℚ))

/-- The loop of lines 2484 to 2497 over the entries of the table that remain: the entries
after it, and `best` with `bestInfo`. -/
def SelectDepthSource (total : Nat) :
    List (ID3D10DepthStencilView × DepthSourceInfo) →
    Option ID3D10DepthStencilView → DepthSourceInfo →
    List (ID3D10DepthStencilView × DepthSourceInfo) ×
      Option ID3D10DepthStencilView × DepthSourceInfo
  | [], best, bestInfo => ([], best, bestInfo)
  | it :: rest, best, bestInfo =>
      if it.2.DrawCallCount = 0 then
        let result := SelectDepthSource total rest best bestInfo
        (it :: result.1, result.2.1, result.2.2)
      else
        let chosen : Option ID3D10DepthStencilView × DepthSourceInfo :=
          if Float32.ge (Score total it.2) (Score total bestInfo) = true then (some it.1, it.2)
          else (best, bestInfo)
        let result := SelectDepthSource total rest chosen.1 chosen.2
        ((it.1, { it.2 with DrawCallCount := 0, DrawVerticesCount := 0 }) :: result.1,
          result.2.1, result.2.2)

/-- The value `{ 0 }` of `bestInfo` in line 2481. -/
def DepthSourceInfo.zero : DepthSourceInfo :=
  { Width := 0, Height := 0, DrawCallCount := 0, DrawVerticesCount := 0 }

/-- The method `DetectDepthSource` (lines 2449 to 2505); `network` is the value of
`sNetworkUpload + sNetworkDownload`. -/
def DetectDepthSource (device : Device) (network : Int) (r : D3D10RuntimeState) :
    Option D3D10RuntimeState :=
  if 0 < r.cooldown then
    some { r with
      cooldown := r.cooldown - 1,
      traffic := r.traffic + (if 0 < network then 1 else 0) }
  else if r.traffic > 10 then
    match CreateDepthStencilReplacement device none { r with cooldown := 30, traffic := 0 } with
    | none => none
    | some (r1, _) => some r1
  else
    let r1 : D3D10RuntimeState := { r with cooldown := 30, traffic := 0 }
    if r1.mSwapChainDescSampleCount > 1 ∨ r1.mDepthSourceTable.isEmpty then some r1
    else
      let selected :=
        SelectDepthSource r1.mLastDrawCalls r1.mDepthSourceTable none DepthSourceInfo.zero
      let r2 : D3D10RuntimeState := { r1 with mDepthSourceTable := selected.1 }
      if selected.2.1.isSome ∧ ¬ SameView r2.mDepthStencil selected.2.1 then
        match CreateDepthStencilReplacement device selected.2.1 r2 with
        | none => none
        | some (r3, _) => some r3
      else some r2

namespace Example

/-- A depth texture of the host of 640 by 480 pixels that cannot be bound as a shader
resource. -/
def depthTexture (n : Nat) : ID3D10Texture2D :=
  { id := ObjectId.Host n,
    desc := { Width := 640, Height := 480, MipLevels := 1, ArraySize := 1,
              Format := DXGI_FORMAT_D24_UNORM_S8_UINT, SampleDescCount := 1,
              SampleDescQuality := 0, Usage := D3D10_USAGE_DEFAULT,
              BindFlags := D3D10_BIND_DEPTH_STENCIL, CPUAccessFlags := 0, MiscFlags := 0 } }

/-- A depth-stencil view of the host on its own depth texture. -/
def depthView (n : Nat) : ID3D10DepthStencilView :=
  { id := ObjectId.Host (100 + n), resource := ID3D10Resource.Texture2D (depthTexture n) }

/-- The counters of a candidate of 640 by 480 pixels. -/
def counted (calls vertices : ℚ) : DepthSourceInfo :=
  { Width := 640, Height := 480, DrawCallCount := calls, DrawVerticesCount := vertices }

/-- A runtime that is not lost, on a swap chain of 640 by 480 pixels without multisampling,
with no depth source, no candidate and no effect; nothing is bound to the device. -/
def idle : D3D10RuntimeState :=
  { mLost := false, mSwapChainDescWidth := 640, mSwapChainDescHeight := 480,
    mSwapChainDescSampleCount := 1, mSwapChainDescFormat := DXGI_FORMAT_R8G8B8A8_UNORM,
    mBackBuffer := none, mBackBufferReplacement := none, mBackBufferTexture := none,
    mBackBufferTextureSRV := (none, none), mBackBufferTargets := (none, none),
    mDefaultDepthStencil := none, mDepthStencil := none, mDepthStencilReplacement := none,
    mDepthStencilTexture := none, mDepthStencilTextureSRV := none, mDepthSourceTable := [],
    mLastDrawCalls := 0, mEffect := none, cooldown := 0, traffic := 0,
    pipeline := { RenderTargets := List.replicate 8 none, DepthStencil := none,
                  Viewport := none },
    calls := [] }

/-- A runtime whose depth source is the view 1 and whose replacement is the view 2. -/
def replaced : D3D10RuntimeState :=
  { idle with
    mDepthStencil := some (depthView 1), mDepthStencilReplacement := some (depthView 2),
    mDepthSourceTable := [(depthView 1, counted 0 0)] }

end Example

/-! ### The presentation of a frame (lines 2298 to 2353) -/

/-- Modelled from the spec: the methods `OnPostProcess` and `OnPresent` of the base class
`Runtime`, whose code is outside the sources. They are parameters that may change every member
of the runtime and every binding of the device. -/
structure RuntimeBase where
  OnPostProcess : D3D10RuntimeState → D3D10RuntimeState
  OnPresent : D3D10RuntimeState → D3D10RuntimeState

/-- The call `RSSetViewports(1, &viewport)` of the device. -/
def RSSetViewports (viewport : D3D10_VIEWPORT) (p : PipelineState) : PipelineState :=
  { p with Viewport := some viewport }

/-- The method `OnPresentInternal` (lines 2298 to 2353). The state block captures the bindings
of the device and applies them again; `ResolveSubresource` copies between two textures and
changes no member and no binding. -/
def OnPresentInternal (base : RuntimeBase) (device : Device) (network : Int)
    (r : D3D10RuntimeState) : Option D3D10RuntimeState :=
  if r.mLost then some r
  else
    match DetectDepthSource device network r with
    | none => none
    | some r1 =>
        let captured := r1.pipeline
        let stateblockTargets :=
          OMGetRenderTargets D3D10_SIMULTANEOUS_RENDER_TARGET_COUNT r1.pipeline
        let stateblockDepthStencil := r1.pipeline.DepthStencil
        let r2 : D3D10RuntimeState :=
          { r1 with pipeline := OMSetRenderTargets 1 [r1.mBackBufferTargets.1] none r1.pipeline }
        let r3 := base.OnPostProcess r2
        let r4 : D3D10RuntimeState :=
          { r3 with
            pipeline :=
              RSSetViewports
                { TopLeftX := 0, TopLeftY := 0, Width := r3.mSwapChainDescWidth,
                  Height := r3.mSwapChainDescHeight, MinDepth := 0, MaxDepth := 0x3F800000 }
                (OMSetRenderTargets 1 [r3.mBackBufferTargets.1] r3.mDefaultDepthStencil
                  r3.pipeline) }
        let r5 := base.OnPresent r4
        if r5.mLost then some r5
        else
          some { r5 with
            pipeline :=
              OMSetRenderTargets D3D10_SIMULTANEOUS_RENDER_TARGET_COUNT stateblockTargets
                stateblockDepthStencil captured }

/-- The bindings `q` are the bindings `p` with the replacement bound in the place of the depth
source, as lines 2726 to 2747 of `CreateDepthStencilReplacement` leave them: `p` has the depth
source bound, which is another view than the replacement. -/
def Rebound (p q : PipelineState) (source replacement : Option ID3D10DepthStencilView) : Prop :=
  p.DepthStencil.isSome ∧ SameView p.DepthStencil source ∧ ¬ SameView source replacement ∧
    q = OMSetRenderTargets D3D10_SIMULTANEOUS_RENDER_TARGET_COUNT
      (OMGetRenderTargets D3D10_SIMULTANEOUS_RENDER_TARGET_COUNT p) replacement p

namespace Example

/-- A base class whose `OnPostProcess` and `OnPresent` change nothing. -/
def quietBase : RuntimeBase := { OnPostProcess := fun r => r, OnPresent := fun r => r }

/-- A base class whose `OnPresent` leaves the runtime lost. -/
def losingBase : RuntimeBase :=
  { OnPostProcess := fun r => r, OnPresent := fun r => { r with mLost := true } }

/-- A runtime whose cool-down has expired, with the view 1 as only candidate, counted with one
draw call of three vertices, and bound to the device as depth-stencil. -/
def drawn : D3D10RuntimeState :=
  { idle with
    mLastDrawCalls := 1, mDepthSourceTable := [(depthView 1, counted 1 3)],
    pipeline := { RenderTargets := List.replicate 8 none, DepthStencil := some (depthView 1),
                  Viewport := none } }

end Example

/-! ### The replacement of the back buffer (lines 2506 to 2603) -/

/-- The method `CreateBackBufferReplacement(backbuffer, samples)`: the runtime and the value
returned. The views of the render targets are created on the member `mBackBuffer`, which the
method takes for a texture. -/
def CreateBackBufferReplacement (device : Device) (backbuffer : ID3D10Texture2D)
    (samplesCount samplesQuality : Nat) (r : D3D10RuntimeState) :
    Option (D3D10RuntimeState × Bool) :=
  match r.mBackBuffer with
  | none => none
  | some mBackBuffer =>
      let texdesc0 : D3D10_TEXTURE2D_DESC :=
        { backbuffer.desc with
          SampleDescCount := samplesCount, SampleDescQuality := samplesQuality,
          BindFlags := D3D10_BIND_RENDER_TARGET }
      let c0 := device.call r.calls (DeviceRequest.CreateTexture2D texdesc0)
      if samplesCount > 1 ∧ FAILED c0.1.hr then
        some ({ r with mBackBufferReplacement := none, calls := c0.2 }, false)
      else
        let r0 : D3D10RuntimeState :=
          if samplesCount > 1 then
            { r with
              mBackBufferReplacement :=
                some { id := ObjectId.Created r.calls.length, desc := texdesc0 },
              calls := c0.2 }
          else { r with mBackBufferReplacement := some mBackBuffer }
        let texdesc : D3D10_TEXTURE2D_DESC :=
          { texdesc0 with
            Format := MakeTypelessFormat texdesc0.Format, SampleDescCount := 1,
            SampleDescQuality := 0, BindFlags := D3D10_BIND_SHADER_RESOURCE }
        let released : D3D10RuntimeState → D3D10RuntimeState := fun s =>
          { s with
            mBackBufferReplacement := none, mBackBufferTexture := none,
            mBackBufferTextureSRV := (none, none) }
        let c1 := device.call r0.calls (DeviceRequest.CreateTexture2D texdesc)
        if FAILED c1.1.hr then some (released { r0 with calls := c1.2 }, false)
        else
          let texture : ID3D10Texture2D :=
            { id := ObjectId.Created r0.calls.length, desc := texdesc }
          let srvdesc : D3D10_SHADER_RESOURCE_VIEW_DESC :=
            { Format := MakeNonSRBFormat texdesc.Format,
              ViewDimension := D3D10_SRV_DIMENSION_TEXTURE2D, MostDetailedMip := 0,
              MipLevels := texdesc.MipLevels }
          let c2 := device.call c1.2 (DeviceRequest.CreateShaderResourceView texture srvdesc)
          if FAILED c2.1.hr then some (released { r0 with calls := c2.2 }, false)
          else
            let srvdesc1 : D3D10_SHADER_RESOURCE_VIEW_DESC :=
              { srvdesc with Format := MakeSRGBFormat texdesc.Format }
            let c3 := device.call c2.2 (DeviceRequest.CreateShaderResourceView texture srvdesc1)
            if FAILED c3.1.hr then some (released { r0 with calls := c3.2 }, false)
            else
              let r1 : D3D10RuntimeState :=
                { r0 with
                  mBackBufferTexture := some texture,
                  mBackBufferTextureSRV :=
                    (some { id := ObjectId.Created c1.2.length, resource := texture,
                            desc := srvdesc },
                     some { id := ObjectId.Created c2.2.length, resource := texture,
                            desc := srvdesc1 }) }
              let rtdesc : D3D10_RENDER_TARGET_VIEW_DESC :=
                { Format := MakeNonSRBFormat texdesc.Format,
                  ViewDimension := D3D10_RTV_DIMENSION_TEXTURE2D }
              let c4 := device.call c3.2 (DeviceRequest.CreateRenderTargetView mBackBuffer rtdesc)
              if FAILED c4.1.hr then some (released { r1 with calls := c4.2 }, false)
              else
                let rtdesc1 : D3D10_RENDER_TARGET_VIEW_DESC :=
                  { rtdesc with Format := MakeSRGBFormat texdesc.Format }
                let c5 := device.call c4.2
                  (DeviceRequest.CreateRenderTargetView mBackBuffer rtdesc1)
                if FAILED c5.1.hr then
                  some ({ released { r1 with calls := c5.2 } with
                          mBackBufferTargets := (none, r1.mBackBufferTargets.2) }, false)
                else
                  some ({ r1 with
                          mBackBufferTargets :=
                            (some { id := ObjectId.Created c3.2.length, resource := mBackBuffer,
                                    desc := rtdesc },
                             some { id := ObjectId.Created c4.2.length, resource := mBackBuffer,
                                    desc := rtdesc1 }),
                          calls := c5.2 }, true)

/-! ### The rendering of a pass (`D3D10Technique::RenderPass`, lines 3064 to 3166) -/

def D3D10_DEFAULT_SAMPLE_MASK : Nat := 0xffffffff
def D3D10_COMMONSHADER_INPUT_RESOURCE_SLOT_COUNT : Nat := 128

/-- The calls of `RenderPass` and of `D3D10Texture::Update` that return nothing, on the device
and, with `OnDraw`, on the base class `Runtime`. -/
inductive Command : Type
  | VSSetShader (shader : Option ID3D10Shader) : Command
  | GSSetShader (shader : Option ID3D10Shader) : Command
  | PSSetShader (shader : Option ID3D10Shader) : Command
  | OMSetBlendState (state : Option ID3D10BlendState) (blendfactor : List FLOAT)
      (sampleMask : Nat) : Command
  | OMSetDepthStencilState (state : Option ID3D10DepthStencilState) (stencilRef : Nat) : Command
  | CopyResource (destination source : Option ID3D10Texture2D) : Command
  | VSSetShaderResources (views : List (Option ID3D10ShaderResourceView)) : Command
  | PSSetShaderResources (views : List (Option ID3D10ShaderResourceView)) : Command
  | OMSetRenderTargets (count : Nat) (targets : List (Option ID3D10RenderTargetView))
      (depthstencil : Option ID3D10DepthStencilView) : Command
  | RSSetViewports (viewport : D3D10_VIEWPORT) : Command
  | ClearRenderTargetView (target : ID3D10RenderTargetView) (color : List FLOAT) : Command
  | Draw (vertexCount startVertexLocation : Nat) : Command
  | OnDraw (vertices : Nat) : Command
  | GenerateMips (view : ID3D10ShaderResourceView) : Command
  | UpdateSubresource (resource : Option ID3D10Texture2D) (subresource : Nat)
      (data : List Nat) (rowPitch depthPitch : Nat) : Command
deriving DecidableEq

/-- The loop of lines 3073 to 3097 over the constant buffers that remain, with the mirrors of
the same slots: the buffers and the history of the device after it. A buffer that is mapped
receives the first `ByteWidth` bytes of its mirror. -/
def UploadConstants (device : Device) :
    List (Option ID3D10Buffer) → List Storage → List DeviceCall →
    Option (List (Option ID3D10Buffer) × List DeviceCall)
  | [], _, calls => some ([], calls)
  | _ :: _, [], _ => none
  | none :: buffers, _ :: storages, calls =>
      match UploadConstants device buffers storages calls with
      | none => none
      | some (buffers1, calls1) => some (none :: buffers1, calls1)
  | some buffer :: buffers, storage :: storages, calls =>
      let mapped := device.call calls (DeviceRequest.Map buffer)
      if FAILED mapped.1.hr then
        match UploadConstants device buffers storages mapped.2 with
        | none => none
        | some (buffers1, calls1) => some (some buffer :: buffers1, calls1)
      else
        match storage with
        | none => none
        | some mirror =>
            match ReadBytes mirror 0 buffer.desc.ByteWidth with
            | none => none
            | some bytes =>
                match UploadConstants device buffers storages mapped.2 with
                | none => none
                | some (buffers1, calls1) =>
                    some (some { buffer with content := bytes } :: buffers1, calls1)

/-- Lines 3070 to 3100 of `RenderPass`: the effect and the history of the device after the
upload of the uniforms. -/
def UpdateShaderConstants (device : Device) (effect : D3D10Effect) (calls : List DeviceCall) :
    Option (D3D10Effect × List DeviceCall) :=
  if effect.mConstantsDirty then
    match UploadConstants device effect.mConstantBuffers effect.mConstantStorages calls with
    | none => none
    | some (buffers, calls1) =>
        some ({ effect with mConstantBuffers := buffers, mConstantsDirty := false }, calls1)
  else some (effect, calls)

/-- The depth-stencil view that line 3123 of `RenderPass` binds with the render targets. -/
def PassDepthStencil (r : D3D10RuntimeState) (pass : Pass) : Option ID3D10DepthStencilView :=
  if pass.Viewport.Width = r.mSwapChainDescWidth ∧
      pass.Viewport.Height = r.mSwapChainDescHeight then r.mDefaultDepthStencil
  else none

/-- The method `D3D10Technique::RenderPass(index)` of a technique of `effect`: the effect, the
history of the device and the calls made. -/
def RenderPass (device : Device) (r : D3D10RuntimeState) (effect : D3D10Effect)
    (technique : D3D10Technique) (index : Nat) :
    Option (D3D10Effect × List DeviceCall × List Command) :=
  match technique.mPasses[index]? with
  | none => none
  | some pass =>
      match UpdateShaderConstants device effect r.calls with
      | none => none
      | some (effect1, calls) =>
          if pass.SRV.length > D3D10_COMMONSHADER_INPUT_RESOURCE_SLOT_COUNT then none
          else
            some (effect1, calls,
              [Command.VSSetShader pass.VS, Command.GSSetShader none,
               Command.PSSetShader pass.PS,
               Command.OMSetBlendState pass.BS
                 [0x3F800000, 0x3F800000, 0x3F800000, 0x3F800000] D3D10_DEFAULT_SAMPLE_MASK,
               Command.OMSetDepthStencilState pass.DSS pass.StencilRef,
               Command.CopyResource r.mBackBufferTexture r.mBackBuffer,
               Command.VSSetShaderResources pass.SRV, Command.PSSetShaderResources pass.SRV,
               Command.OMSetRenderTargets D3D10_SIMULTANEOUS_RENDER_TARGET_COUNT pass.RT
                 (PassDepthStencil r pass),
               Command.RSSetViewports pass.Viewport] ++
              ((pass.RT.take D3D10_SIMULTANEOUS_RENDER_TARGET_COUNT).filterMap (fun target =>
                target.map (fun view => Command.ClearRenderTargetView view [0, 0, 0, 0]))) ++
              [Command.Draw 3 0, Command.OnDraw 3,
               Command.VSSetShaderResources (List.replicate pass.SRV.length none),
               Command.PSSetShaderResources (List.replicate pass.SRV.length none),
               Command.OMSetRenderTargets 0 [] none] ++
              (pass.RTSRV.filterMap (fun srv =>
                match srv with
                | some view =>
                    if view.desc.MipLevels > 1 then some (Command.GenerateMips view) else none
                | none => none)))

namespace Example

/-- An effect file with `uniform float gain;` and a technique whose pass has no shaders and
renders to the back buffer. -/
def uniformTree : FX.Tree :=
  { Types := [], Uniforms := [gain], Functions := [], Techniques := [technique []] }

/-- The bytes of the `float` 0.5, whose IEEE-754 encoding is `0x3F000000`, in the order of
memory of a little-endian machine. -/
def half : List Nat := [0x00, 0x00, 0x00, 0x3F]

end Example

/-- The runtime as the compiler of effects reads it, taken from the state of the runtime. -/
def D3D10RuntimeState.toRuntime (r : D3D10RuntimeState) (device : Device)
    (skipShaderOptimization : Bool) : D3D10Runtime :=
  { mDevice := device, mBackBufferTextureSRV := r.mBackBufferTextureSRV,
    mBackBufferTargets := r.mBackBufferTargets,
    mDepthStencilTextureSRV := r.mDepthStencilTextureSRV,
    mSwapChainDescWidth := r.mSwapChainDescWidth,
    mSwapChainDescHeight := r.mSwapChainDescHeight,
    mSkipShaderOptimization := skipShaderOptimization }

namespace Example

/-- The back buffer of the swap chain of the host: 640 by 480 pixels, one sample. -/
def backBuffer : ID3D10Texture2D :=
  { id := ObjectId.Host 7,
    desc := { Width := 640, Height := 480, MipLevels := 1, ArraySize := 1,
              Format := DXGI_FORMAT_R8G8B8A8_UNORM, SampleDescCount := 1,
              SampleDescQuality := 0, Usage := D3D10_USAGE_DEFAULT,
              BindFlags := D3D10_BIND_RENDER_TARGET, CPUAccessFlags := 0, MiscFlags := 0 } }

/-- The runtime `idle` with the back buffer of the host and a default depth-stencil view. -/
def presenting : D3D10RuntimeState :=
  { idle with mBackBuffer := some backBuffer, mDefaultDepthStencil := some (depthView 9) }

/-- The runtime `presenting` after `CreateBackBufferReplacement` has created the views of the
back buffer on a device that succeeds. -/
def presented : D3D10RuntimeState :=
  ((CreateBackBufferReplacement okDevice backBuffer 1 0 presenting).map Prod.fst).getD presenting

/-- The environment of a compilation on the runtime `presented`. -/
def presentedEnv : Env :=
  { env okDevice with mRuntime := presented.toRuntime okDevice false }

/-- A pass without shaders and without render targets that writes sRGB. -/
def srgbPass : FX.Pass :=
  { States := { states [] with SRGBWriteEnable := true }, Location := location }

end Example

/-! ## Sampler states and their numbering -/

/-- Lines 1551 to 1600 of `VisitSampler`: the descriptor that the method fills from the
properties of the declaration, in storage whose member `BorderColor` holds the words
`border` and is not assigned. -/
def SamplerDescOf (k : FX.Literals) (border : List FLOAT) (node : FX.Variable) :
    D3D10_SAMPLER_DESC :=
  { Filter := SamplerFilter k node.Properties.MinFilter node.Properties.MagFilter
      node.Properties.MipFilter,
    AddressU := node.Properties.AddressU, AddressV := node.Properties.AddressV,
    AddressW := node.Properties.AddressW, MipLODBias := node.Properties.MipLODBias,
    MaxAnisotropy := node.Properties.MaxAnisotropy,
    ComparisonFunc := D3D10_COMPARISON_NEVER, BorderColor := border,
    MinLOD := node.Properties.MinLOD, MaxLOD := node.Properties.MaxLOD }

/-- The value of the local `descHash` of `VisitSampler` (line 1611) for a declaration, when
the storage of `BorderColor` holds the words `border`. -/
def SamplerHash (env : Env) (border : List FLOAT) (node : FX.Variable) : Nat :=
  D3D10_SAMPLER_DESC_HASH (env.samplerDescBytes (SamplerDescOf env.literals border node))

/-- The values of a list in the order of their first occurrence, behind the values seen
before. -/
def FirstOccurrences (seen : List Nat) : List Nat → List Nat
  | [] => seen
  | h :: rest => FirstOccurrences (if h ∈ seen then seen else seen ++ [h]) rest

/-- What each value of a list of hashes does to the table of sampler states, after the hashes
`seen`: whether a sampler state is created for it, and the number of its sampler state. -/
def SamplerEvents (seen : List Nat) : List Nat → List (Bool × Nat)
  | [] => []
  | h :: rest =>
      if h ∈ seen then (false, seen.indexOf h) :: SamplerEvents seen rest
      else (true, seen.length) :: SamplerEvents (seen ++ [h]) rest

/-- The declaration of the sampler state `n` in the generated source (line 1630). -/
def SamplerStateLine (n : Nat) : String :=
  "SamplerState __SamplerState" ++ toString n ++ " : register(s" ++ toString n ++ ");\n"

/-- The name of the texture in the initializer of a sampler (lines 1637 to 1646). -/
def SamplerTextureName (node : FX.Variable) (textureName : String) (texture : D3D10Texture) :
    String :=
  if node.Properties.SRGBTexture ∧ texture.mShaderResourceView.2.isSome then
    "__" ++ textureName ++ "SRGB"
  else textureName

/-- The `__sampler2D` initializer of a sampler in the generated source (lines 1633 to
1648). -/
def SamplerInitializer (node : FX.Variable) (textureName : String) (texture : D3D10Texture)
    (index : Nat) : String :=
  "static const __sampler2D " ++ node.Name ++ " = \x7b " ++
    SamplerTextureName node textureName texture ++ ", __SamplerState" ++ toString index ++
    " \x7d;\n"

/-- The text that a list of samplers adds to the generated source, given for each sampler
whether its sampler state is created and the number of its sampler state. -/
def SamplersText (effect : D3D10Effect) : List FX.Variable → List (Bool × Nat) → String
  | node :: nodes, (created, index) :: events =>
      (if created then SamplerStateLine index else "") ++
        (match node.Properties.Texture with
         | some textureName =>
             match effect.GetTexture textureName with
             | some texture => SamplerInitializer node textureName texture index
             | none => ""
         | none => "") ++
        SamplersText effect nodes events
  | _, _ => ""

/-- The hash of the descriptor of a sampler state of the effect, as `VisitSampler` computes
it. -/
def StateHash (env : Env) (state : ID3D10SamplerState) : Nat :=
  D3D10_SAMPLER_DESC_HASH (env.samplerDescBytes state.desc)

namespace Example

/-- The declaration `sampler name \x7b Texture = T; \x7d;` with the default states. -/
def samplerOf (name textureName : String) : FX.Variable :=
  FX.Variable.mk (FX.TypeNode.mk FX.Class.Sampler2D [] 0 0 0 none) name "" [] none
    { properties with Texture := some textureName } location

/-- The declaration `sampler name \x7b Texture = T; MinFilter = POINT; \x7d;`. -/
def pointSamplerOf (name textureName : String) : FX.Variable :=
  FX.Variable.mk (FX.TypeNode.mk FX.Class.Sampler2D [] 0 0 0 none) name "" [] none
    { properties with Texture := some textureName, MinFilter := 1 } location

/-- The declaration `sampler name \x7b Texture = T; SRGBTexture = true; \x7d;`. -/
def srgbSamplerOf (name textureName : String) : FX.Variable :=
  FX.Variable.mk (FX.TypeNode.mk FX.Class.Sampler2D [] 0 0 0 none) name "" [] none
    { properties with Texture := some textureName, SRGBTexture := true } location

/-- The declaration `texture name \x7b MipLevels = 0; \x7d;` of a memory texture. -/
def zeroMipTexture (name : String) : FX.Variable :=
  FX.Variable.mk (FX.TypeNode.mk FX.Class.Texture2D [] 0 0 0 none) name "" [] none
    { properties with MipLevels := 0 } location

/-- The declaration `texture name \x7b Format = R32F; \x7d;` of a memory texture, whose format
has no sRGB variant. -/
def floatTexture (name : String) : FX.Variable :=
  FX.Variable.mk (FX.TypeNode.mk FX.Class.Texture2D [] 0 0 0 none) name "" [] none
    { properties with Format := 114 } location

/-- The four bytes of a 32-bit member in the order of memory of a little-endian machine. -/
def bytes4 (n : Nat) : List Nat :=
  [n % 256, n / 256 % 256, n / 65536 % 256, n / 16777216 % 256]

/-- An environment whose object representation of a sampler descriptor holds the members in
the order of their declaration, four bytes each, and in which the storage of `BorderColor`
holds zeros at every call of `VisitSampler`. -/
def samplerEnv (device : Device) : Env :=
  { env device with
    samplerDescBytes := fun desc =>
      bytes4 desc.Filter ++ bytes4 desc.AddressU ++ bytes4 desc.AddressV ++
        bytes4 desc.AddressW ++ bytes4 desc.MipLODBias ++ bytes4 desc.MaxAnisotropy ++
        bytes4 desc.ComparisonFunc ++ desc.BorderColor.flatMap bytes4 ++ bytes4 desc.MinLOD ++
        bytes4 desc.MaxLOD,
    indeterminate := fun _ => [0, 0, 0, 0] }

/-- The environment `samplerEnv` in which the storage of `BorderColor` holds, at each call of
`VisitSampler`, what the work done before the call has left there: in its first word the
length of the source generated so far, and zeros in the other three. -/
def staleEnv (device : Device) : Env :=
  { samplerEnv device with
    indeterminate := fun c => [c.mCurrentSource.length, 0, 0, 0] }

/-- The visitor after the declaration `texture T;` on a device that succeeds. -/
def withTexture : D3D10EffectCompiler :=
  (VisitTexture (samplerEnv okDevice) start (texture "T")).getD start

/-- The visitor after the declarations `texture T;` and `texture F \x7b Format = R32F; \x7d;` on a
device that succeeds. -/
def withTextures : D3D10EffectCompiler :=
  (VisitTexture (samplerEnv okDevice) withTexture (floatTexture "F")).getD withTexture

end Example

/-! ## Operators of the shader language -/

/-- The token of HLSL for a binary operator of the effect language; element extraction is
written with brackets and has no token of its own. -/
def BinaryToken : FX.BinaryOp → String
  | FX.BinaryOp.Add => "+"
  | FX.BinaryOp.Subtract => "-"
  | FX.BinaryOp.Multiply => "*"
  | FX.BinaryOp.Divide => "/"
  | FX.BinaryOp.Modulo => "%"
  | FX.BinaryOp.Less => "<"
  | FX.BinaryOp.Greater => ">"
  | FX.BinaryOp.LessOrEqual => "<="
  | FX.BinaryOp.GreaterOrEqual => ">="
  | FX.BinaryOp.Equal => "=="
  | FX.BinaryOp.NotEqual => "!="
  | FX.BinaryOp.LeftShift => "<<"
  | FX.BinaryOp.RightShift => ">>"
  | FX.BinaryOp.BitwiseAnd => "&"
  | FX.BinaryOp.BitwiseOr => "|"
  | FX.BinaryOp.BitwiseXor => "^"
  | FX.BinaryOp.LogicalAnd => "&&"
  | FX.BinaryOp.LogicalOr => "||"
  | FX.BinaryOp.ElementExtract => ""

/-! ## The mirrors of the constant buffers -/

/-- The effect has as many mirrors as slots of constant buffers, and every constant buffer has
a mirror that holds at least as many bytes as the buffer is wide. -/
def Mirrored (e : D3D10Effect) : Prop :=
  e.mConstantBuffers.length = e.mConstantStorages.length ∧
    ∀ (i : Nat) (b : ID3D10Buffer), e.mConstantBuffers[i]? = some (some b) →
      ∃ mirror, e.mConstantStorages[i]? = some (some mirror) ∧
        b.desc.ByteWidth ≤ mirror.length

/-! ## The update of a texture (`D3D10Texture::Update`, lines 2937 to 2956) -/

/-- The method `D3D10Texture::Update(level, data, size)`: the value returned and the calls on
the device. A null pointer `data` is `none`. The division by a height of 0 and the call of
`GenerateMips` with a null view have no defined behaviour. -/
def Update (t : D3D10Texture) (level : Nat) (data : Option (List Nat)) (size : Nat) :
    Option (Bool × List Command) :=
  match data with
  | none => some (false, [])
  | some bytes =>
      if size = 0 ∨ level > t.mDesc.Levels ∨ t.mSource ≠ Source.Memory then some (false, [])
      else if t.mDesc.Height = 0 then none
      else
        let update : Command :=
          Command.UpdateSubresource t.mTexture level bytes
            ((size / t.mDesc.Height) % UINT_MOD) (size % UINT_MOD)
        if level = 0 ∧ t.mDesc.Levels > 1 then
          match t.mShaderResourceView.1 with
          | some view => some (true, [update, Command.GenerateMips view])
          | none => none
        else some (true, [update])

namespace Example

/-- A device on which only the creation of buffers fails, with `E_OUTOFMEMORY`. -/
def noBufferDevice : Device :=
  { respond := fun _ req =>
      match req with
      | DeviceRequest.CreateBuffer _ _ => { hr := -2147024882, compiled := none, errors := none }
      | _ => { hr := 0, compiled := some [], errors := none } }

/-- The type of the uniform block `Params`. -/
def blockType : FX.TypeNode := block.Ty

/-- The field `int mode;` of the uniform block `Params`. -/
def modeField : FX.Variable := numeric FX.Class.Int [] 1 1 "mode"

/-- The field `uniform int mode;`, whose type has the qualifier `uniform`. -/
def uniformModeField : FX.Variable := numeric FX.Class.Int [FX.Qualifier.Uniform] 1 1 "mode"

/-- A uniform block `Globals` with the one field `uniform int mode;`. -/
def uniformBlock : FX.Variable :=
  FX.Variable.mk
    (FX.TypeNode.mk FX.Class.Struct [FX.Qualifier.Uniform] 0 0 0
      (some (FX.Struct.mk "GlobalsType" [uniformModeField] location)))
    "Globals" "" [] none properties location

/-- An effect file that holds the uniform block `Params` only. -/
def blockTree : FX.Tree :=
  { Types := [], Uniforms := [block], Functions := [], Techniques := [] }

end Example

/-! ## Brackets of the emitted text -/

/-- One of the six bracket characters. -/
def IsBracket (ch : Char) : Bool :=
  ch = '(' || ch = ')' || ch = '[' || ch = ']' || ch = '\x7b' || ch = '\x7d'

/-- The text holds no bracket character. -/
def NoBrackets (text : String) : Bool := text.data.all (fun ch => !IsBracket ch)

/-- The scan of a text from left to right with the stack of the closing brackets that are
expected: an opening bracket pushes its closing bracket, a closing bracket has to be the one on
top of the stack and pops it, every other character is skipped. The result is the stack at the
end of the text, or nothing when a closing bracket did not match. -/
def Scan : List Char → List Char → Option (List Char)
  | stack, [] => some stack
  | stack, ch :: rest =>
      if ch = '(' then Scan (')' :: stack) rest
      else if ch = '[' then Scan (']' :: stack) rest
      else if ch = '\x7b' then Scan ('\x7d' :: stack) rest
      else if ch = ')' ∨ ch = ']' ∨ ch = '\x7d' then
        match stack with
        | top :: below => if top = ch then Scan below rest else none
        | [] => none
      else Scan stack rest

/-- The round, square and curly brackets of the text are balanced: every closing bracket closes
the last opening bracket that is still open, of its own kind, and no bracket stays open. -/
def Balanced (text : String) : Prop := Scan [] text.data = some []

instance instDecidableBalanced (text : String) : Decidable (Balanced text) := by
  unfold Balanced
  infer_instance

/-- The identifier that a type prints, the name of its struct definition, holds no bracket
character. -/
def PlainType (type : FX.TypeNode) : Bool :=
  match type.Definition with
  | some d => NoBrackets d.Name
  | none => true

mutual
/-- The identifiers of the tree hold no bracket character, its literals have at least one
component and its sequences are not empty. -/
def PlainExpr : FX.Expr → Bool
  | FX.Expr.LValue _ reference => NoBrackets reference.Name
  | FX.Expr.Literal type _ => decide (1 ≤ (type.Rows * type.Cols) % UINT_MOD) && PlainType type
  | FX.Expr.Sequence _ expressions => !expressions.isEmpty && PlainList expressions
  | FX.Expr.Unary type _ operand => PlainType type && PlainExpr operand
  | FX.Expr.Binary _ _ operand0 operand1 => PlainExpr operand0 && PlainExpr operand1
  | FX.Expr.Intrinsic _ _ argument0 argument1 argument2 =>
      PlainArgument argument0 && PlainArgument argument1 && PlainArgument argument2
  | FX.Expr.Conditional _ condition onTrue onFalse =>
      PlainExpr condition && PlainExpr onTrue && PlainExpr onFalse
  | FX.Expr.Swizzle _ operand _ => PlainExpr operand
  | FX.Expr.FieldSelection _ operand field => PlainExpr operand && NoBrackets field.Name
  | FX.Expr.Assignment _ _ left right => PlainExpr left && PlainExpr right
  | FX.Expr.Call _ callee arguments => NoBrackets callee && PlainList arguments
  | FX.Expr.Constructor type arguments => PlainType type && PlainList arguments
  | FX.Expr.InitializerList _ values => PlainList values
/-- The predicate `PlainExpr` on an argument of an intrinsic, which may be null. -/
def PlainArgument : Option FX.Expr → Bool
  | none => true
  | some argument => PlainExpr argument
/-- The predicate `PlainExpr` on every expression of a list. -/
def PlainList : List FX.Expr → Bool
  | [] => true
  | expression :: rest => PlainExpr expression && PlainList rest
end

/-- Every entry of a swizzle mask is negative or an index into the table. -/
def MaskInside (table : List String) (mask : List Int) : Bool :=
  mask.all (fun m => decide (m < 0) || decide (m.toNat < table.length))

mutual
/-- Every read of the visitor is inside its array and every type it prints can be printed:
the value of a literal has a word for every component, the type of a literal that is not a
scalar, of a cast and of a constructor is not a struct without definition, and the entries of
a swizzle mask are negative or indices into the table. -/
def DefinedExpr : FX.Expr → Bool
  | FX.Expr.LValue _ _ => true
  | FX.Expr.Literal type value =>
      decide ((type.Rows * type.Cols) % UINT_MOD ≤ value.length) &&
        (type.IsScalar || (PrintType type).isSome)
  | FX.Expr.Sequence _ expressions => DefinedList expressions
  | FX.Expr.Unary type operator operand =>
      (UnaryParts type operator).isSome && DefinedExpr operand
  | FX.Expr.Binary _ _ operand0 operand1 => DefinedExpr operand0 && DefinedExpr operand1
  | FX.Expr.Intrinsic _ _ argument0 argument1 argument2 =>
      DefinedArgument argument0 && DefinedArgument argument1 && DefinedArgument argument2
  | FX.Expr.Conditional _ condition onTrue onFalse =>
      DefinedExpr condition && DefinedExpr onTrue && DefinedExpr onFalse
  | FX.Expr.Swizzle _ operand mask =>
      DefinedExpr operand &&
        MaskInside (if operand.Ty.IsMatrix then MatrixSwizzle else VectorSwizzle)
          [mask.1, mask.2.1, mask.2.2.1, mask.2.2.2]
  | FX.Expr.FieldSelection _ operand _ => DefinedExpr operand
  | FX.Expr.Assignment _ _ left right => DefinedExpr left && DefinedExpr right
  | FX.Expr.Call _ _ arguments => DefinedList arguments
  | FX.Expr.Constructor type arguments => (PrintType type).isSome && DefinedList arguments
  | FX.Expr.InitializerList _ values => DefinedList values
/-- The predicate `DefinedExpr` on an argument of an intrinsic, which may be null. -/
def DefinedArgument : Option FX.Expr → Bool
  | none => true
  | some argument => DefinedExpr argument
/-- The predicate `DefinedExpr` on every expression of a list. -/
def DefinedList : List FX.Expr → Bool
  | [] => true
  | expression :: rest => DefinedExpr expression && DefinedList rest
end

namespace Example

/-- The type `float3`. -/
def float3 : FX.TypeNode := FX.TypeNode.mk FX.Class.Float [] 3 1 0 none

/-- The expression `mad(tone(a, float3(0.5, 0.5, 0.5)), b[a], c.xy)` with a literal, a call, a
swizzle and an element extraction inside an intrinsic. -/
def nested : FX.Expr :=
  FX.Expr.Intrinsic float FX.IntrinsicOp.Mad
    (some (FX.Expr.Call float "tone"
      [reference "a", FX.Expr.Literal float3 [0x3F000000, 0x3F000000, 0x3F000000]]))
    (some (FX.Expr.Binary float FX.BinaryOp.ElementExtract (reference "b") (reference "a")))
    (some (FX.Expr.Swizzle float (reference "c") (0, 1, -1, -1)))

end Example

/-! # Theorems -/

/-! ## Arithmetic of the layout -/

theorem and_mask_eq (x : Nat) (hx : x < 2 ^ 32) : x &&& 0xFFFFFFF0 = x / 16 * 16 := by
  apply Nat.eq_of_testBit_eq
  intro i
  have h1 : (0xFFFFFFF0 : Nat) = 2 ^ 4 * (2 ^ 28 - 1) := by norm_num
  have h2 : x / 16 * 16 = 2 ^ 4 * (x / 2 ^ 4) := by norm_num [Nat.mul_comm]
  rw [Nat.testBit_and, h1, h2, Nat.testBit_mul_pow_two, Nat.testBit_mul_pow_two,
    Nat.testBit_two_pow_sub_one, ← Nat.shiftRight_eq_div_pow, Nat.testBit_shiftRight]
  by_cases h4 : 4 ≤ i
  · by_cases h32 : i < 32
    · have : i - 4 < 28 := by omega
      have e : 4 + (i - 4) = i := by omega
      simp [h4, this, e]
    · have hlt : x < 2 ^ i := lt_of_lt_of_le hx (Nat.pow_le_pow_right (by norm_num) (by omega))
      have : x.testBit i = false := Nat.testBit_lt_two_pow hlt
      have e : 4 + (i - 4) = i := by omega
      simp [this, e]
  · simp [h4]

theorem RoundToMultipleOf16_eq (n : Nat) :
    RoundToMultipleOf16 n = (n + 15) % 2 ^ 32 / 16 * 16 := by
  unfold RoundToMultipleOf16 UINT_MOD
  exact and_mask_eq _ (Nat.mod_lt _ (by norm_num))

theorem le_RoundToMultipleOf16 (n : Nat) (h : n + 15 < 2 ^ 32) : n ≤ RoundToMultipleOf16 n := by
  rw [RoundToMultipleOf16_eq, Nat.mod_eq_of_lt h]
  omega

/-! ## Memory blocks -/

theorem ReadBytes_self (b : List Nat) : ReadBytes b 0 b.length = some b := by
  simp [ReadBytes]

theorem ReadBytes_length {mem : List Nat} {off n : Nat} {bytes : List Nat}
    (h : ReadBytes mem off n = some bytes) : bytes.length = n := by
  unfold ReadBytes at h
  split at h
  · simp at h; subst h; simp; omega
  · simp at h

theorem WriteBytes_length {mem : List Nat} {off : Nat} {src mem1 : List Nat}
    (h : WriteBytes mem off src = some mem1) : mem1.length = mem.length := by
  unfold WriteBytes at h
  split at h
  · simp at h; subst h; simp; omega
  · simp at h

theorem ReadBytes_WriteBytes {mem : List Nat} {off : Nat} {src mem1 : List Nat}
    (h : WriteBytes mem off src = some mem1) : ReadBytes mem1 off src.length = some src := by
  have hl := WriteBytes_length h
  unfold WriteBytes at h
  split at h
  · rename_i hle
    simp at h; subst h
    unfold ReadBytes
    rw [if_pos (by omega)]
    have h1 : (List.take off mem).length = off := by simp; omega
    simp [List.drop_append_eq_append_drop, h1, List.drop_eq_nil_of_le, List.take_append_eq_append_take]
  · simp at h

theorem WriteBytes_getElem?_outside {mem : List Nat} {off : Nat} {src mem1 : List Nat}
    (h : WriteBytes mem off src = some mem1) (j : Nat) (hj : j < off ∨ off + src.length ≤ j) :
    mem1[j]? = mem[j]? := by
  unfold WriteBytes at h
  split at h
  · rename_i hle
    simp only [Option.some.injEq] at h
    subst h
    have h1 : (List.take off mem).length = off := by simp; omega
    rcases hj with hj | hj
    · rw [List.append_assoc, List.getElem?_append_left (by omega)]
      simp [List.getElem?_take, hj]
    · rw [List.getElem?_append_right (by simp; omega)]
      simp only [List.getElem?_drop, List.length_append, h1]
      congr 1
      omega
  · simp at h

theorem WriteBytes_zero_full (out b : List Nat) (h : out.length = b.length) :
    WriteBytes out 0 b = some b := by
  unfold WriteBytes
  rw [if_pos (by omega)]
  simp [List.drop_eq_nil_of_le, h]

/-! ## Induction over the visitors of declarations -/

mutual
theorem VisitVariable_rel {env : Env} {R : D3D10EffectCompiler → D3D10EffectCompiler → Prop}
    (hR : StepRelation env R) :
    ∀ (v : FX.Variable) (c c1 : D3D10EffectCompiler), VisitVariable env c v = some c1 → R c c1
  | FX.Variable.mk (FX.TypeNode.mk b q r k a (some (FX.Struct.mk sn fields sl))) name sem ann
      init props loc, c, c1, h => by
      rw [VisitVariable.eq_1] at h
      split_ifs at h with h1 h2 h3 h4 h5
      · split at h
        · simp at h
        · rename_i c2 l2 hf
          exact hR.trans _ _ _ (hR.blockBegin c name)
            (hR.trans _ _ _ (VisitUniformBufferFields_rel hR fields name _ _ _ _ hf)
              (hR.blockEnd _ _ _ _ _ _ h))
      · exact hR.texture _ _ _ h
      · exact hR.sampler _ _ _ h
      · exact hR.uniform _ _ _ h
      · exact hR.decl _ _ _ h
      · exact hR.decl _ _ _ h
  | FX.Variable.mk (FX.TypeNode.mk b q r k a none) name sem ann init props loc, c, c1, h => by
      rw [VisitVariable.eq_2] at h
      split_ifs at h with h1 h2 h3 h4 h5
      · exact hR.texture _ _ _ h
      · exact hR.sampler _ _ _ h
      · exact hR.uniform _ _ _ h
      · exact hR.decl _ _ _ h
      · exact hR.decl _ _ _ h
theorem VisitUniformBufferFields_rel {env : Env}
    {R : D3D10EffectCompiler → D3D10EffectCompiler → Prop} (hR : StepRelation env R) :
    ∀ (fields : List FX.Variable) (name : String) (c : D3D10EffectCompiler) (l : BlockLocals)
      (c1 : D3D10EffectCompiler) (l1 : BlockLocals),
      VisitUniformBufferFields env name c l fields = some (c1, l1) → R c c1
  | [], name, c, l, c1, l1, h => by
      rw [VisitUniformBufferFields.eq_1] at h
      simp only [Option.some.injEq, Prod.mk.injEq] at h
      rw [← h.1]
      exact hR.refl c
  | f :: rest, name, c, l, c1, l1, h => by
      rw [VisitUniformBufferFields.eq_2] at h
      split at h
      · simp at h
      · rename_i c2 hv
        split at h
        · simp at h
        · rename_i c3 l3 hfield
          exact hR.trans _ _ _ (VisitVariable_rel hR f c c2 hv)
            (hR.trans _ _ _ (hR.blockField _ _ _ _ _ _ hfield)
              (VisitUniformBufferFields_rel hR rest name c3 l3 c1 l1 h))
end

theorem VisitVariables_rel {env : Env} {R : D3D10EffectCompiler → D3D10EffectCompiler → Prop}
    (hR : StepRelation env R) :
    ∀ (nodes : List FX.Variable) (c c1 : D3D10EffectCompiler),
      VisitVariables env c nodes = some c1 → R c c1
  | [], c, c1, h => by
      unfold VisitVariables at h
      simp only [Option.some.injEq] at h
      rw [← h]
      exact hR.refl c
  | v :: rest, c, c1, h => by
      unfold VisitVariables at h
      split at h
      · simp at h
      · rename_i c2 hv
        exact hR.trans _ _ _ (VisitVariable_rel hR v c c2 hv) (VisitVariables_rel hR rest c2 c1 h)

theorem HasErrorDiagnostic_append (s t : String) (h : HasErrorDiagnostic s) :
    HasErrorDiagnostic (s ++ t) := by
  obtain ⟨a, b, rfl⟩ := h
  exact ⟨a, b ++ t, by simp [String.append_assoc]⟩

theorem HasErrorDiagnostic_intro (a b : String) : HasErrorDiagnostic (a ++ ("error: " ++ b)) :=
  ⟨a, b, by simp [String.append_assoc]⟩

theorem Step_refl (c : D3D10EffectCompiler) : Step c c :=
  { fatal := id
    constants := ⟨[], by simp⟩
    buffers := ⟨[], by simp⟩
    calls := ⟨[], by simp⟩
    errors := ⟨"", by simp⟩
    diagnosed := fun h => Or.inl h
    parameterBlock := rfl
    functionBlock := rfl }

theorem Step_trans (a b c : D3D10EffectCompiler) (h1 : Step a b) (h2 : Step b c) : Step a c := by
  obtain ⟨k1, hk1, hp1⟩ := h1.constants
  obtain ⟨k2, hk2, hp2⟩ := h2.constants
  obtain ⟨b1, hb1⟩ := h1.buffers
  obtain ⟨b2, hb2⟩ := h2.buffers
  obtain ⟨d1, hd1, hf1⟩ := h1.calls
  obtain ⟨d2, hd2, hf2⟩ := h2.calls
  obtain ⟨t1, ht1⟩ := h1.errors
  obtain ⟨t2, ht2⟩ := h2.errors
  refine
    { fatal := fun h => h2.fatal (h1.fatal h)
      constants := ⟨k1 ++ k2, by rw [hk2, hk1, List.append_assoc], ?_⟩
      buffers := ⟨b1 ++ b2, by rw [hb2, hb1, List.append_assoc]⟩
      calls := ⟨d1 ++ d2, by rw [hd2, hd1, List.append_assoc], ?_⟩
      errors := ⟨t1 ++ t2, by rw [ht2, ht1, String.append_assoc]⟩
      diagnosed := ?_
      parameterBlock := h2.parameterBlock.trans h1.parameterBlock
      functionBlock := h2.functionBlock.trans h1.functionBlock }
  · intro p hp
    rcases List.mem_append.1 hp with hp | hp
    · exact hp1 p hp
    · exact hp2 p hp
  · rintro ⟨e, he, hfail⟩
    rcases List.mem_append.1 he with he | he
    · exact h2.fatal (hf1 ⟨e, he, hfail⟩)
    · exact hf2 ⟨e, he, hfail⟩
  · intro h
    rcases h2.diagnosed h with h | h
    · rcases h1.diagnosed h with h | h
      · exact Or.inl h
      · right
        rw [ht2]
        exact HasErrorDiagnostic_append _ _ h
    · exact Or.inr h

theorem text_ext_refl (a : String) : ∃ t, a = a ++ t := ⟨"", by simp⟩

theorem text_ext_append {a s : String} (x : String) (h : ∃ t, s = a ++ t) :
    ∃ t, s ++ x = a ++ t := by
  obtain ⟨t, rfl⟩ := h
  exact ⟨t ++ x, String.append_assoc _ _ _⟩

theorem HasErrorDiagnostic_literal (a lit : String) (h : lit = "error: " ++ lit.drop 7) :
    HasErrorDiagnostic (a ++ lit) :=
  ⟨a, lit.drop 7, by rw [String.append_assoc, ← h]⟩

theorem calls_ext_refl (a : List DeviceCall) : ∃ added, a = a ++ added := ⟨[], by simp⟩

theorem calls_ext_call {a h : List DeviceCall} (dev : Device) (req : DeviceRequest)
    (hh : ∃ added, h = a ++ added) : ∃ added, (dev.call h req).2 = a ++ added := by
  obtain ⟨added, rfl⟩ := hh
  exact ⟨added ++ [{ request := req, response := dev.respond (a ++ added) req }],
    by simp [Device.call]⟩

theorem QuietCalls_refl (a : List DeviceCall) : QuietCalls a a := ⟨[], by simp⟩

theorem QuietCalls.call {a h : List DeviceCall} (dev : Device) (req : DeviceRequest)
    (hh : QuietCalls a h)
    (hq : ({ request := req, response := dev.respond h req } : DeviceCall).isFailedTextureOrSRV
      = false) : QuietCalls a (dev.call h req).2 := by
  obtain ⟨added, rfl, hall⟩ := hh
  refine ⟨added ++ [{ request := req, response := dev.respond (a ++ added) req }],
    by simp [Device.call], ?_⟩
  intro e he
  rcases List.mem_append.1 he with he | he
  · exact hall e he
  · rw [List.mem_singleton] at he
    subst he
    exact hq

theorem isFailedTextureOrSRV_of_not_failed (req : DeviceRequest) (resp : DeviceResponse)
    (h : ¬ FAILED resp.hr = true) :
    ({ request := req, response := resp } : DeviceCall).isFailedTextureOrSRV = false := by
  unfold DeviceCall.isFailedTextureOrSRV
  cases req <;> simp_all

/-- A step that appends an error diagnostic, sets the fatal flag and possibly calls the
device. -/
theorem Step.error (c c1 : D3D10EffectCompiler)
    (heffect : c1.mEffect = c.mEffect)
    (hcalls : ∃ added, c1.mDeviceCalls = c.mDeviceCalls ++ added)
    (herrors : ∃ t, c1.mErrors = c.mErrors ++ t)
    (hdiag : HasErrorDiagnostic c1.mErrors)
    (hfatal : c1.mFatal = true)
    (hp : c1.mCurrentInParameterBlock = c.mCurrentInParameterBlock)
    (hf : c1.mCurrentInFunctionBlock = c.mCurrentInFunctionBlock) : Step c c1 :=
  { fatal := fun _ => hfatal
    constants := ⟨[], by simp [heffect]⟩
    buffers := ⟨[], by simp [heffect]⟩
    calls := ⟨hcalls.choose, hcalls.choose_spec, fun _ => hfatal⟩
    errors := herrors
    diagnosed := fun _ => Or.inr hdiag
    parameterBlock := hp
    functionBlock := hf }

/-- A step that leaves the fatal flag, the uniforms and the constant buffers as they are, and
whose device calls are no failed creation of a texture or of a shader-resource view. -/
theorem Step.quiet (c c1 : D3D10EffectCompiler)
    (hconstants : c1.mEffect.mConstants = c.mEffect.mConstants)
    (hbuffers : c1.mEffect.mConstantBuffers = c.mEffect.mConstantBuffers)
    (hcalls : QuietCalls c.mDeviceCalls c1.mDeviceCalls)
    (herrors : ∃ t, c1.mErrors = c.mErrors ++ t)
    (hfatal : c1.mFatal = c.mFatal)
    (hp : c1.mCurrentInParameterBlock = c.mCurrentInParameterBlock)
    (hf : c1.mCurrentInFunctionBlock = c.mCurrentInFunctionBlock) : Step c c1 :=
  { fatal := fun h => by rw [hfatal]; exact h
    constants := ⟨[], by simp [hconstants]⟩
    buffers := ⟨[], by simp [hbuffers]⟩
    calls := ⟨hcalls.choose, hcalls.choose_spec.1, fun ⟨e, he, hfail⟩ => by
      rw [hcalls.choose_spec.2 e he] at hfail; simp at hfail⟩
    errors := herrors
    diagnosed := fun h => Or.inl (by rw [← hfatal]; exact h)
    parameterBlock := hp
    functionBlock := hf }

theorem VisitSampler_step (env : Env) (c c1 : D3D10EffectCompiler) (v : FX.Variable)
    (h : VisitSampler env c v = some c1) : Step c c1 := by
  unfold VisitSampler at h
  split at h
  · simp only [Option.some.injEq] at h
    subst h
    refine Step.error _ _ rfl (calls_ext_refl _) ?_ ?_ rfl rfl rfl
    · repeat (first | exact text_ext_refl _ | apply text_ext_append)
    · repeat (first | exact HasErrorDiagnostic_literal _ _ (by decide) | apply HasErrorDiagnostic_append)
  · simp only at h
    split at h
    · simp only [Option.some.injEq] at h
      subst h
      refine Step.error _ _ rfl (calls_ext_refl _) ?_ ?_ rfl rfl rfl
      · repeat (first | exact text_ext_refl _ | apply text_ext_append)
      · repeat (first | exact HasErrorDiagnostic_literal _ _ (by decide) | apply HasErrorDiagnostic_append)
    · split at h
      · simp only [Option.some.injEq] at h
        subst h
        exact Step.quiet _ _ rfl rfl (QuietCalls_refl _) (text_ext_refl _) rfl rfl rfl
      · split at h
        · simp only [Option.some.injEq] at h
          subst h
          refine Step.error _ _ rfl (calls_ext_call _ _ (calls_ext_refl _)) ?_ ?_ rfl rfl rfl
          · repeat (first | exact text_ext_refl _ | apply text_ext_append)
          · repeat (first | exact HasErrorDiagnostic_literal _ _ (by decide) | apply HasErrorDiagnostic_append)
        · simp only [Option.some.injEq] at h
          subst h
          exact Step.quiet _ _ rfl rfl (QuietCalls.call _ _ (QuietCalls_refl _) rfl)
            (text_ext_refl _) rfl rfl rfl

theorem AdvanceSize_lt (used size : Nat) : AdvanceSize used size < 2 ^ 32 := by
  unfold AdvanceSize UINT_MOD
  exact Nat.mod_lt _ (by norm_num)

theorem AdvanceSize_packed (used size : Nat) (hs : size < 2 ^ 64) :
    (SizeSub (AdvanceSize used size) size % 16 + size ≤ 16 ∨ size > 16) ∧
      (size > 16 → SizeSub (AdvanceSize used size) size % 16 = 0) := by
  unfold SizeSub AdvanceSize UINT_MOD SIZE_MOD
  simp only
  split_ifs with h
  · norm_num
    omega
  · norm_num
    omega

theorem ConstantDescriptionOf_size_lt (t : FX.TypeNode) : (ConstantDescriptionOf t).Size < 2 ^ 64 := by
  have hn : (t.Rows * t.Cols) % UINT_MOD < 2 ^ 32 := Nat.mod_lt _ (by norm_num [UINT_MOD])
  unfold ConstantDescriptionOf
  simp only
  split <;> simp only <;> omega

theorem VisitTextureRegister_step (c : D3D10EffectCompiler) (node : FX.Variable)
    (obj : D3D10Texture) : Step c (VisitTextureRegister c node obj) :=
  Step.quiet _ _ rfl rfl (QuietCalls_refl _) (text_ext_refl _) rfl rfl rfl

theorem VisitTextureCreate_step (env : Env) (c : D3D10EffectCompiler) (node : FX.Variable)
    (obj : D3D10Texture) (texdesc : D3D10_TEXTURE2D_DESC) :
    Step c (VisitTextureCreate env c node obj texdesc) := by
  unfold VisitTextureCreate
  simp only
  refine Step_trans c (if texdesc.MipLevels = 0 then
      { c with
        mErrors := c.mErrors ++ PrintLocation node.Location ++
          "warning: a texture cannot have 0 miplevels, changed it to 1.\n" }
    else c) _ ?_ ?_
  · split_ifs
    · refine Step.quiet _ _ rfl rfl (QuietCalls_refl _) ?_ rfl rfl rfl
      repeat (first | exact text_ext_refl _ | apply text_ext_append)
    · exact Step_refl c
  · generalize (if texdesc.MipLevels = 0 then
      { c with
        mErrors := c.mErrors ++ PrintLocation node.Location ++
          "warning: a texture cannot have 0 miplevels, changed it to 1.\n" }
      else c) = c1
    generalize (if texdesc.MipLevels = 0 then { texdesc with MipLevels := 1 } else texdesc) = td
    split_ifs with h1 h2 h3 h4
    · refine Step.error _ _ rfl ?_ ?_ ?_ rfl rfl rfl
      · repeat (first | exact calls_ext_refl _ | apply calls_ext_call)
      · repeat (first | exact text_ext_refl _ | apply text_ext_append)
      · repeat (first | exact HasErrorDiagnostic_literal _ _ (by decide) | apply HasErrorDiagnostic_append)
    · refine Step.error _ _ rfl ?_ ?_ ?_ rfl rfl rfl
      · repeat (first | exact calls_ext_refl _ | apply calls_ext_call)
      · repeat (first | exact text_ext_refl _ | apply text_ext_append)
      · repeat (first | exact HasErrorDiagnostic_literal _ _ (by decide) | apply HasErrorDiagnostic_append)
    · refine Step.error _ _ rfl ?_ ?_ ?_ rfl rfl rfl
      · repeat (first | exact calls_ext_refl _ | apply calls_ext_call)
      · repeat (first | exact text_ext_refl _ | apply text_ext_append)
      · repeat (first | exact HasErrorDiagnostic_literal _ _ (by decide) | apply HasErrorDiagnostic_append)
    · refine Step_trans _ _ _ ?_ (VisitTextureRegister_step _ _ _)
      refine Step.quiet _ _ rfl rfl ?_ (text_ext_refl _) rfl rfl rfl
      exact QuietCalls.call _ _ (QuietCalls.call _ _ (QuietCalls.call _ _ (QuietCalls_refl _)
        (isFailedTextureOrSRV_of_not_failed _ _ h1))
        (isFailedTextureOrSRV_of_not_failed _ _ h2))
        (isFailedTextureOrSRV_of_not_failed _ _ h4)
    · refine Step_trans _ _ _ ?_ (VisitTextureRegister_step _ _ _)
      refine Step.quiet _ _ rfl rfl ?_ (text_ext_refl _) rfl rfl rfl
      exact QuietCalls.call _ _ (QuietCalls.call _ _ (QuietCalls_refl _)
        (isFailedTextureOrSRV_of_not_failed _ _ h1))
        (isFailedTextureOrSRV_of_not_failed _ _ h2)

theorem VisitTexture_step (env : Env) (c c1 : D3D10EffectCompiler) (v : FX.Variable)
    (h : VisitTexture env c v = some c1) : Step c c1 := by
  unfold VisitTexture at h
  simp only at h
  split at h
  · simp at h
  · rename_i obj1 techniques hchanged
    have h0 : Step c { c with mEffect := { c.mEffect with mTechniques := techniques } } :=
      Step.quiet _ _ rfl rfl (QuietCalls_refl _) (text_ext_refl _) rfl rfl rfl
    refine Step_trans _ _ _ h0 ?_
    split_ifs at h <;> simp only [Option.some.injEq] at h <;> subst h
    · refine Step_trans _ _ _ ?_ (VisitTextureRegister_step _ _ _)
      refine Step.quiet _ _ rfl rfl (QuietCalls_refl _) ?_ rfl rfl rfl
      repeat (first | exact text_ext_refl _ | apply text_ext_append)
    · exact VisitTextureRegister_step _ _ _
    · exact VisitTextureCreate_step _ _ _ _ _

/-- A step that registers one packed uniform and changes neither the fatal flag, the errors,
the constant buffers nor the device history. -/
theorem Step.register (c c1 : D3D10EffectCompiler) (name : String) (u : D3D10Constant)
    (hconstants : c1.mEffect.mConstants = c.mEffect.mConstants ++ [(name, u)])
    (hpacked : Packed u)
    (hbuffers : ∃ added, c1.mEffect.mConstantBuffers = c.mEffect.mConstantBuffers ++ added)
    (hcalls : QuietCalls c.mDeviceCalls c1.mDeviceCalls)
    (herrors : c1.mErrors = c.mErrors)
    (hfatal : c1.mFatal = c.mFatal)
    (hp : c1.mCurrentInParameterBlock = c.mCurrentInParameterBlock)
    (hf : c1.mCurrentInFunctionBlock = c.mCurrentInFunctionBlock) : Step c c1 :=
  { fatal := fun h => by rw [hfatal]; exact h
    constants := ⟨[(name, u)], hconstants, by simpa using hpacked⟩
    buffers := hbuffers
    calls := ⟨hcalls.choose, hcalls.choose_spec.1, fun ⟨e, he, hfail⟩ => by
      rw [hcalls.choose_spec.2 e he] at hfail; simp at hfail⟩
    errors := ⟨"", by simp [herrors]⟩
    diagnosed := fun h => Or.inl (by rw [← hfatal]; exact h)
    parameterBlock := hp
    functionBlock := hf }

theorem VisitUniform_step (env : Env) (c c1 : D3D10EffectCompiler) (v : FX.Variable)
    (h : VisitUniform env c v = some c1) : Step c c1 := by
  unfold VisitUniform at h
  split at h
  · simp at h
  · simp only at h
    split at h
    · simp at h
    · split at h
      · simp at h
      · simp only [Option.some.injEq] at h
        subst h
        refine Step.register _ _ v.Name _ rfl ?_ ⟨[], by simp [D3D10Effect.AddConstant]⟩
          (QuietCalls_refl _) rfl rfl rfl rfl
        exact AdvanceSize_packed _ _ (ConstantDescriptionOf_size_lt _)

theorem VisitVariableDecl_step (env : Env) (c c1 : D3D10EffectCompiler) (v : FX.Variable)
    (h : VisitVariableDecl env c v = some c1) : Step c c1 := by
  unfold VisitVariableDecl at h
  simp only at h
  split at h
  · simp at h
  · simp only [Option.some.injEq] at h
    subst h
    exact Step.quiet _ _ rfl rfl (QuietCalls_refl _) (text_ext_refl _) rfl rfl rfl

theorem UniformBufferBegin_step (c : D3D10EffectCompiler) (name : String) :
    Step c (UniformBufferBegin c name) :=
  Step.quiet _ _ rfl rfl (QuietCalls_refl _) (text_ext_refl _) rfl rfl rfl

theorem UniformBufferField_step (env : Env) (name : String) (c : D3D10EffectCompiler)
    (l : BlockLocals) (f : FX.Variable) (c1 : D3D10EffectCompiler) (l1 : BlockLocals)
    (h : UniformBufferField env name c l f = some (c1, l1)) : Step c c1 := by
  unfold UniformBufferField at h
  simp only at h
  split at h
  · simp at h
  · simp only [Option.some.injEq, Prod.mk.injEq] at h
    obtain ⟨h, -⟩ := h
    subst h
    refine Step.register _ _ (name ++ "." ++ f.Name) _ rfl ?_
      ⟨[], by simp [D3D10Effect.AddConstant]⟩ (QuietCalls_refl _) rfl rfl rfl rfl
    exact AdvanceSize_packed _ _ (ConstantDescriptionOf_size_lt _)

theorem UniformBufferEnd_step (env : Env) (name : String) (ann : List FX.AnnotationNode)
    (n : Nat) (c : D3D10EffectCompiler) (l : BlockLocals) (c1 : D3D10EffectCompiler)
    (h : UniformBufferEnd env name ann n c l = some c1) : Step c c1 := by
  unfold UniformBufferEnd at h
  simp only at h
  split at h
  · simp at h
  · have hq : ∀ (req : DeviceRequest) (resp : DeviceResponse), (∃ d b, req = DeviceRequest.CreateBuffer d b) →
        ({ request := req, response := resp } : DeviceCall).isFailedTextureOrSRV = false := by
      rintro req resp ⟨d, b, rfl⟩
      rfl
    have hpacked : ∀ (u : D3D10Constant), u.mBufferOffset = 0 → Packed u := by
      intro u hu
      unfold Packed
      rw [hu]
      omega
    split_ifs at h <;> simp only [Option.some.injEq] at h <;> subst h
    · refine Step.register _ _ name _ rfl (hpacked _ rfl) ⟨_, rfl⟩
        (QuietCalls.call _ _ (QuietCalls_refl _) (hq _ _ ⟨_, _, rfl⟩)) rfl rfl rfl rfl
    · refine Step.register _ _ name _ rfl (hpacked _ rfl) ⟨[], by simp [D3D10Effect.AddConstant]⟩
        (QuietCalls.call _ _ (QuietCalls_refl _) (hq _ _ ⟨_, _, rfl⟩)) rfl rfl rfl rfl

theorem Step.relation (env : Env) : StepRelation env Step :=
  { refl := Step_refl
    trans := Step_trans
    texture := fun c v c1 h => VisitTexture_step env c c1 v h
    sampler := fun c v c1 h => VisitSampler_step env c c1 v h
    uniform := fun c v c1 h => VisitUniform_step env c c1 v h
    decl := fun c v c1 h => VisitVariableDecl_step env c c1 v h
    blockBegin := UniformBufferBegin_step
    blockField := UniformBufferField_step env
    blockEnd := UniformBufferEnd_step env }

theorem VisitVariable_step (env : Env) (v : FX.Variable) (c c1 : D3D10EffectCompiler)
    (h : VisitVariable env c v = some c1) : Step c c1 :=
  VisitVariable_rel (Step.relation env) v c c1 h

theorem VisitVariables_step (env : Env) (nodes : List FX.Variable) (c c1 : D3D10EffectCompiler)
    (h : VisitVariables env c nodes = some c1) : Step c c1 :=
  VisitVariables_rel (Step.relation env) nodes c c1 h

theorem Realloc_some (g : Nat → Nat) (block : Storage) (size : Nat) (mem : List Nat)
    (h : Realloc g block size = some mem) : size ≠ 0 ∧ mem.length = size := by
  unfold Realloc at h
  split_ifs at h with h0
  simp only [Option.some.injEq] at h
  subst h
  refine ⟨h0, ?_⟩
  simp only [List.length_append, List.length_map, List.length_range, List.length_take]
  omega

theorem InitialBytes_length (init : Option FX.Expression) (size : Nat) (bytes : List Nat)
    (h : InitialBytes init size = some bytes) : bytes.length = size := by
  unfold InitialBytes at h
  split at h
  · split_ifs at h
    · exact ReadBytes_length h
    · simp only [Option.some.injEq] at h
      subst h
      simp
  · simp only [Option.some.injEq] at h
    subst h
    simp

theorem InitStorage_some (storage : Storage) (offset : Nat) (init : Option FX.Expression)
    (size : Nat) (mem : List Nat) (h : InitStorage storage offset init size = some mem) :
    ∃ mem0, storage = some mem0 ∧ offset + size ≤ mem0.length ∧ mem.length = mem0.length := by
  unfold InitStorage at h
  cases storage with
  | none => simp at h
  | some mem0 =>
    cases hb : InitialBytes init size with
    | none => simp [hb] at h
    | some bytes =>
      simp only [hb] at h
      have hl := InitialBytes_length _ _ _ hb
      refine ⟨mem0, rfl, ?_, WriteBytes_length h⟩
      unfold WriteBytes at h
      split_ifs at h with hle
      omega

/-- One uniform of at most 64 bytes is laid out: the invariant of the mirror is kept, the used
size does not decrease, and the uniform ends at the new used size. -/
theorem layout_step (g : Nat → Nat) (used cap : Nat) (storage : Storage) (size : Nat)
    (init : Option FX.Expression) (mem : List Nat) (hsize : size ≤ 64)
    (hinv : LayoutInv used cap storage)
    (hw : InitStorage (GrowStorage g (AdvanceSize used size) cap storage).2
      (SizeSub (AdvanceSize used size) size) init size = some mem) :
    LayoutInv (AdvanceSize used size) (GrowStorage g (AdvanceSize used size) cap storage).1
        (some mem) ∧
      used ≤ AdvanceSize used size ∧
      SizeSub (AdvanceSize used size) size + size = AdvanceSize used size := by
  obtain ⟨h128, hcap, hused, hlen⟩ := hinv
  obtain ⟨mem0, hs, hb, hl⟩ := InitStorage_some _ _ _ _ _ hw
  have hadv : used + size ≤ AdvanceSize used size ∧ AdvanceSize used size ≤ used + size + 15 := by
    unfold AdvanceSize UINT_MOD
    simp only
    split_ifs <;> omega
  have hsub : SizeSub (AdvanceSize used size) size + size = AdvanceSize used size := by
    unfold SizeSub SIZE_MOD
    omega
  refine ⟨?_, by omega, hsub⟩
  unfold GrowStorage at hs ⊢
  split_ifs at hs ⊢ with hge
  · simp only at hs ⊢
    obtain ⟨hne, hlen1⟩ := Realloc_some _ _ _ _ hs
    unfold UINT_MOD at hne hlen1 ⊢
    refine ⟨by omega, by omega, ?_, ?_⟩
    · omega
    · simp only [Option.getD_some]
      omega
  · simp only at hs ⊢
    rw [hs] at hlen
    simp only [Option.getD_some] at hlen
    refine ⟨h128, hcap, by omega, ?_⟩
    simp only [Option.getD_some]
    omega

theorem ConstantDescriptionOf_size_le (t : FX.TypeNode) (h : IsNumericUniformType t) :
    (ConstantDescriptionOf t).Size ≤ 64 := by
  obtain ⟨hb, h1, h2, h3, h4⟩ := h
  have hn : t.Rows * t.Cols ≤ 16 := by nlinarith
  have hm : (t.Rows * t.Cols) % UINT_MOD = t.Rows * t.Cols :=
    Nat.mod_eq_of_lt (by unfold UINT_MOD; omega)
  unfold ConstantDescriptionOf
  simp only [hm]
  rcases hb with hb | hb | hb | hb <;> rw [hb] <;> simp only <;> omega

theorem LayoutInv_le_round (used cap : Nat) (storage : Storage) (h : LayoutInv used cap storage) :
    used ≤ RoundToMultipleOf16 used := by
  obtain ⟨h128, hcap, hused, -⟩ := h
  exact le_RoundToMultipleOf16 used (by omega)

theorem VisitVariable_numeric (env : Env) (c : D3D10EffectCompiler) (v : FX.Variable)
    (hnum : IsNumericUniformType v.Ty) (hp : c.mCurrentInParameterBlock = false)
    (hf : c.mCurrentInFunctionBlock = false) :
    VisitVariable env c v =
      if v.Ty.HasQualifier FX.Qualifier.Uniform = true then VisitUniform env c v
      else VisitVariableDecl env c v := by
  obtain ⟨hb, -⟩ := hnum
  cases v with
  | mk ty name sem ann init props loc =>
    cases ty with
    | mk b q r k a d =>
      simp only [FX.Variable.Ty, FX.TypeNode.BaseClass] at hb
      have h1 : (FX.TypeNode.mk b q r k a d).IsStruct = false := by
        simp only [FX.TypeNode.IsStruct, FX.TypeNode.BaseClass]
        rcases hb with rfl | rfl | rfl | rfl <;> rfl
      have h2 : (FX.TypeNode.mk b q r k a d).IsTexture = false := by
        simp only [FX.TypeNode.IsTexture, FX.TypeNode.BaseClass]
        rcases hb with rfl | rfl | rfl | rfl <;> rfl
      have h3 : (FX.TypeNode.mk b q r k a d).IsSampler = false := by
        simp only [FX.TypeNode.IsSampler, FX.TypeNode.BaseClass]
        rcases hb with rfl | rfl | rfl | rfl <;> rfl
      cases d with
      | none =>
        rw [VisitVariable.eq_2]
        simp [hp, hf, h1, h2, h3, FX.Variable.Ty]
      | some st =>
        cases st with
        | mk sn fields sl =>
          rw [VisitVariable.eq_1]
          simp [hp, hf, h1, h2, h3, FX.Variable.Ty]

/-- What `VisitUniform` changes. -/
theorem VisitUniform_spec (env : Env) (c c1 : D3D10EffectCompiler) (v : FX.Variable)
    (h : VisitUniform env c v = some c1) :
    ∃ s0 rest mem,
      c.mEffect.mConstantStorages = s0 :: rest ∧
      InitStorage
        (GrowStorage env.garbage (AdvanceSize c.mCurrentGlobalSize (ConstantDescriptionOf v.Ty).Size)
          c.mCurrentGlobalStorageSize s0).2
        (SizeSub (AdvanceSize c.mCurrentGlobalSize (ConstantDescriptionOf v.Ty).Size)
          (ConstantDescriptionOf v.Ty).Size) v.Initializer (ConstantDescriptionOf v.Ty).Size
        = some mem ∧
      c1.mEffect.mConstantStorages = some mem :: rest ∧
      c1.mCurrentGlobalSize = AdvanceSize c.mCurrentGlobalSize (ConstantDescriptionOf v.Ty).Size ∧
      c1.mCurrentGlobalStorageSize =
        (GrowStorage env.garbage (AdvanceSize c.mCurrentGlobalSize (ConstantDescriptionOf v.Ty).Size)
          c.mCurrentGlobalStorageSize s0).1 ∧
      c1.mEffect.mConstants = c.mEffect.mConstants ++
        [(v.Name,
          { mDesc := ConstantDescriptionOf v.Ty, mAnnotations := VisitAnnotations v.Annotations,
            mBufferIndex := 0,
            mBufferOffset := SizeSub (AdvanceSize c.mCurrentGlobalSize (ConstantDescriptionOf v.Ty).Size)
              (ConstantDescriptionOf v.Ty).Size })] ∧
      c1.mEffect.mConstantBuffers = c.mEffect.mConstantBuffers ∧
      c1.mCurrentInParameterBlock = c.mCurrentInParameterBlock ∧
      c1.mCurrentInFunctionBlock = c.mCurrentInFunctionBlock := by
  unfold VisitUniform at h
  split at h
  · simp at h
  · simp only at h
    split at h
    · simp at h
    · rename_i s0 rest hst
      split at h
      · simp at h
      · rename_i mem hmem
        simp only [Option.some.injEq] at h
        subst h
        exact ⟨s0, rest, mem, hst, hmem, rfl, rfl, rfl, rfl, rfl, rfl, rfl⟩

/-- What `VisitVariableDecl` leaves unchanged. -/
theorem VisitVariableDecl_spec (env : Env) (c c1 : D3D10EffectCompiler) (v : FX.Variable)
    (h : VisitVariableDecl env c v = some c1) :
    c1.mEffect = c.mEffect ∧ c1.mCurrentGlobalSize = c.mCurrentGlobalSize ∧
      c1.mCurrentGlobalStorageSize = c.mCurrentGlobalStorageSize ∧
      c1.mCurrentInParameterBlock = c.mCurrentInParameterBlock ∧
      c1.mCurrentInFunctionBlock = c.mCurrentInFunctionBlock ∧
      c1.mFatal = c.mFatal ∧ c1.mErrors = c.mErrors ∧ c1.mDeviceCalls = c.mDeviceCalls := by
  unfold VisitVariableDecl at h
  simp only at h
  split at h
  · simp at h
  · simp only [Option.some.injEq] at h
    subst h
    exact ⟨rfl, rfl, rfl, rfl, rfl, rfl, rfl, rfl⟩

/-- What `UniformBufferField` changes. -/
theorem UniformBufferField_spec (env : Env) (name : String) (c c1 : D3D10EffectCompiler)
    (l l1 : BlockLocals) (f : FX.Variable)
    (h : UniformBufferField env name c l f = some (c1, l1)) :
    ∃ mem,
      InitStorage
        (GrowStorage env.garbage (AdvanceSize l.totalsize (ConstantDescriptionOf f.Ty).Size)
          l.currentsize l.storage).2
        (SizeSub (AdvanceSize l.totalsize (ConstantDescriptionOf f.Ty).Size)
          (ConstantDescriptionOf f.Ty).Size) f.Initializer (ConstantDescriptionOf f.Ty).Size
        = some mem ∧
      l1 = { storage := some mem,
             totalsize := AdvanceSize l.totalsize (ConstantDescriptionOf f.Ty).Size,
             currentsize :=
               (GrowStorage env.garbage (AdvanceSize l.totalsize (ConstantDescriptionOf f.Ty).Size)
                 l.currentsize l.storage).1 } ∧
      c1.mEffect.mConstants = c.mEffect.mConstants ++
        [(name ++ "." ++ f.Name,
          { mDesc := ConstantDescriptionOf f.Ty, mAnnotations := [],
            mBufferIndex := c.mEffect.mConstantBuffers.length,
            mBufferOffset := SizeSub (AdvanceSize l.totalsize (ConstantDescriptionOf f.Ty).Size)
              (ConstantDescriptionOf f.Ty).Size })] ∧
      c1.mEffect.mConstantBuffers = c.mEffect.mConstantBuffers ∧
      c1.mCurrentInParameterBlock = c.mCurrentInParameterBlock ∧
      c1.mCurrentInFunctionBlock = c.mCurrentInFunctionBlock := by
  unfold UniformBufferField at h
  simp only at h
  split at h
  · simp at h
  · rename_i mem hmem
    simp only [Option.some.injEq, Prod.mk.injEq] at h
    obtain ⟨h1, h2⟩ := h
    subst h1
    subst h2
    exact ⟨mem, hmem, rfl, rfl, rfl, rfl, rfl⟩

theorem GlobalLayoutInv_begin (history : List DeviceCall) :
    GlobalLayoutInv (TraverseBegin (D3D10EffectCompiler.new history) D3D10Effect.new) := by
  refine ⟨rfl, rfl, ⟨none, [], rfl, ?_⟩, ?_⟩
  · unfold LayoutInv
    simp [TraverseBegin, D3D10EffectCompiler.new]
  · intro p hp
    simp [TraverseBegin, D3D10Effect.new] at hp

theorem GlobalLayoutInv_VisitUniform (env : Env) (c c1 : D3D10EffectCompiler) (v : FX.Variable)
    (hv : IsNumericUniformType v.Ty) (hinv : GlobalLayoutInv c)
    (h : VisitUniform env c v = some c1) : GlobalLayoutInv c1 := by
  obtain ⟨hp, hf, ⟨s0, rest, hst, hlay⟩, hall⟩ := hinv
  obtain ⟨s0', rest', mem, hst', hmem, hst1, hused, hcap, hconst, _, hp1, hf1⟩ :=
    VisitUniform_spec env c c1 v h
  rw [hst] at hst'
  obtain ⟨rfl, rfl⟩ := List.cons.inj hst'
  obtain ⟨hlay1, hmono, hend⟩ :=
    layout_step env.garbage _ _ _ _ _ _ (ConstantDescriptionOf_size_le _ hv) hlay hmem
  refine ⟨hp1.trans hp, hf1.trans hf, ⟨some mem, rest, hst1, ?_⟩, ?_⟩
  · rw [hused, hcap]
    exact hlay1
  · intro p hp'
    rw [hconst] at hp'
    rw [hused]
    rcases List.mem_append.1 hp' with hp' | hp'
    · exact le_trans (hall p hp') hmono
    · rw [List.mem_singleton] at hp'
      subst hp'
      exact le_of_eq hend

theorem GlobalLayoutInv_VisitVariables (env : Env) :
    ∀ (decls : List FX.Variable) (c c1 : D3D10EffectCompiler),
      (∀ d ∈ decls, IsGlobalUniform d) → GlobalLayoutInv c →
      VisitVariables env c decls = some c1 → GlobalLayoutInv c1
  | [], c, c1, _, hinv, h => by
      unfold VisitVariables at h
      simp only [Option.some.injEq] at h
      subst h
      exact hinv
  | d :: rest, c, c1, hall, hinv, h => by
      unfold VisitVariables at h
      split at h
      · simp at h
      · rename_i c2 hv
        have hd := hall d (List.mem_cons_self _ _)
        rw [VisitVariable_numeric env c d hd.1 hinv.1 hinv.2.1, if_pos hd.2] at hv
        exact GlobalLayoutInv_VisitVariables env rest c2 c1
          (fun x hx => hall x (List.mem_cons_of_mem _ hx))
          (GlobalLayoutInv_VisitUniform env c c2 d hd.1 hinv hv) h

theorem GlobalLayoutInv_bound (c : D3D10EffectCompiler) (hinv : GlobalLayoutInv c) :
    ∀ p ∈ c.mEffect.mConstants,
      p.2.mBufferOffset + p.2.mDesc.Size ≤ RoundToMultipleOf16 c.mCurrentGlobalSize := by
  obtain ⟨-, -, ⟨s0, rest, -, hlay⟩, hall⟩ := hinv
  intro p hp
  exact le_trans (hall p hp) (LayoutInv_le_round _ _ _ hlay)

/-- The loop over the numeric fields of a uniform block. -/
theorem VisitUniformBufferFields_layout (env : Env) (name : String) (k : Nat) (hk : k ≠ 0) :
    ∀ (fields : List FX.Variable) (c c2 : D3D10EffectCompiler) (l l2 : BlockLocals),
      (∀ f ∈ fields, IsNumericUniformType f.Ty) →
      c.mCurrentInParameterBlock = false → c.mCurrentInFunctionBlock = false →
      c.mEffect.mConstantBuffers.length = k →
      LayoutInv l.totalsize l.currentsize l.storage →
      VisitUniformBufferFields env name c l fields = some (c2, l2) →
      ∃ added, c2.mEffect.mConstants = c.mEffect.mConstants ++ added ∧
        (∀ p ∈ added, p.2.mBufferIndex = k → p.2.mBufferOffset + p.2.mDesc.Size ≤ l2.totalsize) ∧
        LayoutInv l2.totalsize l2.currentsize l2.storage ∧
        l.totalsize ≤ l2.totalsize ∧
        c2.mEffect.mConstantBuffers = c.mEffect.mConstantBuffers
  | [], c, c2, l, l2, _, _, _, _, hlay, h => by
      rw [VisitUniformBufferFields.eq_1] at h
      simp only [Option.some.injEq, Prod.mk.injEq] at h
      obtain ⟨rfl, rfl⟩ := h
      exact ⟨[], by simp, by simp, hlay, le_refl _, rfl⟩
  | f :: rest, c, c2, l, l2, hall, hp, hf, hlen, hlay, h => by
      rw [VisitUniformBufferFields.eq_2] at h
      split at h
      · simp at h
      · rename_i c3 hv
        split at h
        · simp at h
        · rename_i c4 l4 hfield
          have hnum := hall f (List.mem_cons_self _ _)
          rw [VisitVariable_numeric env c f hnum hp hf] at hv
          -- the visit of the field itself
          have hvisit : ∃ a1, c3.mEffect.mConstants = c.mEffect.mConstants ++ a1 ∧
              (∀ p ∈ a1, p.2.mBufferIndex = 0) ∧
              c3.mEffect.mConstantBuffers = c.mEffect.mConstantBuffers ∧
              c3.mCurrentInParameterBlock = false ∧ c3.mCurrentInFunctionBlock = false := by
            split_ifs at hv
            · obtain ⟨_, _, _, _, _, _, _, _, hconst, hbuf, hp1, hf1⟩ :=
                VisitUniform_spec env c c3 f hv
              refine ⟨_, hconst, ?_, hbuf, hp1.trans hp, hf1.trans hf⟩
              intro p hp'
              rw [List.mem_singleton] at hp'
              subst hp'
              rfl
            · obtain ⟨heff, _, _, hp1, hf1, _⟩ := VisitVariableDecl_spec env c c3 f hv
              exact ⟨[], by simp [heff], by simp, by rw [heff], hp1.trans hp, hf1.trans hf⟩
          obtain ⟨a1, hc3, hidx, hbuf3, hp3, hf3⟩ := hvisit
          obtain ⟨mem, hmem, hl4, hc4, hbuf4, hp4, hf4⟩ :=
            UniformBufferField_spec env name c3 c4 l l4 f hfield
          obtain ⟨hlay4, hmono, hend⟩ :=
            layout_step env.garbage _ _ _ _ _ _ (ConstantDescriptionOf_size_le _ hnum) hlay hmem
          have hlay4' : LayoutInv l4.totalsize l4.currentsize l4.storage := by
            rw [hl4]
            exact hlay4
          have hlen4 : c4.mEffect.mConstantBuffers.length = k := by rw [hbuf4, hbuf3, hlen]
          obtain ⟨a2, hc2, hbound, hlay2, hmono2, hbuf2⟩ :=
            VisitUniformBufferFields_layout env name k hk rest c4 c2 l4 l2
              (fun x hx => hall x (List.mem_cons_of_mem _ hx)) (hp4.trans hp3) (hf4.trans hf3)
              hlen4 hlay4' h
          obtain ⟨u, hu⟩ : ∃ u : String × D3D10Constant, u = (name ++ "." ++ f.Name,
              { mDesc := ConstantDescriptionOf f.Ty, mAnnotations := [],
                mBufferIndex := c3.mEffect.mConstantBuffers.length,
                mBufferOffset := SizeSub (AdvanceSize l.totalsize (ConstantDescriptionOf f.Ty).Size)
                  (ConstantDescriptionOf f.Ty).Size }) := ⟨_, rfl⟩
          rw [← hu] at hc4
          refine ⟨a1 ++ [u] ++ a2, by rw [hc2, hc4, hc3]; simp only [List.append_assoc], ?_, hlay2,
            ?_, ?_⟩
          · intro p hp' hpk
            rcases List.mem_append.1 hp' with hp' | hp'
            · rcases List.mem_append.1 hp' with hp' | hp'
              · exact absurd ((hidx p hp').symm.trans hpk) (Ne.symm hk)
              · rw [List.mem_singleton] at hp'
                subst hp'
                rw [hl4] at hmono2
                rw [hu]
                simp only at hmono2 ⊢
                omega
            · exact hbound p hp' hpk
          · rw [hl4] at hmono2
            simp only at hmono2
            omega
          · rw [hbuf2, hbuf4, hbuf3]

theorem GetTexture_eq_none_iff (e : D3D10Effect) (n : String) :
    e.GetTexture n = none ↔ n ∉ e.mTextures.map Prod.fst := by
  unfold D3D10Effect.GetTexture
  simp only [Option.map_eq_none', List.find?_eq_none, beq_iff_eq, List.mem_map, Prod.exists,
    exists_and_right, exists_eq_right, not_exists]
  constructor
  · intro h t ht
    exact h (n, t) ht rfl
  · rintro h ⟨a, t⟩ hp heq
    simp only at heq
    subst heq
    exact h t hp

theorem SetTexture_names (ts : List (String × D3D10Texture)) (name : String) (t : D3D10Texture) :
    (SetTexture ts name t).map Prod.fst = ts.map Prod.fst := by
  induction ts with
  | nil => rfl
  | cons p rest ih =>
    unfold SetTexture
    split_ifs
    · rfl
    · simp only [List.map_cons, ih]

theorem Unresolved_of_names {c c1 : D3D10EffectCompiler} {passes : List FX.Pass}
    (hn : c1.mEffect.mTextures.map Prod.fst = c.mEffect.mTextures.map Prod.fst)
    (h : Unresolved c passes) : Unresolved c1 passes := by
  obtain ⟨p, hp, i, hi, name, hname, hget⟩ := h
  refine ⟨p, hp, i, hi, name, hname, ?_⟩
  rw [GetTexture_eq_none_iff] at hget ⊢
  rw [hn]
  exact hget

theorem Unresolved_mono {c : D3D10EffectCompiler} {ps qs : List FX.Pass}
    (hsub : ∀ p ∈ ps, p ∈ qs) (h : Unresolved c ps) : Unresolved c qs := by
  obtain ⟨p, hp, rest⟩ := h
  exact ⟨p, hsub p hp, rest⟩

theorem QuietCalls_trans {a b c : List DeviceCall} (h1 : QuietCalls a b) (h2 : QuietCalls b c) :
    QuietCalls a c := by
  obtain ⟨x, rfl, hx⟩ := h1
  obtain ⟨y, rfl, hy⟩ := h2
  refine ⟨x ++ y, by simp, ?_⟩
  intro e he
  rcases List.mem_append.1 he with he | he
  · exact hx e he
  · exact hy e he

theorem PassStep_refl (ps : List FX.Pass) (c : D3D10EffectCompiler) : PassStep ps c c :=
  { fatal := id
    constants := rfl
    buffers := rfl
    storages := rfl
    globalSize := rfl
    names := rfl
    calls := QuietCalls_refl _
    errors := ⟨"", by simp⟩
    diagnosed := fun h => Or.inl h
    parameterBlock := rfl
    functionBlock := rfl }

theorem PassStep.mono {ps qs : List FX.Pass} {c c1 : D3D10EffectCompiler}
    (hsub : ∀ p ∈ ps, p ∈ qs) (h : PassStep ps c c1) : PassStep qs c c1 :=
  { h with
    diagnosed := fun hf => by
      rcases h.diagnosed hf with h1 | h1 | h1 | h1
      · exact Or.inl h1
      · exact Or.inr (Or.inl h1)
      · exact Or.inr (Or.inr (Or.inl h1))
      · exact Or.inr (Or.inr (Or.inr (Unresolved_mono hsub h1))) }

theorem PassStep_trans {ps : List FX.Pass} {a b c : D3D10EffectCompiler}
    (h1 : PassStep ps a b) (h2 : PassStep ps b c) : PassStep ps a c := by
  obtain ⟨t1, ht1⟩ := h1.errors
  obtain ⟨t2, ht2⟩ := h2.errors
  obtain ⟨x, hx, -⟩ := h1.calls
  obtain ⟨y, hy, -⟩ := h2.calls
  refine
    { fatal := fun h => h2.fatal (h1.fatal h)
      constants := h2.constants.trans h1.constants
      buffers := h2.buffers.trans h1.buffers
      storages := h2.storages.trans h1.storages
      globalSize := h2.globalSize.trans h1.globalSize
      names := h2.names.trans h1.names
      calls := QuietCalls_trans h1.calls h2.calls
      errors := ⟨t1 ++ t2, by rw [ht2, ht1, String.append_assoc]⟩
      diagnosed := ?_
      parameterBlock := h2.parameterBlock.trans h1.parameterBlock
      functionBlock := h2.functionBlock.trans h1.functionBlock }
  intro hf
  rcases h2.diagnosed hf with h | h | h | h
  · rcases h1.diagnosed h with h | h | h | h
    · exact Or.inl h
    · right; left
      rw [ht2]
      exact HasErrorDiagnostic_append _ _ h
    · right; right; left
      obtain ⟨e, he, hfail, hblob⟩ := h
      refine ⟨e, ?_, hfail, ?_⟩
      · rw [hx, List.drop_left] at he
        rw [hy, hx, List.append_assoc, List.drop_left]
        exact List.mem_append_left _ he
      · intro text htext
        obtain ⟨u, v, huv⟩ := hblob text htext
        exact ⟨u, v ++ t2, by rw [ht2, huv, String.append_assoc]⟩
    · right; right; right
      exact Unresolved_of_names h2.names h
  · exact Or.inr (Or.inl h)
  · right; right; left
    obtain ⟨e, he, hfail, hblob⟩ := h
    refine ⟨e, ?_, hfail, ?_⟩
    · rw [hy, List.drop_left] at he
      rw [hy, hx, List.append_assoc, List.drop_left]
      exact List.mem_append_right _ he
    · intro text htext
      obtain ⟨u, v, huv⟩ := hblob text htext
      exact ⟨t1 ++ u, v, by rw [huv, ht1, String.append_assoc a.mErrors t1 u]⟩
  · exact Or.inr (Or.inr (Or.inr h))

theorem PassStep.of (ps : List FX.Pass) (c c1 : D3D10EffectCompiler)
    (hconst : c1.mEffect.mConstants = c.mEffect.mConstants)
    (hbuf : c1.mEffect.mConstantBuffers = c.mEffect.mConstantBuffers)
    (hstor : c1.mEffect.mConstantStorages = c.mEffect.mConstantStorages)
    (hused : c1.mCurrentGlobalSize = c.mCurrentGlobalSize)
    (hnames : c1.mEffect.mTextures.map Prod.fst = c.mEffect.mTextures.map Prod.fst)
    (hcalls : QuietCalls c.mDeviceCalls c1.mDeviceCalls)
    (herrors : ∃ t, c1.mErrors = c.mErrors ++ t)
    (hfatal : c1.mFatal = c.mFatal ∨
      (c1.mFatal = true ∧
        (HasErrorDiagnostic c1.mErrors ∨
          CompileFailed c.mDeviceCalls c1.mDeviceCalls c.mErrors c1.mErrors ∨
          Unresolved c1 ps)))
    (hp : c1.mCurrentInParameterBlock = c.mCurrentInParameterBlock)
    (hf : c1.mCurrentInFunctionBlock = c.mCurrentInFunctionBlock) : PassStep ps c c1 :=
  { fatal := fun h => by
      rcases hfatal with h1 | h1
      · rw [h1]; exact h
      · exact h1.1
    constants := hconst
    buffers := hbuf
    storages := hstor
    globalSize := hused
    names := hnames
    calls := hcalls
    errors := herrors
    diagnosed := fun h => by
      rcases hfatal with h1 | h1
      · exact Or.inl (by rw [← h1]; exact h)
      · exact Or.inr h1.2
    parameterBlock := hp
    functionBlock := hf }

theorem VisitShader_step (env : Env) (c c1 : D3D10EffectCompiler) (node : FX.Function)
    (shadertype : String) (pass pass1 : Pass)
    (h : VisitShader env c node shadertype pass = some (c1, pass1)) : PassStep [] c c1 := by
  unfold VisitShader at h
  simp only at h
  generalize (if env.mRuntime.mSkipShaderOptimization = true then
      D3DCOMPILE_ENABLE_STRICTNESS ||| D3DCOMPILE_SKIP_OPTIMIZATION
    else D3DCOMPILE_ENABLE_STRICTNESS) = flags at h
  have herr : ∀ (o : Option String), ∃ t, (match o with
      | some text => c.mErrors ++ text
      | none => c.mErrors) = c.mErrors ++ t := by
    intro o
    cases o with
    | none => exact text_ext_refl _
    | some text => exact ⟨text, rfl⟩
  split_ifs at h with h1 h2 h3
  · simp only [Option.some.injEq, Prod.mk.injEq] at h
    obtain ⟨h, -⟩ := h
    subst h
    refine PassStep.of _ _ _ rfl rfl rfl rfl rfl (QuietCalls.call _ _ (QuietCalls_refl _) rfl)
      (herr _) (Or.inr ⟨rfl, Or.inr (Or.inl ?_)⟩) rfl rfl
    simp only [CompileFailed, Device.call, List.drop_left, List.mem_singleton, exists_eq_left]
    refine ⟨by simpa [DeviceCall.isFailedCompile, Device.call] using h1, ?_⟩
    intro text htext
    rw [htext]
    exact ⟨"", "", by simp⟩
  all_goals
    split at h
    · simp at h
    · first
      | (split_ifs at h with h4
         · simp only [Option.some.injEq, Prod.mk.injEq] at h
           obtain ⟨h, -⟩ := h
           subst h
           refine PassStep.of _ _ _ rfl rfl rfl rfl rfl
             (QuietCalls.call _ _ (QuietCalls.call _ _ (QuietCalls_refl _) rfl) rfl) ?_
             (Or.inr ⟨rfl, Or.inl ?_⟩) rfl rfl
           · exact text_ext_append _ (text_ext_append _ (herr _))
           · repeat (first | exact HasErrorDiagnostic_literal _ _ (by decide) | apply HasErrorDiagnostic_append)
         · simp only [Option.some.injEq, Prod.mk.injEq] at h
           obtain ⟨h, -⟩ := h
           subst h
           exact PassStep.of _ _ _ rfl rfl rfl rfl rfl
             (QuietCalls.call _ _ (QuietCalls.call _ _ (QuietCalls_refl _) rfl) rfl) (herr _)
             (Or.inl rfl) rfl rfl)
      | (simp only [Option.some.injEq, Prod.mk.injEq] at h
         obtain ⟨h, -⟩ := h
         subst h
         exact PassStep.of _ _ _ rfl rfl rfl rfl rfl (QuietCalls.call _ _ (QuietCalls_refl _) rfl)
           (herr _) (Or.inl rfl) rfl rfl)

theorem VisitPassTarget_step (env : Env) (node : FX.Pass) (c c1 : D3D10EffectCompiler)
    (pass : Pass) (i : Nat) (name : String) (r : TargetsResult) (hi : i < 8)
    (hname : node.States.RenderTargets.getD i none = some name)
    (h : VisitPassTarget env node c pass i name = some (c1, r)) : PassStep [node] c c1 := by
  unfold VisitPassTarget at h
  simp only at h
  split at h
  · rename_i hget
    simp only [Option.some.injEq, Prod.mk.injEq] at h
    obtain ⟨h, -⟩ := h
    subst h
    exact PassStep.of _ _ _ rfl rfl rfl rfl rfl (QuietCalls_refl _) (text_ext_refl _)
      (Or.inr ⟨rfl, Or.inr (Or.inr ⟨node, List.mem_singleton.2 rfl, i, hi, name, hname, hget⟩)⟩)
      rfl rfl
  · split at h
    · simp at h
    · split_ifs at h
      all_goals
        simp only [Option.some.injEq, Prod.mk.injEq] at h
        obtain ⟨h, -⟩ := h
        subst h
      all_goals first
        | (refine PassStep.of _ _ _ rfl rfl rfl rfl rfl (QuietCalls_refl _) ?_
            (Or.inr ⟨rfl, Or.inl ?_⟩) rfl rfl
           · repeat (first | exact text_ext_refl _ | apply text_ext_append)
           · repeat (first | exact HasErrorDiagnostic_literal _ _ (by decide) | apply HasErrorDiagnostic_append))
        | (refine PassStep.of _ _ _ rfl rfl rfl rfl (SetTexture_names _ _ _) ?_ ?_ (Or.inl rfl) rfl rfl
           · first
             | exact QuietCalls_refl _
             | exact QuietCalls.call _ _ (QuietCalls_refl _) rfl
           · repeat (first | exact text_ext_refl _ | apply text_ext_append))

theorem VisitPassTargets_step (env : Env) (node : FX.Pass) :
    ∀ (indices : List Nat) (c c1 : D3D10EffectCompiler) (pass : Pass) (r : TargetsResult),
      (∀ i ∈ indices, i < 8) →
      VisitPassTargets env node c pass indices = some (c1, r) → PassStep [node] c c1
  | [], c, c1, pass, r, _, h => by
      unfold VisitPassTargets at h
      simp only [Option.some.injEq, Prod.mk.injEq] at h
      obtain ⟨h, -⟩ := h
      subst h
      exact PassStep_refl _ _
  | i :: rest, c, c1, pass, r, hall, h => by
      unfold VisitPassTargets at h
      split at h
      · exact VisitPassTargets_step env node rest c c1 pass r
          (fun j hj => hall j (List.mem_cons_of_mem _ hj)) h
      · rename_i name hname
        split at h
        · simp at h
        · rename_i c2 htarget
          simp only [Option.some.injEq, Prod.mk.injEq] at h
          obtain ⟨h, -⟩ := h
          subst h
          exact VisitPassTarget_step env node c c2 pass i name _ (hall i (List.mem_cons_self _ _))
            hname htarget
        · rename_i c2 pass1 htarget
          exact PassStep_trans
            (VisitPassTarget_step env node c c2 pass i name _ (hall i (List.mem_cons_self _ _))
              hname htarget)
            (VisitPassTargets_step env node rest c2 c1 pass1 r
              (fun j hj => hall j (List.mem_cons_of_mem _ hj)) h)

theorem VisitPassStates_step (env : Env) (node : FX.Pass) (c : D3D10EffectCompiler)
    (pass : Pass) (passes : List Pass) :
    PassStep [] c (VisitPassStates env node c pass passes).1 := by
  unfold VisitPassStates
  simp only
  refine PassStep.of _ _ _ ?_ ?_ ?_ ?_ ?_ ?_ ?_ (Or.inl ?_) ?_ ?_
  all_goals split_ifs
  all_goals first
    | rfl
    | exact QuietCalls.call _ _ (QuietCalls.call _ _ (QuietCalls_refl _) rfl) rfl
    | (repeat (first | exact text_ext_refl _ | apply text_ext_append))

theorem VisitPassShaders_step (env : Env) (node : FX.Pass) (c c1 : D3D10EffectCompiler)
    (pass pass1 : Pass) (h : VisitPassShaders env node c pass = some (c1, pass1)) :
    PassStep [] c c1 := by
  unfold VisitPassShaders at h
  simp only at h
  split at h
  · simp at h
  · rename_i c2 pass2 hvs
    have h1 : PassStep [] c c2 := by
      split at hvs
      · exact VisitShader_step _ _ _ _ _ _ _ hvs
      · simp only [Option.some.injEq, Prod.mk.injEq] at hvs
        rw [← hvs.1]
        exact PassStep_refl _ _
    have h2 : PassStep [] c2 c1 := by
      split at h
      · exact VisitShader_step _ _ _ _ _ _ _ h
      · simp only [Option.some.injEq, Prod.mk.injEq] at h
        rw [← h.1]
        exact PassStep_refl _ _
    exact PassStep_trans h1 h2

theorem VisitPass_step (env : Env) (c c1 : D3D10EffectCompiler) (node : FX.Pass)
    (passes passes1 : List Pass) (h : VisitPass env c node passes = some (c1, passes1)) :
    PassStep [node] c c1 := by
  unfold VisitPass at h
  split at h
  · simp at h
  · rename_i c2 pass1 hshaders
    have h1 : PassStep [node] c c2 :=
      PassStep.mono (by simp) (VisitPassShaders_step env node c c2 _ pass1 hshaders)
    simp only at h
    split at h
    · simp at h
    · rename_i c3 htargets
      simp only [Option.some.injEq, Prod.mk.injEq] at h
      rw [← h.1]
      exact PassStep_trans h1
        (VisitPassTargets_step env node _ c2 c3 _ _ (by simp [List.mem_range]) htargets)
    · rename_i c3 pass3 htargets
      simp only [Option.some.injEq] at h
      have h2 := VisitPassTargets_step env node _ c2 c3 _ _ (by simp [List.mem_range]) htargets
      have h3 := (VisitPassStates_step env node c3
        (if pass3.Viewport.Width = 0 ∧ pass3.Viewport.Height = 0 then
          { pass3 with
            Viewport :=
              { pass3.Viewport with
                Width := env.mRuntime.mSwapChainDescWidth,
                Height := env.mRuntime.mSwapChainDescHeight } }
         else pass3) passes)
      rw [h] at h3
      exact PassStep_trans h1 (PassStep_trans h2 (PassStep.mono (by simp) h3))

theorem VisitPasses_step (env : Env) :
    ∀ (nodes : List FX.Pass) (ps : List FX.Pass) (c c1 : D3D10EffectCompiler)
      (passes passes1 : List Pass),
      (∀ p ∈ nodes, p ∈ ps) →
      VisitPasses env c passes nodes = some (c1, passes1) → PassStep ps c c1
  | [], ps, c, c1, passes, passes1, _, h => by
      unfold VisitPasses at h
      simp only [Option.some.injEq, Prod.mk.injEq] at h
      rw [← h.1]
      exact PassStep_refl _ _
  | node :: rest, ps, c, c1, passes, passes1, hsub, h => by
      unfold VisitPasses at h
      split at h
      · simp at h
      · rename_i c2 passes2 hpass
        exact PassStep_trans
          (PassStep.mono (fun p hp => hsub p (by rw [List.mem_singleton.1 hp]; exact List.mem_cons_self _ _))
            (VisitPass_step env c c2 node passes passes2 hpass))
          (VisitPasses_step env rest ps c2 c1 passes2 passes1
            (fun p hp => hsub p (List.mem_cons_of_mem _ hp)) h)

theorem VisitTechnique_step (env : Env) (ps : List FX.Pass) (c c1 : D3D10EffectCompiler)
    (node : FX.Technique) (hsub : ∀ p ∈ node.Passes, p ∈ ps)
    (h : VisitTechnique env c node = some c1) : PassStep ps c c1 := by
  unfold VisitTechnique at h
  split at h
  · simp at h
  · rename_i c2 passes hpasses
    simp only [Option.some.injEq] at h
    subst h
    exact PassStep_trans (VisitPasses_step env node.Passes ps c c2 [] passes hsub hpasses)
      (PassStep.of _ _ _ rfl rfl rfl rfl rfl (QuietCalls_refl _) (text_ext_refl _) (Or.inl rfl)
        rfl rfl)

theorem VisitTechniques_step (env : Env) (ps : List FX.Pass) :
    ∀ (nodes : List FX.Technique) (c c1 : D3D10EffectCompiler),
      (∀ t ∈ nodes, ∀ p ∈ t.Passes, p ∈ ps) →
      VisitTechniques env c nodes = some c1 → PassStep ps c c1
  | [], c, c1, _, h => by
      unfold VisitTechniques at h
      simp only [Option.some.injEq] at h
      subst h
      exact PassStep_refl _ _
  | node :: rest, c, c1, hsub, h => by
      unfold VisitTechniques at h
      split at h
      · simp at h
      · rename_i c2 htech
        exact PassStep_trans
          (VisitTechnique_step env ps c c2 node (hsub node (List.mem_cons_self _ _)) htech)
          (VisitTechniques_step env ps rest c2 c1
            (fun t ht => hsub t (List.mem_cons_of_mem _ ht)) h)

/-- The relation `Step` reads only the effect, the fatal flag, the diagnostics, the device
history and the two block flags of the states it relates. -/
theorem Step.congr (a b a1 b1 : D3D10EffectCompiler) (h : Step a b)
    (ha1 : a1.mFatal = a.mFatal) (ha2 : a1.mEffect = a.mEffect)
    (ha3 : a1.mDeviceCalls = a.mDeviceCalls) (ha4 : a1.mErrors = a.mErrors)
    (hb1 : b1.mFatal = b.mFatal) (hb2 : b1.mEffect = b.mEffect)
    (hb3 : b1.mDeviceCalls = b.mDeviceCalls) (hb4 : b1.mErrors = b.mErrors)
    (hp : b1.mCurrentInParameterBlock = a1.mCurrentInParameterBlock)
    (hf : b1.mCurrentInFunctionBlock = a1.mCurrentInFunctionBlock) : Step a1 b1 :=
  { fatal := by rw [ha1, hb1]; exact h.fatal
    constants := by rw [ha2, hb2]; exact h.constants
    buffers := by rw [ha2, hb2]; exact h.buffers
    calls := by rw [ha3, hb3, hb1]; exact h.calls
    errors := by rw [ha4, hb4]; exact h.errors
    diagnosed := by rw [ha1, hb1, hb4]; exact h.diagnosed
    parameterBlock := hp
    functionBlock := hf }

theorem VisitStruct_step (env : Env) (c c1 : D3D10EffectCompiler) (node : FX.Struct)
    (h : VisitStruct env c node = some c1) : Step c c1 := by
  unfold VisitStruct at h
  simp only at h
  split at h
  · simp at h
  · rename_i c2 hbody
    simp only [Option.some.injEq] at h
    subst h
    split_ifs at hbody
    · exact Step.congr _ _ _ _ (VisitVariables_step env _ _ _ hbody) rfl rfl rfl rfl rfl rfl rfl rfl
        (VisitVariables_step env _ _ _ hbody).parameterBlock
        (VisitVariables_step env _ _ _ hbody).functionBlock
    · simp only [Option.some.injEq] at hbody
      subst hbody
      exact Step.congr _ _ _ _ (Step_refl c) rfl rfl rfl rfl rfl rfl rfl rfl rfl rfl

theorem VisitStructs_step (env : Env) :
    ∀ (nodes : List FX.Struct) (c c1 : D3D10EffectCompiler),
      VisitStructs env c nodes = some c1 → Step c c1
  | [], c, c1, h => by
      unfold VisitStructs at h
      simp only [Option.some.injEq] at h
      subst h
      exact Step_refl _
  | node :: rest, c, c1, h => by
      unfold VisitStructs at h
      split at h
      · simp at h
      · rename_i c2 hnode
        exact Step_trans _ _ _ (VisitStruct_step env c c2 node hnode)
          (VisitStructs_step env rest c2 c1 h)

theorem VisitParameters_step (env : Env) :
    ∀ (nodes : List FX.Variable) (c c1 : D3D10EffectCompiler),
      VisitParameters env c nodes = some c1 → Step c c1
  | [], c, c1, h => by
      unfold VisitParameters at h
      simp only [Option.some.injEq] at h
      subst h
      exact Step_refl _
  | node :: rest, c, c1, h => by
      unfold VisitParameters at h
      split at h
      · simp at h
      · rename_i c2 hnode
        have h1 := VisitVariable_step env node c c2 hnode
        have h2 := VisitParameters_step env rest _ c1 h
        exact Step_trans _ _ _ h1
          (Step.congr _ _ _ _ h2 rfl rfl rfl rfl rfl rfl rfl rfl h2.parameterBlock h2.functionBlock)

theorem VisitFunction_step (env : Env) (c c1 : D3D10EffectCompiler) (node : FX.Function)
    (hp : c.mCurrentInParameterBlock = false) (hf : c.mCurrentInFunctionBlock = false)
    (h : VisitFunction env c node = some c1) : Step c c1 := by
  unfold VisitFunction at h
  split at h
  · simp at h
  · simp only at h
    split at h
    · simp at h
    · rename_i c2 hparams
      simp only [Option.some.injEq] at h
      subst h
      exact Step.congr _ _ _ _ (VisitParameters_step env _ _ _ hparams) rfl rfl rfl rfl rfl rfl
        rfl rfl hp.symm hf.symm

theorem VisitFunctions_step (env : Env) :
    ∀ (nodes : List FX.Function) (c c1 : D3D10EffectCompiler),
      c.mCurrentInParameterBlock = false → c.mCurrentInFunctionBlock = false →
      VisitFunctions env c nodes = some c1 → Step c c1
  | [], c, c1, _, _, h => by
      unfold VisitFunctions at h
      simp only [Option.some.injEq] at h
      subst h
      exact Step_refl _
  | node :: rest, c, c1, hp, hf, h => by
      unfold VisitFunctions at h
      split at h
      · simp at h
      · rename_i c2 hnode
        have h1 := VisitFunction_step env c c2 node hp hf hnode
        exact Step_trans _ _ _ h1
          (VisitFunctions_step env rest c2 c1 (by rw [h1.parameterBlock]; exact hp)
            (by rw [h1.functionBlock]; exact hf) h)

/-! ## Declarations that register no uniform -/

theorem VisitTexture_frame (env : Env) (c c1 : D3D10EffectCompiler) (v : FX.Variable)
    (h : VisitTexture env c v = some c1) :
    c1.mEffect.mConstantBuffers = c.mEffect.mConstantBuffers ∧
      c1.mCurrentGlobalSize = c.mCurrentGlobalSize := by
  unfold VisitTexture at h
  simp only at h
  split at h
  · simp at h
  · split_ifs at h <;> simp only [Option.some.injEq] at h <;> subst h
    · exact ⟨rfl, rfl⟩
    · exact ⟨rfl, rfl⟩
    · unfold VisitTextureCreate
      simp only
      split_ifs <;> exact ⟨rfl, rfl⟩

theorem VisitSampler_frame (env : Env) (c c1 : D3D10EffectCompiler) (v : FX.Variable)
    (h : VisitSampler env c v = some c1) :
    c1.mEffect.mConstantBuffers = c.mEffect.mConstantBuffers ∧
      c1.mCurrentGlobalSize = c.mCurrentGlobalSize := by
  unfold VisitSampler at h
  split at h
  · simp only [Option.some.injEq] at h
    subst h
    exact ⟨rfl, rfl⟩
  · simp only at h
    split at h
    · simp only [Option.some.injEq] at h
      subst h
      exact ⟨rfl, rfl⟩
    · split at h
      · simp only [Option.some.injEq] at h
        subst h
        exact ⟨rfl, rfl⟩
      · split at h
        · simp only [Option.some.injEq] at h
          subst h
          exact ⟨rfl, rfl⟩
        · simp only [Option.some.injEq] at h
          subst h
          exact ⟨rfl, rfl⟩

theorem VisitVariableDecl_frame (env : Env) (c c1 : D3D10EffectCompiler) (v : FX.Variable)
    (h : VisitVariableDecl env c v = some c1) :
    c1.mEffect.mConstantBuffers = c.mEffect.mConstantBuffers ∧
      c1.mCurrentGlobalSize = c.mCurrentGlobalSize := by
  unfold VisitVariableDecl at h
  simp only at h
  split at h
  · simp at h
  · simp only [Option.some.injEq] at h
    subst h
    exact ⟨rfl, rfl⟩

/-- A variable that is not routed to `VisitUniformBuffer` or `VisitUniform`, or that is visited
inside a parameter list, leaves the constant buffers and the used size of the global buffer as
they are. -/
theorem VisitVariable_frame (env : Env) (c c1 : D3D10EffectCompiler) (v : FX.Variable)
    (hv : DeclaresUniform v = false ∨ c.mCurrentInParameterBlock = true ∨
      c.mCurrentInFunctionBlock = true)
    (h : VisitVariable env c v = some c1) :
    c1.mEffect.mConstantBuffers = c.mEffect.mConstantBuffers ∧
      c1.mCurrentGlobalSize = c.mCurrentGlobalSize := by
  cases v with
  | mk ty name sem ann init props loc =>
    cases ty with
    | mk b q r k a d =>
      have key : ∀ (o : Option D3D10EffectCompiler),
          VisitVariable env c (FX.Variable.mk (FX.TypeNode.mk b q r k a d) name sem ann init props loc)
            = (if (!(c.mCurrentInParameterBlock || c.mCurrentInFunctionBlock)) = true then
                if ((FX.TypeNode.mk b q r k a d).IsStruct &&
                    (FX.TypeNode.mk b q r k a d).HasQualifier FX.Qualifier.Uniform) = true then o
                else if (FX.TypeNode.mk b q r k a d).IsTexture = true then
                  VisitTexture env c
                    (FX.Variable.mk (FX.TypeNode.mk b q r k a d) name sem ann init props loc)
                else if (FX.TypeNode.mk b q r k a d).IsSampler = true then
                  VisitSampler env c
                    (FX.Variable.mk (FX.TypeNode.mk b q r k a d) name sem ann init props loc)
                else if (FX.TypeNode.mk b q r k a d).HasQualifier FX.Qualifier.Uniform = true then
                  VisitUniform env c
                    (FX.Variable.mk (FX.TypeNode.mk b q r k a d) name sem ann init props loc)
                else
                  VisitVariableDecl env c
                    (FX.Variable.mk (FX.TypeNode.mk b q r k a d) name sem ann init props loc)
              else
                VisitVariableDecl env c
                  (FX.Variable.mk (FX.TypeNode.mk b q r k a d) name sem ann init props loc)) →
          c1.mEffect.mConstantBuffers = c.mEffect.mConstantBuffers ∧
            c1.mCurrentGlobalSize = c.mCurrentGlobalSize := by
        intro o ho
        rw [ho] at h
        split_ifs at h with h1 h2 h3 h4 h5
        · exfalso
          rcases hv with hv | hv | hv
          · simp only [DeclaresUniform, FX.Variable.Ty] at hv
            simp only [Bool.and_eq_true] at h2
            have h6 : (FX.TypeNode.mk b q r k a d).IsTexture = false := by
              have := h2.1
              simp only [FX.TypeNode.IsStruct, FX.TypeNode.BaseClass] at this
              simp only [FX.TypeNode.IsTexture, FX.TypeNode.BaseClass]
              cases b <;> simp_all
            have h7 : (FX.TypeNode.mk b q r k a d).IsSampler = false := by
              have := h2.1
              simp only [FX.TypeNode.IsStruct, FX.TypeNode.BaseClass] at this
              simp only [FX.TypeNode.IsSampler, FX.TypeNode.BaseClass]
              cases b <;> simp_all
            rw [h2.2, h6, h7] at hv
            simp at hv
          · simp [hv] at h1
          · simp [hv] at h1
        · exact VisitTexture_frame env c c1 _ h
        · exact VisitSampler_frame env c c1 _ h
        · exfalso
          rcases hv with hv | hv | hv
          · simp only [DeclaresUniform, FX.Variable.Ty] at hv
            simp only [Bool.not_eq_true] at h3 h4
            rw [h5, h3, h4] at hv
            simp at hv
          · simp [hv] at h1
          · simp [hv] at h1
        · exact VisitVariableDecl_frame env c c1 _ h
        · exact VisitVariableDecl_frame env c c1 _ h
      cases d with
      | none => exact key _ (by rw [VisitVariable.eq_2])
      | some st =>
        cases st with
        | mk sn fields sl =>
          exact key _ (by rw [VisitVariable.eq_1])

theorem VisitVariables_frame (env : Env) :
    ∀ (nodes : List FX.Variable) (c c1 : D3D10EffectCompiler),
      (∀ v ∈ nodes, DeclaresUniform v = false) →
      VisitVariables env c nodes = some c1 →
      c1.mEffect.mConstantBuffers = c.mEffect.mConstantBuffers ∧
        c1.mCurrentGlobalSize = c.mCurrentGlobalSize
  | [], c, c1, _, h => by
      unfold VisitVariables at h
      simp only [Option.some.injEq] at h
      subst h
      exact ⟨rfl, rfl⟩
  | node :: rest, c, c1, hall, h => by
      unfold VisitVariables at h
      split at h
      · simp at h
      · rename_i c2 hnode
        have h1 := VisitVariable_frame env c c2 node (Or.inl (hall node (List.mem_cons_self _ _)))
          hnode
        have h2 := VisitVariables_frame env rest c2 c1
          (fun v hv => hall v (List.mem_cons_of_mem _ hv)) h
        exact ⟨h2.1.trans h1.1, h2.2.trans h1.2⟩

theorem VisitStruct_frame (env : Env) (c c1 : D3D10EffectCompiler) (node : FX.Struct)
    (hall : ∀ f ∈ node.Fields, DeclaresUniform f = false)
    (h : VisitStruct env c node = some c1) :
    c1.mEffect.mConstantBuffers = c.mEffect.mConstantBuffers ∧
      c1.mCurrentGlobalSize = c.mCurrentGlobalSize := by
  unfold VisitStruct at h
  simp only at h
  split at h
  · simp at h
  · rename_i c2 hbody
    simp only [Option.some.injEq] at h
    subst h
    split_ifs at hbody
    · have h1 := VisitVariables_frame env _ _ _ hall hbody
      exact ⟨h1.1, h1.2⟩
    · simp only [Option.some.injEq] at hbody
      subst hbody
      exact ⟨rfl, rfl⟩

theorem VisitStructs_frame (env : Env) :
    ∀ (nodes : List FX.Struct) (c c1 : D3D10EffectCompiler),
      (∀ s ∈ nodes, ∀ f ∈ s.Fields, DeclaresUniform f = false) →
      VisitStructs env c nodes = some c1 →
      c1.mEffect.mConstantBuffers = c.mEffect.mConstantBuffers ∧
        c1.mCurrentGlobalSize = c.mCurrentGlobalSize
  | [], c, c1, _, h => by
      unfold VisitStructs at h
      simp only [Option.some.injEq] at h
      subst h
      exact ⟨rfl, rfl⟩
  | node :: rest, c, c1, hall, h => by
      unfold VisitStructs at h
      split at h
      · simp at h
      · rename_i c2 hnode
        have h1 := VisitStruct_frame env c c2 node (hall node (List.mem_cons_self _ _)) hnode
        have h2 := VisitStructs_frame env rest c2 c1
          (fun s hs => hall s (List.mem_cons_of_mem _ hs)) h
        exact ⟨h2.1.trans h1.1, h2.2.trans h1.2⟩

theorem VisitParameters_frame (env : Env) :
    ∀ (nodes : List FX.Variable) (c c1 : D3D10EffectCompiler),
      c.mCurrentInParameterBlock = true →
      VisitParameters env c nodes = some c1 →
      c1.mEffect.mConstantBuffers = c.mEffect.mConstantBuffers ∧
        c1.mCurrentGlobalSize = c.mCurrentGlobalSize
  | [], c, c1, _, h => by
      unfold VisitParameters at h
      simp only [Option.some.injEq] at h
      subst h
      exact ⟨rfl, rfl⟩
  | node :: rest, c, c1, hp, h => by
      unfold VisitParameters at h
      split at h
      · simp at h
      · rename_i c2 hnode
        have h1 := VisitVariable_frame env c c2 node (Or.inr (Or.inl hp)) hnode
        have h2 := VisitParameters_frame env rest _ c1
          (by
            show c2.mCurrentInParameterBlock = true
            rw [(VisitVariable_step env node c c2 hnode).parameterBlock]; exact hp) h
        exact ⟨h2.1.trans h1.1, h2.2.trans h1.2⟩

theorem VisitFunction_frame (env : Env) (c c1 : D3D10EffectCompiler) (node : FX.Function)
    (h : VisitFunction env c node = some c1) :
    c1.mEffect.mConstantBuffers = c.mEffect.mConstantBuffers ∧
      c1.mCurrentGlobalSize = c.mCurrentGlobalSize := by
  unfold VisitFunction at h
  split at h
  · simp at h
  · simp only at h
    split at h
    · simp at h
    · rename_i c2 hparams
      simp only [Option.some.injEq] at h
      subst h
      have h1 := VisitParameters_frame env _ _ _ rfl hparams
      exact ⟨h1.1, h1.2⟩

theorem VisitFunctions_frame (env : Env) :
    ∀ (nodes : List FX.Function) (c c1 : D3D10EffectCompiler),
      VisitFunctions env c nodes = some c1 →
      c1.mEffect.mConstantBuffers = c.mEffect.mConstantBuffers ∧
        c1.mCurrentGlobalSize = c.mCurrentGlobalSize
  | [], c, c1, h => by
      unfold VisitFunctions at h
      simp only [Option.some.injEq] at h
      subst h
      exact ⟨rfl, rfl⟩
  | node :: rest, c, c1, h => by
      unfold VisitFunctions at h
      split at h
      · simp at h
      · rename_i c2 hnode
        have h1 := VisitFunction_frame env c c2 node hnode
        have h2 := VisitFunctions_frame env rest c2 c1 h
        exact ⟨h2.1.trans h1.1, h2.2.trans h1.2⟩

/-! ## `Traverse` -/

/-- The stages of a run of `Traverse` that returns. -/
theorem Traverse_parts (env : Env) (ast : FX.Tree) (c0 : D3D10EffectCompiler)
    (effect : D3D10Effect) (errors : String) (ok : Bool) (errors1 : String)
    (c : D3D10EffectCompiler)
    (h : Traverse env ast c0 effect errors = some (ok, errors1, c)) :
    ∃ c1 c2 c3 c4,
      VisitStructs env (TraverseBegin c0 effect) ast.Types = some c1 ∧
      VisitVariables env c1 ast.Uniforms = some c2 ∧
      VisitFunctions env c2 ast.Functions = some c3 ∧
      VisitTechniques env c3 ast.Techniques = some c4 ∧
      TraverseEnd env c4 = some c ∧ ok = !c.mFatal ∧ errors1 = errors ++ c.mErrors := by
  unfold Traverse at h
  split at h
  · simp at h
  · rename_i c4 hvisit
    split at h
    · simp at h
    · rename_i c5 hend
      simp only [Option.some.injEq, Prod.mk.injEq] at h
      obtain ⟨h1, h2, h3⟩ := h
      subst h3
      unfold TraverseVisit at hvisit
      split at hvisit
      · simp at hvisit
      · rename_i c1 hs
        split at hvisit
        · simp at hvisit
        · rename_i c2 hu
          split at hvisit
          · simp at hvisit
          · rename_i c3 hf
            exact ⟨c1, c2, c3, c4, hs, hu, hf, hvisit, hend, h1.symm, h2.symm⟩

/-- What lines 52 to 59 of `Traverse` change. -/
theorem TraverseEnd_spec (env : Env) (c c1 : D3D10EffectCompiler)
    (h : TraverseEnd env c = some c1) :
    c1.mFatal = c.mFatal ∧ c1.mErrors = c.mErrors ∧
      c1.mCurrentGlobalSize = c.mCurrentGlobalSize ∧
      c1.mEffect.mConstants = c.mEffect.mConstants ∧
      c1.mEffect.mTextures = c.mEffect.mTextures ∧
      ((c.mCurrentGlobalSize = 0 ∧ c1 = c) ∨
        (c.mCurrentGlobalSize ≠ 0 ∧ ∃ desc bytes slot rest,
          c.mEffect.mConstantBuffers = slot :: rest ∧
          desc.ByteWidth = RoundToMultipleOf16 c.mCurrentGlobalSize ∧
          c1.mDeviceCalls = c.mDeviceCalls ++
            [{ request := DeviceRequest.CreateBuffer desc bytes,
               response := env.mRuntime.mDevice.respond c.mDeviceCalls
                 (DeviceRequest.CreateBuffer desc bytes) }] ∧
          c1.mEffect.mConstantBuffers =
            (if SUCCEEDED (env.mRuntime.mDevice.respond c.mDeviceCalls
                (DeviceRequest.CreateBuffer desc bytes)).hr = true then
              some { id := ObjectId.Created c.mDeviceCalls.length, desc := desc, content := bytes }
             else slot) :: rest)) := by
  unfold TraverseEnd at h
  split_ifs at h with h0
  · split at h
    · rename_i desc bytes slot rest hreq hbuf
      have hw : desc.ByteWidth = RoundToMultipleOf16 c.mCurrentGlobalSize := by
        unfold GlobalBufferRequest at hreq
        simp only at hreq
        split at hreq
        · split at hreq
          · simp only [Option.some.injEq, Prod.mk.injEq] at hreq
            rw [← hreq.1]
          · simp at hreq
        · simp only [Option.some.injEq, Prod.mk.injEq] at hreq
          rw [← hreq.1]
        · simp at hreq
      simp only [Device.call] at h
      split_ifs at h with hs
      · simp only [Option.some.injEq] at h
        subst h
        refine ⟨rfl, rfl, rfl, rfl, rfl, Or.inr ⟨h0, desc, bytes, slot, rest, hbuf, hw, rfl, ?_⟩⟩
        simp [hs]
      · simp only [Option.some.injEq] at h
        subst h
        refine ⟨rfl, rfl, rfl, rfl, rfl, Or.inr ⟨h0, desc, bytes, slot, rest, hbuf, hw, rfl, ?_⟩⟩
        simp [hs, hbuf]
    · simp at h
  · simp only [Option.some.injEq] at h
    subst h
    exact ⟨rfl, rfl, rfl, rfl, rfl, Or.inl ⟨by simpa using h0, rfl⟩⟩

/-- At file scope `Visit(Variable)` hands a sampler to `VisitSampler`. -/
theorem VisitVariable_sampler (env : Env) (c : D3D10EffectCompiler) (v : FX.Variable)
    (hs : v.Ty.IsSampler = true) (hp : c.mCurrentInParameterBlock = false)
    (hf : c.mCurrentInFunctionBlock = false) :
    VisitVariable env c v = VisitSampler env c v := by
  cases v with
  | mk ty name sem ann init props loc =>
    cases ty with
    | mk b q r k a d =>
      simp only [FX.Variable.Ty, FX.TypeNode.IsSampler, FX.TypeNode.BaseClass,
        decide_eq_true_eq] at hs
      subst hs
      have h1 : (FX.TypeNode.mk FX.Class.Sampler2D q r k a d).IsStruct = false := rfl
      have h2 : (FX.TypeNode.mk FX.Class.Sampler2D q r k a d).IsTexture = false := rfl
      have h3 : (FX.TypeNode.mk FX.Class.Sampler2D q r k a d).IsSampler = true := rfl
      cases d with
      | none =>
        rw [VisitVariable.eq_2]
        simp [hp, hf, h1, h2, h3]
      | some st =>
        cases st with
        | mk sn fields sl =>
          rw [VisitVariable.eq_1]
          simp [hp, hf, h1, h2, h3]

/-- A list of file-scope declarations that holds a sampler without the property `Texture`
leaves the fatal flag set. -/
theorem VisitVariables_sampler_fatal (env : Env) (node : FX.Variable)
    (hs : node.Ty.IsSampler = true) (ht : node.Properties.Texture = none) :
    ∀ (nodes : List FX.Variable) (c c1 : D3D10EffectCompiler),
      node ∈ nodes → c.mCurrentInParameterBlock = false → c.mCurrentInFunctionBlock = false →
      VisitVariables env c nodes = some c1 → c1.mFatal = true
  | [], _, _, hmem, _, _, _ => by simp at hmem
  | v :: rest, c, c1, hmem, hp, hf, h => by
      unfold VisitVariables at h
      split at h
      · simp at h
      · rename_i c2 hv
        have s1 := VisitVariable_step env v c c2 hv
        rcases List.mem_cons.1 hmem with rfl | hrest
        · rw [VisitVariable_sampler env c node hs hp hf] at hv
          unfold VisitSampler at hv
          rw [ht] at hv
          simp only [Option.some.injEq] at hv
          have hfatal : c2.mFatal = true := by rw [← hv]
          exact (VisitVariables_step env rest c2 c1 h).fatal hfatal
        · exact VisitVariables_sampler_fatal env node hs ht rest c2 c1 hrest
            (by rw [s1.parameterBlock]; exact hp) (by rw [s1.functionBlock]; exact hf) h

/-- The relations between the stages of a run of `Traverse` on a fresh visitor. -/
theorem Traverse_run (env : Env) (ast : FX.Tree) (history : List DeviceCall)
    (errors errors1 : String) (ok : Bool) (c : D3D10EffectCompiler)
    (h : Traverse env ast (D3D10EffectCompiler.new history) D3D10Effect.new errors =
      some (ok, errors1, c)) :
    ∃ c3 c4,
      Step (TraverseBegin (D3D10EffectCompiler.new history) D3D10Effect.new) c3 ∧
      PassStep (ast.Techniques.flatMap (fun t => t.Passes)) c3 c4 ∧
      TraverseEnd env c4 = some c ∧ ok = !c.mFatal ∧ errors1 = errors ++ c.mErrors := by
  obtain ⟨c1, c2, c3, c4, hs, hu, hf, ht, hend, hok, herr⟩ := Traverse_parts _ _ _ _ _ _ _ _ h
  have s1 := VisitStructs_step env _ _ _ hs
  have s2 := VisitVariables_step env _ _ _ hu
  have s3 := VisitFunctions_step env _ _ _
    (by rw [s2.parameterBlock, s1.parameterBlock]; rfl)
    (by rw [s2.functionBlock, s1.functionBlock]; rfl) hf
  have s4 := VisitTechniques_step env (ast.Techniques.flatMap (fun t => t.Passes)) _ _ _
    (fun t ht p hp => List.mem_flatMap.2 ⟨t, ht, hp⟩) ht
  exact ⟨c3, c4, Step_trans _ _ _ (Step_trans _ _ _ s1 s2) s3, s4, hend, hok, herr⟩

/-! ## The pass that reaches the creation of its states -/

theorem VisitShader_pass (env : Env) (c c1 : D3D10EffectCompiler) (node : FX.Function)
    (shadertype : String) (pass pass1 : Pass)
    (h : VisitShader env c node shadertype pass = some (c1, pass1)) :
    pass1.DSS = pass.DSS ∧ pass1.BS = pass.BS := by
  unfold VisitShader at h
  simp only at h
  generalize (if env.mRuntime.mSkipShaderOptimization = true then
    D3DCOMPILE_ENABLE_STRICTNESS ||| D3DCOMPILE_SKIP_OPTIMIZATION
    else D3DCOMPILE_ENABLE_STRICTNESS) = flags at h
  split_ifs at h with h1
  · simp only [Option.some.injEq, Prod.mk.injEq] at h
    rw [← h.2]
    exact ⟨rfl, rfl⟩
  all_goals
    split at h
    · simp at h
    · first
      | (split_ifs at h <;> simp only [Option.some.injEq, Prod.mk.injEq] at h <;> rw [← h.2] <;>
          exact ⟨rfl, rfl⟩)
      | (simp only [Option.some.injEq, Prod.mk.injEq] at h
         rw [← h.2]
         exact ⟨rfl, rfl⟩)

theorem VisitPassShaders_pass (env : Env) (node : FX.Pass) (c c1 : D3D10EffectCompiler)
    (pass pass1 : Pass) (h : VisitPassShaders env node c pass = some (c1, pass1)) :
    pass1.DSS = pass.DSS ∧ pass1.BS = pass.BS := by
  unfold VisitPassShaders at h
  simp only at h
  split at h
  · simp at h
  · rename_i c2 pass2 hvs
    have h1 : pass2.DSS = pass.DSS ∧ pass2.BS = pass.BS := by
      split at hvs
      · exact VisitShader_pass _ _ _ _ _ _ _ hvs
      · simp only [Option.some.injEq, Prod.mk.injEq] at hvs
        rw [← hvs.2]
        exact ⟨rfl, rfl⟩
    have h2 : pass1.DSS = pass2.DSS ∧ pass1.BS = pass2.BS := by
      split at h
      · exact VisitShader_pass _ _ _ _ _ _ _ h
      · simp only [Option.some.injEq, Prod.mk.injEq] at h
        rw [← h.2]
        exact ⟨rfl, rfl⟩
    exact ⟨h2.1.trans h1.1, h2.2.trans h1.2⟩

theorem VisitPassTarget_pass (env : Env) (node : FX.Pass) (c c1 : D3D10EffectCompiler)
    (pass : Pass) (i : Nat) (name : String) (r : TargetsResult)
    (h : VisitPassTarget env node c pass i name = some (c1, r)) :
    match r with
    | TargetsResult.Done pass1 => pass1.DSS = pass.DSS ∧ pass1.BS = pass.BS
    | TargetsResult.Return => c1.mFatal = true := by
  unfold VisitPassTarget at h
  simp only at h
  split at h
  · simp only [Option.some.injEq, Prod.mk.injEq] at h
    obtain ⟨h1, h2⟩ := h
    subst h1 h2
    rfl
  · split at h
    · simp at h
    · split_ifs at h
      all_goals
        simp only [Option.some.injEq, Prod.mk.injEq] at h
        obtain ⟨h1, h2⟩ := h
        subst h1 h2
      all_goals first
        | rfl
        | exact ⟨rfl, rfl⟩

theorem VisitPassTargets_pass (env : Env) (node : FX.Pass) :
    ∀ (indices : List Nat) (c c1 : D3D10EffectCompiler) (pass : Pass) (r : TargetsResult),
      VisitPassTargets env node c pass indices = some (c1, r) →
      match r with
      | TargetsResult.Done pass1 => pass1.DSS = pass.DSS ∧ pass1.BS = pass.BS
      | TargetsResult.Return => c1.mFatal = true
  | [], c, c1, pass, r, h => by
      unfold VisitPassTargets at h
      simp only [Option.some.injEq, Prod.mk.injEq] at h
      obtain ⟨-, h2⟩ := h
      subst h2
      exact ⟨rfl, rfl⟩
  | i :: rest, c, c1, pass, r, h => by
      unfold VisitPassTargets at h
      split at h
      · exact VisitPassTargets_pass env node rest c c1 pass r h
      · rename_i name hname
        split at h
        · simp at h
        · rename_i c2 htarget
          simp only [Option.some.injEq, Prod.mk.injEq] at h
          obtain ⟨h1, h2⟩ := h
          subst h1 h2
          exact VisitPassTarget_pass env node c c2 pass i name _ htarget
        · rename_i c2 pass1 htarget
          have h1 := VisitPassTarget_pass env node c c2 pass i name _ htarget
          have h2 := VisitPassTargets_pass env node rest c2 c1 pass1 r h
          simp only at h1
          cases r with
          | Done p =>
            simp only at h2 ⊢
            exact ⟨h2.1.trans h1.1, h2.2.trans h1.2⟩
          | Return => exact h2

/-- What lines 1961 to 2033 of `Visit(Pass)` do: two calls on the device, no change of the fatal
flag, one warning for each call that fails, and the pass appended. -/
theorem VisitPassStates_spec (env : Env) (node : FX.Pass) (c : D3D10EffectCompiler)
    (pass0 : Pass) (passes : List Pass) :
    (VisitPassStates env node c pass0 passes).1.mFatal = c.mFatal ∧
    (VisitPassStates env node c pass0 passes).1.mDeviceCalls =
      c.mDeviceCalls ++
        [DepthStencilStateCall env node c.mDeviceCalls,
         BlendStateCall env node (c.mDeviceCalls ++ [DepthStencilStateCall env node c.mDeviceCalls])] ∧
    ∃ p w1 w2,
      (VisitPassStates env node c pass0 passes).2 = passes ++ [p] ∧
      (VisitPassStates env node c pass0 passes).1.mErrors = c.mErrors ++ w1 ++ w2 ∧
      ((DepthStencilStateCall env node c.mDeviceCalls).isFailedDepthStencilState = true →
        p.DSS = pass0.DSS ∧
          w1 = PrintLocation node.Location ++
            "warning: 'ID3D10Device::CreateDepthStencilState' failed!\n") ∧
      ((DepthStencilStateCall env node c.mDeviceCalls).isFailedDepthStencilState = false →
        p.DSS.isSome = true ∧ w1 = "") ∧
      ((BlendStateCall env node
          (c.mDeviceCalls ++ [DepthStencilStateCall env node c.mDeviceCalls])).isFailedBlendState
          = true →
        p.BS = pass0.BS ∧
          w2 = PrintLocation node.Location ++
            "warning: 'ID3D10Device::CreateBlendState' failed!\n") ∧
      ((BlendStateCall env node
          (c.mDeviceCalls ++ [DepthStencilStateCall env node c.mDeviceCalls])).isFailedBlendState
          = false →
        p.BS.isSome = true ∧ w2 = "") := by
  refine ⟨?_, ?_,
    ((VisitPassStates env node c pass0 passes).2.getLast?).getD pass0,
    (if FAILED (env.mRuntime.mDevice.respond c.mDeviceCalls
        (DeviceRequest.CreateDepthStencilState (PassDepthStencilDesc env.literals node))).hr = true then PrintLocation node.Location ++
      "warning: 'ID3D10Device::CreateDepthStencilState' failed!\n" else ""),
    (if FAILED (env.mRuntime.mDevice.respond
        (c.mDeviceCalls ++
          [{ request := DeviceRequest.CreateDepthStencilState
               (PassDepthStencilDesc env.literals node),
             response := env.mRuntime.mDevice.respond c.mDeviceCalls
               (DeviceRequest.CreateDepthStencilState
                 (PassDepthStencilDesc env.literals node)) }])
        (DeviceRequest.CreateBlendState (PassBlendDesc env.literals node))).hr = true then PrintLocation node.Location ++
      "warning: 'ID3D10Device::CreateBlendState' failed!\n" else ""), ?_, ?_, ?_, ?_, ?_, ?_⟩
  all_goals
    unfold VisitPassStates
    simp only [Device.call, DepthStencilStateCall, BlendStateCall,
      DeviceCall.isFailedDepthStencilState, DeviceCall.isFailedBlendState]
    cases hd : FAILED (env.mRuntime.mDevice.respond c.mDeviceCalls
        (DeviceRequest.CreateDepthStencilState (PassDepthStencilDesc env.literals node))).hr <;>
    cases hb : FAILED (env.mRuntime.mDevice.respond
        (c.mDeviceCalls ++
          [{ request := DeviceRequest.CreateDepthStencilState
               (PassDepthStencilDesc env.literals node),
             response := env.mRuntime.mDevice.respond c.mDeviceCalls
               (DeviceRequest.CreateDepthStencilState
                 (PassDepthStencilDesc env.literals node)) }])
        (DeviceRequest.CreateBlendState (PassBlendDesc env.literals node))).hr <;>
    simp [hd, hb, String.append_assoc]

/-- A run of `Visit(Pass)` either returns from the loop over the render targets with the fatal
flag set and no pass appended, or reaches line 1961 with a pass whose two states are null. -/
theorem VisitPass_states (env : Env) (node : FX.Pass) (c c1 : D3D10EffectCompiler)
    (passes passes1 : List Pass) (h : VisitPass env c node passes = some (c1, passes1)) :
    (passes1 = passes ∧ c1.mFatal = true) ∨
      ∃ c2 pass0, pass0.DSS = none ∧ pass0.BS = none ∧
        VisitPassStates env node c2 pass0 passes = (c1, passes1) := by
  unfold VisitPass at h
  split at h
  · simp at h
  · rename_i c2 pass1 hshaders
    have h1 := VisitPassShaders_pass env node c c2 _ pass1 hshaders
    simp only at h
    split at h
    · simp at h
    · rename_i c3 htargets
      simp only [Option.some.injEq, Prod.mk.injEq] at h
      have h2 := VisitPassTargets_pass env node _ c2 c3 _ _ htargets
      simp only at h2
      exact Or.inl ⟨h.2.symm, by rw [← h.1]; exact h2⟩
    · rename_i c3 pass3 htargets
      simp only [Option.some.injEq] at h
      have h2 := VisitPassTargets_pass env node _ c2 c3 _ _ htargets
      simp only at h2
      refine Or.inr ⟨c3, _, ?_, ?_, h⟩
      · split_ifs
        · exact h2.1.trans h1.1
        · exact h2.1.trans h1.1
      · split_ifs
        · exact h2.2.trans h1.2
        · exact h2.2.trans h1.2

/-- C4: for every uniform whose bytes lie inside its mirror and every byte string `b` not longer
than the uniform, `SetValue(b, n)` succeeds and a following `GetValue(out, n)` fills `out` with
exactly `b`. -/
theorem C4_SetValue_then_GetValue (e : D3D10Effect) (u : D3D10Constant)
    (b storage out : List Nat)
    (hstorage : e.mConstantStorages[u.mBufferIndex]? = some (some storage))
    (hsize : b.length ≤ u.mDesc.Size)
    (hbounds : u.mBufferOffset + b.length ≤ storage.length)
    (hout : out.length = b.length) :
    ∃ e1, SetValue e u b b.length = some e1 ∧ GetValue e1 u out b.length = some b := by
  have hmin : min b.length u.mDesc.Size = b.length := Nat.min_eq_left hsize
  have hidx : u.mBufferIndex < e.mConstantStorages.length := by
    by_contra hcon
    rw [List.getElem?_eq_none (by omega)] at hstorage
    simp at hstorage
  obtain ⟨current, hcur⟩ : ∃ current, ReadBytes storage u.mBufferOffset b.length = some current := by
    unfold ReadBytes
    rw [if_pos hbounds]
    exact ⟨_, rfl⟩
  by_cases heq : current = b
  · refine ⟨e, ?_, ?_⟩
    · simp only [SetValue, hmin, hstorage, hcur, ReadBytes_self, heq, if_true]
    · simp only [GetValue, hmin, hstorage, hcur, heq]
      exact WriteBytes_zero_full out b hout
  · obtain ⟨storage1, hw⟩ : ∃ storage1, WriteBytes storage u.mBufferOffset b = some storage1 := by
      unfold WriteBytes
      rw [if_pos hbounds]
      exact ⟨_, rfl⟩
    refine ⟨{ e with
        mConstantStorages := e.mConstantStorages.set u.mBufferIndex (some storage1),
        mConstantsDirty := true }, ?_, ?_⟩
    · simp only [SetValue, hmin, hstorage, hcur, ReadBytes_self, heq, if_false, hw]
    · have hget : (e.mConstantStorages.set u.mBufferIndex (some storage1))[u.mBufferIndex]? =
          some (some storage1) := by
        simp [List.getElem?_set, hidx]
      simp only [GetValue, hmin, hget, ReadBytes_WriteBytes hw]
      exact WriteBytes_zero_full out b hout

/-- Witness of C4: the bytes 1, 2, 3, 4 written to and read back from a four-byte uniform. -/
theorem C4_SetValue_then_GetValue_witness :
    ∃ e1, SetValue Example.zeroEffect Example.scalar [1, 2, 3, 4] 4 = some e1 ∧
      GetValue e1 Example.scalar [9, 9, 9, 9] 4 = some [1, 2, 3, 4] :=
  C4_SetValue_then_GetValue Example.zeroEffect Example.scalar [1, 2, 3, 4] [0, 0, 0, 0] [9, 9, 9, 9]
    (by decide) (by decide) (by decide) (by decide)

/-- C5, as stated, fails: on the effect as its constructor leaves it (dirty flag set), the
bytes stored for the uniform are four zero bytes; writing four zero bytes succeeds and leaves
the flag true although the new bytes did not differ from the stored ones. -/
theorem C5_counterexample :
    GetValue Example.zeroEffect Example.scalar [9, 9, 9, 9] 4 = some [0, 0, 0, 0] ∧
      ∃ e1, SetValue Example.zeroEffect Example.scalar [0, 0, 0, 0] 4 = some e1 ∧
        e1.mConstantsDirty = true :=
  ⟨by decide, Example.zeroEffect, by decide, by decide⟩

/-- C5 amended: after `SetValue` the dirty flag is true if and only if it was true before the
call or the new bytes differed from the stored bytes over the truncated size. -/
theorem C5_dirty_flag (e e1 : D3D10Effect) (u : D3D10Constant) (data : List Nat) (size : Nat)
    (h : SetValue e u data size = some e1) :
    ∃ storage current bytes,
      e.mConstantStorages[u.mBufferIndex]? = some (some storage) ∧
      ReadBytes storage u.mBufferOffset (min size u.mDesc.Size) = some current ∧
      ReadBytes data 0 (min size u.mDesc.Size) = some bytes ∧
      (e1.mConstantsDirty = true ↔ e.mConstantsDirty = true ∨ current ≠ bytes) := by
  unfold SetValue at h
  simp only at h
  split at h
  · rename_i storage hs
    split at h
    · rename_i current bytes hc hb
      refine ⟨storage, current, bytes, hs, hc, hb, ?_⟩
      split at h
      · rename_i heq
        simp only [Option.some.injEq] at h
        subst h
        simp [heq]
      · rename_i hne
        split at h
        · simp only [Option.some.injEq] at h
          subst h
          simp [hne]
        · simp at h
    · simp at h
  · simp at h

/-- Witness of C5: a write of different bytes to a clean effect sets the flag. -/
theorem C5_dirty_flag_witness :
    ∃ storage current bytes,
      ({ Example.zeroEffect with mConstantsDirty := false } : D3D10Effect).mConstantStorages[Example.scalar.mBufferIndex]? = some (some storage) ∧
      ReadBytes storage Example.scalar.mBufferOffset (min 4 Example.scalar.mDesc.Size) = some current ∧
      ReadBytes [1, 2, 3, 4] 0 (min 4 Example.scalar.mDesc.Size) = some bytes ∧
      (({ Example.zeroEffect with mConstantStorages := [some [1, 2, 3, 4]], mConstantsDirty := true } :
          D3D10Effect).mConstantsDirty = true ↔
        ({ Example.zeroEffect with mConstantsDirty := false } : D3D10Effect).mConstantsDirty = true ∨
          current ≠ bytes) :=
  C5_dirty_flag { Example.zeroEffect with mConstantsDirty := false }
    { Example.zeroEffect with mConstantStorages := [some [1, 2, 3, 4]], mConstantsDirty := true }
    Example.scalar [1, 2, 3, 4] 4 (by decide)

/-- C6: `SetValue` truncates the size to the size of the uniform; it changes at most the bytes
`[mBufferOffset, mBufferOffset + min(size, Size))` of the mirror `mBufferIndex` and the dirty
flag, and nothing at all when the stored bytes equal the input. -/
theorem C6_SetValue_frame (e e1 : D3D10Effect) (u : D3D10Constant) (data : List Nat)
    (size : Nat) (h : SetValue e u data size = some e1) :
    (∀ i, i ≠ u.mBufferIndex → e1.mConstantStorages[i]? = e.mConstantStorages[i]?) ∧
    (∃ s s1,
      e.mConstantStorages[u.mBufferIndex]? = some (some s) ∧
      e1.mConstantStorages[u.mBufferIndex]? = some (some s1) ∧
      s1.length = s.length ∧
      (∀ j, j < u.mBufferOffset ∨ u.mBufferOffset + min size u.mDesc.Size ≤ j → s1[j]? = s[j]?) ∧
      (ReadBytes s u.mBufferOffset (min size u.mDesc.Size) =
          ReadBytes data 0 (min size u.mDesc.Size) → e1 = e)) ∧
    e1.mConstantStorages.length = e.mConstantStorages.length ∧
    e1 = { e with mConstantStorages := e1.mConstantStorages,
                  mConstantsDirty := e1.mConstantsDirty } := by
  unfold SetValue at h
  simp only at h
  split at h
  · rename_i storage hs
    split at h
    · rename_i current bytes hc hb
      split at h
      · rename_i heq
        simp only [Option.some.injEq] at h
        subst h
        exact ⟨fun _ _ => rfl, ⟨storage, storage, hs, hs, rfl, fun _ _ => rfl, fun _ => rfl⟩,
          rfl, rfl⟩
      · rename_i hne
        split at h
        · rename_i storage1 hw
          simp only [Option.some.injEq] at h
          subst h
          have hidx : u.mBufferIndex < e.mConstantStorages.length := by
            by_contra hcon
            rw [List.getElem?_eq_none (by omega)] at hs
            simp at hs
          have hlen := ReadBytes_length hb
          refine ⟨?_, ⟨storage, storage1, hs, ?_, WriteBytes_length hw, ?_, ?_⟩, ?_, rfl⟩
          · intro i hi
            simp [List.getElem?_set, Ne.symm hi]
          · simp [List.getElem?_set, hidx]
          · intro j hj
            exact WriteBytes_getElem?_outside hw j (by rw [hlen]; exact hj)
          · intro hsame
            rw [hc, hb] at hsame
            exact absurd (Option.some.inj hsame) hne
          · simp
        · simp at h
    · simp at h
  · simp at h

/-- Witness of C6: a write of two bytes into the four-byte uniform. -/
theorem C6_SetValue_frame_witness :
    ∃ e1, SetValue Example.zeroEffect Example.scalar [7, 8] 2 = some e1 ∧
      e1.mConstantStorages = [some [7, 8, 0, 0]] ∧
      (∀ i, i ≠ Example.scalar.mBufferIndex → e1.mConstantStorages[i]? = Example.zeroEffect.mConstantStorages[i]?) :=
  ⟨{ Example.zeroEffect with mConstantStorages := [some [7, 8, 0, 0]] }, by decide, rfl,
    (C6_SetValue_frame Example.zeroEffect { Example.zeroEffect with mConstantStorages := [some [7, 8, 0, 0]] }
      Example.scalar [7, 8] 2 (by decide)).1⟩

/-- What `UniformBufferEnd` changes. -/
theorem UniformBufferEnd_spec (env : Env) (name : String) (ann : List FX.AnnotationNode)
    (n : Nat) (c c1 : D3D10EffectCompiler) (l : BlockLocals)
    (h : UniformBufferEnd env name ann n c l = some c1) :
    ∃ u : D3D10Constant,
      c1.mEffect.mConstants = c.mEffect.mConstants ++ [(name, u)] ∧
      u.mBufferIndex = c.mEffect.mConstantBuffers.length ∧ u.mBufferOffset = 0 ∧
      u.mDesc.Size = l.totalsize ∧
      (c1.mEffect.mConstantBuffers = c.mEffect.mConstantBuffers ∨
        ∃ b : ID3D10Buffer, c1.mEffect.mConstantBuffers = c.mEffect.mConstantBuffers ++ [some b] ∧
          b.desc.ByteWidth = RoundToMultipleOf16 l.totalsize) := by
  unfold UniformBufferEnd at h
  simp only at h
  split at h
  · simp at h
  · split_ifs at h <;> simp only [Option.some.injEq] at h <;> subst h
    · exact ⟨_, rfl, rfl, rfl, rfl, Or.inr ⟨_, rfl, rfl⟩⟩
    · exact ⟨_, rfl, rfl, rfl, rfl, Or.inl rfl⟩

/-- C1: every uniform laid out by `VisitUniform` from a list of file-scope declarations of
numeric type (rows and columns between 1 and 4), and every uniform laid out by
`VisitUniformBuffer` for a block with fields of such types, ends inside its constant buffer:
`mBufferOffset + Size` is at most `RoundToMultipleOf16` of the final used size, which is the
byte width of the buffer. -/
theorem C1_uniform_inside_buffer (env : Env) :
    (∀ (history : List DeviceCall) (decls : List FX.Variable) (c1 : D3D10EffectCompiler),
      (∀ d ∈ decls, IsGlobalUniform d) →
      VisitVariables env (TraverseBegin (D3D10EffectCompiler.new history) D3D10Effect.new) decls
        = some c1 →
      ∀ p ∈ c1.mEffect.mConstants,
        p.2.mBufferOffset + p.2.mDesc.Size ≤ RoundToMultipleOf16 c1.mCurrentGlobalSize) ∧
    (∀ (c c1 : D3D10EffectCompiler) (block : FX.Variable),
      IsUniformBlock block →
      c.mCurrentInParameterBlock = false → c.mCurrentInFunctionBlock = false →
      c.mEffect.mConstantBuffers ≠ [] →
      VisitVariable env c block = some c1 →
      ∃ fields u,
        c1.mEffect.mConstants = c.mEffect.mConstants ++ fields ++ [(block.Name, u)] ∧
        u.mBufferIndex = c.mEffect.mConstantBuffers.length ∧
        (∀ p ∈ fields ++ [(block.Name, u)],
          p.2.mBufferIndex = c.mEffect.mConstantBuffers.length →
          p.2.mBufferOffset + p.2.mDesc.Size ≤ RoundToMultipleOf16 u.mDesc.Size) ∧
        (c1.mEffect.mConstantBuffers = c.mEffect.mConstantBuffers ∨
          ∃ b : ID3D10Buffer,
            c1.mEffect.mConstantBuffers = c.mEffect.mConstantBuffers ++ [some b] ∧
            b.desc.ByteWidth = RoundToMultipleOf16 u.mDesc.Size)) := by
  constructor
  · intro history decls c1 hall h
    exact GlobalLayoutInv_bound c1
      (GlobalLayoutInv_VisitVariables env decls _ c1 hall (GlobalLayoutInv_begin history) h)
  · intro c c1 block hblock hp hf hne h
    obtain ⟨hstruct, huniform, definition, hdef, hfields⟩ := hblock
    cases block with
    | mk ty name sem ann init props loc =>
      cases ty with
      | mk b q r k a d =>
        simp only [FX.Variable.Ty, FX.TypeNode.Definition] at hdef hstruct huniform
        subst hdef
        cases definition with
        | mk sn fields sl =>
          rw [VisitVariable.eq_1] at h
          simp only [hp, hf, hstruct, huniform, Bool.or_self, Bool.not_false, Bool.and_self,
            if_true] at h
          split at h
          · simp at h
          · rename_i c2 l2 hloop
            have hk : c.mEffect.mConstantBuffers.length ≠ 0 := by
              intro h0
              exact hne (List.length_eq_zero.1 h0)
            obtain ⟨added, hc2, hbound, hlay2, -, hbuf2⟩ :=
              VisitUniformBufferFields_layout env name _ hk fields (UniformBufferBegin c name) c2
                { storage := none, totalsize := 0, currentsize := 0 } l2 hfields hp hf rfl
                (by unfold LayoutInv; simp) hloop
            obtain ⟨u, hc1, hidx, hoff, hsize, hbuf⟩ :=
              UniformBufferEnd_spec env name ann fields.length c2 c1 l2 h
            have hround : l2.totalsize ≤ RoundToMultipleOf16 l2.totalsize :=
              LayoutInv_le_round _ _ _ hlay2
            have hbufeq : c2.mEffect.mConstantBuffers = c.mEffect.mConstantBuffers := hbuf2
            refine ⟨added, u, ?_, ?_, ?_, ?_⟩
            · rw [hc1, hc2]
              rfl
            · rw [hidx, hbufeq]
            · intro p hp' hpk
              rw [hsize]
              rcases List.mem_append.1 hp' with hp' | hp'
              · exact le_trans (hbound p hp' hpk) hround
              · rw [List.mem_singleton] at hp'
                subst hp'
                simp only [hoff, hsize, Nat.zero_add]
                exact hround
            · rw [hsize, ← hbufeq]
              exact hbuf

open Example in
set_option maxRecDepth 100000 in
/-- Witness of C1: three global uniforms and the block `Params` on a device that succeeds. -/
theorem C1_uniform_inside_buffer_witness :
    (∃ c1, VisitVariables (env okDevice) start [gain, tint, view] = some c1 ∧
      ∀ p ∈ c1.mEffect.mConstants,
        p.2.mBufferOffset + p.2.mDesc.Size ≤ RoundToMultipleOf16 c1.mCurrentGlobalSize) ∧
    (∃ c1, VisitVariable (env okDevice) start block = some c1 ∧
      ∃ fields u,
        c1.mEffect.mConstants = start.mEffect.mConstants ++ fields ++ [(block.Name, u)] ∧
        u.mBufferIndex = start.mEffect.mConstantBuffers.length ∧
        (∀ p ∈ fields ++ [(block.Name, u)],
          p.2.mBufferIndex = start.mEffect.mConstantBuffers.length →
          p.2.mBufferOffset + p.2.mDesc.Size ≤ RoundToMultipleOf16 u.mDesc.Size) ∧
        (c1.mEffect.mConstantBuffers = start.mEffect.mConstantBuffers ∨
          ∃ b : ID3D10Buffer,
            c1.mEffect.mConstantBuffers = start.mEffect.mConstantBuffers ++ [some b] ∧
            b.desc.ByteWidth = RoundToMultipleOf16 u.mDesc.Size)) := by
  have h1 : (VisitVariables (env okDevice) start [gain, tint, view]).isSome = true := by decide!
  have h2 : (VisitVariable (env okDevice) start block).isSome = true := by decide!
  obtain ⟨c1, hc1⟩ := Option.isSome_iff_exists.1 h1
  obtain ⟨c2, hc2⟩ := Option.isSome_iff_exists.1 h2
  refine ⟨⟨c1, hc1, ?_⟩, ⟨c2, hc2, ?_⟩⟩
  · exact (C1_uniform_inside_buffer (env okDevice)).1 [] [gain, tint, view] c1
      (by
        intro d hd
        simp only [List.mem_cons, List.mem_singleton, List.not_mem_nil, or_false] at hd
        rcases hd with rfl | rfl | rfl <;>
          exact ⟨⟨by decide, by decide, by decide, by decide, by decide⟩, by decide⟩)
      hc1
  · exact (C1_uniform_inside_buffer (env okDevice)).2 start c2 block
      ⟨by decide, by decide, _, rfl, by
        intro f hf
        simp only [FX.Struct.Fields, List.mem_cons, List.mem_singleton, List.not_mem_nil,
          or_false] at hf
        rcases hf with rfl | rfl | rfl <;>
          exact ⟨by decide, by decide, by decide, by decide, by decide⟩⟩
      rfl rfl (by decide) hc2

/-- C2: every uniform registered while a list of declarations is visited (by `VisitUniform`
and by `VisitUniformBuffer`, whatever the state of the visitor before) obeys the packing rule:
it does not straddle a 16-byte boundary unless it is larger than 16 bytes, and a uniform larger
than 16 bytes starts at a multiple of 16. -/
theorem C2_uniform_packing (env : Env) (c c1 : D3D10EffectCompiler) (decls : List FX.Variable)
    (h : VisitVariables env c decls = some c1) :
    ∃ added, c1.mEffect.mConstants = c.mEffect.mConstants ++ added ∧
      ∀ p ∈ added,
        (p.2.mBufferOffset % 16 + p.2.mDesc.Size ≤ 16 ∨ p.2.mDesc.Size > 16) ∧
          (p.2.mDesc.Size > 16 → p.2.mBufferOffset % 16 = 0) :=
  (VisitVariables_step env decls c c1 h).constants

open Example in
set_option maxRecDepth 100000 in
/-- Witness of C2: three global uniforms followed by the block `Params`. -/
theorem C2_uniform_packing_witness :
    ∃ c1, VisitVariables (env okDevice) start [gain, tint, view, block] = some c1 ∧
      ∃ added, c1.mEffect.mConstants = start.mEffect.mConstants ++ added ∧
        ∀ p ∈ added,
          (p.2.mBufferOffset % 16 + p.2.mDesc.Size ≤ 16 ∨ p.2.mDesc.Size > 16) ∧
            (p.2.mDesc.Size > 16 → p.2.mBufferOffset % 16 = 0) := by
  have h1 : (VisitVariables (env okDevice) start [gain, tint, view, block]).isSome = true := by
    decide!
  obtain ⟨c1, hc1⟩ := Option.isSome_iff_exists.1 h1
  exact ⟨c1, hc1, C2_uniform_packing (env okDevice) start c1 [gain, tint, view, block] hc1⟩

/-- Slot 0 of the constant buffers stays null while the tree is visited. -/
theorem TraverseVisit_slot (env : Env) (ast : FX.Tree) (history : List DeviceCall)
    (c1 c2 c3 c4 : D3D10EffectCompiler)
    (hs : VisitStructs env (TraverseBegin (D3D10EffectCompiler.new history) D3D10Effect.new)
      ast.Types = some c1)
    (hu : VisitVariables env c1 ast.Uniforms = some c2)
    (hf : VisitFunctions env c2 ast.Functions = some c3)
    (ht : VisitTechniques env c3 ast.Techniques = some c4) :
    ∃ rest, c4.mEffect.mConstantBuffers = none :: rest := by
  have s1 := VisitStructs_step env _ _ _ hs
  have s2 := VisitVariables_step env _ _ _ hu
  have s3 := VisitFunctions_step env _ _ _
    (by rw [s2.parameterBlock, s1.parameterBlock]; rfl)
    (by rw [s2.functionBlock, s1.functionBlock]; rfl) hf
  have s4 := VisitTechniques_step env (ast.Techniques.flatMap (fun t => t.Passes)) _ _ _
    (fun t ht p hp => List.mem_flatMap.2 ⟨t, ht, hp⟩) ht
  obtain ⟨added, hadded⟩ :=
    (Step_trans _ _ _ (Step_trans _ _ _ s1 s2) s3).buffers
  refine ⟨added, ?_⟩
  rw [s4.buffers, hadded]
  rfl

/-- C3, as stated, fails: on a device on which `CreateBuffer` fails, the effect file
`uniform float gain;` is compiled with success, four bytes of the global buffer are used, and
slot 0 of the constant buffers is null. -/
theorem C3_counterexample :
    ∃ c, Traverse (Example.env Example.failingDevice) Example.gainTree
        (D3D10EffectCompiler.new []) D3D10Effect.new "" = some (true, "", c) ∧
      c.mCurrentGlobalSize = 4 ∧ c.mEffect.mConstantBuffers = [none] := by
  have h : (Traverse (Example.env Example.failingDevice) Example.gainTree
      (D3D10EffectCompiler.new []) D3D10Effect.new "").map
        (fun r => (r.1, r.2.1, r.2.2.mCurrentGlobalSize, r.2.2.mEffect.mConstantBuffers)) =
      some (true, "", 4, [none]) := by decide!
  obtain ⟨⟨ok, errors1, c⟩, hr, hc⟩ := Option.map_eq_some'.1 h
  simp only [Prod.mk.injEq] at hc
  obtain ⟨rfl, rfl, h1, h2⟩ := hc
  exact ⟨c, hr, h1, h2⟩

/-- C3 amended: after `Traverse` on a fresh effect, slot 0 of the constant buffers holds a
buffer if and only if the used size of the global uniforms is not zero and the call of
`CreateBuffer`, which is then the last call on the device, succeeded; the byte width of that
buffer is the used size rounded up to a multiple of 16. For a tree without uniform declarations
the list of constant buffers is exactly one null entry. For a tree that holds a single
`uniform float` declaration the uniform has offset 0 and size 4, and the byte width of the
global buffer is 16. -/
theorem C3_global_buffer (env : Env) (history : List DeviceCall) (ast : FX.Tree)
    (errors errors1 : String) (ok : Bool) (c : D3D10EffectCompiler)
    (h : Traverse env ast (D3D10EffectCompiler.new history) D3D10Effect.new errors =
      some (ok, errors1, c)) :
    (∃ slot rest, c.mEffect.mConstantBuffers = slot :: rest ∧
      (slot.isSome = true ↔
        c.mCurrentGlobalSize ≠ 0 ∧
          ∃ call desc bytes, c.mDeviceCalls.getLast? = some call ∧
            call.request = DeviceRequest.CreateBuffer desc bytes ∧
            SUCCEEDED call.response.hr = true) ∧
      ∀ b, slot = some b → b.desc.ByteWidth = RoundToMultipleOf16 c.mCurrentGlobalSize) ∧
    (NoUniformDeclarations ast → c.mEffect.mConstantBuffers = [none]) ∧
    (∀ v, ast.Types = [] → ast.Uniforms = [v] → ast.Functions = [] → ast.Techniques = [] →
      v.Ty.BaseClass = FX.Class.Float → v.Ty.Rows = 1 → v.Ty.Cols = 1 →
      v.Ty.HasQualifier FX.Qualifier.Uniform = true →
      (∃ u, c.mEffect.mConstants = [(v.Name, u)] ∧ u.mBufferIndex = 0 ∧
        u.mBufferOffset = 0 ∧ u.mDesc.Size = 4) ∧
      RoundToMultipleOf16 c.mCurrentGlobalSize = 16 ∧
      ∀ b rest, c.mEffect.mConstantBuffers = some b :: rest → b.desc.ByteWidth = 16) := by
  obtain ⟨c1, c2, c3, c4, hs, hu, hf, ht, hend, -, -⟩ := Traverse_parts _ _ _ _ _ _ _ _ h
  obtain ⟨rest0, hslot⟩ := TraverseVisit_slot env ast history c1 c2 c3 c4 hs hu hf ht
  obtain ⟨-, -, hsize, hconst, -, hcase⟩ := TraverseEnd_spec env c4 c hend
  have part1 : ∃ slot rest, c.mEffect.mConstantBuffers = slot :: rest ∧
      (slot.isSome = true ↔
        c.mCurrentGlobalSize ≠ 0 ∧
          ∃ call desc bytes, c.mDeviceCalls.getLast? = some call ∧
            call.request = DeviceRequest.CreateBuffer desc bytes ∧
            SUCCEEDED call.response.hr = true) ∧
      ∀ b, slot = some b → b.desc.ByteWidth = RoundToMultipleOf16 c.mCurrentGlobalSize := by
    rcases hcase with ⟨h0, rfl⟩ | ⟨h0, desc, bytes, slot, rest, hb, hw, hcalls, hbuf⟩
    · refine ⟨none, rest0, hslot, ?_, ?_⟩
      · constructor
        · intro hsome
          simp at hsome
        · intro hne
          exact absurd h0 hne.1
      · intro b hb
        simp at hb
    · rw [hslot] at hb
      simp only [List.cons.injEq] at hb
      obtain ⟨rfl, rfl⟩ := hb
      refine ⟨_, _, hbuf, ?_, ?_⟩
      · constructor
        · intro hsome
          refine ⟨by rw [hsize]; exact h0,
            { request := DeviceRequest.CreateBuffer desc bytes,
              response := env.mRuntime.mDevice.respond c4.mDeviceCalls
                (DeviceRequest.CreateBuffer desc bytes) },
            desc, bytes, by rw [hcalls]; simp, rfl, ?_⟩
          by_contra hn
          simp [hn] at hsome
        · rintro ⟨-, call, desc1, bytes1, hlast, hreq, hok⟩
          rw [hcalls] at hlast
          simp at hlast
          subst hlast
          simp only at hok
          simp [hok]
      · intro b hb
        split_ifs at hb with hok
        · simp only [Option.some.injEq] at hb
          subst hb
          rw [hsize]
          exact hw
  refine ⟨part1, ?_, ?_⟩
  · intro hno
    have f1 := VisitStructs_frame env _ _ _ hno.1 hs
    have f2 := VisitVariables_frame env _ _ _ hno.2 hu
    have f3 := VisitFunctions_frame env _ _ _ hf
    have s4 := VisitTechniques_step env (ast.Techniques.flatMap (fun t => t.Passes)) _ _ _
      (fun t ht p hp => List.mem_flatMap.2 ⟨t, ht, hp⟩) ht
    have hused : c4.mCurrentGlobalSize = 0 := by
      rw [s4.globalSize, f3.2, f2.2, f1.2]
      rfl
    have hbufs : c4.mEffect.mConstantBuffers = [none] := by
      rw [s4.buffers, f3.1, f2.1, f1.1]
      rfl
    rcases hcase with ⟨-, rfl⟩ | ⟨h0, -⟩
    · exact hbufs
    · exact absurd hused h0
  · intro v hty hun hfn htn hbase hrows hcols hq
    rw [hty] at hs
    rw [hun] at hu
    rw [hfn] at hf
    rw [htn] at ht
    simp only [VisitStructs, Option.some.injEq] at hs
    subst hs
    simp only [VisitFunctions, Option.some.injEq] at hf
    subst hf
    simp only [VisitTechniques, Option.some.injEq] at ht
    subst ht
    have hv : VisitUniform env (TraverseBegin (D3D10EffectCompiler.new history) D3D10Effect.new)
        v = some c2 := by
      have hnum : IsNumericUniformType v.Ty :=
        ⟨Or.inr (Or.inr (Or.inr hbase)), by omega, by omega, by omega, by omega⟩
      have hvv := VisitVariable_numeric env
        (TraverseBegin (D3D10EffectCompiler.new history) D3D10Effect.new) v hnum rfl rfl
      rw [if_pos hq] at hvv
      rw [← hvv]
      unfold VisitVariables at hu
      split at hu
      · simp at hu
      · rename_i c5 h5
        simp only [VisitVariables, Option.some.injEq] at hu
        rw [h5, hu]
    obtain ⟨s0, rest, mem, -, -, -, hused, -, hconsts, -, -, -⟩ := VisitUniform_spec env _ _ v hv
    have hdesc : (ConstantDescriptionOf v.Ty).Size = 4 := by
      unfold ConstantDescriptionOf
      simp only [hbase, hrows, hcols]
      decide
    rw [hdesc] at hused hconsts
    have hused0 : (TraverseBegin (D3D10EffectCompiler.new history) D3D10Effect.new).mCurrentGlobalSize
        = 0 := rfl
    rw [hused0] at hused hconsts
    have hadv : AdvanceSize 0 4 = 4 := by decide
    have hsub : SizeSub 4 4 = 0 := by decide
    rw [hadv] at hused hconsts
    rw [hsub] at hconsts
    have hround : RoundToMultipleOf16 c.mCurrentGlobalSize = 16 := by
      rw [hsize, hused]
      decide
    refine ⟨⟨_, by rw [hconst, hconsts]; rfl, rfl, rfl, hdesc⟩, hround, ?_⟩
    intro b rest1 hb
    obtain ⟨slot, rest2, hb2, -, hwidth⟩ := part1
    rw [hb] at hb2
    simp only [List.cons.injEq] at hb2
    rw [hwidth b hb2.1.symm, hround]

open Example in
set_option maxRecDepth 100000 in
/-- Witness of C3: the effect file `uniform float gain;` and an effect file without uniforms,
both on a device that succeeds. -/
theorem C3_global_buffer_witness :
    (∃ c, Traverse (env okDevice) gainTree (D3D10EffectCompiler.new []) D3D10Effect.new "" =
        some (true, "", c) ∧
      (∃ slot rest, c.mEffect.mConstantBuffers = slot :: rest ∧
        (slot.isSome = true ↔
          c.mCurrentGlobalSize ≠ 0 ∧
            ∃ call desc bytes, c.mDeviceCalls.getLast? = some call ∧
              call.request = DeviceRequest.CreateBuffer desc bytes ∧
              SUCCEEDED call.response.hr = true) ∧
        ∀ b, slot = some b → b.desc.ByteWidth = RoundToMultipleOf16 c.mCurrentGlobalSize) ∧
      (∃ u, c.mEffect.mConstants = [(gain.Name, u)] ∧ u.mBufferIndex = 0 ∧
        u.mBufferOffset = 0 ∧ u.mDesc.Size = 4) ∧
      RoundToMultipleOf16 c.mCurrentGlobalSize = 16 ∧
      ∀ b rest, c.mEffect.mConstantBuffers = some b :: rest → b.desc.ByteWidth = 16) ∧
    (∃ c, Traverse (env okDevice) targetTree (D3D10EffectCompiler.new []) D3D10Effect.new "" =
        some (true, "", c) ∧
      c.mEffect.mConstantBuffers = [none]) := by
  have h1 : (Traverse (env okDevice) gainTree (D3D10EffectCompiler.new []) D3D10Effect.new
      "").map (fun r => (r.1, r.2.1)) = some (true, "") := by decide!
  have h2 : (Traverse (env okDevice) targetTree (D3D10EffectCompiler.new []) D3D10Effect.new
      "").map (fun r => (r.1, r.2.1)) = some (true, "") := by decide!
  obtain ⟨⟨ok1, e1, c1⟩, hr1, hc1⟩ := Option.map_eq_some'.1 h1
  obtain ⟨⟨ok2, e2, c2⟩, hr2, hc2⟩ := Option.map_eq_some'.1 h2
  simp only [Prod.mk.injEq] at hc1 hc2
  obtain ⟨rfl, rfl⟩ := hc1
  obtain ⟨rfl, rfl⟩ := hc2
  refine ⟨⟨c1, hr1, (C3_global_buffer _ _ _ _ _ _ _ hr1).1, ?_⟩, ⟨c2, hr2, ?_⟩⟩
  · exact (C3_global_buffer _ _ _ _ _ _ _ hr1).2.2 gain rfl rfl rfl rfl rfl rfl rfl (by decide)
  · refine (C3_global_buffer _ _ _ _ _ _ _ hr2).2.1 ⟨?_, ?_⟩
    · intro s hs
      simp [targetTree] at hs
    · intro v hv
      simp only [targetTree, List.mem_singleton] at hv
      subst hv
      decide

/-- C8: a sampler declaration without the property `Texture` is fatal. `VisitSampler` returns
the visitor with the fatal flag set and with one diagnostic appended, made of the location
`source(line, column): ` of the node and of the error text; nothing else of the visitor
changes, so no sampler state is created and nothing is emitted into the shader source. A run of
`Traverse` on a tree that declares such a sampler among its uniforms returns false, and on the
tree that holds this declaration only `Traverse` does return false with that diagnostic. -/
theorem C8_sampler_without_texture (env : Env) (c : D3D10EffectCompiler) (node : FX.Variable)
    (hnode : node.Properties.Texture = none) :
    VisitSampler env c node =
      some { c with
        mErrors := c.mErrors ++ PrintLocation node.Location ++ "error: sampler '" ++
          node.Name ++ "' is missing required 'Texture' required.\n",
        mFatal := true } ∧
    PrintLocation node.Location =
      node.Location.Source ++ "(" ++ toString node.Location.Line ++ ", " ++
        toString node.Location.Column ++ "): " ∧
    (∀ (history : List DeviceCall) (ast : FX.Tree) (errors errors1 : String) (ok : Bool)
        (c1 : D3D10EffectCompiler),
      node.Ty.IsSampler = true → node ∈ ast.Uniforms →
      Traverse env ast (D3D10EffectCompiler.new history) D3D10Effect.new errors =
        some (ok, errors1, c1) →
      ok = false) ∧
    (∀ (history : List DeviceCall) (errors : String),
      node.Ty.IsSampler = true →
      ∃ c1, Traverse env { Types := [], Uniforms := [node], Functions := [], Techniques := [] }
          (D3D10EffectCompiler.new history) D3D10Effect.new errors =
          some (false,
            errors ++ ("" ++ PrintLocation node.Location ++ "error: sampler '" ++ node.Name ++
              "' is missing required 'Texture' required.\n"), c1) ∧
        c1.mEffect.mSamplerStates = [] ∧ c1.mCurrentSource = "" ∧
        c1.mDeviceCalls = history) := by
  have hvisit : ∀ c0 : D3D10EffectCompiler, VisitSampler env c0 node =
      some { c0 with
        mErrors := c0.mErrors ++ PrintLocation node.Location ++ "error: sampler '" ++
          node.Name ++ "' is missing required 'Texture' required.\n",
        mFatal := true } := by
    intro c0
    unfold VisitSampler
    rw [hnode]
  refine ⟨hvisit c, rfl, ?_, ?_⟩
  · intro history ast errors errors1 ok c1 hs hmem h
    obtain ⟨k1, k2, k3, k4, h1, h2, h3, h4, hend, hok, -⟩ := Traverse_parts _ _ _ _ _ _ _ _ h
    have s1 := VisitStructs_step env _ _ _ h1
    have s2 := VisitVariables_step env _ _ _ h2
    have f2 : k2.mFatal = true :=
      VisitVariables_sampler_fatal env node hs hnode ast.Uniforms k1 k2 hmem
        (by rw [s1.parameterBlock]; rfl) (by rw [s1.functionBlock]; rfl) h2
    have s3 := VisitFunctions_step env _ _ _
      (by rw [s2.parameterBlock, s1.parameterBlock]; rfl)
      (by rw [s2.functionBlock, s1.functionBlock]; rfl) h3
    have s4 := VisitTechniques_step env (ast.Techniques.flatMap (fun t => t.Passes)) _ _ _
      (fun t ht p hp => List.mem_flatMap.2 ⟨t, ht, hp⟩) h4
    have f4 : k4.mFatal = true := s4.fatal (s3.fatal f2)
    obtain ⟨hfatal, -⟩ := TraverseEnd_spec env k4 c1 hend
    rw [hok, hfatal, f4]
    rfl
  · intro history errors hs
    have hv := VisitVariable_sampler env
      (TraverseBegin (D3D10EffectCompiler.new history) D3D10Effect.new) node hs rfl rfl
    rw [hvisit] at hv
    refine ⟨{ TraverseBegin (D3D10EffectCompiler.new history) D3D10Effect.new with
        mErrors := "" ++ PrintLocation node.Location ++ "error: sampler '" ++ node.Name ++
          "' is missing required 'Texture' required.\n",
        mFatal := true }, ?_, rfl, rfl, rfl⟩
    unfold Traverse TraverseVisit
    simp only [VisitStructs, VisitVariables, VisitFunctions, VisitTechniques, hv]
    unfold TraverseEnd
    simp only [TraverseBegin, D3D10EffectCompiler.new, ne_eq, not_true_eq_false, if_false,
      Bool.not_true]

open Example in
/-- Witness of C8: the declaration `sampler S;` on a device that succeeds. -/
theorem C8_sampler_without_texture_witness :
    sampler.Properties.Texture = none ∧
    VisitSampler (env okDevice) start sampler =
      some { start with
        mErrors := start.mErrors ++ PrintLocation sampler.Location ++ "error: sampler '" ++
          sampler.Name ++ "' is missing required 'Texture' required.\n",
        mFatal := true } ∧
    ∃ c1, Traverse (env okDevice)
        { Types := [], Uniforms := [sampler], Functions := [], Techniques := [] }
        (D3D10EffectCompiler.new []) D3D10Effect.new "prior" =
        some (false,
          "prior" ++ ("" ++ PrintLocation sampler.Location ++ "error: sampler '" ++
            sampler.Name ++ "' is missing required 'Texture' required.\n"), c1) ∧
      c1.mEffect.mSamplerStates = [] ∧ c1.mCurrentSource = "" ∧ c1.mDeviceCalls = [] :=
  ⟨rfl, (C8_sampler_without_texture (env okDevice) start sampler rfl).1,
    (C8_sampler_without_texture (env okDevice) start sampler rfl).2.2.2 [] "prior" rfl⟩

open Example in
set_option maxRecDepth 100000 in
/-- C9, as stated, fails for render-target views: on a device on which only
`CreateRenderTargetView` fails, the effect file that declares the texture `T` and renders to it
is compiled with success, although the creation of the view failed. -/
theorem C9_counterexample :
    ∃ errors1 c, Traverse (env noTargetViewDevice) targetTree (D3D10EffectCompiler.new [])
        D3D10Effect.new "" = some (true, errors1, c) ∧
      ∃ e ∈ c.mDeviceCalls, e.isFailedRTV = true := by
  have h1 : (Traverse (env noTargetViewDevice) targetTree (D3D10EffectCompiler.new [])
      D3D10Effect.new "").map
        (fun r => (r.1, r.2.2.mDeviceCalls.any (fun e => e.isFailedRTV))) =
      some (true, true) := by decide!
  obtain ⟨⟨ok1, e1, c1⟩, hr1, hc1⟩ := Option.map_eq_some'.1 h1
  simp only [Prod.mk.injEq] at hc1
  obtain ⟨rfl, hany⟩ := hc1
  exact ⟨e1, c1, hr1, List.any_eq_true.1 hany⟩

/-- C9 amended: if, during a run of `Traverse`, a call of `CreateTexture2D` or of
`CreateShaderResourceView` fails, `Traverse` returns false. (A failed creation of a
render-target view only appends a warning.) -/
theorem C9_texture_failure_fatal (env : Env) (history : List DeviceCall) (ast : FX.Tree)
    (errors errors1 : String) (ok : Bool) (c : D3D10EffectCompiler)
    (h : Traverse env ast (D3D10EffectCompiler.new history) D3D10Effect.new errors =
      some (ok, errors1, c))
    (hfail : ∃ e ∈ c.mDeviceCalls.drop history.length, e.isFailedTextureOrSRV = true) :
    ok = false := by
  obtain ⟨c3, c4, s3, s4, hend, hok, -⟩ := Traverse_run env ast history _ _ _ _ h
  obtain ⟨hfatal, -, -, -, -, hcase⟩ := TraverseEnd_spec env c4 c hend
  obtain ⟨a1, ha1, hfat1⟩ := s3.calls
  obtain ⟨a2, ha2, hquiet⟩ := s4.calls
  have hc4 : c4.mDeviceCalls = history ++ (a1 ++ a2) := by
    rw [ha2, ha1]
    simp [TraverseBegin, D3D10EffectCompiler.new]
  obtain ⟨e, he, hefail⟩ := hfail
  have hmem : e ∈ a1 := by
    rcases hcase with ⟨-, rfl⟩ | ⟨-, desc, bytes, slot, rest, -, -, hcalls, -⟩
    · rw [hc4] at he
      simp at he
      rcases he with he | he
      · exact he
      · rw [hquiet e he] at hefail
        simp at hefail
    · rw [hcalls, hc4] at he
      simp at he
      rcases he with he | he | he
      · exact he
      · rw [hquiet e he] at hefail
        simp at hefail
      · subst he
        simp [DeviceCall.isFailedTextureOrSRV] at hefail
  have f3 : c3.mFatal = true := hfat1 ⟨e, hmem, hefail⟩
  rw [hok, hfatal, s4.fatal f3]
  rfl

open Example in
set_option maxRecDepth 100000 in
/-- Witness of C9: on a device on which every call fails, the creation of the texture `T`
fails and `Traverse` returns false. -/
theorem C9_texture_failure_fatal_witness :
    ∃ ok errors1 c, Traverse (env failingDevice) targetTree (D3D10EffectCompiler.new [])
        D3D10Effect.new "" = some (ok, errors1, c) ∧
      (∃ e ∈ c.mDeviceCalls.drop ([] : List DeviceCall).length,
        e.isFailedTextureOrSRV = true) ∧
      ok = false := by
  have h1 : (Traverse (env failingDevice) targetTree (D3D10EffectCompiler.new [])
      D3D10Effect.new "").map
        (fun r => (r.2.2.mDeviceCalls.drop 0).any (fun e => e.isFailedTextureOrSRV)) =
      some true := by decide!
  obtain ⟨⟨ok1, e1, c1⟩, hr1, hc1⟩ := Option.map_eq_some'.1 h1
  simp only at hc1
  have hfail : ∃ e ∈ c1.mDeviceCalls.drop ([] : List DeviceCall).length,
      e.isFailedTextureOrSRV = true := List.any_eq_true.1 hc1
  exact ⟨ok1, e1, c1, hr1, hfail, C9_texture_failure_fatal _ _ _ _ _ _ _ hr1 hfail⟩

/-- C10: a failure to create the depth-stencil state or the blend state of a pass is not fatal.
Lines 1961 to 2033 of `Visit(Pass)` call the device twice, leave the fatal flag as it is and
append the pass to the passes of the technique; a call that fails appends one warning and
leaves that state of the pass as it was, a call that succeeds appends nothing and sets the
state. The pass that reaches these lines has both states null: a run of `Visit(Pass)` either
returns from the loop over the render targets, fatal and without a pass, or ends with these
lines on such a pass. -/
theorem C10_state_failure_not_fatal (env : Env) (node : FX.Pass) :
    (∀ (c : D3D10EffectCompiler) (pass0 : Pass) (passes : List Pass),
      (VisitPassStates env node c pass0 passes).1.mFatal = c.mFatal ∧
      (VisitPassStates env node c pass0 passes).1.mDeviceCalls =
        c.mDeviceCalls ++
          [DepthStencilStateCall env node c.mDeviceCalls,
           BlendStateCall env node
             (c.mDeviceCalls ++ [DepthStencilStateCall env node c.mDeviceCalls])] ∧
      ∃ p w1 w2,
        (VisitPassStates env node c pass0 passes).2 = passes ++ [p] ∧
        (VisitPassStates env node c pass0 passes).1.mErrors = c.mErrors ++ w1 ++ w2 ∧
        ((DepthStencilStateCall env node c.mDeviceCalls).isFailedDepthStencilState = true →
          p.DSS = pass0.DSS ∧
            w1 = PrintLocation node.Location ++
              "warning: 'ID3D10Device::CreateDepthStencilState' failed!\n") ∧
        ((DepthStencilStateCall env node c.mDeviceCalls).isFailedDepthStencilState = false →
          p.DSS.isSome = true ∧ w1 = "") ∧
        ((BlendStateCall env node
            (c.mDeviceCalls ++
              [DepthStencilStateCall env node c.mDeviceCalls])).isFailedBlendState = true →
          p.BS = pass0.BS ∧
            w2 = PrintLocation node.Location ++
              "warning: 'ID3D10Device::CreateBlendState' failed!\n") ∧
        ((BlendStateCall env node
            (c.mDeviceCalls ++
              [DepthStencilStateCall env node c.mDeviceCalls])).isFailedBlendState = false →
          p.BS.isSome = true ∧ w2 = "")) ∧
    (∀ (c c1 : D3D10EffectCompiler) (passes passes1 : List Pass),
      VisitPass env c node passes = some (c1, passes1) →
      (passes1 = passes ∧ c1.mFatal = true) ∨
        ∃ c2 pass0, pass0.DSS = none ∧ pass0.BS = none ∧
          VisitPassStates env node c2 pass0 passes = (c1, passes1)) :=
  ⟨fun c pass0 passes => VisitPassStates_spec env node c pass0 passes,
   fun c c1 passes passes1 h => VisitPass_states env node c c1 passes passes1 h⟩

open Example in
set_option maxRecDepth 100000 in
/-- Witness of C10: on a device on which the creation of both states fails, a pass without
render targets is appended with both states null and the fatal flag stays clear. -/
theorem C10_state_failure_not_fatal_witness :
    ∃ c1 p, VisitPass (env noStateDevice) start (pass []) [] = some (c1, [p]) ∧
      c1.mFatal = false ∧ p.DSS = none ∧ p.BS = none := by
  have h1 : (VisitPass (env noStateDevice) start (pass []) []).map (fun r => r.1.mFatal) =
      some false := by decide!
  obtain ⟨⟨c1, passes1⟩, hr1, hc1⟩ := Option.map_eq_some'.1 h1
  simp only at hc1
  rcases (C10_state_failure_not_fatal (env noStateDevice) (pass [])).2 _ _ _ _ hr1 with
    ⟨-, hf⟩ | ⟨c2, pass0, hd, hb, hstates⟩
  · rw [hc1] at hf
    exact absurd hf (by decide)
  · obtain ⟨-, -, p, w1, w2, hp, -, hdss, -, hbs, -⟩ :=
      (C10_state_failure_not_fatal (env noStateDevice) (pass [])).1 c2 pass0 []
    rw [hstates] at hp
    simp only [List.nil_append] at hp
    subst hp
    exact ⟨c1, p, hr1, hc1, (hdss rfl).1.trans hd, (hbs rfl).1.trans hb⟩

/-! ## Semantics -/

theorem StartsWith_iff (input test : String) :
    StartsWith input test = true ↔ ∃ rest : String, input = test ++ rest := by
  unfold StartsWith
  rw [List.isPrefixOf_iff_prefix]
  constructor
  · rintro ⟨t, ht⟩
    exact ⟨⟨t⟩, String.ext (by simp [← ht])⟩
  · rintro ⟨rest, rfl⟩
    exact ⟨rest.data, by simp⟩

theorem drop_append_length (a b : String) : (a ++ b).drop a.length = b := by
  rw [String.drop_eq]
  apply String.ext
  show (a ++ b).data.drop a.data.length = b.data
  rw [String.data_append, List.drop_left]

/-- C12: `ConvertSemantic` rewrites `VERTEXID` to `SV_VERTEXID`, `POSITION` and `VPOS` to
`SV_POSITION`, `COLOR` followed by any suffix to `SV_TARGET` followed by the same suffix, and
`DEPTH` to `SV_DEPTH`; every other string is returned unchanged. -/
theorem C12_ConvertSemantic :
    ConvertSemantic "VERTEXID" = "SV_VERTEXID" ∧
    ConvertSemantic "POSITION" = "SV_POSITION" ∧
    ConvertSemantic "VPOS" = "SV_POSITION" ∧
    (∀ n : String, ConvertSemantic ("COLOR" ++ n) = "SV_TARGET" ++ n) ∧
    ConvertSemantic "DEPTH" = "SV_DEPTH" ∧
    (∀ s : String, s ≠ "VERTEXID" → s ≠ "POSITION" → s ≠ "VPOS" → s ≠ "DEPTH" →
      (∀ n : String, s ≠ "COLOR" ++ n) → ConvertSemantic s = s) := by
  refine ⟨by decide, by decide, by decide, ?_, by decide, ?_⟩
  · intro n
    have h1 : "COLOR" ++ n ≠ "VERTEXID" := by
      intro h
      have := congrArg String.data h
      simp at this
    have h2 : "COLOR" ++ n ≠ "POSITION" := by
      intro h
      have := congrArg String.data h
      simp at this
    have h3 : "COLOR" ++ n ≠ "VPOS" := by
      intro h
      have := congrArg String.data h
      simp at this
    have h4 : StartsWith ("COLOR" ++ n) "COLOR" = true :=
      (StartsWith_iff _ _).2 ⟨n, rfl⟩
    unfold ConvertSemantic
    rw [if_neg h1, if_neg (by simp [h2, h3]), if_pos h4]
    exact congrArg _ (drop_append_length "COLOR" n)
  · intro s h1 h2 h3 h4 h5
    have h6 : ¬ StartsWith s "COLOR" = true := by
      intro h
      obtain ⟨rest, hrest⟩ := (StartsWith_iff _ _).1 h
      exact h5 rest hrest
    unfold ConvertSemantic
    rw [if_neg h1, if_neg (by simp [h2, h3]), if_neg h6, if_neg h4]

/-! ## The views of a pass -/

theorem VisitShader_views (env : Env) (c c1 : D3D10EffectCompiler) (node : FX.Function)
    (shadertype : String) (pass pass1 : Pass)
    (h : VisitShader env c node shadertype pass = some (c1, pass1)) :
    pass1.SRV = pass.SRV ∧ c1.mEffect.mShaderResources = c.mEffect.mShaderResources := by
  unfold VisitShader at h
  simp only at h
  generalize (if env.mRuntime.mSkipShaderOptimization = true then
    D3DCOMPILE_ENABLE_STRICTNESS ||| D3DCOMPILE_SKIP_OPTIMIZATION
    else D3DCOMPILE_ENABLE_STRICTNESS) = flags at h
  split_ifs at h with h1
  · simp only [Option.some.injEq, Prod.mk.injEq] at h
    rw [← h.2, ← h.1]
    exact ⟨rfl, rfl⟩
  all_goals
    split at h
    · simp at h
    · first
      | (split_ifs at h <;> simp only [Option.some.injEq, Prod.mk.injEq] at h <;>
          rw [← h.2, ← h.1] <;> exact ⟨rfl, rfl⟩)
      | (simp only [Option.some.injEq, Prod.mk.injEq] at h
         rw [← h.2, ← h.1]
         exact ⟨rfl, rfl⟩)

theorem VisitPassShaders_views (env : Env) (node : FX.Pass) (c c1 : D3D10EffectCompiler)
    (pass pass1 : Pass) (h : VisitPassShaders env node c pass = some (c1, pass1)) :
    pass1.SRV = pass.SRV ∧ c1.mEffect.mShaderResources = c.mEffect.mShaderResources := by
  unfold VisitPassShaders at h
  simp only at h
  split at h
  · simp at h
  · rename_i c2 pass2 hvs
    have h1 : pass2.SRV = pass.SRV ∧
        c2.mEffect.mShaderResources = c.mEffect.mShaderResources := by
      split at hvs
      · exact VisitShader_views _ _ _ _ _ _ _ hvs
      · simp only [Option.some.injEq, Prod.mk.injEq] at hvs
        rw [← hvs.2, ← hvs.1]
        exact ⟨rfl, rfl⟩
    have h2 : pass1.SRV = pass2.SRV ∧
        c1.mEffect.mShaderResources = c2.mEffect.mShaderResources := by
      split at h
      · exact VisitShader_views _ _ _ _ _ _ _ h
      · simp only [Option.some.injEq, Prod.mk.injEq] at h
        rw [← h.2, ← h.1]
        exact ⟨rfl, rfl⟩
    exact ⟨h2.1.trans h1.1, h2.2.trans h1.2⟩

theorem VisitPassTarget_views (env : Env) (node : FX.Pass) (c c1 : D3D10EffectCompiler)
    (pass : Pass) (i : Nat) (name : String) (r : TargetsResult)
    (h : VisitPassTarget env node c pass i name = some (c1, r)) :
    c1.mEffect.mShaderResources = c.mEffect.mShaderResources ∧
      ∀ pass1, r = TargetsResult.Done pass1 → pass1.SRV = pass.SRV := by
  unfold VisitPassTarget at h
  simp only at h
  split at h
  · simp only [Option.some.injEq, Prod.mk.injEq] at h
    obtain ⟨h1, h2⟩ := h
    subst h1 h2
    exact ⟨rfl, fun _ hr => by simp at hr⟩
  · split at h
    · simp at h
    · split_ifs at h
      all_goals
        simp only [Option.some.injEq, Prod.mk.injEq] at h
        obtain ⟨h1, h2⟩ := h
        subst h1 h2
      all_goals
        refine ⟨rfl, fun _ hr => ?_⟩
        first
          | (simp at hr; done)
          | (simp only [TargetsResult.Done.injEq] at hr
             rw [← hr])

theorem VisitPassTargets_views (env : Env) (node : FX.Pass) :
    ∀ (indices : List Nat) (c c1 : D3D10EffectCompiler) (pass : Pass) (r : TargetsResult),
      VisitPassTargets env node c pass indices = some (c1, r) →
      c1.mEffect.mShaderResources = c.mEffect.mShaderResources ∧
        ∀ pass1, r = TargetsResult.Done pass1 → pass1.SRV = pass.SRV
  | [], c, c1, pass, r, h => by
      unfold VisitPassTargets at h
      simp only [Option.some.injEq, Prod.mk.injEq] at h
      obtain ⟨h1, h2⟩ := h
      subst h1 h2
      exact ⟨rfl, fun _ hr => by
        simp only [TargetsResult.Done.injEq] at hr
        rw [← hr]⟩
  | i :: rest, c, c1, pass, r, h => by
      unfold VisitPassTargets at h
      split at h
      · exact VisitPassTargets_views env node rest c c1 pass r h
      · rename_i name hname
        split at h
        · simp at h
        · rename_i c2 htarget
          simp only [Option.some.injEq, Prod.mk.injEq] at h
          obtain ⟨h1, h2⟩ := h
          subst h1 h2
          exact ⟨(VisitPassTarget_views env node c c2 pass i name _ htarget).1,
            fun _ hr => by simp at hr⟩
        · rename_i c2 pass1 htarget
          have h1 := VisitPassTarget_views env node c c2 pass i name _ htarget
          have h2 := VisitPassTargets_views env node rest c2 c1 pass1 r h
          exact ⟨h2.1.trans h1.1, fun p hp => (h2.2 p hp).trans (h1.2 pass1 rfl)⟩

theorem AliasesTarget_iff (rt : List (Option ID3D10RenderTargetView))
    (srv : ID3D10ShaderResourceView) :
    AliasesTarget rt srv = true ↔
      ∃ t : ID3D10RenderTargetView, some t ∈ rt ∧ srv.resource.id = t.resource.id := by
  unfold AliasesTarget
  rw [List.any_eq_true]
  constructor
  · rintro ⟨x, hx, hd⟩
    cases x with
    | none => simp at hd
    | some t => exact ⟨t, hx, by simpa using hd⟩
  · rintro ⟨t, ht, heq⟩
    exact ⟨some t, ht, by simpa using heq⟩

/-- The pass that lines 1961 to 2033 append: its render targets are those of the pass handed
over, and its views are those of that pass with the aliasing ones reset. -/
theorem VisitPassStates_views (env : Env) (node : FX.Pass) (c : D3D10EffectCompiler)
    (pass0 : Pass) (passes : List Pass) :
    (VisitPassStates env node c pass0 passes).1.mEffect.mShaderResources =
        c.mEffect.mShaderResources ∧
    ∃ p, (VisitPassStates env node c pass0 passes).2 = passes ++ [p] ∧ p.RT = pass0.RT ∧
      p.SRV = pass0.SRV.map (fun srv =>
        match srv with
        | some v => if AliasesTarget pass0.RT v then none else some v
        | none => none) := by
  unfold VisitPassStates
  simp only
  refine ⟨?_, _, rfl, ?_, ?_⟩
  · split_ifs <;> rfl
  · split_ifs <;> rfl
  · split_ifs <;> rfl

/-- The views that remain after the loop of lines 2004 to 2030 over a table of views. -/
theorem reset_views_spec (rt : List (Option ID3D10RenderTargetView))
    (table : List (Option ID3D10ShaderResourceView)) :
    (∀ (v : ID3D10ShaderResourceView) (t : ID3D10RenderTargetView), some v ∈ table.map (fun srv =>
          match srv with
          | some v => if AliasesTarget rt v then none else some v
          | none => none) →
        some t ∈ rt → v.resource.id ≠ t.resource.id) ∧
    ∀ (i : Nat) (entry : Option ID3D10ShaderResourceView), table[i]? = some entry →
      ((∃ (v : ID3D10ShaderResourceView) (t : ID3D10RenderTargetView), entry = some v ∧ some t ∈ rt ∧ v.resource.id = t.resource.id) →
        (table.map (fun srv =>
          match srv with
          | some v => if AliasesTarget rt v then none else some v
          | none => none))[i]? = some none) ∧
      ((¬ ∃ (v : ID3D10ShaderResourceView) (t : ID3D10RenderTargetView), entry = some v ∧ some t ∈ rt ∧ v.resource.id = t.resource.id) →
        (table.map (fun srv =>
          match srv with
          | some v => if AliasesTarget rt v then none else some v
          | none => none))[i]? = some entry) := by
  constructor
  · intro v t hv ht heq
    rw [List.mem_map] at hv
    obtain ⟨entry, -, hentry⟩ := hv
    cases entry with
    | none => simp at hentry
    | some w =>
      simp only at hentry
      split_ifs at hentry with ha
      simp only [Option.some.injEq] at hentry
      subst hentry
      exact ha ((AliasesTarget_iff rt w).2 ⟨t, ht, heq⟩)
  · intro i entry hi
    rw [List.getElem?_map, hi]
    constructor
    · rintro ⟨v, t, rfl, ht, heq⟩
      simp only [Option.map_some', Option.some.injEq]
      rw [if_pos ((AliasesTarget_iff rt v).2 ⟨t, ht, heq⟩)]
    · intro hno
      cases entry with
      | none => rfl
      | some v =>
        simp only [Option.map_some', Option.some.injEq]
        rw [if_neg]
        intro ha
        obtain ⟨t, ht, heq⟩ := (AliasesTarget_iff rt v).1 ha
        exact hno ⟨v, t, rfl, ht, heq⟩

/-- C11: a run of `Visit(Pass)` leaves the table of shader-resource views of the effect as it
is, and a pass that it appends satisfies: no non-null view of its `SRV` array has the resource
of a non-null view of its `RT` array; the array is as long as the table of the effect; a slot
whose table entry has the resource of a bound render target is null in the pass, and every
other slot holds the table entry. -/
theorem C11_pass_views_do_not_alias (env : Env) (c c1 : D3D10EffectCompiler) (node : FX.Pass)
    (passes passes1 : List Pass) (h : VisitPass env c node passes = some (c1, passes1)) :
    c1.mEffect.mShaderResources = c.mEffect.mShaderResources ∧
    (passes1 = passes ∨ ∃ p, passes1 = passes ++ [p] ∧
      (∀ (v : ID3D10ShaderResourceView) (t : ID3D10RenderTargetView), some v ∈ p.SRV → some t ∈ p.RT → v.resource.id ≠ t.resource.id) ∧
      p.SRV.length = c.mEffect.mShaderResources.length ∧
      ∀ (i : Nat) (entry : Option ID3D10ShaderResourceView),
        c.mEffect.mShaderResources[i]? = some entry →
        ((∃ (v : ID3D10ShaderResourceView) (t : ID3D10RenderTargetView), entry = some v ∧ some t ∈ p.RT ∧ v.resource.id = t.resource.id) →
          p.SRV[i]? = some none) ∧
        ((¬ ∃ (v : ID3D10ShaderResourceView) (t : ID3D10RenderTargetView), entry = some v ∧ some t ∈ p.RT ∧ v.resource.id = t.resource.id) →
          p.SRV[i]? = some entry)) := by
  unfold VisitPass at h
  split at h
  · simp at h
  · rename_i c2 pass1 hshaders
    have h1 := VisitPassShaders_views env node c c2 _ pass1 hshaders
    simp only at h
    split at h
    · simp at h
    · rename_i c3 htargets
      simp only [Option.some.injEq, Prod.mk.injEq] at h
      have h2 := VisitPassTargets_views env node _ c2 c3 _ _ htargets
      exact ⟨by rw [← h.1, h2.1, h1.2], Or.inl h.2.symm⟩
    · rename_i c3 pass3 htargets
      simp only [Option.some.injEq] at h
      have h2 := VisitPassTargets_views env node _ c2 c3 _ _ htargets
      have h3 : pass3.SRV = c.mEffect.mShaderResources := by
        rw [h2.2 pass3 rfl]
        exact h1.1
      obtain ⟨pass4, hpass4⟩ : ∃ pass4 : Pass, pass4 =
          (if pass3.Viewport.Width = 0 ∧ pass3.Viewport.Height = 0 then
            { pass3 with
              Viewport :=
                { pass3.Viewport with
                  Width := env.mRuntime.mSwapChainDescWidth,
                  Height := env.mRuntime.mSwapChainDescHeight } }
           else pass3) := ⟨_, rfl⟩
      have h4 : pass4.SRV = c.mEffect.mShaderResources := by
        rw [hpass4]
        split_ifs
        · exact h3
        · exact h3
      rw [← hpass4] at h
      obtain ⟨hres, p, hp, hrt, hsrv⟩ := VisitPassStates_views env node c3 pass4 passes
      rw [h] at hres hp
      simp only at hres hp
      refine ⟨by rw [hres, h2.1, h1.2], Or.inr ⟨p, hp, ?_, ?_, ?_⟩⟩
      · rw [hsrv, hrt, h4]
        exact (reset_views_spec pass4.RT c.mEffect.mShaderResources).1
      · rw [hsrv, List.length_map, h4]
      · rw [hsrv, hrt, h4]
        exact (reset_views_spec pass4.RT c.mEffect.mShaderResources).2

open Example in
set_option maxRecDepth 100000 in
/-- Witness of C11: after the declaration of the texture `T`, a pass that renders to `T` is
appended with both views of `T` reset, so that no view of the pass has the resource of its
render target. -/
theorem C11_pass_views_do_not_alias_witness :
    ∃ c c1 p, VisitVariables (env okDevice) start [target] = some c ∧
      VisitPass (env okDevice) c (pass [some "T"]) [] = some (c1, [p]) ∧
      c.mEffect.mShaderResources.length = 2 ∧ p.SRV = [none, none] ∧
      (∀ (v : ID3D10ShaderResourceView) (t : ID3D10RenderTargetView), some v ∈ p.SRV → some t ∈ p.RT → v.resource.id ≠ t.resource.id) := by
  have h1 : (VisitVariables (env okDevice) start [target]).isSome = true := by decide!
  obtain ⟨c, hc⟩ := Option.isSome_iff_exists.1 h1
  have h2 : ((VisitVariables (env okDevice) start [target]).bind
      (fun c => VisitPass (env okDevice) c (pass [some "T"]) [])).map
        (fun r => (r.2.map (fun p => p.SRV))) = some [[none, none]] := by decide!
  have h3 : ((VisitVariables (env okDevice) start [target]).map
      (fun c => c.mEffect.mShaderResources.length)) = some 2 := by decide!
  rw [hc] at h2 h3
  simp only [Option.some_bind, Option.map_some', Option.some.injEq] at h2 h3
  obtain ⟨⟨c1, passes1⟩, hr, hmap⟩ := Option.map_eq_some'.1 h2
  simp only at hmap
  rcases (C11_pass_views_do_not_alias (env okDevice) c c1 (pass [some "T"]) [] passes1 hr).2
    with hp | ⟨p, hp, hno, -, -⟩
  · rw [hp] at hmap
    simp at hmap
  · rw [hp] at hmap hr
    simp only [List.nil_append, List.map_cons, List.map_nil, List.cons.injEq, and_true] at hmap
    exact ⟨c, c1, p, hc, hr, h3, hmap, hno⟩

/-! ## Emitted text -/

theorem PopBack_append_singleton (s : String) (ch : Char) :
    PopBack (s ++ String.singleton ch) = some s := by
  unfold PopBack
  have h : (s ++ String.singleton ch).data = s.data ++ [ch] := by
    rw [String.data_append]
    rfl
  rw [h, if_neg (by simp)]
  simp

theorem PopBack2_append (s : String) (a b : Char) :
    PopBack2 (s ++ String.singleton a ++ String.singleton b) = some s := by
  simp only [PopBack2, PopBack_append_singleton]

theorem PopBack2_comma (s : String) : PopBack2 (s ++ ", ") = some s := by
  have h : s ++ ", " = s ++ String.singleton ',' ++ String.singleton ' ' := by
    rw [String.append_assoc]
    rfl
  rw [h, PopBack2_append]

theorem EmitsText_LValue (printFloat : Nat → String) (type : FX.TypeNode)
    (reference : FX.Variable) :
    EmitsText printFloat (FX.Expr.LValue type reference) reference.Name := by
  intro s
  simp only [VisitExpression]

/-- The text of an intrinsic with three arguments (lines 1139 to 1160). -/
theorem VisitExpression_Intrinsic3 (printFloat : Nat → String) (type : FX.TypeNode)
    (op : FX.IntrinsicOp) (a b c : FX.Expr) (A B C : String)
    (ha : EmitsText printFloat a A) (hb : EmitsText printFloat b B)
    (hc : EmitsText printFloat c C) (s : String) :
    VisitExpression printFloat (FX.Expr.Intrinsic type op (some a) (some b) (some c)) s =
      some (s ++ (IntrinsicParts op).1 ++ A ++ (IntrinsicParts op).2.1 ++ B ++
        (IntrinsicParts op).2.2.1 ++ C ++ (IntrinsicParts op).2.2.2) := by
  simp only [VisitExpression, VisitArgument, ha _, hb _, hc _]

/-- The text of an intrinsic with one argument. -/
theorem VisitExpression_Intrinsic1 (printFloat : Nat → String) (type : FX.TypeNode)
    (op : FX.IntrinsicOp) (a : FX.Expr) (A : String)
    (ha : EmitsText printFloat a A) (s : String) :
    VisitExpression printFloat (FX.Expr.Intrinsic type op (some a) none none) s =
      some (s ++ (IntrinsicParts op).1 ++ A ++ (IntrinsicParts op).2.1 ++
        (IntrinsicParts op).2.2.1 ++ (IntrinsicParts op).2.2.2) := by
  simp only [VisitExpression, VisitArgument, ha _]

open Example in
/-- C13, as stated, fails: for the argument `x` the intrinsic `rcp(x)` is emitted as
`(1.0f / x)`, with the suffix of a single-precision literal, and not as `(1.0 / x)`. -/
theorem C13_counterexample :
    VisitExpression printHalf
        (FX.Expr.Intrinsic float FX.IntrinsicOp.Rcp (some (reference "x")) none none) "" =
      some "(1.0f / x)" ∧
    EmitsText printHalf (reference "x") "x" ∧
    "(1.0f / x)" ≠ "(1.0 / x)" :=
  ⟨by decide, EmitsText_LValue _ _ _, by decide⟩

/-- C13 amended: for every argument expression `x` with emitted text `X`, the intrinsic
`rcp(x)` is emitted as the text `(1.0f / X)`. -/
theorem C13_rcp_text (printFloat : Nat → String) (type : FX.TypeNode) (x : FX.Expr)
    (X : String) (hx : EmitsText printFloat x X) :
    EmitsText printFloat (FX.Expr.Intrinsic type FX.IntrinsicOp.Rcp (some x) none none)
      ("(1.0f / " ++ X ++ ")") := by
  intro s
  rw [VisitExpression_Intrinsic1 printFloat type _ x X hx s]
  simp [IntrinsicParts, String.append_assoc]

open Example in
/-- Witness of C13: the argument `x`. -/
theorem C13_rcp_text_witness :
    EmitsText printHalf (reference "x") "x" ∧
    EmitsText printHalf
      (FX.Expr.Intrinsic float FX.IntrinsicOp.Rcp (some (reference "x")) none none)
      ("(1.0f / " ++ "x" ++ ")") :=
  ⟨EmitsText_LValue _ _ _,
    C13_rcp_text printHalf float (reference "x") "x" (EmitsText_LValue _ _ _)⟩

open Example in
/-- C14, as stated, fails: for the arguments `a`, `b` and `c` the intrinsic `mad(a, b, c)` is
emitted as `((a) * (b) + (c))`, with blanks around the two operators, and not as
`((a)*(b)+(c))`. -/
theorem C14_counterexample :
    VisitExpression printHalf
        (FX.Expr.Intrinsic float FX.IntrinsicOp.Mad (some (reference "a"))
          (some (reference "b")) (some (reference "c"))) "" =
      some "((a) * (b) + (c))" ∧
    "((a) * (b) + (c))" ≠ "((a)*(b)+(c))" :=
  ⟨by decide, by decide⟩

/-- C14 amended: for all argument expressions `a`, `b`, `c` with emitted texts `A`, `B`, `C`
the intrinsic `mad(a, b, c)` is emitted as the text `((A) * (B) + (C))`, each argument
individually parenthesised. -/
theorem C14_mad_text (printFloat : Nat → String) (type : FX.TypeNode) (a b c : FX.Expr)
    (A B C : String) (ha : EmitsText printFloat a A) (hb : EmitsText printFloat b B)
    (hc : EmitsText printFloat c C) :
    EmitsText printFloat (FX.Expr.Intrinsic type FX.IntrinsicOp.Mad (some a) (some b) (some c))
      ("((" ++ A ++ ") * (" ++ B ++ ") + (" ++ C ++ "))") := by
  intro s
  rw [VisitExpression_Intrinsic3 printFloat type _ a b c A B C ha hb hc s]
  simp [IntrinsicParts, String.append_assoc]

open Example in
/-- Witness of C14: the arguments `a`, `b` and `c`. -/
theorem C14_mad_text_witness :
    EmitsText printHalf
      (FX.Expr.Intrinsic float FX.IntrinsicOp.Mad (some (reference "a"))
        (some (reference "b")) (some (reference "c")))
      ("((" ++ "a" ++ ") * (" ++ "b" ++ ") + (" ++ "c" ++ "))") :=
  C14_mad_text printHalf float (reference "a") (reference "b") (reference "c") "a" "b" "c"
    (EmitsText_LValue _ _ _) (EmitsText_LValue _ _ _) (EmitsText_LValue _ _ _)

/-- C16: for every field-selection node with operand text `P` and field name `F` the emitted
text is the reference `P_F` when the type of the field has the qualifier `uniform` and `P.F`
otherwise, written between parentheses; the separator is an underscore if and only if the
type of the field has the qualifier `uniform`. -/
theorem C16_field_selection (printFloat : Nat → String) (type : FX.TypeNode)
    (operand : FX.Expr) (field : FX.Variable) (P : String)
    (hP : EmitsText printFloat operand P) :
    (field.Ty.HasQualifier FX.Qualifier.Uniform = true →
      EmitsText printFloat (FX.Expr.FieldSelection type operand field)
        ("(" ++ P ++ "_" ++ field.Name ++ ")")) ∧
    (field.Ty.HasQualifier FX.Qualifier.Uniform = false →
      EmitsText printFloat (FX.Expr.FieldSelection type operand field)
        ("(" ++ P ++ "." ++ field.Name ++ ")")) ∧
    ∃ separator : String,
      EmitsText printFloat (FX.Expr.FieldSelection type operand field)
        ("(" ++ P ++ separator ++ field.Name ++ ")") ∧
      (separator = "_" ∨ separator = ".") ∧
      (separator = "_" ↔ field.Ty.HasQualifier FX.Qualifier.Uniform = true) := by
  have key : ∀ s, VisitExpression printFloat (FX.Expr.FieldSelection type operand field) s =
      some (s ++ ("(" ++ P ++
        (if field.Ty.HasQualifier FX.Qualifier.Uniform = true then "_" else ".") ++
        field.Name ++ ")")) := by
    intro s
    simp only [VisitExpression, hP _, String.append_assoc]
  refine ⟨?_, ?_, ?_⟩
  · intro hq s
    rw [key s, if_pos hq]
  · intro hq s
    rw [key s, if_neg (by simp [hq])]
  · by_cases hq : field.Ty.HasQualifier FX.Qualifier.Uniform = true
    · refine ⟨"_", ?_, Or.inl rfl, by simp [hq]⟩
      intro s
      rw [key s, if_pos hq]
    · refine ⟨".", ?_, Or.inr rfl, ?_⟩
      · intro s
        rw [key s, if_neg hq]
      · constructor
        · intro h
          exact absurd h (by decide)
        · intro h
          exact absurd h hq

open Example in
/-- Witness of C16: the field `scale` selected from `Params`. -/
theorem C16_field_selection_witness :
    EmitsText printHalf (reference "Params") "Params" ∧
    EmitsText printHalf
      (FX.Expr.FieldSelection float (reference "Params")
        (numeric FX.Class.Float [FX.Qualifier.Uniform] 2 1 "scale"))
      ("(" ++ "Params" ++ "_" ++ "scale" ++ ")") ∧
    EmitsText printHalf
      (FX.Expr.FieldSelection float (reference "Params")
        (numeric FX.Class.Float [] 2 1 "scale"))
      ("(" ++ "Params" ++ "." ++ "scale" ++ ")") :=
  ⟨EmitsText_LValue _ _ _,
    (C16_field_selection printHalf float (reference "Params")
      (numeric FX.Class.Float [FX.Qualifier.Uniform] 2 1 "scale") "Params"
      (EmitsText_LValue _ _ _)).1 (by decide),
    (C16_field_selection printHalf float (reference "Params")
      (numeric FX.Class.Float [] 2 1 "scale") "Params"
      (EmitsText_LValue _ _ _)).2.1 (by decide)⟩

theorem intercalate_go_append (sep x : String) :
    ∀ (l : List String) (acc : String),
      String.intercalate.go (x ++ acc) sep l = x ++ String.intercalate.go acc sep l
  | [], acc => by simp [String.intercalate.go]
  | a :: l, acc => by
      simp only [String.intercalate.go]
      rw [← intercalate_go_append sep x l (acc ++ sep ++ a)]
      simp [String.append_assoc]

theorem intercalate_cons_cons (sep a b : String) (l : List String) :
    sep.intercalate (a :: b :: l) = a ++ sep ++ sep.intercalate (b :: l) := by
  simp only [String.intercalate, String.intercalate.go]
  rw [← intercalate_go_append sep (a ++ sep) l b]

theorem Terminated_eq_intercalate :
    ∀ texts : List String, texts ≠ [] → Terminated texts = ", ".intercalate texts ++ ", "
  | [], h => absurd rfl h
  | [a], _ => by simp [Terminated, String.intercalate, String.intercalate.go]
  | a :: b :: l, _ => by
      rw [Terminated, Terminated_eq_intercalate (b :: l) (by simp), intercalate_cons_cons]
      simp [String.append_assoc]

/-- Two calls of `pop_back` after a non-empty list of texts, each followed by `", "`, leave the
texts joined by `", "`. -/
theorem PopBack2_Terminated (s : String) (texts : List String) (h : texts ≠ []) :
    PopBack2 (s ++ Terminated texts) = some (s ++ ", ".intercalate texts) := by
  rw [Terminated_eq_intercalate texts h, ← String.append_assoc, PopBack2_comma]

/-! ## Literals -/

theorem LiteralComponent_defined (printFloat : Nat → String) (type : FX.TypeNode)
    (value : List Nat) (i : Nat) (hi : i < value.length) :
    ∃ text, LiteralComponent printFloat type value i = some text := by
  unfold LiteralComponent
  cases type.BaseClass <;> simp [List.getElem?_eq_getElem hi]

theorem LiteralComponents_defined (printFloat : Nat → String) (type : FX.TypeNode)
    (value : List Nat) :
    ∀ indices : List Nat, (∀ i ∈ indices, i < value.length) →
      ∃ texts, List.Forall₂ (fun i text => LiteralComponent printFloat type value i = some text)
        indices texts
  | [], _ => ⟨[], List.Forall₂.nil⟩
  | i :: rest, h => by
      obtain ⟨text, htext⟩ := LiteralComponent_defined printFloat type value i
        (h i (List.mem_cons_self _ _))
      obtain ⟨texts, htexts⟩ := LiteralComponents_defined printFloat type value rest
        (fun j hj => h j (List.mem_cons_of_mem _ hj))
      exact ⟨text :: texts, List.Forall₂.cons htext htexts⟩

theorem VisitLiteralComponents_spec (printFloat : Nat → String) (type : FX.TypeNode)
    (value : List Nat) :
    ∀ (indices : List Nat) (texts : List String) (s : String),
      List.Forall₂ (fun i text => LiteralComponent printFloat type value i = some text)
        indices texts →
      VisitLiteralComponents printFloat type value indices s = some (s ++ Terminated texts)
  | [], _, s, h => by
      cases h
      simp [VisitLiteralComponents, Terminated]
  | i :: rest, _, s, h => by
      cases h with
      | cons htext htexts =>
        simp only [VisitLiteralComponents, htext]
        rw [VisitLiteralComponents_spec printFloat type value rest _ _ htexts]
        simp [Terminated, String.append_assoc]

theorem IsScalar_components (type : FX.TypeNode) (hs : type.IsScalar = true)
    (hn : 1 ≤ (type.Rows * type.Cols) % UINT_MOD) : (type.Rows * type.Cols) % UINT_MOD = 1 := by
  simp only [FX.TypeNode.IsScalar, FX.TypeNode.IsVector, FX.TypeNode.IsMatrix, Bool.and_eq_true,
    Bool.not_eq_true', decide_eq_false_iff_not, not_and, not_lt, Bool.and_eq_false_imp,
    decide_eq_true_eq] at hs
  obtain ⟨⟨⟨-, hm⟩, hv⟩, -⟩ := hs
  have hr : type.Rows ≠ 0 := by
    intro h0
    rw [h0] at hn
    simp at hn
  have hc : type.Cols ≠ 0 := by
    intro h0
    rw [h0] at hn
    simp at hn
  have hc1 : type.Cols ≤ 1 := hm (by omega)
  have hr1 : type.Rows = 1 := by
    by_contra hne
    have h2 : 1 < type.Rows := by omega
    have := hv h2
    simp only [Bool.not_eq_false', decide_eq_true_eq] at this
    omega
  have hc2 : type.Cols = 1 := by omega
  rw [hr1, hc2]
  decide

theorem Forall₂_right_mem {α β : Type} {R : α → β → Prop} :
    ∀ {l1 : List α} {l2 : List β}, List.Forall₂ R l1 l2 → ∀ b ∈ l2, ∃ a ∈ l1, R a b
  | _, _, List.Forall₂.nil, b, hb => by simp at hb
  | _, _, List.Forall₂.cons h t, b, hb => by
      rcases List.mem_cons.1 hb with rfl | hb
      · exact ⟨_, List.mem_cons_self _ _, h⟩
      · obtain ⟨a, ha, hr⟩ := Forall₂_right_mem t b hb
        exact ⟨a, List.mem_cons_of_mem _ ha, hr⟩

/-- The text of a literal whose components have the texts `texts`. -/
theorem VisitLiteral_spec (printFloat : Nat → String) (type : FX.TypeNode) (value : List Nat)
    (texts : List String) (hne : texts ≠ [])
    (htexts : List.Forall₂ (fun i text => LiteralComponent printFloat type value i = some text)
      (List.range ((type.Rows * type.Cols) % UINT_MOD)) texts) (s : String) :
    VisitLiteral printFloat type value s =
      if type.IsScalar = true then some (s ++ ", ".intercalate texts)
      else
        match PrintType type with
        | some T => some (s ++ T ++ "(" ++ ", ".intercalate texts ++ ")")
        | none => none := by
  unfold VisitLiteral
  by_cases hs : type.IsScalar = true
  · simp only [hs, Bool.not_true, if_true, if_false, Bool.false_eq_true]
    rw [VisitLiteralComponents_spec printFloat type value _ _ s htexts]
    simp only [PopBack2_Terminated s texts hne]
  · simp only [Bool.not_eq_true] at hs
    simp only [hs, Bool.not_false, if_true, Bool.false_eq_true, if_false]
    cases hp : PrintType type with
    | none => rfl
    | some T =>
      simp only
      rw [VisitLiteralComponents_spec printFloat type value _ _ _ htexts]
      simp only [PopBack2_Terminated _ texts hne]

/-- C17: a literal with `n ≥ 1` components, each inside the arrays of its value, has component
texts `texts` (one for each index below `n`) such that: a scalar literal is emitted as its
single component text without wrapper; a vector or matrix literal is emitted as
`PrintType(type)`, `(`, the component texts joined by `, ` without trailing separator, `)`;
every component text of a float literal ends with `f`; the component texts of a bool literal
are `true` or `false`. -/
theorem C17_literal_text (printFloat : Nat → String) (type : FX.TypeNode) (value : List Nat)
    (hn : 1 ≤ (type.Rows * type.Cols) % UINT_MOD)
    (hlen : (type.Rows * type.Cols) % UINT_MOD ≤ value.length) :
    ∃ texts : List String,
      List.Forall₂ (fun i text => LiteralComponent printFloat type value i = some text)
        (List.range ((type.Rows * type.Cols) % UINT_MOD)) texts ∧
      texts.length = (type.Rows * type.Cols) % UINT_MOD ∧
      (type.IsScalar = true →
        ∃ text, texts = [text] ∧ EmitsText printFloat (FX.Expr.Literal type value) text) ∧
      (type.IsVector = true ∨ type.IsMatrix = true →
        ∀ T, PrintType type = some T →
          EmitsText printFloat (FX.Expr.Literal type value)
            (T ++ "(" ++ ", ".intercalate texts ++ ")")) ∧
      (type.BaseClass = FX.Class.Float → ∀ text ∈ texts, ∃ body, text = body ++ "f") ∧
      (type.BaseClass = FX.Class.Bool → ∀ text ∈ texts, text = "true" ∨ text = "false") := by
  obtain ⟨texts, htexts⟩ := LiteralComponents_defined printFloat type value
    (List.range ((type.Rows * type.Cols) % UINT_MOD))
    (fun i hi => lt_of_lt_of_le (List.mem_range.1 hi) hlen)
  have hlength : texts.length = (type.Rows * type.Cols) % UINT_MOD := by
    rw [← htexts.length_eq, List.length_range]
  have hne : texts ≠ [] := by
    intro h
    rw [h] at hlength
    simp only [List.length_nil] at hlength
    omega
  refine ⟨texts, htexts, hlength, ?_, ?_, ?_, ?_⟩
  · intro hs
    have h1 := IsScalar_components type hs hn
    rw [h1] at hlength
    obtain ⟨text, htext⟩ := List.length_eq_one.1 hlength
    refine ⟨text, htext, fun s => ?_⟩
    simp only [VisitExpression]
    rw [VisitLiteral_spec printFloat type value texts hne htexts s, if_pos hs, htext]
    rfl
  · intro hvm T hT s
    have hs : ¬ type.IsScalar = true := by
      unfold FX.TypeNode.IsScalar
      rcases hvm with h | h <;> simp [h]
    simp only [VisitExpression]
    rw [VisitLiteral_spec printFloat type value texts hne htexts s, if_neg hs, hT]
    simp [String.append_assoc]
  · intro hf text htext
    obtain ⟨i, -, hi⟩ := Forall₂_right_mem htexts text htext
    unfold LiteralComponent at hi
    rw [hf] at hi
    simp only at hi
    split at hi
    · simp only [Option.some.injEq] at hi
      exact ⟨_, hi.symm⟩
    · simp at hi
  · intro hb text htext
    obtain ⟨i, -, hi⟩ := Forall₂_right_mem htexts text htext
    unfold LiteralComponent at hi
    rw [hb] at hi
    simp only at hi
    split at hi
    · simp only [Option.some.injEq] at hi
      rw [← hi]
      split_ifs
      · exact Or.inl rfl
      · exact Or.inr rfl
    · simp at hi

open Example in
/-- Witness of C17: a `float3` literal of three words. -/
theorem C17_literal_text_witness :
    ∃ texts : List String,
      List.Forall₂
        (fun i text =>
          LiteralComponent printHalf (FX.TypeNode.mk FX.Class.Float [] 3 1 0 none)
            [1056964608, 1056964608, 1056964608] i = some text)
        (List.range 3) texts ∧
      texts.length = 3 ∧
      EmitsText printHalf
        (FX.Expr.Literal (FX.TypeNode.mk FX.Class.Float [] 3 1 0 none)
          [1056964608, 1056964608, 1056964608])
        ("float3" ++ "(" ++ ", ".intercalate texts ++ ")") ∧
      ∀ text ∈ texts, ∃ body, text = body ++ "f" := by
  obtain ⟨texts, h1, h2, -, h4, h5, -⟩ :=
    C17_literal_text printHalf (FX.TypeNode.mk FX.Class.Float [] 3 1 0 none)
      [1056964608, 1056964608, 1056964608] (by decide) (by decide)
  exact ⟨texts, h1, h2, h4 (Or.inl (by decide)) "float3" (by decide), h5 rfl⟩

/-! ## Declarators -/

/-- Inside a parameter list or a function body `Visit(Variable)` emits a declaration. -/
theorem VisitVariable_inBlock (env : Env) (c : D3D10EffectCompiler) (v : FX.Variable)
    (h : c.mCurrentInParameterBlock = true ∨ c.mCurrentInFunctionBlock = true) :
    VisitVariable env c v = VisitVariableDecl env c v := by
  have hb : (!(c.mCurrentInParameterBlock || c.mCurrentInFunctionBlock)) = false := by
    rcases h with h | h <;> simp [h]
  cases v with
  | mk ty name sem ann init props loc =>
    cases ty with
    | mk b q r k a d =>
      cases d with
      | none =>
        rw [VisitVariable.eq_2]
        simp [hb]
      | some st =>
        cases st with
        | mk sn fields sl =>
          rw [VisitVariable.eq_1]
          simp [hb]

/-- The declaration that `Visit(Variable)` emits inside a function body. -/
theorem VisitVariableDecl_text (env : Env) (text : FX.Expression → String)
    (hlow : ∀ e s, env.lowering.VisitExpression e s = s ++ text e)
    (c : D3D10EffectCompiler) (v : FX.Variable) (T : String)
    (hf : c.mCurrentInFunctionBlock = true)
    (hT : if c.mCurrentInForInitialization ≤ 1 then PrintTypeWithQualifiers v.Ty = some T
          else T = "") :
    VisitVariableDecl env c v =
      some { c with
        mCurrentSource := c.mCurrentSource ++ DeclaratorText T c.mCurrentBlockName text v } := by
  unfold VisitVariableDecl DeclaratorText
  have hb : (!(c.mCurrentInParameterBlock || c.mCurrentInFunctionBlock)) = false := by
    simp [hf]
  by_cases hk : c.mCurrentInForInitialization ≤ 1
  · rw [if_pos hk] at hT
    simp only [hk, if_true, hT, hb, Bool.false_eq_true, if_false]
    cases hi : v.Initializer with
    | none =>
      by_cases h1 : v.Name = "" <;> by_cases h2 : v.Semantic = "" <;>
        by_cases h3 : c.mCurrentBlockName = "" <;>
        simp [h1, h2, h3, String.append_assoc]
    | some e =>
      by_cases h1 : v.Name = "" <;> by_cases h2 : v.Semantic = "" <;>
        by_cases h3 : c.mCurrentBlockName = "" <;>
        simp [h1, h2, h3, hlow, String.append_assoc]
  · rw [if_neg hk] at hT
    simp only [hk, if_false, hT, hb, Bool.false_eq_true]
    cases hi : v.Initializer with
    | none =>
      by_cases h1 : v.Name = "" <;> by_cases h2 : v.Semantic = "" <;>
        by_cases h3 : c.mCurrentBlockName = "" <;>
        simp [h1, h2, h3, String.append_assoc]
    | some e =>
      by_cases h1 : v.Name = "" <;> by_cases h2 : v.Semantic = "" <;>
        by_cases h3 : c.mCurrentBlockName = "" <;>
        simp [h1, h2, h3, hlow, String.append_assoc]

/-- The declarators after the first one of a `for` initializer: the type is not printed and
every declarator is followed by `", "`. -/
theorem VisitDeclarators_rest (env : Env) (text : FX.Expression → String)
    (hlow : ∀ e s, env.lowering.VisitExpression e s = s ++ text e) :
    ∀ (declarators : List FX.Variable) (c : D3D10EffectCompiler),
      c.mCurrentInFunctionBlock = true → 2 ≤ c.mCurrentInForInitialization →
      c.mCurrentInForInitialization + declarators.length < 2 ^ 32 →
      VisitDeclarators env declarators c =
        some { c with
          mCurrentSource := c.mCurrentSource ++
            Terminated (declarators.map (DeclaratorText "" c.mCurrentBlockName text)),
          mCurrentInForInitialization := c.mCurrentInForInitialization + declarators.length }
  | [], c, _, _, _ => by
      simp [VisitDeclarators, Terminated]
  | v :: rest, c, hf, hk, hlen => by
      simp only [List.length_cons] at hlen
      have hdecl := VisitVariableDecl_text env text hlow c v "" hf
        (by rw [if_neg (by omega)])
      rw [VisitDeclarators, VisitVariable_inBlock env c v (Or.inr hf), hdecl]
      simp only
      rw [if_pos (by omega)]
      have hmod : (c.mCurrentInForInitialization + 1) % UINT_MOD =
          c.mCurrentInForInitialization + 1 := Nat.mod_eq_of_lt (by unfold UINT_MOD; omega)
      rw [hmod]
      have ih := VisitDeclarators_rest env text hlow rest
        { c with
          mCurrentSource := c.mCurrentSource ++ DeclaratorText "" c.mCurrentBlockName text v ++ ", ",
          mCurrentInForInitialization := c.mCurrentInForInitialization + 1 }
        hf (by simp only; omega) (by simp only; omega)
      rw [ih]
      simp only [List.map_cons, Terminated, String.append_assoc, List.length_cons,
        Option.some.injEq]
      congr 1
      omega

/-- The declarators of a `for` initializer: the type is printed for the first declarator only
and every declarator is followed by `", "`. -/
theorem VisitDeclarators_first (env : Env) (text : FX.Expression → String)
    (hlow : ∀ e s, env.lowering.VisitExpression e s = s ++ text e)
    (first : FX.Variable) (others : List FX.Variable) (c : D3D10EffectCompiler) (T : String)
    (hf : c.mCurrentInFunctionBlock = true) (hk : c.mCurrentInForInitialization = 1)
    (hT : PrintTypeWithQualifiers first.Ty = some T) (hlen : others.length + 2 < 2 ^ 32) :
    VisitDeclarators env (first :: others) c =
      some { c with
        mCurrentSource := c.mCurrentSource ++
          Terminated (DeclaratorText T c.mCurrentBlockName text first ::
            others.map (DeclaratorText "" c.mCurrentBlockName text)),
        mCurrentInForInitialization := 2 + others.length } := by
  have hdecl := VisitVariableDecl_text env text hlow c first T hf
    (by rw [if_pos (by omega)]; exact hT)
  rw [VisitDeclarators, VisitVariable_inBlock env c first (Or.inr hf), hdecl]
  simp only
  rw [if_pos (by omega), hk]
  have hmod : (1 + 1) % UINT_MOD = 2 := by decide
  rw [hmod]
  have ih := VisitDeclarators_rest env text hlow others
    { c with
      mCurrentSource := c.mCurrentSource ++ DeclaratorText T c.mCurrentBlockName text first ++ ", ",
      mCurrentInForInitialization := 2 }
    hf (by simp only; omega) (by simp only; omega)
  rw [ih]
  simp only [Terminated, String.append_assoc]

/-- C18: inside a function body, a `for` statement whose initializer is a list of `n ≥ 1`
declarators emits the header `for (`, the declarators, `; `, the condition, `; `, the
increment, `)`: the type is printed for the first declarator only, the declarators are joined
by `, `, the initializer holds no `;` with a newline and no separator before the first `; `,
and the body is visited (or `\t;` is emitted for a null body) with the counter
`mCurrentInForInitialization` at 0 again. -/
theorem C18_for_header (env : Env) (printFloat : Nat → String)
    (text : FX.Expression → String)
    (hlow : ∀ e s, env.lowering.VisitExpression e s = s ++ text e)
    (c : D3D10EffectCompiler) (hf : c.mCurrentInFunctionBlock = true)
    (attributes : List String) (first : FX.Variable) (others : List FX.Variable)
    (condition increment : Option FX.Expr) (statements : Option FX.Stmt)
    (T C I : String) (hT : PrintTypeWithQualifiers first.Ty = some T)
    (hC : ∀ s, VisitArgument printFloat condition s = some (s ++ C))
    (hI : ∀ s, VisitArgument printFloat increment s = some (s ++ I))
    (hcount : others.length + 2 < 2 ^ 32) :
    VisitStatement env printFloat
        (FX.Stmt.For attributes (some (FX.Stmt.DeclaratorList (first :: others))) condition
          increment statements) c =
      match statements with
      | some body =>
          VisitStatement env printFloat body
            { c with
              mCurrentInForInitialization := 0,
              mCurrentSource :=
                VisitAttributes attributes c.mCurrentSource ++ "for (" ++
                  ", ".intercalate
                    (DeclaratorText T c.mCurrentBlockName text first ::
                      others.map (DeclaratorText "" c.mCurrentBlockName text)) ++
                  "; " ++ C ++ "; " ++ I ++ ")\n" }
      | none =>
          some { c with
            mCurrentInForInitialization := 0,
            mCurrentSource :=
              VisitAttributes attributes c.mCurrentSource ++ "for (" ++
                ", ".intercalate
                  (DeclaratorText T c.mCurrentBlockName text first ::
                    others.map (DeclaratorText "" c.mCurrentBlockName text)) ++
                "; " ++ C ++ "; " ++ I ++ ")\n" ++ "\t;" } := by
  have hdecls := VisitDeclarators_first env text hlow first others
    { c with
      mCurrentSource := VisitAttributes attributes c.mCurrentSource ++ "for (",
      mCurrentInForInitialization := 1 } T hf rfl hT hcount
  simp only [VisitStatement, VisitOptionalStatement, hdecls,
    PopBack2_Terminated _ _ (List.cons_ne_nil _ _), hC, hI]
  cases statements with
  | none => simp only [String.append_assoc]
  | some body => simp only [VisitOptionalStatement, String.append_assoc]

open Example in
/-- Witness of C18: the statement `for (int i, j; i; ) ;` in the body of a function. -/
theorem C18_for_header_witness :
    VisitStatement (env okDevice) printHalf forLoop inFunction =
      some { inFunction with
        mCurrentInForInitialization := 0,
        mCurrentSource :=
          VisitAttributes [] inFunction.mCurrentSource ++ "for (" ++
            ", ".intercalate
              (DeclaratorText "int" inFunction.mCurrentBlockName (fun _ => "")
                  (numeric FX.Class.Int [] 1 1 "i") ::
                [numeric FX.Class.Int [] 1 1 "j"].map
                  (DeclaratorText "" inFunction.mCurrentBlockName (fun _ => ""))) ++
            "; " ++ "i" ++ "; " ++ "" ++ ")\n" ++ "\t;" } ∧
    VisitAttributes [] inFunction.mCurrentSource ++ "for (" ++
        ", ".intercalate
          (DeclaratorText "int" inFunction.mCurrentBlockName (fun _ => "")
              (numeric FX.Class.Int [] 1 1 "i") ::
            [numeric FX.Class.Int [] 1 1 "j"].map
              (DeclaratorText "" inFunction.mCurrentBlockName (fun _ => ""))) ++
        "; " ++ "i" ++ "; " ++ "" ++ ")\n" ++ "\t;" =
      "for (int i,  j; i; )\n\t;" :=
  ⟨C18_for_header (env okDevice) printHalf (fun _ => "") (fun _ s => by simp [env])
      inFunction rfl [] (numeric FX.Class.Int [] 1 1 "i") [numeric FX.Class.Int [] 1 1 "j"]
      (some (FX.Expr.LValue (FX.TypeNode.mk FX.Class.Int [] 1 1 0 none)
        (numeric FX.Class.Int [] 1 1 "i")))
      none none "int" "i" "" (by decide)
      (fun s => by simp only [VisitArgument, VisitExpression]; rfl)
      (fun s => by simp [VisitArgument]) (by decide),
    by decide⟩

theorem ChangeSource_register (t t1 : D3D10Texture)
    (a b : Option ID3D10ShaderResourceView) (techs techs1 : List (String × D3D10Technique))
    (h : ChangeSource t a b techs = some (t1, techs1)) : t1.mRegister = t.mRegister := by
  unfold ChangeSource at h
  simp only at h
  generalize (if b.isNone = true then a else b) = b1 at h
  split_ifs at h
  · simp only [Option.some.injEq, Prod.mk.injEq] at h
    rw [← h.1]
  · split at h
    · simp at h
    · simp only [Option.some.injEq, Prod.mk.injEq] at h
      rw [← h.1]
      cases a <;> rfl

/-- The last lines of `VisitTexture` register the texture under the next two slots. -/
theorem VisitTextureRegister_spec (c : D3D10EffectCompiler) (node : FX.Variable)
    (obj : D3D10Texture) (hreg : obj.mRegister = c.mEffect.mShaderResources.length) :
    ∃ t : D3D10Texture, t.mRegister = c.mEffect.mShaderResources.length ∧
      (VisitTextureRegister c node obj).mEffect.mTextures =
        c.mEffect.mTextures ++ [(node.Name, t)] ∧
      (VisitTextureRegister c node obj).mEffect.mShaderResources =
        c.mEffect.mShaderResources ++ [t.mShaderResourceView.1, t.mShaderResourceView.2] ∧
      (VisitTextureRegister c node obj).mCurrentSource =
        c.mCurrentSource ++ "Texture2D " ++ node.Name ++ " : register(t" ++
          toString c.mEffect.mShaderResources.length ++ "), __" ++ node.Name ++
          "SRGB : register(t" ++ toString (c.mEffect.mShaderResources.length + 1) ++ ");\n" :=
  ⟨obj, hreg, rfl, rfl, rfl⟩

theorem failed_call_mem (dev : Device) (history : List DeviceCall) (req : DeviceRequest)
    (hreq : (∃ d, req = DeviceRequest.CreateTexture2D d) ∨
      ∃ r d, req = DeviceRequest.CreateShaderResourceView r d)
    (hf : FAILED (dev.call history req).1.hr = true) :
    ∃ e ∈ (dev.call history req).2, e.isFailedTextureOrSRV = true := by
  refine ⟨{ request := req, response := dev.respond history req }, by simp [Device.call], ?_⟩
  rcases hreq with ⟨d, rfl⟩ | ⟨r, d, rfl⟩
  · exact hf
  · exact hf

/-- The creation of a memory texture either fails on the device and registers nothing, or
registers the texture under the next two slots. -/
theorem VisitTextureCreate_outcome (env : Env) (c : D3D10EffectCompiler) (node : FX.Variable)
    (obj : D3D10Texture) (texdesc : D3D10_TEXTURE2D_DESC)
    (hreg : obj.mRegister = c.mEffect.mShaderResources.length) :
    ((VisitTextureCreate env c node obj texdesc).mEffect = c.mEffect ∧
      (VisitTextureCreate env c node obj texdesc).mCurrentSource = c.mCurrentSource ∧
      ∃ e ∈ (VisitTextureCreate env c node obj texdesc).mDeviceCalls,
        e.isFailedTextureOrSRV = true) ∨
    ∃ t : D3D10Texture, t.mRegister = c.mEffect.mShaderResources.length ∧
      (VisitTextureCreate env c node obj texdesc).mEffect.mTextures =
        c.mEffect.mTextures ++ [(node.Name, t)] ∧
      (VisitTextureCreate env c node obj texdesc).mEffect.mShaderResources =
        c.mEffect.mShaderResources ++ [t.mShaderResourceView.1, t.mShaderResourceView.2] ∧
      (VisitTextureCreate env c node obj texdesc).mCurrentSource =
        c.mCurrentSource ++ "Texture2D " ++ node.Name ++ " : register(t" ++
          toString c.mEffect.mShaderResources.length ++ "), __" ++ node.Name ++
          "SRGB : register(t" ++ toString (c.mEffect.mShaderResources.length + 1) ++ ");\n" := by
  unfold VisitTextureCreate
  simp only
  by_cases hm : texdesc.MipLevels = 0
  · simp only [hm, if_true]
    split_ifs with h1 h2 h3 h4
    · exact Or.inl ⟨rfl, rfl, failed_call_mem _ _ _ (Or.inl ⟨_, rfl⟩) h1⟩
    · exact Or.inl ⟨rfl, rfl, failed_call_mem _ _ _ (Or.inr ⟨_, _, rfl⟩) h2⟩
    · exact Or.inl ⟨rfl, rfl, failed_call_mem _ _ _ (Or.inr ⟨_, _, rfl⟩) h4⟩
    · exact Or.inr (VisitTextureRegister_spec _ node _ hreg)
    · exact Or.inr (VisitTextureRegister_spec _ node _ hreg)
  · simp only [hm, if_false]
    split_ifs with h1 h2 h3 h4
    · exact Or.inl ⟨rfl, rfl, failed_call_mem _ _ _ (Or.inl ⟨_, rfl⟩) h1⟩
    · exact Or.inl ⟨rfl, rfl, failed_call_mem _ _ _ (Or.inr ⟨_, _, rfl⟩) h2⟩
    · exact Or.inl ⟨rfl, rfl, failed_call_mem _ _ _ (Or.inr ⟨_, _, rfl⟩) h4⟩
    · exact Or.inr (VisitTextureRegister_spec _ node _ hreg)
    · exact Or.inr (VisitTextureRegister_spec _ node _ hreg)

/-- The method `VisitTexture` either fails on the device and registers nothing, or registers
the texture under the next two slots of the table of shader-resource views. -/
theorem VisitTexture_outcome (env : Env) (c c1 : D3D10EffectCompiler) (node : FX.Variable)
    (h : VisitTexture env c node = some c1) :
    (c1.mEffect.mTextures = c.mEffect.mTextures ∧
      c1.mEffect.mShaderResources = c.mEffect.mShaderResources ∧
      c1.mCurrentSource = c.mCurrentSource ∧
      ∃ e ∈ c1.mDeviceCalls, e.isFailedTextureOrSRV = true) ∨
    ∃ t : D3D10Texture, t.mRegister = c.mEffect.mShaderResources.length ∧
      c1.mEffect.mTextures = c.mEffect.mTextures ++ [(node.Name, t)] ∧
      c1.mEffect.mShaderResources =
        c.mEffect.mShaderResources ++ [t.mShaderResourceView.1, t.mShaderResourceView.2] ∧
      c1.mCurrentSource =
        c.mCurrentSource ++ "Texture2D " ++ node.Name ++ " : register(t" ++
          toString c.mEffect.mShaderResources.length ++ "), __" ++ node.Name ++
          "SRGB : register(t" ++ toString (c.mEffect.mShaderResources.length + 1) ++ ");\n" := by
  unfold VisitTexture at h
  simp only at h
  split at h
  · simp at h
  · rename_i obj1 techniques hchanged
    have hreg : obj1.mRegister = c.mEffect.mShaderResources.length := by
      split_ifs at hchanged
      · exact ChangeSource_register _ _ _ _ _ _ hchanged
      · exact ChangeSource_register _ _ _ _ _ _ hchanged
      · simp only [Option.some.injEq, Prod.mk.injEq] at hchanged
        rw [← hchanged.1]
    split_ifs at h <;> simp only [Option.some.injEq] at h <;> subst h
    · exact Or.inr (VisitTextureRegister_spec _ node _ hreg)
    · exact Or.inr (VisitTextureRegister_spec _ node _ hreg)
    · rcases VisitTextureCreate_outcome env
        { c with mEffect := { c.mEffect with mTechniques := techniques } } node obj1 _ hreg with
        ⟨h1, h2, h3⟩ | h4
      · exact Or.inl ⟨by rw [h1], by rw [h1], h2, h3⟩
      · exact Or.inr h4

/-- Appending a texture with the next register and its two views keeps the numbering. -/
theorem TextureRegisters_append (e e1 : D3D10Effect) (name : String) (t : D3D10Texture)
    (hinv : TextureRegisters e) (hreg : t.mRegister = e.mShaderResources.length)
    (ht : e1.mTextures = e.mTextures ++ [(name, t)])
    (hs : e1.mShaderResources =
      e.mShaderResources ++ [t.mShaderResourceView.1, t.mShaderResourceView.2]) :
    TextureRegisters e1 ∧ t.mRegister = 2 * e.mTextures.length := by
  obtain ⟨hlen, hall⟩ := hinv
  refine ⟨⟨?_, ?_⟩, by rw [hreg, hlen]⟩
  · rw [ht, hs]
    simp only [List.length_append, List.length_cons, List.length_nil, hlen]
    omega
  · intro k name1 t1 hk
    rw [ht] at hk
    rw [hs]
    by_cases hlt : k < e.mTextures.length
    · rw [List.getElem?_append_left hlt] at hk
      obtain ⟨h1, h2, h3⟩ := hall k name1 t1 hk
      refine ⟨h1, ?_, ?_⟩
      · rw [List.getElem?_append_left (by omega)]
        exact h2
      · rw [List.getElem?_append_left (by omega)]
        exact h3
    · have hge : e.mTextures.length ≤ k := Nat.le_of_not_lt hlt
      rw [List.getElem?_append_right hge] at hk
      have hk0 : k - e.mTextures.length = 0 := by
        by_contra hne
        have : (k - e.mTextures.length) = (k - e.mTextures.length - 1) + 1 := by omega
        rw [this] at hk
        simp at hk
      rw [hk0] at hk
      simp only [List.getElem?_cons_zero, Option.some.injEq, Prod.mk.injEq] at hk
      obtain ⟨-, rfl⟩ := hk
      have hkeq : k = e.mTextures.length := by omega
      subst hkeq
      refine ⟨by rw [hreg, hlen], ?_, ?_⟩
      · rw [List.getElem?_append_right (by omega)]
        have : 2 * e.mTextures.length - e.mShaderResources.length = 0 := by omega
        rw [this]
        rfl
      · rw [List.getElem?_append_right (by omega)]
        have : 2 * e.mTextures.length + 1 - e.mShaderResources.length = 1 := by omega
        rw [this]
        rfl

theorem TextureRegisters_congr (e e1 : D3D10Effect) (hinv : TextureRegisters e)
    (ht : e1.mTextures = e.mTextures) (hs : e1.mShaderResources = e.mShaderResources) :
    TextureRegisters e1 := by
  unfold TextureRegisters
  rw [ht, hs]
  exact hinv

theorem VisitSampler_textures (env : Env) (c c1 : D3D10EffectCompiler) (v : FX.Variable)
    (h : VisitSampler env c v = some c1) :
    c1.mEffect.mTextures = c.mEffect.mTextures ∧
      c1.mEffect.mShaderResources = c.mEffect.mShaderResources := by
  unfold VisitSampler at h
  split at h
  · simp only [Option.some.injEq] at h
    subst h
    exact ⟨rfl, rfl⟩
  · simp only at h
    split at h
    · simp only [Option.some.injEq] at h
      subst h
      exact ⟨rfl, rfl⟩
    · split at h
      · simp only [Option.some.injEq] at h
        subst h
        exact ⟨rfl, rfl⟩
      · split at h
        · simp only [Option.some.injEq] at h
          subst h
          exact ⟨rfl, rfl⟩
        · simp only [Option.some.injEq] at h
          subst h
          exact ⟨rfl, rfl⟩

theorem VisitUniform_textures (env : Env) (c c1 : D3D10EffectCompiler) (v : FX.Variable)
    (h : VisitUniform env c v = some c1) :
    c1.mEffect.mTextures = c.mEffect.mTextures ∧
      c1.mEffect.mShaderResources = c.mEffect.mShaderResources := by
  unfold VisitUniform at h
  split at h
  · simp at h
  · simp only at h
    split at h
    · simp at h
    · split at h
      · simp at h
      · simp only [Option.some.injEq] at h
        subst h
        exact ⟨rfl, rfl⟩

theorem UniformBufferField_textures (env : Env) (name : String) (c c1 : D3D10EffectCompiler)
    (l l1 : BlockLocals) (f : FX.Variable)
    (h : UniformBufferField env name c l f = some (c1, l1)) :
    c1.mEffect.mTextures = c.mEffect.mTextures ∧
      c1.mEffect.mShaderResources = c.mEffect.mShaderResources := by
  unfold UniformBufferField at h
  simp only at h
  split at h
  · simp at h
  · simp only [Option.some.injEq, Prod.mk.injEq] at h
    obtain ⟨rfl, -⟩ := h
    exact ⟨rfl, rfl⟩

theorem UniformBufferEnd_textures (env : Env) (name : String) (ann : List FX.AnnotationNode)
    (n : Nat) (c c1 : D3D10EffectCompiler) (l : BlockLocals)
    (h : UniformBufferEnd env name ann n c l = some c1) :
    c1.mEffect.mTextures = c.mEffect.mTextures ∧
      c1.mEffect.mShaderResources = c.mEffect.mShaderResources := by
  unfold UniformBufferEnd at h
  simp only at h
  split at h
  · simp at h
  · split_ifs at h <;> simp only [Option.some.injEq] at h <;> subst h <;> exact ⟨rfl, rfl⟩

/-- Every visitor of a declaration keeps the numbering of the textures. -/
theorem TextureRegisters_relation (env : Env) :
    StepRelation env (fun c c1 => TextureRegisters c.mEffect → TextureRegisters c1.mEffect) where
  refl := fun _ h => h
  trans := fun _ _ _ h1 h2 h => h2 (h1 h)
  texture := fun c v c1 h hinv => by
    rcases VisitTexture_outcome env c c1 v h with ⟨h1, h2, -, -⟩ | ⟨t, hreg, h1, h2, -⟩
    · exact TextureRegisters_congr _ _ hinv h1 h2
    · exact (TextureRegisters_append _ _ _ t hinv hreg h1 h2).1
  sampler := fun c v c1 h hinv =>
    TextureRegisters_congr _ _ hinv (VisitSampler_textures env c c1 v h).1
      (VisitSampler_textures env c c1 v h).2
  uniform := fun c v c1 h hinv =>
    TextureRegisters_congr _ _ hinv (VisitUniform_textures env c c1 v h).1
      (VisitUniform_textures env c c1 v h).2
  decl := fun c v c1 h hinv => by
    rw [(VisitVariableDecl_spec env c c1 v h).1]
    exact hinv
  blockBegin := fun _ _ hinv => hinv
  blockField := fun name c l f c1 l1 h hinv =>
    TextureRegisters_congr _ _ hinv (UniformBufferField_textures env name c c1 l l1 f h).1
      (UniformBufferField_textures env name c c1 l l1 f h).2
  blockEnd := fun name ann n c l c1 h hinv =>
    TextureRegisters_congr _ _ hinv (UniformBufferEnd_textures env name ann n c c1 l h).1
      (UniformBufferEnd_textures env name ann n c c1 l h).2

/-- At file scope a variable that is no uniform block goes to `VisitTexture`, `VisitSampler`,
`VisitUniform` or to the plain declaration, in this order of tests. -/
theorem VisitVariable_route (env : Env) (c : D3D10EffectCompiler) (v : FX.Variable)
    (hb : DeclaresBlock v = false) (hp : c.mCurrentInParameterBlock = false)
    (hf : c.mCurrentInFunctionBlock = false) :
    VisitVariable env c v =
      if v.Ty.IsTexture = true then VisitTexture env c v
      else if v.Ty.IsSampler = true then VisitSampler env c v
      else if v.Ty.HasQualifier FX.Qualifier.Uniform = true then VisitUniform env c v
      else VisitVariableDecl env c v := by
  cases v with
  | mk ty name sem ann init props loc =>
    cases ty with
    | mk b q r k a d =>
      simp only [DeclaresBlock, FX.Variable.Ty] at hb
      cases d with
      | none =>
        rw [VisitVariable.eq_2]
        simp only [hp, hf, hb, Bool.or_self, Bool.not_false, if_true, FX.Variable.Ty,
          Bool.false_eq_true, if_false]
      | some st =>
        cases st with
        | mk sn fields sl =>
          rw [VisitVariable.eq_1]
          simp only [hp, hf, hb, Bool.or_self, Bool.not_false, if_true, FX.Variable.Ty,
            Bool.false_eq_true, if_false]

theorem IsTexture_of_IsStruct (t : FX.TypeNode) (h : t.IsStruct = true) :
    t.IsTexture = false := by
  simp only [FX.TypeNode.IsStruct, decide_eq_true_eq] at h
  simp only [FX.TypeNode.IsTexture, h]
  rfl

theorem VisitUniform_source (env : Env) (c c1 : D3D10EffectCompiler) (v : FX.Variable)
    (h : VisitUniform env c v = some c1) : c1.mCurrentSource = c.mCurrentSource := by
  unfold VisitUniform at h
  split at h
  · simp at h
  · simp only at h
    split at h
    · simp at h
    · split at h
      · simp at h
      · simp only [Option.some.injEq] at h
        subst h
        rfl

theorem failed_buffer_mem (dev : Device) (history : List DeviceCall) (desc : D3D10_BUFFER_DESC)
    (bytes : List Nat)
    (hs : ¬ SUCCEEDED (dev.call history (DeviceRequest.CreateBuffer desc bytes)).1.hr = true) :
    ∃ e ∈ (dev.call history (DeviceRequest.CreateBuffer desc bytes)).2,
      e.isFailedBuffer = true := by
  refine ⟨{ request := DeviceRequest.CreateBuffer desc bytes,
            response := dev.respond history (DeviceRequest.CreateBuffer desc bytes) },
    by simp [Device.call], ?_⟩
  simp only [DeviceCall.isFailedBuffer, FAILED, decide_eq_true_eq]
  simp only [SUCCEEDED, Device.call, decide_eq_true_eq, not_le] at hs
  exact hs

/-- One round of the loop of `VisitUniformBuffer` over a field of numeric type: the field is
registered under the name of the block with the index of the next constant buffer, and neither
the textures nor the constant buffers change. -/
theorem UniformBufferRound_spec (env : Env) (name : String) (c c3 c4 : D3D10EffectCompiler)
    (l l4 : BlockLocals) (f : FX.Variable) (hnum : IsNumericUniformType f.Ty)
    (hp : c.mCurrentInParameterBlock = false) (hf : c.mCurrentInFunctionBlock = false)
    (hv : VisitVariable env c f = some c3)
    (hfield : UniformBufferField env name c3 l f = some (c4, l4)) :
    c4.mEffect.mTextures = c.mEffect.mTextures ∧
      c4.mEffect.mShaderResources = c.mEffect.mShaderResources ∧
      c4.mEffect.mConstantBuffers = c.mEffect.mConstantBuffers ∧
      c4.mCurrentInParameterBlock = false ∧ c4.mCurrentInFunctionBlock = false ∧
      c4.mDeviceCalls = c.mDeviceCalls ∧
      l4.totalsize = AdvanceSize l.totalsize (ConstantDescriptionOf f.Ty).Size ∧
      (∃ a1, c4.mEffect.mConstants = c.mEffect.mConstants ++ a1 ++
        [(name ++ "." ++ f.Name,
          { mDesc := ConstantDescriptionOf f.Ty, mAnnotations := [],
            mBufferIndex := c.mEffect.mConstantBuffers.length,
            mBufferOffset := SizeSub (AdvanceSize l.totalsize (ConstantDescriptionOf f.Ty).Size)
              (ConstantDescriptionOf f.Ty).Size })]) ∧
      (c3.mCurrentSource = c.mCurrentSource ∨ VisitVariableDecl env c f = some c3) ∧
      c4.mCurrentSource = c3.mCurrentSource := by
  rw [VisitVariable_numeric env c f hnum hp hf] at hv
  obtain ⟨mem, hmem, hl4, hc4, hbuf4, hp4, hf4⟩ :=
    UniformBufferField_spec env name c3 c4 l l4 f hfield
  obtain ⟨ht4, hs4⟩ := UniformBufferField_textures env name c3 c4 l l4 f hfield
  have hcalls4 : c4.mDeviceCalls = c3.mDeviceCalls ∧ c4.mCurrentSource = c3.mCurrentSource := by
    unfold UniformBufferField at hfield
    simp only at hfield
    split at hfield
    · simp at hfield
    · simp only [Option.some.injEq, Prod.mk.injEq] at hfield
      obtain ⟨rfl, -⟩ := hfield
      exact ⟨rfl, rfl⟩
  have hsize : l4.totalsize = AdvanceSize l.totalsize (ConstantDescriptionOf f.Ty).Size := by
    rw [hl4]
  split_ifs at hv
  · obtain ⟨_, _, _, _, _, _, _, _, hconst, hbuf, hp1, hf1⟩ := VisitUniform_spec env c c3 f hv
    obtain ⟨ht3, hs3⟩ := VisitUniform_textures env c c3 f hv
    have hcalls3 : c3.mDeviceCalls = c.mDeviceCalls := by
      unfold VisitUniform at hv
      split at hv
      · simp at hv
      · simp only at hv
        split at hv
        · simp at hv
        · split at hv
          · simp at hv
          · simp only [Option.some.injEq] at hv
            subst hv
            rfl
    refine ⟨ht4.trans ht3, hs4.trans hs3, hbuf4.trans hbuf, hp4.trans (hp1.trans hp),
      hf4.trans (hf1.trans hf), hcalls4.1.trans hcalls3, hsize,
      ⟨[(f.Name,
          { mDesc := ConstantDescriptionOf f.Ty, mAnnotations := VisitAnnotations f.Annotations,
            mBufferIndex := 0,
            mBufferOffset :=
              SizeSub (AdvanceSize c.mCurrentGlobalSize (ConstantDescriptionOf f.Ty).Size)
                (ConstantDescriptionOf f.Ty).Size })], ?_⟩,
      Or.inl (VisitUniform_source env c c3 f hv), hcalls4.2⟩
    rw [hc4, hconst, hbuf]
  · obtain ⟨heff, _, _, hp1, hf1, _, _, hcalls3⟩ := VisitVariableDecl_spec env c c3 f hv
    refine ⟨by rw [ht4, heff], by rw [hs4, heff], by rw [hbuf4, heff], hp4.trans (hp1.trans hp),
      hf4.trans (hf1.trans hf), hcalls4.1.trans hcalls3, hsize, ⟨[], ?_⟩, Or.inr hv, hcalls4.2⟩
    rw [hc4, heff, List.append_nil]

/-- The loop of `VisitUniformBuffer` over fields of numeric type changes neither the textures
nor the constant buffers nor the history of the device. -/
theorem VisitUniformBufferFields_keeps (env : Env) (name : String) :
    ∀ (fields : List FX.Variable) (c c2 : D3D10EffectCompiler) (l l2 : BlockLocals),
      (∀ f ∈ fields, IsNumericUniformType f.Ty) →
      c.mCurrentInParameterBlock = false → c.mCurrentInFunctionBlock = false →
      VisitUniformBufferFields env name c l fields = some (c2, l2) →
      c2.mEffect.mTextures = c.mEffect.mTextures ∧
        c2.mEffect.mShaderResources = c.mEffect.mShaderResources ∧
        c2.mEffect.mConstantBuffers = c.mEffect.mConstantBuffers ∧
        c2.mDeviceCalls = c.mDeviceCalls ∧
        l2.totalsize = LaidOutSize l.totalsize fields
  | [], c, c2, l, l2, _, _, _, h => by
      rw [VisitUniformBufferFields.eq_1] at h
      simp only [Option.some.injEq, Prod.mk.injEq] at h
      obtain ⟨rfl, rfl⟩ := h
      exact ⟨rfl, rfl, rfl, rfl, rfl⟩
  | f :: rest, c, c2, l, l2, hall, hp, hf, h => by
      rw [VisitUniformBufferFields.eq_2] at h
      split at h
      · simp at h
      · rename_i c3 hv
        split at h
        · simp at h
        · rename_i c4 l4 hfield
          obtain ⟨h1, h2, h3, hp4, hf4, h4, h5, -, -, -⟩ :=
            UniformBufferRound_spec env name c c3 c4 l l4 f (hall f (List.mem_cons_self _ _))
              hp hf hv hfield
          obtain ⟨k1, k2, k3, k4, k5⟩ :=
            VisitUniformBufferFields_keeps env name rest c4 c2 l4 l2
              (fun x hx => hall x (List.mem_cons_of_mem _ hx)) hp4 hf4 h
          refine ⟨k1.trans h1, k2.trans h2, k3.trans h3, k4.trans h4, ?_⟩
          rw [k5, h5]
          rfl

/-- A uniform block with fields of numeric type leaves the textures as they are; it appends
one constant buffer unless the creation of the buffer, its only call on the device, fails. -/
theorem VisitVariable_block_keeps (env : Env) (c c1 : D3D10EffectCompiler) (block : FX.Variable)
    (hblock : IsUniformBlock block) (hp : c.mCurrentInParameterBlock = false)
    (hf : c.mCurrentInFunctionBlock = false) (h : VisitVariable env c block = some c1) :
    c1.mEffect.mTextures = c.mEffect.mTextures ∧
      c1.mEffect.mShaderResources = c.mEffect.mShaderResources ∧
      (c1.mEffect.mConstantBuffers.length = c.mEffect.mConstantBuffers.length + 1 ∨
        ∃ e ∈ c1.mDeviceCalls, e.isFailedBuffer = true) := by
  obtain ⟨hstruct, huniform, definition, hdef, hfields⟩ := hblock
  cases block with
  | mk ty name sem ann init props loc =>
    cases ty with
    | mk b q r k a d =>
      simp only [FX.Variable.Ty, FX.TypeNode.Definition] at hdef hstruct huniform
      subst hdef
      cases definition with
      | mk sn fields sl =>
        rw [VisitVariable.eq_1] at h
        simp only [hp, hf, hstruct, huniform, Bool.or_self, Bool.not_false, Bool.and_self,
          if_true] at h
        split at h
        · simp at h
        · rename_i c2 l2 hloop
          obtain ⟨k1, k2, k3, k4, -⟩ :=
            VisitUniformBufferFields_keeps env name fields (UniformBufferBegin c name) c2
              { storage := none, totalsize := 0, currentsize := 0 } l2 hfields hp hf hloop
          obtain ⟨t1, t2⟩ := UniformBufferEnd_textures env name ann fields.length c2 c1 l2 h
          refine ⟨t1.trans k1, t2.trans k2, ?_⟩
          unfold UniformBufferEnd at h
          simp only at h
          split at h
          · simp at h
          · rename_i bytes hbytes
            split_ifs at h with hs
            · simp only [Option.some.injEq] at h
              subst h
              left
              simp only [D3D10Effect.AddConstant, List.length_append, List.length_cons,
                List.length_nil]
              rw [k3]
              rfl
            · simp only [Option.some.injEq] at h
              subst h
              right
              exact failed_buffer_mem _ _ _ _ hs

/-- The names of the registered textures after a list of file-scope declarations during which
no creation of a texture or of a view failed: the names of the texture declarations, in their
order, are appended. -/
theorem VisitVariables_texture_names (env : Env) :
    ∀ (decls : List FX.Variable) (c c1 : D3D10EffectCompiler),
      c.mCurrentInParameterBlock = false → c.mCurrentInFunctionBlock = false →
      (∀ d ∈ decls, d.Ty.IsStruct = false ∨ IsUniformBlock d) →
      VisitVariables env c decls = some c1 →
      (∀ e ∈ c1.mDeviceCalls, e.isFailedTextureOrSRV = false) →
      c1.mEffect.mTextures.map Prod.fst =
        c.mEffect.mTextures.map Prod.fst ++
          (decls.filter (fun d => d.Ty.IsTexture)).map FX.Variable.Name
  | [], c, c1, _, _, _, h, _ => by
      unfold VisitVariables at h
      simp only [Option.some.injEq] at h
      subst h
      simp
  | node :: rest, c, c1, hp, hf, hall, h, hok => by
      unfold VisitVariables at h
      split at h
      · simp at h
      · rename_i c2 hnode
        have hstep := VisitVariable_step env node c c2 hnode
        have hrest := VisitVariables_step env rest c2 c1 h
        have hok2 : ∀ e ∈ c2.mDeviceCalls, e.isFailedTextureOrSRV = false := by
          intro e he
          obtain ⟨added, hadded, -⟩ := hrest.calls
          exact hok e (by rw [hadded]; exact List.mem_append_left _ he)
        have ih := VisitVariables_texture_names env rest c2 c1
          (hstep.parameterBlock.trans hp) (hstep.functionBlock.trans hf)
          (fun d hd => hall d (List.mem_cons_of_mem _ hd)) h hok
        rw [ih]
        rcases hall node (List.mem_cons_self _ _) with hs | hblock
        · have hb : DeclaresBlock node = false := by
            simp only [DeclaresBlock, hs, Bool.false_and]
          rw [VisitVariable_route env c node hb hp hf] at hnode
          by_cases ht : node.Ty.IsTexture = true
          · simp only [ht, if_true] at hnode
            rcases VisitTexture_outcome env c c2 node hnode with ⟨-, -, -, e, he, hfail⟩ |
              ⟨t, -, h1, -, -⟩
            · rw [hok2 e he] at hfail
              simp at hfail
            · rw [h1]
              simp [List.filter_cons, ht]
          · have ht0 : node.Ty.IsTexture = false := by simpa using ht
            simp only [ht0, Bool.false_eq_true, if_false] at hnode
            have hsame : c2.mEffect.mTextures = c.mEffect.mTextures := by
              split_ifs at hnode
              · exact (VisitSampler_textures env c c2 node hnode).1
              · exact (VisitUniform_textures env c c2 node hnode).1
              · rw [(VisitVariableDecl_spec env c c2 node hnode).1]
            rw [hsame]
            simp [List.filter_cons, ht0]
        · have ht0 : node.Ty.IsTexture = false := IsTexture_of_IsStruct _ hblock.1
          rw [(VisitVariable_block_keeps env c c2 node hblock hp hf hnode).1]
          simp [List.filter_cons, ht0]

/-! ## Failed compilations and their diagnostics -/

/-- Every visitor of a declaration keeps the names under which textures are registered. -/
theorem TextureNames_relation (env : Env) :
    StepRelation env (fun c c1 => ∀ n ∈ c.mEffect.mTextures.map Prod.fst,
      n ∈ c1.mEffect.mTextures.map Prod.fst) where
  refl := fun _ _ h => h
  trans := fun _ _ _ h1 h2 n h => h2 n (h1 n h)
  texture := fun c v c1 h n hn => by
    rcases VisitTexture_outcome env c c1 v h with ⟨h1, -, -, -⟩ | ⟨t, -, h1, -, -⟩
    · rw [h1]
      exact hn
    · rw [h1, List.map_append]
      exact List.mem_append_left _ hn
  sampler := fun c v c1 h n hn => by
    rw [(VisitSampler_textures env c c1 v h).1]
    exact hn
  uniform := fun c v c1 h n hn => by
    rw [(VisitUniform_textures env c c1 v h).1]
    exact hn
  decl := fun c v c1 h n hn => by
    rw [(VisitVariableDecl_spec env c c1 v h).1]
    exact hn
  blockBegin := fun _ _ _ hn => hn
  blockField := fun name c l f c1 l1 h n hn => by
    rw [(UniformBufferField_textures env name c c1 l l1 f h).1]
    exact hn
  blockEnd := fun name ann k c l c1 h n hn => by
    rw [(UniformBufferEnd_textures env name ann k c c1 l h).1]
    exact hn

theorem VisitParameters_names (env : Env) :
    ∀ (nodes : List FX.Variable) (c c1 : D3D10EffectCompiler),
      VisitParameters env c nodes = some c1 →
      ∀ n ∈ c.mEffect.mTextures.map Prod.fst, n ∈ c1.mEffect.mTextures.map Prod.fst
  | [], c, c1, h => by
      unfold VisitParameters at h
      simp only [Option.some.injEq] at h
      subst h
      exact fun _ hn => hn
  | node :: rest, c, c1, h => by
      unfold VisitParameters at h
      split at h
      · simp at h
      · rename_i c2 hnode
        intro n hn
        exact VisitParameters_names env rest _ c1 h n
          (VisitVariable_rel (TextureNames_relation env) node c c2 hnode n hn)

theorem VisitFunctions_names (env : Env) :
    ∀ (nodes : List FX.Function) (c c1 : D3D10EffectCompiler),
      VisitFunctions env c nodes = some c1 →
      ∀ n ∈ c.mEffect.mTextures.map Prod.fst, n ∈ c1.mEffect.mTextures.map Prod.fst
  | [], c, c1, h => by
      unfold VisitFunctions at h
      simp only [Option.some.injEq] at h
      subst h
      exact fun _ hn => hn
  | node :: rest, c, c1, h => by
      unfold VisitFunctions at h
      split at h
      · simp at h
      · rename_i c2 hnode
        intro n hn
        refine VisitFunctions_names env rest c2 c1 h n ?_
        unfold VisitFunction at hnode
        split at hnode
        · simp at hnode
        · simp only at hnode
          split at hnode
          · simp at hnode
          · rename_i c3 hparams
            simp only [Option.some.injEq] at hnode
            subst hnode
            exact VisitParameters_names env _ _ c3 hparams n hn

/-- The creation of a memory texture registers the texture under its name or writes an error
diagnostic. -/
theorem VisitTextureCreate_settled (env : Env) (c : D3D10EffectCompiler) (node : FX.Variable)
    (obj : D3D10Texture) (texdesc : D3D10_TEXTURE2D_DESC) :
    node.Name ∈ (VisitTextureCreate env c node obj texdesc).mEffect.mTextures.map Prod.fst ∨
      HasErrorDiagnostic (VisitTextureCreate env c node obj texdesc).mErrors := by
  have hreg : ∀ (c0 : D3D10EffectCompiler) (o : D3D10Texture),
      node.Name ∈ (VisitTextureRegister c0 node o).mEffect.mTextures.map Prod.fst := by
    intro c0 o
    simp [VisitTextureRegister, D3D10Effect.AddTexture]
  unfold VisitTextureCreate
  simp only
  split_ifs
  all_goals
    first
    | exact Or.inl (hreg _ _)
    | (right
       repeat (first | exact HasErrorDiagnostic_literal _ _ (by decide) | apply HasErrorDiagnostic_append))

/-- The method `VisitTexture` registers the texture under its name or writes an error
diagnostic. -/
theorem VisitTexture_settled (env : Env) (c c1 : D3D10EffectCompiler) (node : FX.Variable)
    (h : VisitTexture env c node = some c1) :
    node.Name ∈ c1.mEffect.mTextures.map Prod.fst ∨ HasErrorDiagnostic c1.mErrors := by
  unfold VisitTexture at h
  simp only at h
  split at h
  · simp at h
  · split_ifs at h <;> simp only [Option.some.injEq] at h <;> subst h
    · left
      simp [VisitTextureRegister, D3D10Effect.AddTexture]
    · left
      simp [VisitTextureRegister, D3D10Effect.AddTexture]
    · exact VisitTextureCreate_settled env _ node _ _

/-- After the loop over the file-scope declarations every texture declared in it is registered
under its name, or the diagnostics hold an error. -/
theorem VisitVariables_settled (env : Env) :
    ∀ (decls : List FX.Variable) (c c1 : D3D10EffectCompiler),
      c.mCurrentInParameterBlock = false → c.mCurrentInFunctionBlock = false →
      VisitVariables env c decls = some c1 →
      ∀ v ∈ decls, v.Ty.IsTexture = true →
        v.Name ∈ c1.mEffect.mTextures.map Prod.fst ∨ HasErrorDiagnostic c1.mErrors
  | [], _, _, _, _, _ => fun v hv => absurd hv (List.not_mem_nil v)
  | node :: rest, c, c1, hp, hf, h => by
      unfold VisitVariables at h
      split at h
      · simp at h
      · rename_i c2 hnode
        have hstep := VisitVariable_step env node c c2 hnode
        have hrest := VisitVariables_step env rest c2 c1 h
        intro v hv ht
        rcases List.mem_cons.1 hv with rfl | hv
        · have hb : DeclaresBlock v = false := by
            have hs : v.Ty.IsStruct = false := by
              cases hs : v.Ty.IsStruct
              · rfl
              · rw [IsTexture_of_IsStruct _ hs] at ht
                exact absurd ht (by decide)
            simp only [DeclaresBlock, hs, Bool.false_and]
          rw [VisitVariable_route env c v hb hp hf] at hnode
          simp only [ht, if_true] at hnode
          rcases VisitTexture_settled env c c2 v hnode with h1 | h1
          · exact Or.inl
              (VisitVariables_rel (TextureNames_relation env) rest c2 c1 h _ h1)
          · obtain ⟨t, ht1⟩ := hrest.errors
            right
            rw [ht1]
            exact HasErrorDiagnostic_append _ _ h1
        · exact VisitVariables_settled env rest c2 c1 (hstep.parameterBlock.trans hp)
            (hstep.functionBlock.trans hf) h v hv ht

/-- After a run of `Traverse` every texture declared at file scope is registered under its
name, or the diagnostics hold an error. -/
theorem Traverse_settled (env : Env) (ast : FX.Tree) (history : List DeviceCall)
    (errors errors1 : String) (ok : Bool) (c : D3D10EffectCompiler)
    (h : Traverse env ast (D3D10EffectCompiler.new history) D3D10Effect.new errors =
      some (ok, errors1, c)) :
    ∀ v ∈ ast.Uniforms, v.Ty.IsTexture = true →
      v.Name ∈ c.mEffect.mTextures.map Prod.fst ∨ HasErrorDiagnostic c.mErrors := by
  obtain ⟨c1, c2, c3, c4, hs, hu, hf, ht, hend, -, -⟩ := Traverse_parts _ _ _ _ _ _ _ _ h
  have s1 := VisitStructs_step env _ _ _ hs
  have s2 := VisitVariables_step env _ _ _ hu
  have s3 := VisitFunctions_step env _ _ _
    (by rw [s2.parameterBlock, s1.parameterBlock]; rfl)
    (by rw [s2.functionBlock, s1.functionBlock]; rfl) hf
  have s4 := VisitTechniques_step env (ast.Techniques.flatMap (fun t => t.Passes)) _ _ _
    (fun t ht p hp => List.mem_flatMap.2 ⟨t, ht, hp⟩) ht
  obtain ⟨-, herrors, -, -, htex, -⟩ := TraverseEnd_spec env c4 c hend
  intro v hv hty
  rcases VisitVariables_settled env _ c1 c2 (by rw [s1.parameterBlock]; rfl)
      (by rw [s1.functionBlock]; rfl) hu v hv hty with h1 | h1
  · left
    rw [htex, s4.names]
    exact VisitFunctions_names env _ c2 c3 hf _ h1
  · right
    obtain ⟨t3, ht3⟩ := s3.errors
    obtain ⟨t4, ht4⟩ := s4.errors
    rw [herrors, ht4, ht3]
    exact HasErrorDiagnostic_append _ _ (HasErrorDiagnostic_append _ _ h1)

open Example in
set_option maxRecDepth 100000 in
/-- C7, as stated, fails in two ways. When `D3DCompile` fails and returns no error blob,
`Traverse` returns false (and `CompileEffect` returns null) although the visitor wrote no
diagnostic and the caller's errors string is as it was before the call. The same happens when
a pass renders to `T` and the file declares no texture `T`. -/
theorem C7_counterexample :
    ((∃ c, Traverse (env noCompilerDevice) shaderTree (D3D10EffectCompiler.new [])
        D3D10Effect.new "prior" = some (false, "prior", c) ∧ c.mErrors = "") ∧
      ∃ calls, CompileEffect (env noCompilerDevice) [] shaderTree "prior" =
        some (none, "prior", calls)) ∧
    ((∃ c, Traverse (env okDevice) orphanTree (D3D10EffectCompiler.new [])
        D3D10Effect.new "prior" = some (false, "prior", c) ∧ c.mErrors = "") ∧
      ∃ calls, CompileEffect (env okDevice) [] orphanTree "prior" =
        some (none, "prior", calls)) := by
  have key : ∀ (device : Device) (tree : FX.Tree),
      (Traverse (env device) tree (D3D10EffectCompiler.new []) D3D10Effect.new "prior").map
        (fun r => (r.1, r.2.1, r.2.2.mErrors)) = some (false, "prior", "") →
      (CompileEffect (env device) [] tree "prior").map (fun r => (r.1.isNone, r.2.1)) =
        some (true, "prior") →
      (∃ c, Traverse (env device) tree (D3D10EffectCompiler.new [])
        D3D10Effect.new "prior" = some (false, "prior", c) ∧ c.mErrors = "") ∧
      ∃ calls, CompileEffect (env device) [] tree "prior" = some (none, "prior", calls) := by
    intro device tree h1 h2
    obtain ⟨⟨ok1, e1, c1⟩, hr1, hc1⟩ := Option.map_eq_some'.1 h1
    obtain ⟨⟨o2, e2, calls⟩, hr2, hc2⟩ := Option.map_eq_some'.1 h2
    simp only [Prod.mk.injEq] at hc1 hc2
    obtain ⟨rfl, rfl, hc1⟩ := hc1
    obtain ⟨ho, rfl⟩ := hc2
    rw [Option.isNone_iff_eq_none] at ho
    subst ho
    exact ⟨⟨c1, hr1, hc1⟩, calls, hr2⟩
  exact ⟨key noCompilerDevice shaderTree (by decide!) (by decide!),
    key okDevice orphanTree (by decide!) (by decide!)⟩

/-- C7 amended: the string `errors` after `Traverse` is the string before the call followed by
the diagnostics of the visitor. When `Traverse` returns false, `CompileEffect` returns null, and
the diagnostics hold an error diagnostic of the visitor, or they hold the text of the error blob
of a call of `D3DCompile` that failed during the run, unless such a call failed without an
error blob or a pass names a render target that the effect does not hold and that no
file-scope declaration of a texture of the tree bears as its name. -/
theorem C7_failure_diagnosed (env : Env) (history : List DeviceCall) (ast : FX.Tree)
    (errors errors1 : String) (ok : Bool) (c : D3D10EffectCompiler)
    (h : Traverse env ast (D3D10EffectCompiler.new history) D3D10Effect.new errors =
      some (ok, errors1, c)) :
    errors1 = errors ++ c.mErrors ∧
      (ok = false →
        CompileEffect env history ast errors = some (none, errors1, c.mDeviceCalls) ∧
        (HasErrorDiagnostic c.mErrors ∨
          (∃ e ∈ c.mDeviceCalls.drop history.length, e.isFailedCompile = true ∧
            ∃ text, e.response.errors = some text ∧ ∃ x y, c.mErrors = x ++ text ++ y) ∨
          (∃ e ∈ c.mDeviceCalls.drop history.length, e.isFailedCompile = true ∧
            e.response.errors = none) ∨
          ∃ t ∈ ast.Techniques, ∃ p ∈ t.Passes, ∃ i, i < 8 ∧ ∃ name,
            p.States.RenderTargets.getD i none = some name ∧
              c.mEffect.GetTexture name = none ∧
              ∀ v ∈ ast.Uniforms, v.Ty.IsTexture = true → v.Name ≠ name)) := by
  obtain ⟨c3, c4, s3, s4, hend, hok, herr⟩ := Traverse_run env ast history _ _ _ _ h
  obtain ⟨hfatal, herrors, -, -, htex, hcase⟩ := TraverseEnd_spec env c4 c hend
  refine ⟨herr, ?_⟩
  intro hfalse
  constructor
  · unfold CompileEffect
    rw [h, hfalse]
    rfl
  · have hf : c4.mFatal = true := by
      rw [← hfatal]
      rw [hfalse] at hok
      simpa using hok.symm
    obtain ⟨a1, ha1, -⟩ := s3.calls
    obtain ⟨a2, ha2, -⟩ := s4.calls
    obtain ⟨t3, ht3⟩ := s3.errors
    have hc4 : c4.mDeviceCalls = history ++ (a1 ++ a2) := by
      rw [ha2, ha1]
      simp [TraverseBegin, D3D10EffectCompiler.new]
    obtain ⟨a3, ha3⟩ : ∃ a3, c.mDeviceCalls = c4.mDeviceCalls ++ a3 := by
      rcases hcase with ⟨-, rfl⟩ | ⟨-, desc, bytes, slot, rest, -, -, hcalls, -⟩
      · exact ⟨[], by simp⟩
      · exact ⟨_, hcalls⟩
    rcases s4.diagnosed hf with h3 | h4 | h5 | h6
    · rcases s3.diagnosed h3 with h0 | h0
      · exact absurd h0 (by simp [TraverseBegin])
      · obtain ⟨t, ht⟩ := s4.errors
        left
        rw [herrors, ht]
        exact HasErrorDiagnostic_append _ _ h0
    · left
      rw [herrors]
      exact h4
    · obtain ⟨e, he, hfail, hblob⟩ := h5
      have hmem : e ∈ c.mDeviceCalls.drop history.length := by
        rw [ha2, ha1] at he
        rw [ha3, hc4]
        simp only [List.drop_left', List.length_append, List.append_assoc] at he ⊢
        simp only [List.drop_append, List.drop_length, List.length_append] at he ⊢
        simp at he ⊢
        exact Or.inr (Or.inl he)
      cases hblobtext : e.response.errors with
      | none => exact Or.inr (Or.inr (Or.inl ⟨e, hmem, hfail, hblobtext⟩))
      | some text =>
        obtain ⟨x, y, hxy⟩ := hblob text hblobtext
        refine Or.inr (Or.inl ⟨e, hmem, hfail, text, hblobtext, c3.mErrors ++ x, y, ?_⟩)
        rw [herrors, hxy]
    · obtain ⟨p, hp, i, hi, name, hname, hget⟩ := h6
      obtain ⟨t, ht, hpt⟩ := List.mem_flatMap.1 hp
      have hnone : c.mEffect.GetTexture name = none := by
        rw [GetTexture_eq_none_iff] at hget ⊢
        rw [htex]
        exact hget
      by_cases hdecl : ∃ v ∈ ast.Uniforms, v.Ty.IsTexture = true ∧ v.Name = name
      · obtain ⟨v, hv, hty, rfl⟩ := hdecl
        rcases Traverse_settled env ast history _ _ _ _ h v hv hty with h1 | h1
        · exact absurd h1 ((GetTexture_eq_none_iff _ _).1 hnone)
        · exact Or.inl h1
      · refine Or.inr (Or.inr (Or.inr ⟨t, ht, p, hpt, i, hi, name, hname, hnone, ?_⟩))
        intro v hv hty heq
        exact hdecl ⟨v, hv, hty, heq⟩

open Example in
set_option maxRecDepth 100000 in
/-- Witness of C7: on a device whose `D3DCompile` fails with an error blob, the effect file
with a vertex shader fails, the text of the blob follows the caller's text, and the theorem
applies to the run. -/
theorem C7_failure_diagnosed_witness :
    ∃ c, Traverse (env blobDevice) shaderTree (D3D10EffectCompiler.new [])
        D3D10Effect.new "prior" =
          some (false, "prior" ++ "entry(1,1): error X3000: syntax error\n", c) ∧
      CompileEffect (env blobDevice) [] shaderTree "prior" =
        some (none, "prior" ++ "entry(1,1): error X3000: syntax error\n", c.mDeviceCalls) ∧
      (HasErrorDiagnostic c.mErrors ∨
        (∃ e ∈ c.mDeviceCalls.drop ([] : List DeviceCall).length, e.isFailedCompile = true ∧
          ∃ text, e.response.errors = some text ∧ ∃ x y, c.mErrors = x ++ text ++ y) ∨
        (∃ e ∈ c.mDeviceCalls.drop ([] : List DeviceCall).length, e.isFailedCompile = true ∧
          e.response.errors = none) ∨
        ∃ t ∈ shaderTree.Techniques, ∃ p ∈ t.Passes, ∃ i, i < 8 ∧ ∃ name,
          p.States.RenderTargets.getD i none = some name ∧
            c.mEffect.GetTexture name = none ∧
            ∀ v ∈ shaderTree.Uniforms, v.Ty.IsTexture = true → v.Name ≠ name) := by
  have h1 : (Traverse (env blobDevice) shaderTree (D3D10EffectCompiler.new [])
      D3D10Effect.new "prior").map (fun r => (r.1, r.2.1)) =
        some (false, "prior" ++ "entry(1,1): error X3000: syntax error\n") := by decide!
  obtain ⟨⟨ok1, e1, c1⟩, hr1, hc1⟩ := Option.map_eq_some'.1 h1
  simp only [Prod.mk.injEq] at hc1
  obtain ⟨rfl, rfl⟩ := hc1
  exact ⟨c1, hr1, (C7_failure_diagnosed _ _ _ _ _ _ _ hr1).2 rfl⟩

/-- C20: the texture declaration that follows `k` texture declarations (`pre` is the list of
the file-scope declarations before it, visited from a state without textures; no creation of
a texture or of a view has failed) is emitted as
`Texture2D T : register(t2k), __TSRGB : register(t2k+1);`, gets the register `2 * k`, and
afterwards the table of shader-resource views has two slots per registered texture with the
linear view of the texture in slot `2 * k` and its sRGB view in slot `2 * k + 1`. The numbering
`TextureRegisters` of all registered textures is kept by every list of declarations. -/
theorem C20_texture_registers (env : Env) :
    (∀ (c0 c c1 : D3D10EffectCompiler) (pre : List FX.Variable) (node : FX.Variable),
      c0.mCurrentInParameterBlock = false → c0.mCurrentInFunctionBlock = false →
      c0.mEffect.mTextures = [] → c0.mEffect.mShaderResources = [] →
      (∀ d ∈ pre, d.Ty.IsStruct = false ∨ IsUniformBlock d) →
      node.Ty.IsTexture = true →
      VisitVariables env c0 pre = some c →
      VisitVariable env c node = some c1 →
      (∀ e ∈ c1.mDeviceCalls, e.isFailedTextureOrSRV = false) →
      ∃ t : D3D10Texture,
        c1.mEffect.mTextures = c.mEffect.mTextures ++ [(node.Name, t)] ∧
        c.mEffect.mTextures.length = (pre.filter (fun d => d.Ty.IsTexture)).length ∧
        t.mRegister = 2 * (pre.filter (fun d => d.Ty.IsTexture)).length ∧
        c1.mCurrentSource =
          c.mCurrentSource ++ "Texture2D " ++ node.Name ++ " : register(t" ++
            toString (2 * (pre.filter (fun d => d.Ty.IsTexture)).length) ++ "), __" ++
            node.Name ++ "SRGB : register(t" ++
            toString (2 * (pre.filter (fun d => d.Ty.IsTexture)).length + 1) ++ ");\n" ∧
        c1.mEffect.mShaderResources.length = 2 * c1.mEffect.mTextures.length ∧
        c1.mEffect.mShaderResources[2 * (pre.filter (fun d => d.Ty.IsTexture)).length]? =
          some t.mShaderResourceView.1 ∧
        c1.mEffect.mShaderResources[2 * (pre.filter (fun d => d.Ty.IsTexture)).length + 1]? =
          some t.mShaderResourceView.2) ∧
    (∀ (c c1 : D3D10EffectCompiler) (decls : List FX.Variable),
      TextureRegisters c.mEffect → VisitVariables env c decls = some c1 →
      TextureRegisters c1.mEffect) := by
  refine ⟨?_, fun c c1 decls hinv h =>
    VisitVariables_rel (TextureRegisters_relation env) decls c c1 h hinv⟩
  intro c0 c c1 pre node hp hf hT hS hall hnode hpre hvisit hok
  have hinv0 : TextureRegisters c0.mEffect := by
    refine ⟨by rw [hT, hS]; rfl, ?_⟩
    intro k name t hk
    rw [hT] at hk
    simp at hk
  have hinv : TextureRegisters c.mEffect :=
    VisitVariables_rel (TextureRegisters_relation env) pre c0 c hpre hinv0
  have hstep0 := VisitVariables_step env pre c0 c hpre
  have hstep := VisitVariable_step env node c c1 hvisit
  have hok0 : ∀ e ∈ c.mDeviceCalls, e.isFailedTextureOrSRV = false := by
    intro e he
    obtain ⟨added, hadded, -⟩ := hstep.calls
    exact hok e (by rw [hadded]; exact List.mem_append_left _ he)
  have hnames := VisitVariables_texture_names env pre c0 c hp hf hall hpre hok0
  have hcount : c.mEffect.mTextures.length = (pre.filter (fun d => d.Ty.IsTexture)).length := by
    have := congrArg List.length hnames
    simpa [hT] using this
  have hb : DeclaresBlock node = false := by
    have hs : node.Ty.IsStruct = false := by
      simp only [FX.TypeNode.IsTexture, decide_eq_true_eq] at hnode
      simp only [FX.TypeNode.IsStruct, hnode]
      rfl
    simp only [DeclaresBlock, hs, Bool.false_and]
  rw [VisitVariable_route env c node hb (hstep0.parameterBlock.trans hp)
    (hstep0.functionBlock.trans hf)] at hvisit
  simp only [hnode, if_true] at hvisit
  rcases VisitTexture_outcome env c c1 node hvisit with ⟨-, -, -, e, he, hfail⟩ |
    ⟨t, hreg, h1, h2, h3⟩
  · rw [hok e he] at hfail
    simp at hfail
  · obtain ⟨hinv1, hreg2⟩ := TextureRegisters_append c.mEffect c1.mEffect node.Name t hinv hreg h1 h2
    have hlen : c.mEffect.mShaderResources.length =
        2 * (pre.filter (fun d => d.Ty.IsTexture)).length := by
      rw [hinv.1, hcount]
    have hslot := hinv1.2 c.mEffect.mTextures.length node.Name t (by rw [h1]; simp)
    rw [hcount] at hslot hreg2
    refine ⟨t, h1, hcount, hreg2, ?_, hinv1.1, hslot.2.1, hslot.2.2⟩
    rw [h3, hlen]

open Example in
set_option maxRecDepth 100000 in
/-- Witness of C20: the declarations `uniform float gain; texture T;` followed by
`texture U;` on a device that succeeds. -/
theorem C20_texture_registers_witness :
    ∃ c c1, VisitVariables (env okDevice) start [gain, texture "T"] = some c ∧
      VisitVariable (env okDevice) c (texture "U") = some c1 ∧
      ∃ t : D3D10Texture,
        c1.mEffect.mTextures = c.mEffect.mTextures ++ [("U", t)] ∧
        c.mEffect.mTextures.length = 1 ∧
        t.mRegister = 2 ∧
        c1.mCurrentSource =
          c.mCurrentSource ++ "Texture2D U : register(t2), __USRGB : register(t3);\n" ∧
        c1.mEffect.mShaderResources.length = 2 * c1.mEffect.mTextures.length ∧
        c1.mEffect.mShaderResources[2]? = some t.mShaderResourceView.1 ∧
        c1.mEffect.mShaderResources[3]? = some t.mShaderResourceView.2 := by
  have h : ((VisitVariables (env okDevice) start [gain, texture "T"]).bind (fun c =>
      (VisitVariable (env okDevice) c (texture "U")).map (fun c1 =>
        c1.mDeviceCalls.all (fun e => !e.isFailedTextureOrSRV)))) = some true := by decide!
  obtain ⟨c, hc, h1⟩ := Option.bind_eq_some.1 h
  obtain ⟨c1, hc1, hall⟩ := Option.map_eq_some'.1 h1
  refine ⟨c, c1, hc, hc1, ?_⟩
  have hok : ∀ e ∈ c1.mDeviceCalls, e.isFailedTextureOrSRV = false := by
    intro e he
    have := List.all_eq_true.1 hall e he
    simpa using this
  obtain ⟨t, k1, k2, k3, k4, k5, k6, k7⟩ :=
    (C20_texture_registers (env okDevice)).1 start c c1 [gain, texture "T"] (texture "U")
      rfl rfl rfl rfl
      (by
        intro d hd
        simp only [List.mem_cons, List.mem_singleton, List.not_mem_nil, or_false] at hd
        rcases hd with rfl | rfl <;> exact Or.inl (by decide))
      (by decide) hc hc1 hok
  have hlen : (List.filter (fun d => d.Ty.IsTexture) [gain, texture "T"]).length = 1 := by
    decide
  rw [hlen] at k2 k3 k4 k6 k7
  refine ⟨t, k1, k2, k3, ?_, k5, k6, k7⟩
  rw [k4]
  have e1 : toString (2 * 1) = "2" := by decide
  have e2 : toString (2 * 1 + 1) = "3" := by decide
  have e3 : (texture "U").Name = "U" := rfl
  rw [e1, e2, e3]
  simp only [String.append_assoc]
  rfl

/-- At file scope a declaration that is no uniform block leaves the constant buffers as they
are. -/
theorem VisitVariable_route_buffers (env : Env) (c c1 : D3D10EffectCompiler) (v : FX.Variable)
    (hb : DeclaresBlock v = false) (hp : c.mCurrentInParameterBlock = false)
    (hf : c.mCurrentInFunctionBlock = false) (h : VisitVariable env c v = some c1) :
    c1.mEffect.mConstantBuffers = c.mEffect.mConstantBuffers := by
  rw [VisitVariable_route env c v hb hp hf] at h
  split_ifs at h
  · exact (VisitTexture_frame env c c1 v h).1
  · exact (VisitSampler_frame env c c1 v h).1
  · obtain ⟨_, _, _, _, _, _, _, _, _, hbuf, _, _⟩ := VisitUniform_spec env c c1 v h
    exact hbuf
  · exact (VisitVariableDecl_frame env c c1 v h).1

/-- The number of constant buffers after a list of file-scope declarations during which no
creation of a buffer failed: one buffer is appended for every uniform block. -/
theorem VisitVariables_block_count (env : Env) :
    ∀ (decls : List FX.Variable) (c c1 : D3D10EffectCompiler),
      c.mCurrentInParameterBlock = false → c.mCurrentInFunctionBlock = false →
      (∀ d ∈ decls, DeclaresBlock d = false ∨ IsUniformBlock d) →
      VisitVariables env c decls = some c1 →
      (∀ e ∈ c1.mDeviceCalls, e.isFailedBuffer = false) →
      c1.mEffect.mConstantBuffers.length =
        c.mEffect.mConstantBuffers.length + (decls.filter DeclaresBlock).length
  | [], c, c1, _, _, _, h, _ => by
      unfold VisitVariables at h
      simp only [Option.some.injEq] at h
      subst h
      simp
  | node :: rest, c, c1, hp, hf, hall, h, hok => by
      unfold VisitVariables at h
      split at h
      · simp at h
      · rename_i c2 hnode
        have hstep := VisitVariable_step env node c c2 hnode
        have hrest := VisitVariables_step env rest c2 c1 h
        have hok2 : ∀ e ∈ c2.mDeviceCalls, e.isFailedBuffer = false := by
          intro e he
          obtain ⟨added, hadded, -⟩ := hrest.calls
          exact hok e (by rw [hadded]; exact List.mem_append_left _ he)
        have ih := VisitVariables_block_count env rest c2 c1
          (hstep.parameterBlock.trans hp) (hstep.functionBlock.trans hf)
          (fun d hd => hall d (List.mem_cons_of_mem _ hd)) h hok
        rw [ih]
        rcases hall node (List.mem_cons_self _ _) with hb | hblock
        · rw [VisitVariable_route_buffers env c c2 node hb hp hf hnode]
          simp [List.filter_cons, hb]
        · have hb : DeclaresBlock node = true := by
            simp only [DeclaresBlock, hblock.1, hblock.2.1, Bool.and_self]
          rcases (VisitVariable_block_keeps env c c2 node hblock hp hf hnode).2.2 with hlen |
            ⟨e, he, hfail⟩
          · rw [hlen]
            simp [List.filter_cons, hb]
            omega
          · rw [hok2 e he] at hfail
            simp at hfail

/-- The plain declaration of a variable only appends to the shader source when the
expressions do. -/
theorem VisitVariableDecl_source (env : Env)
    (hlow : ∀ e s, ∃ t, env.lowering.VisitExpression e s = s ++ t)
    (c c1 : D3D10EffectCompiler) (v : FX.Variable)
    (h : VisitVariableDecl env c v = some c1) :
    ∃ t, c1.mCurrentSource = c.mCurrentSource ++ t := by
  unfold VisitVariableDecl at h
  simp only at h
  split at h
  · simp at h
  · rename_i s1 htyped
    have h1 : ∃ t, s1 = c.mCurrentSource ++ t := by
      split_ifs at htyped
      · split at htyped
        · simp only [Option.some.injEq] at htyped
          subst htyped
          exact ⟨_, rfl⟩
        · simp at htyped
      · simp only [Option.some.injEq] at htyped
        subst htyped
        exact text_ext_refl _
    simp only [Option.some.injEq] at h
    subst h
    simp only
    have happ : ∀ (s x : String), (∃ t, s = c.mCurrentSource ++ t) →
        ∃ t, s ++ x = c.mCurrentSource ++ t := fun s x hs => text_ext_append x hs
    have h2 : ∃ t, (if v.Name ≠ "" then
        s1 ++ " " ++ (if c.mCurrentBlockName ≠ "" then c.mCurrentBlockName ++ "_" else "") ++
          v.Name else s1) = c.mCurrentSource ++ t := by
      split_ifs
      · exact happ _ _ (happ _ _ (happ _ _ h1))
      · exact happ _ _ (happ _ _ (happ _ _ h1))
      · exact h1
    generalize (if v.Name ≠ "" then
        s1 ++ " " ++ (if c.mCurrentBlockName ≠ "" then c.mCurrentBlockName ++ "_" else "") ++
          v.Name else s1) = s2 at h2 ⊢
    have h3 := happ _ (PrintArray v.Ty) h2
    generalize s2 ++ PrintArray v.Ty = s3 at h3 ⊢
    have h4 : ∃ t, (if v.Semantic ≠ "" then s3 ++ " : " ++ ConvertSemantic v.Semantic else s3)
        = c.mCurrentSource ++ t := by
      split_ifs
      · exact happ _ _ (happ _ _ h3)
      · exact h3
    generalize (if v.Semantic ≠ "" then s3 ++ " : " ++ ConvertSemantic v.Semantic else s3)
      = s4 at h4 ⊢
    have h5 : ∃ t, (match v.Initializer with
        | some e => env.lowering.VisitExpression e (s4 ++ " = ")
        | none => s4) = c.mCurrentSource ++ t := by
      cases v.Initializer with
      | none => exact h4
      | some e =>
        obtain ⟨t, ht⟩ := hlow e (s4 ++ " = ")
        simp only [ht]
        exact happ _ _ (happ _ _ h4)
    split_ifs
    · exact happ _ _ h5
    · exact h5

/-- The loop of `VisitUniformBuffer` registers every field under the name of the block, with
the index of the next constant buffer and the offset that the layout gives it, and only appends
to the shader source. -/
theorem VisitUniformBufferFields_registered (env : Env)
    (hlow : ∀ e s, ∃ t, env.lowering.VisitExpression e s = s ++ t) (name : String) :
    ∀ (fields : List FX.Variable) (c c2 : D3D10EffectCompiler) (l l2 : BlockLocals),
      (∀ f ∈ fields, IsNumericUniformType f.Ty) →
      c.mCurrentInParameterBlock = false → c.mCurrentInFunctionBlock = false →
      VisitUniformBufferFields env name c l fields = some (c2, l2) →
      (∃ t, c2.mCurrentSource = c.mCurrentSource ++ t) ∧
      ∃ added, c2.mEffect.mConstants = c.mEffect.mConstants ++ added ∧
        ∀ (before : List FX.Variable) (f : FX.Variable) (after : List FX.Variable),
          fields = before ++ f :: after →
          ((name ++ "." ++ f.Name,
            { mDesc := ConstantDescriptionOf f.Ty, mAnnotations := [],
              mBufferIndex := c.mEffect.mConstantBuffers.length,
              mBufferOffset := SizeSub (LaidOutSize l.totalsize (before ++ [f]))
                (ConstantDescriptionOf f.Ty).Size }) : String × D3D10Constant) ∈ added
  | [], c, c2, l, l2, _, _, _, h => by
      rw [VisitUniformBufferFields.eq_1] at h
      simp only [Option.some.injEq, Prod.mk.injEq] at h
      obtain ⟨rfl, rfl⟩ := h
      refine ⟨text_ext_refl _, [], by simp, ?_⟩
      intro before f after hsplit
      simp at hsplit
  | f0 :: rest, c, c2, l, l2, hall, hp, hf, h => by
      rw [VisitUniformBufferFields.eq_2] at h
      split at h
      · simp at h
      · rename_i c3 hv
        split at h
        · simp at h
        · rename_i c4 l4 hfield
          obtain ⟨-, -, hbuf, hp4, hf4, -, hsize, ⟨a1, hconst⟩, hsrc3, hsrc4⟩ :=
            UniformBufferRound_spec env name c c3 c4 l l4 f0 (hall f0 (List.mem_cons_self _ _))
              hp hf hv hfield
          obtain ⟨⟨t, ht⟩, added, hadded, hmem⟩ :=
            VisitUniformBufferFields_registered env hlow name rest c4 c2 l4 l2
              (fun x hx => hall x (List.mem_cons_of_mem _ hx)) hp4 hf4 h
          refine ⟨?_, a1 ++ [(name ++ "." ++ f0.Name,
              { mDesc := ConstantDescriptionOf f0.Ty, mAnnotations := [],
                mBufferIndex := c.mEffect.mConstantBuffers.length,
                mBufferOffset :=
                  SizeSub (AdvanceSize l.totalsize (ConstantDescriptionOf f0.Ty).Size)
                    (ConstantDescriptionOf f0.Ty).Size })] ++ added,
            by rw [hadded, hconst]; simp only [List.append_assoc], ?_⟩
          · have h3 : ∃ t3, c3.mCurrentSource = c.mCurrentSource ++ t3 := by
              rcases hsrc3 with h3 | h3
              · exact ⟨"", by rw [h3]; simp⟩
              · exact VisitVariableDecl_source env hlow c c3 f0 h3
            obtain ⟨t3, ht3⟩ := h3
            exact ⟨t3 ++ t, by rw [ht, hsrc4, ht3, String.append_assoc]⟩
          · intro before f after hsplit
            cases before with
            | nil =>
              simp only [List.nil_append, List.cons.injEq] at hsplit
              obtain ⟨rfl, -⟩ := hsplit
              apply List.mem_append_left
              apply List.mem_append_right
              simp only [List.nil_append, LaidOutSize, List.mem_singleton]
            | cons b bs =>
              simp only [List.cons_append, List.cons.injEq] at hsplit
              obtain ⟨rfl, hrest⟩ := hsplit
              apply List.mem_append_right
              have := hmem bs f after hrest
              rw [hsize, hbuf] at this
              exact this

/-- C19: the uniform block that follows `k - 1` uniform blocks (`pre` is the list of the
file-scope declarations before it, visited from a state with the one constant-buffer slot of
the global uniforms; no creation of a buffer has failed; expressions only append to the
source) is emitted as `cbuffer NAME : register(bk)` with its body in braces; every field is
registered as `NAME.field` with buffer index `k` at the offset of the layout, and the block
is registered last under `NAME` as a uniform of struct type with buffer index `k`, offset 0,
the laid-out size of the fields as size and their number as field count. A global uniform is
registered with buffer index 0. -/
theorem C19_uniform_blocks (env : Env) :
    (∀ (c0 c c1 : D3D10EffectCompiler) (pre : List FX.Variable) (block : FX.Variable)
        (definition : FX.Struct),
      c0.mCurrentInParameterBlock = false → c0.mCurrentInFunctionBlock = false →
      c0.mEffect.mConstantBuffers.length = 1 →
      (∀ d ∈ pre, DeclaresBlock d = false ∨ IsUniformBlock d) →
      block.Ty.IsStruct = true → block.Ty.HasQualifier FX.Qualifier.Uniform = true →
      block.Ty.Definition = some definition →
      (∀ f ∈ definition.Fields, IsNumericUniformType f.Ty) →
      (∀ e s, ∃ t, env.lowering.VisitExpression e s = s ++ t) →
      VisitVariables env c0 pre = some c →
      VisitVariable env c block = some c1 →
      (∀ e ∈ c.mDeviceCalls, e.isFailedBuffer = false) →
      ∃ (fieldsText : String) (added : List (String × D3D10Constant)) (u : D3D10Constant),
        c1.mCurrentSource =
          c.mCurrentSource ++ "cbuffer " ++ block.Name ++ " : register(b" ++
            toString (1 + (pre.filter DeclaresBlock).length) ++ ")" ++ "\n\x7b\n" ++
            fieldsText ++ "\x7d;\n" ∧
        c1.mEffect.mConstants = c.mEffect.mConstants ++ added ++ [(block.Name, u)] ∧
        (∀ (before : List FX.Variable) (f : FX.Variable) (after : List FX.Variable),
          definition.Fields = before ++ f :: after →
          ((block.Name ++ "." ++ f.Name,
            { mDesc := ConstantDescriptionOf f.Ty, mAnnotations := [],
              mBufferIndex := 1 + (pre.filter DeclaresBlock).length,
              mBufferOffset := SizeSub (LaidOutSize 0 (before ++ [f]))
                (ConstantDescriptionOf f.Ty).Size }) : String × D3D10Constant) ∈ added) ∧
        u.mBufferIndex = 1 + (pre.filter DeclaresBlock).length ∧
        u.mBufferOffset = 0 ∧
        u.mDesc.Ty = some FX.ConstantType.Struct ∧
        u.mDesc.Size = LaidOutSize 0 definition.Fields ∧
        u.mDesc.Fields = definition.Fields.length % UINT_MOD) ∧
    (∀ (c c1 : D3D10EffectCompiler) (v : FX.Variable),
      IsGlobalUniform v →
      c.mCurrentInParameterBlock = false → c.mCurrentInFunctionBlock = false →
      VisitVariable env c v = some c1 →
      ∃ u : D3D10Constant,
        c1.mEffect.mConstants = c.mEffect.mConstants ++ [(v.Name, u)] ∧ u.mBufferIndex = 0) := by
  constructor
  · intro c0 c c1 pre block definition hp0 hf0 hlen0 hall hstruct huniform hdef hfields hlow
      hpre h hok
    have hstep0 := VisitVariables_step env pre c0 c hpre
    have hp := hstep0.parameterBlock.trans hp0
    have hf := hstep0.functionBlock.trans hf0
    have hcount := VisitVariables_block_count env pre c0 c hp0 hf0 hall hpre hok
    rw [hlen0] at hcount
    cases block with
    | mk ty name sem ann init props loc =>
      cases ty with
      | mk b q r k a d =>
        simp only [FX.Variable.Ty, FX.TypeNode.Definition] at hdef hstruct huniform
        subst hdef
        cases definition with
        | mk sn fields sl =>
          rw [VisitVariable.eq_1] at h
          simp only [hp, hf, hstruct, huniform, Bool.or_self, Bool.not_false, Bool.and_self,
            if_true] at h
          split at h
          · simp at h
          · rename_i c2 l2 hloop
            obtain ⟨-, -, k3, -, k5⟩ :=
              VisitUniformBufferFields_keeps env name fields (UniformBufferBegin c name) c2
                { storage := none, totalsize := 0, currentsize := 0 } l2 hfields hp hf hloop
            obtain ⟨⟨t, ht⟩, added, hadded, hmem⟩ :=
              VisitUniformBufferFields_registered env hlow name fields (UniformBufferBegin c name)
                c2 { storage := none, totalsize := 0, currentsize := 0 } l2 hfields hp hf hloop
            have hlen2 : c2.mEffect.mConstantBuffers.length =
                1 + (pre.filter DeclaresBlock).length := by
              rw [k3]
              exact hcount
            have hend : c1.mCurrentSource = c2.mCurrentSource ++ "\x7d;\n" ∧
                c1.mEffect.mConstants = c2.mEffect.mConstants ++
                  [(name,
                    { mDesc := { Ty := some FX.ConstantType.Struct, Rows := 0, Columns := 0,
                                 Elements := 0, Fields := fields.length % UINT_MOD,
                                 Size := l2.totalsize },
                      mAnnotations := VisitAnnotations ann,
                      mBufferIndex := c2.mEffect.mConstantBuffers.length,
                      mBufferOffset := 0 })] := by
              unfold UniformBufferEnd at h
              simp only at h
              split at h
              · simp at h
              · split_ifs at h <;> simp only [Option.some.injEq] at h <;> subst h <;>
                  exact ⟨rfl, rfl⟩
            refine ⟨t, added,
              { mDesc := { Ty := some FX.ConstantType.Struct, Rows := 0, Columns := 0,
                           Elements := 0, Fields := fields.length % UINT_MOD,
                           Size := l2.totalsize },
                mAnnotations := VisitAnnotations ann,
                mBufferIndex := c2.mEffect.mConstantBuffers.length,
                mBufferOffset := 0 }, ?_, ?_, ?_, ?_, rfl, rfl, ?_, rfl⟩
            · rw [hend.1, ht]
              simp only [UniformBufferBegin, FX.Variable.Name]
              rw [hcount]
            · rw [hend.2, hadded]
              rfl
            · intro before f after hsplit
              have := hmem before f after hsplit
              simp only [UniformBufferBegin] at this
              rw [hcount] at this
              exact this
            · exact hlen2
            · exact k5
  · intro c c1 v hv hp hf h
    rw [VisitVariable_numeric env c v hv.1 hp hf] at h
    simp only [hv.2, if_true] at h
    obtain ⟨_, _, _, _, _, _, _, _, hconst, _, _, _⟩ := VisitUniform_spec env c c1 v h
    exact ⟨_, hconst, rfl⟩

open Example in
set_option maxRecDepth 100000 in
/-- Witness of C19: the declarations `uniform float gain;` and the block `Params`, followed by
the block `Rotation` with the fields `float3 axis; float angle;`, on a device that succeeds:
`Rotation` is the second block and gets register `b2`. -/
theorem C19_uniform_blocks_witness :
    (∃ c c1, VisitVariables (env okDevice) start [gain, block] = some c ∧
      VisitVariable (env okDevice) c (blockNamed "Rotation") = some c1 ∧
      ∃ (fieldsText : String) (added : List (String × D3D10Constant)) (u : D3D10Constant),
        c1.mCurrentSource =
          c.mCurrentSource ++ "cbuffer Rotation : register(b2)\n\x7b\n" ++ fieldsText ++
            "\x7d;\n" ∧
        c1.mEffect.mConstants = c.mEffect.mConstants ++ added ++ [("Rotation", u)] ∧
        (("Rotation.angle",
          { mDesc := { Ty := some FX.ConstantType.Float, Rows := 1, Columns := 1, Elements := 0,
                       Fields := 0, Size := 4 },
            mAnnotations := [], mBufferIndex := 2, mBufferOffset := 12 }) :
          String × D3D10Constant) ∈ added ∧
        u.mBufferIndex = 2 ∧ u.mBufferOffset = 0 ∧
        u.mDesc.Ty = some FX.ConstantType.Struct ∧ u.mDesc.Size = 16 ∧ u.mDesc.Fields = 2) ∧
    (∃ c1, VisitVariable (env okDevice) start gain = some c1 ∧
      ∃ u : D3D10Constant,
        c1.mEffect.mConstants = start.mEffect.mConstants ++ [("gain", u)] ∧
          u.mBufferIndex = 0) := by
  have h : ((VisitVariables (env okDevice) start [gain, block]).bind (fun c =>
      (VisitVariable (env okDevice) c (blockNamed "Rotation")).map (fun _ =>
        c.mDeviceCalls.all (fun e => !e.isFailedBuffer)))) = some true := by decide!
  obtain ⟨c, hc, h1⟩ := Option.bind_eq_some.1 h
  obtain ⟨c1, hc1, hall⟩ := Option.map_eq_some'.1 h1
  have h2 : (VisitVariable (env okDevice) start gain).isSome = true := by decide!
  obtain ⟨c2, hc2⟩ := Option.isSome_iff_exists.1 h2
  have hok : ∀ e ∈ c.mDeviceCalls, e.isFailedBuffer = false := by
    intro e he
    have := List.all_eq_true.1 hall e he
    simpa using this
  refine ⟨⟨c, c1, hc, hc1, ?_⟩, ⟨c2, hc2, ?_⟩⟩
  · obtain ⟨fieldsText, added, u, k1, k2, k3, k4, k5, k6, k7, k8⟩ :=
      (C19_uniform_blocks (env okDevice)).1 start c c1 [gain, block] (blockNamed "Rotation")
        (FX.Struct.mk "RotationType"
          [numeric FX.Class.Float [] 3 1 "axis", numeric FX.Class.Float [] 1 1 "angle"]
          location)
        rfl rfl (by decide)
        (by
          intro d hd
          simp only [List.mem_cons, List.mem_singleton, List.not_mem_nil, or_false] at hd
          rcases hd with rfl | rfl
          · exact Or.inl (by decide)
          · exact Or.inr ⟨by decide, by decide, _, rfl, by
              intro f hf
              simp only [FX.Struct.Fields, List.mem_cons, List.mem_singleton, List.not_mem_nil,
                or_false] at hf
              rcases hf with rfl | rfl | rfl <;>
                exact ⟨by decide, by decide, by decide, by decide, by decide⟩⟩)
        (by decide) (by decide) rfl
        (by
          intro f hf
          simp only [FX.Struct.Fields, List.mem_cons, List.mem_singleton, List.not_mem_nil,
            or_false] at hf
          rcases hf with rfl | rfl <;>
            exact ⟨by decide, by decide, by decide, by decide, by decide⟩)
        (fun _ s => ⟨"", by simp [env]⟩) hc hc1 hok
    have hlen : 1 + (List.filter DeclaresBlock [gain, block]).length = 2 := by decide
    rw [hlen] at k1 k3 k4
    refine ⟨fieldsText, added, u, ?_, k2, ?_, k4, k5, k6, ?_, ?_⟩
    · rw [k1]
      have e1 : toString 2 = "2" := by decide
      have e3 : (blockNamed "Rotation").Name = "Rotation" := rfl
      rw [e1, e3]
      simp only [String.append_assoc]
      rfl
    · have := k3 [numeric FX.Class.Float [] 3 1 "axis"] (numeric FX.Class.Float [] 1 1 "angle")
        [] rfl
      have e4 : SizeSub (LaidOutSize 0 ([numeric FX.Class.Float [] 3 1 "axis"] ++
          [numeric FX.Class.Float [] 1 1 "angle"]))
          (ConstantDescriptionOf (numeric FX.Class.Float [] 1 1 "angle").Ty).Size = 12 := by
        decide
      rw [e4] at this
      exact this
    · rw [k7]
      decide
    · rw [k8]
      decide
  · obtain ⟨u, k1, k2⟩ := (C19_uniform_blocks (env okDevice)).2 start c2 gain
      ⟨⟨by decide, by decide, by decide, by decide, by decide⟩, by decide⟩ rfl rfl hc2
    exact ⟨u, k1, k2⟩

/-- C26: `OnSetDepthStencilView` and `OnClearDepthStencilView` leave the runtime as it is and
give the same view; the view given is replaced by the replacement when a replacement exists
and the view is the selected depth source `mDepthStencil`, and it is passed through unchanged
in every other case (another view, or no replacement). -/
theorem C26_depth_stencil_redirect (r : D3D10RuntimeState)
    (depthstencil : Option ID3D10DepthStencilView) :
    (OnSetDepthStencilView r depthstencil).1 = r ∧
    (OnClearDepthStencilView r depthstencil).1 = r ∧
    (OnClearDepthStencilView r depthstencil).2 = (OnSetDepthStencilView r depthstencil).2 ∧
    (r.mDepthStencilReplacement ≠ none ∧ SameView depthstencil r.mDepthStencil →
      (OnSetDepthStencilView r depthstencil).2 = r.mDepthStencilReplacement) ∧
    (¬ (r.mDepthStencilReplacement ≠ none ∧ SameView depthstencil r.mDepthStencil) →
      (OnSetDepthStencilView r depthstencil).2 = depthstencil) := by
  have hsome : r.mDepthStencilReplacement.isSome = true ↔ r.mDepthStencilReplacement ≠ none := by
    cases r.mDepthStencilReplacement <;> simp
  unfold OnSetDepthStencilView OnClearDepthStencilView
  refine ⟨?_, ?_, ?_, ?_, ?_⟩
  · split_ifs <;> rfl
  · split_ifs <;> rfl
  · split_ifs <;> rfl
  · intro h
    rw [if_pos ⟨hsome.2 h.1, h.2⟩]
  · intro h
    rw [if_neg (fun h1 => h ⟨hsome.1 h1.1, h1.2⟩)]

open Example in
/-- Witness of C26: with the replacement 2 of the depth source 1, the view 1 is replaced by the
view 2 and the view 3 is passed through. -/
theorem C26_depth_stencil_redirect_witness :
    (OnSetDepthStencilView replaced (some (depthView 1))).2 = some (depthView 2) ∧
    (OnSetDepthStencilView replaced (some (depthView 3))).2 = some (depthView 3) ∧
    (OnSetDepthStencilView idle (some (depthView 1))).2 = some (depthView 1) :=
  ⟨(C26_depth_stencil_redirect replaced (some (depthView 1))).2.2.2.1 ⟨by decide, by decide⟩,
   (C26_depth_stencil_redirect replaced (some (depthView 3))).2.2.2.2 (by decide),
   (C26_depth_stencil_redirect idle (some (depthView 1))).2.2.2.2 (by decide)⟩

theorem Find_eq_none_iff (table : List (ID3D10DepthStencilView × DepthSourceInfo))
    (view : ID3D10DepthStencilView) :
    Find table view = none ↔ ∀ e ∈ table, e.1.id ≠ view.id := by
  unfold Find
  rw [List.find?_eq_none]
  simp

theorem Emplace_absent (table : List (ID3D10DepthStencilView × DepthSourceInfo))
    (view : ID3D10DepthStencilView) (info : DepthSourceInfo) (h : Find table view = none) :
    Emplace table view info = table ++ [(view, info)] := by
  unfold Emplace
  rw [if_neg]
  rw [Find_eq_none_iff] at h
  simp only [List.any_eq_true, decide_eq_true_eq, not_exists, not_and]
  exact h

theorem Emplace_present (table : List (ID3D10DepthStencilView × DepthSourceInfo))
    (view : ID3D10DepthStencilView) (info : DepthSourceInfo) (h : Find table view ≠ none) :
    Emplace table view info = table := by
  unfold Emplace
  rw [if_pos]
  rw [Ne, Find_eq_none_iff] at h
  push_neg at h
  obtain ⟨e, he, hid⟩ := h
  simp only [List.any_eq_true, decide_eq_true_eq]
  exact ⟨e, he, hid⟩

/-- In a table with one entry per view, erasing the first entry of a view leaves the entries of
the other views. -/
theorem eraseP_eq_filter (view : ID3D10DepthStencilView) :
    ∀ table : List (ID3D10DepthStencilView × DepthSourceInfo),
      (table.map (fun e => e.1.id)).Nodup →
      table.eraseP (fun e => decide (e.1.id = view.id)) =
        table.filter (fun e => decide (e.1.id ≠ view.id))
  | [], _ => rfl
  | e :: rest, h => by
      rw [List.map_cons, List.nodup_cons] at h
      by_cases he : e.1.id = view.id
      · rw [List.eraseP_cons_of_pos (by simpa using he)]
        rw [List.filter_cons_of_neg (by simpa using he)]
        symm
        rw [List.filter_eq_self]
        intro x hx
        simp only [ne_eq, decide_not, Bool.not_eq_eq_eq_not, Bool.not_true,
          decide_eq_false_iff_not]
        intro hxid
        exact h.1 (by rw [he, ← hxid]; exact List.mem_map_of_mem (fun e => e.1.id) hx)
      · rw [List.eraseP_cons_of_neg (by simpa using he)]
        rw [List.filter_cons_of_pos (by simpa using he)]
        rw [eraseP_eq_filter view rest h.2]

/-- C27: `OnCreateDepthStencilView` appends the view to the candidate table, with the width and
the height of the texture and both counters zero, when the runtime is not lost and the
resource is a 2D texture that is not multisampled and has the width and the height of the
swap chain (the table holding no entry of the new view); in every other case the runtime with
its table is unchanged, and nothing but the table ever changes. `OnDeleteDepthStencilView`
removes the entry of the view and keeps every other entry, in a table with one entry per
view, a property that both methods keep. -/
theorem C27_candidate_table (r : D3D10RuntimeState) (resource : ID3D10Resource)
    (view : ID3D10DepthStencilView) :
    (∀ texture, r.mLost = false → resource = ID3D10Resource.Texture2D texture →
      texture.desc.SampleDescCount ≤ 1 →
      texture.desc.Width = r.mSwapChainDescWidth →
      texture.desc.Height = r.mSwapChainDescHeight →
      Find r.mDepthSourceTable view = none →
      OnCreateDepthStencilView r resource view =
        { r with
          mDepthSourceTable :=
            r.mDepthSourceTable ++
              [(view, { Width := texture.desc.Width, Height := texture.desc.Height,
                        DrawCallCount := 0, DrawVerticesCount := 0 })] }) ∧
    (¬ (r.mLost = false ∧ ∃ texture, resource = ID3D10Resource.Texture2D texture ∧
        texture.desc.SampleDescCount ≤ 1 ∧
        texture.desc.Width = r.mSwapChainDescWidth ∧
        texture.desc.Height = r.mSwapChainDescHeight) →
      OnCreateDepthStencilView r resource view = r) ∧
    (Find r.mDepthSourceTable view ≠ none → OnCreateDepthStencilView r resource view = r) ∧
    ((r.mDepthSourceTable.map (fun e => e.1.id)).Nodup →
      ((OnCreateDepthStencilView r resource view).mDepthSourceTable.map
          (fun e => e.1.id)).Nodup ∧
      (OnDeleteDepthStencilView r view).mDepthSourceTable =
        r.mDepthSourceTable.filter (fun e => decide (e.1.id ≠ view.id)) ∧
      ((OnDeleteDepthStencilView r view).mDepthSourceTable.map (fun e => e.1.id)).Nodup) ∧
    OnDeleteDepthStencilView r view =
      { r with mDepthSourceTable := (OnDeleteDepthStencilView r view).mDepthSourceTable } := by
  refine ⟨?_, ?_, ?_, ?_, rfl⟩
  · intro texture hlost hres hcount hw hh hfind
    unfold OnCreateDepthStencilView
    subst hres
    simp only [hlost, Bool.false_eq_true, if_false]
    rw [if_neg (by
      simp only [not_or, not_not, not_lt]
      exact ⟨hw, hh, hcount⟩)]
    rw [Emplace_absent _ _ _ hfind]
  · intro h
    unfold OnCreateDepthStencilView
    by_cases hlost : r.mLost = true
    · rw [if_pos hlost]
    · rw [if_neg hlost]
      cases resource with
      | Other id => rfl
      | Texture2D texture =>
        simp only
        rw [if_pos]
        by_contra hcon
        simp only [not_or, not_not, not_lt] at hcon
        exact h ⟨by simpa using hlost, texture, rfl, hcon.2.2, hcon.1, hcon.2.1⟩
  · intro hfind
    unfold OnCreateDepthStencilView
    split_ifs
    · rfl
    · cases resource with
      | Other id => rfl
      | Texture2D texture =>
        simp only
        split_ifs
        · rfl
        · rw [Emplace_present _ _ _ hfind]
  · intro hnodup
    refine ⟨?_, ?_, ?_⟩
    · unfold OnCreateDepthStencilView
      split_ifs
      · exact hnodup
      · cases resource with
        | Other id => exact hnodup
        | Texture2D texture =>
          simp only
          split_ifs
          · exact hnodup
          · by_cases hfind : Find r.mDepthSourceTable view = none
            · rw [Emplace_absent _ _ _ hfind]
              rw [List.map_append, List.nodup_append]
              refine ⟨hnodup, by simp, ?_⟩
              rw [Find_eq_none_iff] at hfind
              intro a ha hb
              simp only [List.map_cons, List.map_nil, List.mem_singleton] at hb
              obtain ⟨e, he, rfl⟩ := List.mem_map.1 ha
              exact hfind e he hb
            · rw [Emplace_present _ _ _ hfind]
              exact hnodup
    · exact eraseP_eq_filter view _ hnodup
    · unfold OnDeleteDepthStencilView
      simp only
      exact List.Nodup.sublist (List.Sublist.map _ (List.eraseP_sublist _)) hnodup

open Example in
/-- Witness of C27: on the runtime `idle` the view 1 on a texture of 640 by 480 pixels enters
the empty table; a texture of another size leaves the table empty; deleting the view 1 from
the table of `replaced` leaves the table empty. -/
theorem C27_candidate_table_witness :
    OnCreateDepthStencilView idle (ID3D10Resource.Texture2D (depthTexture 1)) (depthView 1) =
      { idle with mDepthSourceTable := [(depthView 1, counted 0 0)] } ∧
    OnCreateDepthStencilView idle (ID3D10Resource.Other (ObjectId.Host 7)) (depthView 1) =
      idle ∧
    (OnDeleteDepthStencilView replaced (depthView 1)).mDepthSourceTable = [] :=
  ⟨(C27_candidate_table idle (ID3D10Resource.Texture2D (depthTexture 1)) (depthView 1)).1
      (depthTexture 1) rfl rfl (by decide) rfl rfl rfl,
   (C27_candidate_table idle (ID3D10Resource.Other (ObjectId.Host 7)) (depthView 1)).2.1
      (by
        rintro ⟨-, texture, h, -⟩
        cases h),
   ((C27_candidate_table replaced (ID3D10Resource.Texture2D (depthTexture 1))
      (depthView 1)).2.2.2.1 (by decide)).2.1⟩

/-! ## The arithmetic of the type `float` -/

theorem RoundHalfEven_bounds (x : ℚ) :
    (RoundHalfEven x : ℚ) ≤ x + 1 / 2 ∧ x - 1 / 2 ≤ (RoundHalfEven x : ℚ) := by
  have h1 : ((⌊x⌋ : Int) : ℚ) ≤ x := Int.floor_le x
  have h2 : x < ((⌊x⌋ : Int) : ℚ) + 1 := Int.lt_floor_add_one x
  unfold RoundHalfEven
  split_ifs with a b c
  · constructor <;> linarith
  · constructor <;> push_cast <;> linarith
  · constructor <;> linarith
  · constructor <;> push_cast <;> linarith

theorem RoundHalfEven_nonneg (x : ℚ) (h : 0 ≤ x) : (0 : ℚ) ≤ (RoundHalfEven x : ℚ) := by
  have h0 : (0 : Int) ≤ ⌊x⌋ := Int.floor_nonneg.2 h
  have h1 : (0 : ℚ) ≤ ((⌊x⌋ : Int) : ℚ) := by exact_mod_cast h0
  unfold RoundHalfEven
  split_ifs
  · exact h1
  · push_cast; linarith
  · exact h1
  · push_cast; linarith

/-- The power of two of the exponent of a rational does not exceed the rational, unless the
rational is below the least normal value. -/
theorem Float32.exponent_le (a : ℚ) :
    ∀ k : Nat, (2 : ℚ) ^ Float32.exponent a k ≤ max a ((2 : ℚ) ^ (-126 : Int))
  | 0 => by
      simp only [Float32.exponent]
      exact le_max_right _ _
  | k + 1 => by
      simp only [Float32.exponent]
      split_ifs with h
      · exact le_trans h (le_max_left _ _)
      · exact Float32.exponent_le a k

/-- What `Float32.round` gives for a rational that is not negative: a value that is not
negative and differs from the rational by at most half a unit in its last place, or the
positive infinity. -/
theorem Float32.round_nonneg (x : ℚ) (hx : 0 ≤ x) :
    ∃ r : ℚ, 0 ≤ r ∧ r ≤ x + max x ((2 : ℚ) ^ (-126 : Int)) / 2 ^ 24 ∧
      x - max x ((2 : ℚ) ^ (-126 : Int)) / 2 ^ 24 ≤ r ∧
      Float32.round x =
        (if (2 : ℚ) ^ (128 : Int) ≤ r then Float32.infinite false else Float32.finite r) := by
  have habs : |x| = x := abs_of_nonneg hx
  have hneg : ¬ x < 0 := not_lt.2 hx
  have hq : (0 : ℚ) < 2 ^ (Float32.exponent x 253 - 23) := zpow_pos (by norm_num) _
  have hle := Float32.exponent_le x 253
  have hquantum : (2 : ℚ) ^ (Float32.exponent x 253 - 23) =
      (2 : ℚ) ^ Float32.exponent x 253 / 2 ^ 23 := by
    rw [zpow_sub₀ (by norm_num : (2 : ℚ) ≠ 0)]
    norm_num
  obtain ⟨hb1, hb2⟩ := RoundHalfEven_bounds (x / 2 ^ (Float32.exponent x 253 - 23))
  have hnn := RoundHalfEven_nonneg (x / 2 ^ (Float32.exponent x 253 - 23))
    (div_nonneg hx (le_of_lt hq))
  refine ⟨(RoundHalfEven (x / 2 ^ (Float32.exponent x 253 - 23)) : ℚ) *
      2 ^ (Float32.exponent x 253 - 23), mul_nonneg hnn (le_of_lt hq), ?_, ?_, ?_⟩
  · have h1 := mul_le_mul_of_nonneg_right hb1 (le_of_lt hq)
    rw [add_mul, div_mul_cancel₀ _ (ne_of_gt hq)] at h1
    have h2 : (1 : ℚ) / 2 * 2 ^ (Float32.exponent x 253 - 23) ≤
        max x ((2 : ℚ) ^ (-126 : Int)) / 2 ^ 24 := by
      rw [hquantum]
      have : (2 : ℚ) ^ Float32.exponent x 253 / 2 ^ 23 ≤ max x ((2 : ℚ) ^ (-126 : Int)) / 2 ^ 23 :=
        div_le_div_of_nonneg_right hle (by norm_num)
      have e : max x ((2 : ℚ) ^ (-126 : Int)) / 2 ^ 24 =
          1 / 2 * (max x ((2 : ℚ) ^ (-126 : Int)) / 2 ^ 23) := by ring
      rw [e]
      exact mul_le_mul_of_nonneg_left this (by norm_num)
    linarith
  · have h1 := mul_le_mul_of_nonneg_right hb2 (le_of_lt hq)
    rw [sub_mul, div_mul_cancel₀ _ (ne_of_gt hq)] at h1
    have h2 : (1 : ℚ) / 2 * 2 ^ (Float32.exponent x 253 - 23) ≤
        max x ((2 : ℚ) ^ (-126 : Int)) / 2 ^ 24 := by
      rw [hquantum]
      have : (2 : ℚ) ^ Float32.exponent x 253 / 2 ^ 23 ≤ max x ((2 : ℚ) ^ (-126 : Int)) / 2 ^ 23 :=
        div_le_div_of_nonneg_right hle (by norm_num)
      have e : max x ((2 : ℚ) ^ (-126 : Int)) / 2 ^ 24 =
          1 / 2 * (max x ((2 : ℚ) ^ (-126 : Int)) / 2 ^ 23) := by ring
      rw [e]
      exact mul_le_mul_of_nonneg_left this (by norm_num)
    linarith
  · unfold Float32.round
    simp only [habs, hneg, decide_False, if_false]

theorem Float32.round_zero : Float32.round 0 = Float32.finite 0 := by
  unfold Float32.round
  simp [RoundHalfEven]
  positivity

set_option maxRecDepth 100000 in
theorem FLOAT_1_2_eq : FLOAT_1_2 = Float32.finite (5033165 / 4194304) := by decide!

theorem tiny_le_one : (2 : ℚ) ^ (-126 : Int) ≤ 1 := by
  rw [zpow_neg]
  exact inv_le_one_of_one_le₀ (one_le_zpow₀ (by norm_num) (by norm_num))

/-- A value below `2 ^ 128` that `Float32.round` gives is finite. -/
theorem Float32.round_small (x bound : ℚ) (hx : 0 ≤ x) (hb : x ≤ bound) (h1 : 1 ≤ bound)
    (h2 : bound * 2 < 2 ^ (128 : Int)) :
    ∃ r : ℚ, Float32.round x = Float32.finite r ∧ 0 ≤ r ∧ r ≤ x + bound / 2 ^ 24 ∧
      x - max x ((2 : ℚ) ^ (-126 : Int)) / 2 ^ 24 ≤ r := by
  obtain ⟨r, hr0, hr1, hr2, hround⟩ := Float32.round_nonneg x hx
  have hmax : max x ((2 : ℚ) ^ (-126 : Int)) ≤ bound :=
    max_le hb (le_trans tiny_le_one h1)
  have hdiv : max x ((2 : ℚ) ^ (-126 : Int)) / 2 ^ 24 ≤ bound / 2 ^ 24 :=
    div_le_div_of_nonneg_right hmax (by norm_num)
  have hsmall : bound / 2 ^ 24 ≤ bound := div_le_self (le_trans zero_le_one h1) (by norm_num)
  have hlt : ¬ (2 : ℚ) ^ (128 : Int) ≤ r := by
    rw [not_le]
    linarith
  rw [if_neg hlt] at hround
  exact ⟨r, hround, hr0, by linarith, hr2⟩

/-- The conversion of an unsigned integer that is not zero gives the positive infinity or a
finite value that is less than the integer by at most half a unit in the last place. -/
theorem Float32.ofNat_pos (total : Nat) (h : 1 ≤ total) :
    Float32.ofNat total = Float32.infinite false ∨
      ∃ t : ℚ, Float32.ofNat total = Float32.finite t ∧
        (total : ℚ) * (1 - 1 / 2 ^ 24) ≤ t := by
  have hx : (1 : ℚ) ≤ (total : ℚ) := by exact_mod_cast h
  obtain ⟨r, -, -, hr2, hround⟩ := Float32.round_nonneg (total : ℚ) (by linarith)
  have hmax : max (total : ℚ) ((2 : ℚ) ^ (-126 : Int)) = (total : ℚ) :=
    max_eq_left (le_trans tiny_le_one hx)
  rw [hmax] at hr2
  unfold Float32.ofNat
  rw [hround]
  split_ifs
  · exact Or.inl rfl
  · refine Or.inr ⟨r, rfl, ?_⟩
    have e : (total : ℚ) * (1 - 1 / 2 ^ 24) = (total : ℚ) - (total : ℚ) / 2 ^ 24 := by ring
    rw [e]
    exact hr2

/-- The quotient of a draw-call count by the total number of draw calls, which it does not
exceed, is a finite value between 0 and a little more than 1. -/
theorem Float32.div_counted (total : Nat) (c : ℚ) (hc : 0 < c) (hle : c ≤ total) :
    ∃ d : ℚ, Float32.div (Float32.finite c) (Float32.ofNat total) = Float32.finite d ∧
      0 ≤ d ∧ d ≤ 1 + 1 / 2 ^ 21 := by
  have htotal : 1 ≤ total := by
    rcases Nat.eq_zero_or_pos total with h0 | hpos
    · rw [h0] at hle
      simp only [Nat.cast_zero] at hle
      exact absurd (lt_of_lt_of_le hc hle) (lt_irrefl _)
    · exact hpos
  have hx : (1 : ℚ) ≤ (total : ℚ) := by exact_mod_cast htotal
  rcases Float32.ofNat_pos total htotal with hinf | ⟨t, ht, hbound⟩
  · rw [hinf]
    exact ⟨0, rfl, le_refl _, by norm_num⟩
  · rw [ht]
    have htpos : 0 < t := by
      have : (0 : ℚ) < (total : ℚ) * (1 - 1 / 2 ^ 24) := by
        apply mul_pos (by linarith)
        norm_num
      linarith
    have hne : t ≠ 0 := ne_of_gt htpos
    have hquot : c / t ≤ 1 + 1 / 2 ^ 23 := by
      rw [div_le_iff₀ htpos]
      have h1 : (total : ℚ) ≤ (1 + 1 / 2 ^ 23) * ((total : ℚ) * (1 - 1 / 2 ^ 24)) := by
        have e : (1 + 1 / 2 ^ 23) * ((total : ℚ) * (1 - 1 / 2 ^ 24)) =
            (total : ℚ) * ((1 + 1 / 2 ^ 23) * (1 - 1 / 2 ^ 24)) := by ring
        rw [e]
        have k : (1 : ℚ) ≤ (1 + 1 / 2 ^ 23) * (1 - 1 / 2 ^ 24) := by norm_num
        nlinarith
      have h2 : (1 + 1 / 2 ^ 23) * ((total : ℚ) * (1 - 1 / 2 ^ 24)) ≤ (1 + 1 / 2 ^ 23) * t :=
        mul_le_mul_of_nonneg_left hbound (by norm_num)
      linarith
    obtain ⟨r, hround, hr0, hr1, -⟩ :=
      Float32.round_small (c / t) (1 + 1 / 2 ^ 23) (le_of_lt (div_pos hc htpos)) hquot
        (by norm_num) (by norm_num)
    refine ⟨r, ?_, hr0, ?_⟩
    · simp only [Float32.div, if_neg hne]
      exact hround
    · have : (1 + 1 / 2 ^ 23 : ℚ) / 2 ^ 24 ≤ 1 / 2 ^ 23 := by norm_num
      have k : (1 : ℚ) + 1 / 2 ^ 23 + 1 / 2 ^ 23 ≤ 1 + 1 / 2 ^ 21 := by norm_num
      linarith

/-- The score of a candidate with between one and `total` draw calls and a vertex count that
is not negative is a finite value that is not negative, or the positive infinity. -/
theorem Score_nonneg (total : Nat) (info : DepthSourceInfo) (hcalls : 0 < info.DrawCallCount)
    (hle : info.DrawCallCount ≤ total) (hvertices : 0 ≤ info.DrawVerticesCount) :
    (Score total info).NonNeg := by
  obtain ⟨d, hd, hd0, hd1⟩ := Float32.div_counted total info.DrawCallCount hcalls hle
  have hx0 : (0 : ℚ) ≤ 5033165 / 4194304 - d := by
    have : (1 : ℚ) + 1 / 2 ^ 21 ≤ 5033165 / 4194304 := by norm_num
    linarith
  obtain ⟨f, hf, hf0, -, -⟩ :=
    Float32.round_small (5033165 / 4194304 - d) 2 hx0 (by norm_num; linarith) (by norm_num)
      (by norm_num)
  obtain ⟨r, hr0, -, -, hround⟩ :=
    Float32.round_nonneg (info.DrawVerticesCount * f) (mul_nonneg hvertices hf0)
  unfold Score
  rw [hd, FLOAT_1_2_eq]
  simp only [Float32.sub, hf, Float32.mul, hround]
  split_ifs
  · simp [Float32.NonNeg]
  · simpa [Float32.NonNeg] using hr0

/-- The score of the initial value of `bestInfo` is zero when the total number of draw calls
is not. -/
theorem Score_zero (total : Nat) (h : 1 ≤ total) :
    Score total DepthSourceInfo.zero = Float32.finite 0 := by
  have hdiv : Float32.div (Float32.finite 0) (Float32.ofNat total) = Float32.finite 0 := by
    rcases Float32.ofNat_pos total h with hinf | ⟨t, ht, hbound⟩
    · rw [hinf]
      rfl
    · rw [ht]
      have hx : (1 : ℚ) ≤ (total : ℚ) := by exact_mod_cast h
      have htpos : 0 < t := by
        have : (0 : ℚ) < (total : ℚ) * (1 - 1 / 2 ^ 24) := by
          apply mul_pos (by linarith)
          norm_num
        linarith
      simp only [Float32.div, if_neg (ne_of_gt htpos), zero_div, Float32.round_zero]
  obtain ⟨f, hf, -, -, -⟩ :=
    Float32.round_small (5033165 / 4194304 - 0) 2 (by norm_num) (by norm_num) (by norm_num)
      (by norm_num)
  unfold Score
  simp only [DepthSourceInfo.zero, hdiv, FLOAT_1_2_eq, Float32.sub, hf, Float32.mul, zero_mul,
    Float32.round_zero]

/-- The comparison of the type `float` is transitive. -/
theorem Float32.ge_trans (a b c : Float32) (h1 : Float32.ge a b = true)
    (h2 : Float32.ge b c = true) : Float32.ge a c = true := by
  cases a <;> cases b <;> cases c <;>
    simp only [Float32.ge, decide_eq_true_eq, Bool.not_eq_true', Bool.or_eq_true,
      Bool.false_eq_true] at h1 h2 ⊢
  all_goals first
    | exact le_trans h2 h1
    | (rcases h1 with h | h <;> rcases h2 with k | k <;> simp_all)
    | (subst_vars; simp_all)

/-- Two values that are not negative compare one way or the other. -/
theorem Float32.ge_total (a b : Float32) (ha : a.NonNeg) (hb : b.NonNeg)
    (h : Float32.ge a b = false) : Float32.ge b a = true := by
  cases a <;> cases b <;>
    simp only [Float32.ge, Float32.NonNeg, decide_eq_true_eq, decide_eq_false_iff_not, not_le,
      Bool.not_eq_true', Bool.or_eq_true, Bool.or_eq_false_iff, Bool.not_eq_false'] at ha hb h ⊢
  all_goals first
    | exact le_of_lt h
    | (subst_vars; simp_all)

theorem Float32.ge_refl (a : Float32) (ha : a.NonNeg) : Float32.ge a a = true := by
  cases a <;> simp_all [Float32.ge, Float32.NonNeg]

theorem Float32.ge_zero (a : Float32) (ha : a.NonNeg) :
    Float32.ge a (Float32.finite 0) = true := by
  cases a <;> simp_all [Float32.ge, Float32.NonNeg]

/-- The entries of the table after the loop of `DetectDepthSource`: the counters of every
candidate with a draw-call count other than zero are reset, whatever the total number of draw
calls. -/
theorem SelectDepthSource_table (total : Nat) :
    ∀ (table : List (ID3D10DepthStencilView × DepthSourceInfo))
      (best : Option ID3D10DepthStencilView) (bestInfo : DepthSourceInfo),
      (SelectDepthSource total table best bestInfo).1 =
        table.map (fun e =>
          if e.2.DrawCallCount = 0 then e
          else (e.1, { e.2 with DrawCallCount := 0, DrawVerticesCount := 0 }))
  | [], best, bestInfo => rfl
  | it :: rest, best, bestInfo => by
      rw [SelectDepthSource]
      by_cases hzero : it.2.DrawCallCount = 0
      · simp only [if_pos hzero, List.map_cons, SelectDepthSource_table total rest]
      · simp only [if_neg hzero, List.map_cons, SelectDepthSource_table total rest]

/-- The view that the loop of `DetectDepthSource` leaves in `best` is the one it started with
or a view of the table. -/
theorem SelectDepthSource_best (total : Nat) :
    ∀ (table : List (ID3D10DepthStencilView × DepthSourceInfo))
      (best : Option ID3D10DepthStencilView) (bestInfo : DepthSourceInfo),
      (SelectDepthSource total table best bestInfo).2.1 = best ∨
        ∃ e ∈ table, (SelectDepthSource total table best bestInfo).2.1 = some e.1
  | [], best, bestInfo => Or.inl rfl
  | it :: rest, best, bestInfo => by
      rw [SelectDepthSource]
      by_cases hzero : it.2.DrawCallCount = 0
      · rw [if_pos hzero]
        rcases SelectDepthSource_best total rest best bestInfo with h | ⟨e, he, h⟩
        · exact Or.inl h
        · exact Or.inr ⟨e, List.mem_cons_of_mem _ he, h⟩
      · rw [if_neg hzero]
        simp only
        by_cases hge : Float32.ge (Score total it.2) (Score total bestInfo) = true
        · rw [if_pos hge]
          rcases SelectDepthSource_best total rest (some it.1) it.2 with h | ⟨e, he, h⟩
          · exact Or.inr ⟨it, List.mem_cons_self _ _, h⟩
          · exact Or.inr ⟨e, List.mem_cons_of_mem _ he, h⟩
        · rw [if_neg hge]
          rcases SelectDepthSource_best total rest best bestInfo with h | ⟨e, he, h⟩
          · exact Or.inl h
          · exact Or.inr ⟨e, List.mem_cons_of_mem _ he, h⟩

/-- The loop of `DetectDepthSource` over candidates whose scores are not negative: the score
it leaves in `bestInfo` is not below the score of any candidate with a draw-call count other
than zero, nor below the score it started with, and `best` is such a candidate unless every
one of them scores below the start. -/
theorem SelectDepthSource_spec (total : Nat) :
    ∀ (table : List (ID3D10DepthStencilView × DepthSourceInfo))
      (best : Option ID3D10DepthStencilView) (bestInfo : DepthSourceInfo),
      (∀ e ∈ table, e.2.DrawCallCount ≠ 0 → (Score total e.2).NonNeg) →
      (Score total bestInfo).NonNeg →
      (∀ x ∈ table, x.2.DrawCallCount ≠ 0 →
        Float32.ge (Score total (SelectDepthSource total table best bestInfo).2.2)
          (Score total x.2) = true) ∧
      Float32.ge (Score total (SelectDepthSource total table best bestInfo).2.2)
        (Score total bestInfo) = true ∧
      (((SelectDepthSource total table best bestInfo).2.1 = best ∧
          (SelectDepthSource total table best bestInfo).2.2 = bestInfo ∧
          ∀ x ∈ table, x.2.DrawCallCount ≠ 0 →
            Float32.ge (Score total x.2) (Score total bestInfo) = false) ∨
        ∃ e ∈ table, e.2.DrawCallCount ≠ 0 ∧
          (SelectDepthSource total table best bestInfo).2.1 = some e.1 ∧
          (SelectDepthSource total table best bestInfo).2.2 = e.2)
  | [], best, bestInfo, _, hbest => by
      refine ⟨by simp, ?_, Or.inl ⟨rfl, rfl, by simp⟩⟩
      exact Float32.ge_refl _ hbest
  | it :: rest, best, bestInfo, hall, hbest => by
      have hrest : ∀ e ∈ rest, e.2.DrawCallCount ≠ 0 → (Score total e.2).NonNeg :=
        fun e he => hall e (List.mem_cons_of_mem _ he)
      by_cases hzero : it.2.DrawCallCount = 0
      · obtain ⟨hmax, hle, hcase⟩ := SelectDepthSource_spec total rest best bestInfo hrest hbest
        rw [SelectDepthSource, if_pos hzero]
        refine ⟨?_, hle, ?_⟩
        · intro x hx hcount
          rcases List.mem_cons.1 hx with rfl | hx
          · exact absurd hzero hcount
          · exact hmax x hx hcount
        · rcases hcase with ⟨h1, h2, h3⟩ | ⟨e, he, h1, h2, h3⟩
          · left
            refine ⟨h1, h2, ?_⟩
            intro x hx hcount
            rcases List.mem_cons.1 hx with rfl | hx
            · exact absurd hzero hcount
            · exact h3 x hx hcount
          · right
            exact ⟨e, List.mem_cons_of_mem _ he, h1, h2, h3⟩
      · have hit : (Score total it.2).NonNeg := hall it (List.mem_cons_self _ _) hzero
        by_cases hge : Float32.ge (Score total it.2) (Score total bestInfo) = true
        · obtain ⟨hmax, hle, hcase⟩ :=
            SelectDepthSource_spec total rest (some it.1) it.2 hrest hit
          rw [SelectDepthSource, if_neg hzero]
          simp only [if_pos hge]
          refine ⟨?_, Float32.ge_trans _ _ _ hle hge, ?_⟩
          · intro x hx hcount
            rcases List.mem_cons.1 hx with rfl | hx
            · exact hle
            · exact hmax x hx hcount
          · right
            rcases hcase with ⟨h1, h2, -⟩ | ⟨e, he, h1, h2, h3⟩
            · exact ⟨it, List.mem_cons_self _ _, hzero, h1, h2⟩
            · exact ⟨e, List.mem_cons_of_mem _ he, h1, h2, h3⟩
        · obtain ⟨hmax, hle, hcase⟩ :=
            SelectDepthSource_spec total rest best bestInfo hrest hbest
          have hfalse : Float32.ge (Score total it.2) (Score total bestInfo) = false := by
            simpa using hge
          have hlt : Float32.ge (Score total bestInfo) (Score total it.2) = true :=
            Float32.ge_total _ _ hit hbest hfalse
          rw [SelectDepthSource, if_neg hzero]
          simp only [if_neg hge]
          refine ⟨?_, hle, ?_⟩
          · intro x hx hcount
            rcases List.mem_cons.1 hx with rfl | hx
            · exact Float32.ge_trans _ _ _ hle hlt
            · exact hmax x hx hcount
          · rcases hcase with ⟨h1, h2, h3⟩ | ⟨e, he, h1, h2, h3⟩
            · left
              refine ⟨h1, h2, ?_⟩
              intro x hx hcount
              rcases List.mem_cons.1 hx with rfl | hx
              · exact hfalse
              · exact h3 x hx hcount
            · right
              exact ⟨e, List.mem_cons_of_mem _ he, h1, h2, h3⟩

/-- The loop of `DetectDepthSource` over candidates without draw calls leaves `best` and
`bestInfo` as they were. -/
theorem SelectDepthSource_idle (total : Nat) :
    ∀ (table : List (ID3D10DepthStencilView × DepthSourceInfo))
      (best : Option ID3D10DepthStencilView) (bestInfo : DepthSourceInfo),
      (∀ e ∈ table, e.2.DrawCallCount = 0) →
      (SelectDepthSource total table best bestInfo).2 = (best, bestInfo)
  | [], best, bestInfo, _ => rfl
  | it :: rest, best, bestInfo, hall => by
      rw [SelectDepthSource, if_pos (hall it (List.mem_cons_self _ _))]
      exact SelectDepthSource_idle total rest best bestInfo
        (fun e he => hall e (List.mem_cons_of_mem _ he))

open Example in
set_option maxRecDepth 100000 in
/-- C24, as stated, fails: against 10 draw calls in total the candidate A with 2 calls and
16000001 vertices has the exact score 16000001 and the candidate B with 7 calls and 32000000
vertices has the exact score 16000000, so that A has the highest score of the claim. In the
arithmetic of `float`, line 2490 gives A the score 16000001 and B the score 16000002, and the
loop chooses B in both orders of the table. -/
theorem C24_counterexample :
    ExactScore 10 (counted 2 16000001) = 16000001 ∧
    ExactScore 10 (counted 7 32000000) = 16000000 ∧
    Score 10 (counted 2 16000001) = Float32.finite 16000001 ∧
    Score 10 (counted 7 32000000) = Float32.finite 16000002 ∧
    (SelectDepthSource 10
        [(depthView 1, counted 2 16000001), (depthView 2, counted 7 32000000)] none
        DepthSourceInfo.zero).2.1 = some (depthView 2) ∧
    (SelectDepthSource 10
        [(depthView 2, counted 7 32000000), (depthView 1, counted 2 16000001)] none
        DepthSourceInfo.zero).2.1 = some (depthView 2) := by
  refine ⟨by norm_num [ExactScore, counted], by norm_num [ExactScore, counted], by decide!,
    by decide!, by decide!, by decide!⟩

open Example in
set_option maxRecDepth 100000 in
/-- C24 amended: in the loop of `DetectDepthSource` over the candidate table, in the arithmetic
of `float` in which line 2490 computes and with between one and `total` draw calls (and a
vertex count that is not negative) for every candidate whose draw-call count is not zero: the
loop resets the counters of these candidates, `best` is null when there is none of them, and
otherwise `best` is one of them whose score
`vertices * (1.2f - calls / total)`, each operation rounded to the nearest `float`, is the
highest among them, in whatever order the table lists its entries. For A with 1000 vertices
and 10 calls and B with 500 vertices and 2 calls against 20 calls in total the scores are
700.00006103515625 and 550, and A is chosen in both orders of the table. -/
theorem C24_depth_source_selection :
    (∀ (total : Nat) (table : List (ID3D10DepthStencilView × DepthSourceInfo)),
      (∀ e ∈ table, e.2.DrawCallCount ≠ 0 →
        0 < e.2.DrawCallCount ∧ e.2.DrawCallCount ≤ total ∧ 0 ≤ e.2.DrawVerticesCount) →
      ∃ table1 best bestInfo,
        SelectDepthSource total table none DepthSourceInfo.zero = (table1, best, bestInfo) ∧
        table1 = table.map (fun e =>
          if e.2.DrawCallCount = 0 then e
          else (e.1, { e.2 with DrawCallCount := 0, DrawVerticesCount := 0 })) ∧
        ((∀ e ∈ table, e.2.DrawCallCount = 0) → best = none) ∧
        ((∃ e ∈ table, e.2.DrawCallCount ≠ 0) →
          ∃ e ∈ table, e.2.DrawCallCount ≠ 0 ∧ best = some e.1 ∧ bestInfo = e.2 ∧
            ∀ x ∈ table, x.2.DrawCallCount ≠ 0 →
              Float32.ge (Score total e.2) (Score total x.2) = true)) ∧
    (Score 20 (counted 10 1000) = Float32.finite (11468801 / 16384) ∧
      Score 20 (counted 2 500) = Float32.finite 550 ∧
      (SelectDepthSource 20 [(depthView 1, counted 10 1000), (depthView 2, counted 2 500)] none
          DepthSourceInfo.zero).2.1 = some (depthView 1) ∧
      (SelectDepthSource 20 [(depthView 2, counted 2 500), (depthView 1, counted 10 1000)] none
          DepthSourceInfo.zero).2.1 = some (depthView 1)) := by
  constructor
  · intro total table hyp
    refine ⟨_, _, _, rfl, SelectDepthSource_table total table none DepthSourceInfo.zero, ?_, ?_⟩
    · intro hall
      exact congrArg Prod.fst (SelectDepthSource_idle total table none DepthSourceInfo.zero hall)
    · rintro ⟨x, hx, hcount⟩
      have htotal : 1 ≤ total := by
        obtain ⟨h1, h2, -⟩ := hyp x hx hcount
        rcases Nat.eq_zero_or_pos total with h0 | hpos
        · rw [h0] at h2
          simp only [Nat.cast_zero] at h2
          exact absurd (lt_of_lt_of_le h1 h2) (lt_irrefl _)
        · exact hpos
      have hzero := Score_zero total htotal
      have hscores : ∀ e ∈ table, e.2.DrawCallCount ≠ 0 → (Score total e.2).NonNeg := by
        intro e he hc
        obtain ⟨k1, k2, k3⟩ := hyp e he hc
        exact Score_nonneg total e.2 k1 k2 k3
      obtain ⟨hmax, -, hcase⟩ :=
        SelectDepthSource_spec total table none DepthSourceInfo.zero hscores
          (by rw [hzero]; simp [Float32.NonNeg])
      rcases hcase with ⟨-, -, h3⟩ | ⟨e, he, h1, h2, h3⟩
      · exfalso
        have h4 := h3 x hx hcount
        rw [hzero, Float32.ge_zero _ (hscores x hx hcount)] at h4
        simp at h4
      · refine ⟨e, he, h1, h2, h3, ?_⟩
        rw [← h3]
        exact hmax
  · exact ⟨by decide!, by decide!, by decide!, by decide!⟩

open Example in
/-- Witness of C24: the table of A with 1000 vertices and 10 calls and B with 500 vertices and
2 calls against 20 calls in total. -/
theorem C24_depth_source_selection_witness :
    ∃ table1 best bestInfo,
      SelectDepthSource 20 [(depthView 1, counted 10 1000), (depthView 2, counted 2 500)] none
        DepthSourceInfo.zero = (table1, best, bestInfo) ∧
      ∃ e ∈ [(depthView 1, counted 10 1000), (depthView 2, counted 2 500)],
        best = some e.1 ∧ bestInfo = e.2 ∧
          ∀ x ∈ [(depthView 1, counted 10 1000), (depthView 2, counted 2 500)],
            x.2.DrawCallCount ≠ 0 → Float32.ge (Score 20 e.2) (Score 20 x.2) = true := by
  have hyp : ∀ e ∈ [(depthView 1, counted 10 1000), (depthView 2, counted 2 500)],
      e.2.DrawCallCount ≠ 0 →
        0 < e.2.DrawCallCount ∧ e.2.DrawCallCount ≤ (20 : Nat) ∧ 0 ≤ e.2.DrawVerticesCount := by
    intro e he _
    simp only [List.mem_cons, List.mem_singleton, List.not_mem_nil, or_false] at he
    rcases he with rfl | rfl <;> norm_num [counted]
  obtain ⟨table1, best, bestInfo, hsel, -, -, hsome⟩ :=
    C24_depth_source_selection.1 20 _ hyp
  obtain ⟨e, he, -, h1, h2, h3⟩ :=
    hsome ⟨(depthView 1, counted 10 1000), List.mem_cons_self _ _, by norm_num [counted]⟩
  exact ⟨table1, best, bestInfo, hsel, e, he, h1, h2, h3⟩

open Example in
set_option maxRecDepth 100000 in
/-- C25, as stated, fails: with the cool-down expired and the traffic counter at exactly 10,
`DetectDepthSource` keeps the replacement (the view 2) and scores the candidates, which resets
the counters of the view 1. -/
theorem C25_counterexample :
    ∃ r1,
      DetectDepthSource okDevice 0
        { replaced with
          cooldown := 0, traffic := 10, mLastDrawCalls := 1,
          mDepthSourceTable := [(depthView 1, counted 1 3)] } = some r1 ∧
      r1.mDepthStencilReplacement = some (depthView 2) ∧
      r1.mDepthSourceTable = [(depthView 1, counted 0 0)] ∧
      r1.traffic = 0 ∧ r1.cooldown = 30 := by
  have h : (DetectDepthSource okDevice 0
      { replaced with
        cooldown := 0, traffic := 10, mLastDrawCalls := 1,
        mDepthSourceTable := [(depthView 1, counted 1 3)] }).map (fun r1 =>
      decide (r1.mDepthStencilReplacement = some (depthView 2)) &&
        decide (r1.mDepthSourceTable = [(depthView 1, counted 0 0)]) &&
        decide (r1.traffic = 0) && decide (r1.cooldown = 30)) = some true := by decide!
  obtain ⟨r1, hr1, hvalue⟩ := Option.map_eq_some'.1 h
  simp only [Bool.and_eq_true, decide_eq_true_eq] at hvalue
  exact ⟨r1, hr1, hvalue.1.1.1, hvalue.1.1.2, hvalue.1.2, hvalue.2⟩

/-- C25 amended: when the cool-down has expired and the traffic counter is more than 10,
`DetectDepthSource` releases the depth source with its replacement, its texture and its view
(nothing is picked), clears the traffic counter, sets the cool-down to 30 and scores no
candidate; it changes nothing else but the textures of the effect, which it points at the null
view. -/
theorem C25_traffic_release (device : Device) (network : Int) (r : D3D10RuntimeState)
    (effect : Option D3D10Effect) (hcool : r.cooldown ≤ 0) (htraffic : 10 < r.traffic)
    (heffect : UpdateEffectTextures r.mEffect none = some effect) :
    DetectDepthSource device network r =
      some { r with
        cooldown := 30, traffic := 0, mDepthStencil := none, mDepthStencilReplacement := none,
        mDepthStencilTexture := none, mDepthStencilTextureSRV := none, mEffect := effect } := by
  unfold DetectDepthSource
  rw [if_neg (not_lt.2 hcool), if_pos htraffic]
  simp only [CreateDepthStencilReplacement, heffect]

open Example in
/-- Witness of C25: the runtime `replaced` with the traffic counter at 11. -/
theorem C25_traffic_release_witness :
    DetectDepthSource okDevice 0 { replaced with traffic := 11 } =
      some { replaced with
        cooldown := 30, traffic := 0, mDepthStencil := none, mDepthStencilReplacement := none,
        mDepthStencilTexture := none, mDepthStencilTextureSRV := none, mEffect := none } :=
  C25_traffic_release okDevice 0 { replaced with traffic := 11 } none (by decide) (by decide) rfl

theorem OMGet_OMSet (depthstencil : Option ID3D10DepthStencilView) (p : PipelineState) :
    (OMSetRenderTargets D3D10_SIMULTANEOUS_RENDER_TARGET_COUNT
        (OMGetRenderTargets D3D10_SIMULTANEOUS_RENDER_TARGET_COUNT p) depthstencil p).RenderTargets
      = OMGetRenderTargets D3D10_SIMULTANEOUS_RENDER_TARGET_COUNT p ∧
    OMGetRenderTargets D3D10_SIMULTANEOUS_RENDER_TARGET_COUNT
        (OMSetRenderTargets D3D10_SIMULTANEOUS_RENDER_TARGET_COUNT
          (OMGetRenderTargets D3D10_SIMULTANEOUS_RENDER_TARGET_COUNT p) depthstencil p)
      = OMGetRenderTargets D3D10_SIMULTANEOUS_RENDER_TARGET_COUNT p := by
  simp [OMSetRenderTargets, OMGetRenderTargets, D3D10_SIMULTANEOUS_RENDER_TARGET_COUNT,
    List.range, List.range.loop]

/-- What `RebindDepthStencil` does to the bindings of the device. -/
theorem RebindDepthStencil_spec (r : D3D10RuntimeState) :
    (RebindDepthStencil r).mDepthStencil = r.mDepthStencil ∧
    (RebindDepthStencil r).mDepthStencilReplacement = r.mDepthStencilReplacement ∧
    (RebindDepthStencil r).mDepthStencilTextureSRV = r.mDepthStencilTextureSRV ∧
    (RebindDepthStencil r).mEffect = r.mEffect ∧
    ((RebindDepthStencil r).pipeline = r.pipeline ∨
      Rebound r.pipeline (RebindDepthStencil r).pipeline r.mDepthStencil
        r.mDepthStencilReplacement) := by
  unfold RebindDepthStencil
  by_cases h1 : SameView r.mDepthStencil r.mDepthStencilReplacement
  · rw [if_neg (not_not.2 h1)]
    exact ⟨rfl, rfl, rfl, rfl, Or.inl rfl⟩
  · rw [if_pos h1]
    by_cases h2 : r.pipeline.DepthStencil.isSome = true ∧
        SameView r.pipeline.DepthStencil r.mDepthStencil
    · rw [if_pos h2]
      exact ⟨rfl, rfl, rfl, rfl, Or.inr ⟨h2.1, h2.2, h1, rfl⟩⟩
    · rw [if_neg h2]
      exact ⟨rfl, rfl, rfl, rfl, Or.inl rfl⟩

/-- The bindings of the device after `InstallDepthStencil`. -/
theorem InstallDepthStencil_pipeline (device : Device) (view : ID3D10DepthStencilView)
    (r r1 : D3D10RuntimeState) (b : Bool)
    (h : InstallDepthStencil device view r = some (r1, b)) :
    r1.mEffect = r.mEffect ∧
    (r1.pipeline = r.pipeline ∨
      Rebound r.pipeline r1.pipeline r1.mDepthStencil r1.mDepthStencilReplacement) := by
  unfold InstallDepthStencil at h
  split at h
  · simp at h
  · rename_i texture hres
    simp only at h
    generalize hcreated :
      (if texture.desc.BindFlags &&& D3D10_BIND_SHADER_RESOURCE = 0 then _ else _ :
        D3D10RuntimeState × HRESULT × D3D10_TEXTURE2D_DESC) = created at h
    have hp : created.1.pipeline = r.pipeline ∧ created.1.mEffect = r.mEffect := by
      rw [← hcreated]
      split_ifs <;> exact ⟨rfl, rfl⟩
    split_ifs at h with h1
    · simp only [Option.some.injEq, Prod.mk.injEq] at h
      obtain ⟨rfl, -⟩ := h
      exact ⟨hp.2, Or.inl hp.1⟩
    · split at h
      · simp at h
      · rename_i resource hresource
        split_ifs at h with h2
        · simp only [Option.some.injEq, Prod.mk.injEq] at h
          obtain ⟨rfl, -⟩ := h
          exact ⟨hp.2, Or.inl hp.1⟩
        · simp only [Option.some.injEq, Prod.mk.injEq] at h
          obtain ⟨rfl, -⟩ := h
          obtain ⟨k1, k2, -, k4, k5⟩ := RebindDepthStencil_spec
            { created.1 with
              mDepthStencilTextureSRV :=
                some { id := ObjectId.Created created.1.calls.length, resource := resource,
                       desc := { Format := DepthResourceFormat created.2.2.Format,
                                 ViewDimension := D3D10_SRV_DIMENSION_TEXTURE2D,
                                 MostDetailedMip := 0, MipLevels := 1 } },
              calls := (device.call created.1.calls
                (DeviceRequest.CreateShaderResourceView resource
                  { Format := DepthResourceFormat created.2.2.Format,
                    ViewDimension := D3D10_SRV_DIMENSION_TEXTURE2D,
                    MostDetailedMip := 0, MipLevels := 1 })).2 }
          refine ⟨by rw [k4]; exact hp.2, ?_⟩
          rcases k5 with k5 | ⟨a, b, c, d⟩
          · left
            rw [k5]
            exact hp.1
          · right
            rw [k1, k2]
            refine ⟨?_, ?_, c, ?_⟩
            · rw [← hp.1]
              exact a
            · rw [← hp.1]
              exact b
            · rw [d, ← hp.1]

/-- The bindings of the device after `CreateDepthStencilReplacement`. -/
theorem CreateDepthStencilReplacement_pipeline (device : Device)
    (depthstencil : Option ID3D10DepthStencilView) (r r1 : D3D10RuntimeState) (b : Bool)
    (h : CreateDepthStencilReplacement device depthstencil r = some (r1, b)) :
    r1.pipeline = r.pipeline ∨
      Rebound r.pipeline r1.pipeline r1.mDepthStencil r1.mDepthStencilReplacement := by
  unfold CreateDepthStencilReplacement at h
  simp only at h
  cases depthstencil with
  | none =>
    simp only at h
    split at h
    · simp at h
    · simp only [Option.some.injEq, Prod.mk.injEq] at h
      obtain ⟨rfl, -⟩ := h
      exact Or.inl rfl
  | some view =>
    simp only at h
    cases hinst : InstallDepthStencil device view
        { r with
          mDepthStencil := none, mDepthStencilReplacement := none, mDepthStencilTexture := none,
          mDepthStencilTextureSRV := none } with
    | none => simp [hinst] at h
    | some res =>
      obtain ⟨r2, b2⟩ := res
      have hpipe := (InstallDepthStencil_pipeline device view _ r2 b2 hinst).2
      rw [hinst] at h
      cases b2 with
      | false =>
        simp only [Option.some.injEq, Prod.mk.injEq] at h
        obtain ⟨rfl, -⟩ := h
        exact hpipe
      | true =>
        simp only at h
        split at h
        · simp at h
        · simp only [Option.some.injEq, Prod.mk.injEq] at h
          obtain ⟨rfl, -⟩ := h
          exact hpipe

/-- The bindings of the device after `DetectDepthSource`: they are unchanged, or the
replacement is bound in the place of the depth source. -/
theorem DetectDepthSource_pipeline (device : Device) (network : Int)
    (r r1 : D3D10RuntimeState) (h : DetectDepthSource device network r = some r1) :
    (r1.pipeline = r.pipeline ∨
      Rebound r.pipeline r1.pipeline r1.mDepthStencil r1.mDepthStencilReplacement) ∧
    (0 < r.cooldown → r1.pipeline = r.pipeline) := by
  unfold DetectDepthSource at h
  by_cases h1 : 0 < r.cooldown
  · rw [if_pos h1] at h
    simp only [Option.some.injEq] at h
    subst h
    exact ⟨Or.inl rfl, fun _ => rfl⟩
  · rw [if_neg h1] at h
    refine ⟨?_, fun hc => absurd hc h1⟩
    by_cases h2 : r.traffic > 10
    · rw [if_pos h2] at h
      split at h
      · simp at h
      · rename_i r2 b hcreate
        simp only [Option.some.injEq] at h
        subst h
        have hpipe := CreateDepthStencilReplacement_pipeline device none _ _ b hcreate
        exact hpipe
    · rw [if_neg h2] at h
      simp only at h
      split at h
      · simp only [Option.some.injEq] at h
        subst h
        exact Or.inl rfl
      · split at h
        · split at h
          · simp at h
          · rename_i r3 b hcreate
            simp only [Option.some.injEq] at h
            subst h
            have hpipe := CreateDepthStencilReplacement_pipeline device _ _ _ b hcreate
            exact hpipe
        · simp only [Option.some.injEq] at h
          subst h
          exact Or.inl rfl

/-- The method `InstallDepthStencil` returns on a view of a 2D texture. -/
theorem InstallDepthStencil_defined (device : Device) (view : ID3D10DepthStencilView)
    (r : D3D10RuntimeState) (texture : ID3D10Texture2D)
    (hres : view.resource = ID3D10Resource.Texture2D texture) :
    ∃ r1 b, InstallDepthStencil device view r = some (r1, b) := by
  unfold InstallDepthStencil
  rw [hres]
  simp only
  by_cases hbind : texture.desc.BindFlags &&& D3D10_BIND_SHADER_RESOURCE = 0
  · simp only [if_pos hbind]
    by_cases hok : SUCCEEDED (device.call r.calls (DeviceRequest.CreateTexture2D
        { texture.desc with
          Format := DepthTypelessFormat texture.desc.Format,
          BindFlags := D3D10_BIND_DEPTH_STENCIL ||| D3D10_BIND_SHADER_RESOURCE })).1.hr = true
    · simp only [if_pos hok]
      split_ifs
      all_goals exact ⟨_, _, rfl⟩
    · simp only [if_neg hok]
      have hfailed : FAILED (device.call r.calls (DeviceRequest.CreateTexture2D
          { texture.desc with
            Format := DepthTypelessFormat texture.desc.Format,
            BindFlags := D3D10_BIND_DEPTH_STENCIL ||| D3D10_BIND_SHADER_RESOURCE })).1.hr =
          true := by
        simp only [SUCCEEDED, FAILED, decide_eq_true_eq, not_le] at hok ⊢
        exact hok
      rw [if_pos hfailed]
      exact ⟨_, _, rfl⟩
  · simp only [if_neg hbind]
    split_ifs
    all_goals exact ⟨_, _, rfl⟩

/-- The method `CreateDepthStencilReplacement` returns when the view it is given is a view of
a 2D texture and the registers of the depth textures of the effect lie inside the views of
its passes. -/
theorem CreateDepthStencilReplacement_defined (device : Device)
    (depthstencil : Option ID3D10DepthStencilView) (r : D3D10RuntimeState)
    (hres : ∀ view, depthstencil = some view →
      ∃ texture, view.resource = ID3D10Resource.Texture2D texture)
    (heffect : ∀ srv, (UpdateEffectTextures r.mEffect srv).isSome = true) :
    ∃ result, CreateDepthStencilReplacement device depthstencil r = some result := by
  unfold CreateDepthStencilReplacement
  simp only
  cases depthstencil with
  | none =>
    simp only
    obtain ⟨effect, he⟩ := Option.isSome_iff_exists.1 (heffect none)
    rw [he]
    exact ⟨_, rfl⟩
  | some view =>
    simp only
    obtain ⟨texture, ht⟩ := hres view rfl
    obtain ⟨r1, b, hinst⟩ := InstallDepthStencil_defined device view
      { r with
        mDepthStencil := none, mDepthStencilReplacement := none, mDepthStencilTexture := none,
        mDepthStencilTextureSRV := none } texture ht
    have hsame := (InstallDepthStencil_pipeline device view _ r1 b hinst).1
    rw [hinst]
    cases b with
    | false => exact ⟨_, rfl⟩
    | true =>
      simp only
      obtain ⟨effect, he⟩ := Option.isSome_iff_exists.1 (heffect r1.mDepthStencilTextureSRV)
      rw [hsame]
      simp only at he ⊢
      rw [he]
      exact ⟨_, rfl⟩

/-- The method `DetectDepthSource` returns when every candidate of the table is a view of a 2D
texture and the registers of the depth textures of the effect lie inside the views of its
passes, whatever the number of draw calls. -/
theorem DetectDepthSource_defined (device : Device) (network : Int) (r : D3D10RuntimeState)
    (htable : ∀ e ∈ r.mDepthSourceTable,
      ∃ texture, e.1.resource = ID3D10Resource.Texture2D texture)
    (heffect : ∀ srv, (UpdateEffectTextures r.mEffect srv).isSome = true) :
    ∃ r1, DetectDepthSource device network r = some r1 := by
  unfold DetectDepthSource
  by_cases h1 : 0 < r.cooldown
  · rw [if_pos h1]
    exact ⟨_, rfl⟩
  · rw [if_neg h1]
    by_cases h2 : r.traffic > 10
    · rw [if_pos h2]
      obtain ⟨result, hresult⟩ := CreateDepthStencilReplacement_defined device none
        { r with cooldown := 30, traffic := 0 } (fun _ h => by simp at h) heffect
      rw [hresult]
      exact ⟨_, rfl⟩
    · rw [if_neg h2]
      simp only
      split_ifs with h3 h4
      · exact ⟨_, rfl⟩
      · have hbest : ∀ view,
            (SelectDepthSource r.mLastDrawCalls r.mDepthSourceTable none
              DepthSourceInfo.zero).2.1 = some view →
            ∃ texture, view.resource = ID3D10Resource.Texture2D texture := by
          intro view hview
          rcases SelectDepthSource_best r.mLastDrawCalls r.mDepthSourceTable none
              DepthSourceInfo.zero with h | ⟨e, he, h⟩
          · rw [h] at hview
            simp at hview
          · rw [h] at hview
            simp only [Option.some.injEq] at hview
            rw [← hview]
            exact htable e he
        obtain ⟨result, hresult⟩ := CreateDepthStencilReplacement_defined device
          (SelectDepthSource r.mLastDrawCalls r.mDepthSourceTable none DepthSourceInfo.zero).2.1
          { r with
            cooldown := 30, traffic := 0,
            mDepthSourceTable :=
              (SelectDepthSource r.mLastDrawCalls r.mDepthSourceTable none
                DepthSourceInfo.zero).1 } hbest heffect
        rw [hresult]
        exact ⟨_, rfl⟩
      · exact ⟨_, rfl⟩

open Example in
set_option maxRecDepth 100000 in
/-- C28, as stated, fails: the runtime `drawn` is not lost and has the view 1 of the host bound
as depth-stencil; the present makes the view 1 the depth source, and when `OnPresentInternal`
returns, the runtime is not lost and the replacement created by the second call on the device
is bound in the place of the view 1. -/
theorem C28_counterexample :
    drawn.mLost = false ∧
    ∃ r2, OnPresentInternal quietBase okDevice 0 drawn = some r2 ∧ r2.mLost = false ∧
      r2.pipeline.DepthStencil.map (fun v => v.id) = some (ObjectId.Created 1) ∧
      drawn.pipeline.DepthStencil.map (fun v => v.id) = some (ObjectId.Host 101) ∧
      r2.pipeline.DepthStencil ≠ drawn.pipeline.DepthStencil := by
  have h : (OnPresentInternal quietBase okDevice 0 drawn).map
      (fun r => (r.mLost, r.pipeline.DepthStencil.map (fun v => v.id))) =
      some (false, some (ObjectId.Created 1)) := by decide!
  obtain ⟨r2, hr2, hpair⟩ := Option.map_eq_some'.1 h
  simp only [Prod.mk.injEq] at hpair
  refine ⟨rfl, r2, hr2, hpair.1, hpair.2, rfl, ?_⟩
  intro heq
  have := hpair.2
  rw [heq] at this
  revert this
  decide

/-- The method `OnPresentInternal` returns when every candidate of the table is a view of a 2D
texture and the registers of the depth textures of the effect lie inside the views of its
passes, whatever the number of draw calls. -/
theorem OnPresentInternal_defined (base : RuntimeBase) (device : Device) (network : Int)
    (r : D3D10RuntimeState)
    (htable : ∀ e ∈ r.mDepthSourceTable,
      ∃ texture, e.1.resource = ID3D10Resource.Texture2D texture)
    (heffect : ∀ srv, (UpdateEffectTextures r.mEffect srv).isSome = true) :
    ∃ r2, OnPresentInternal base device network r = some r2 := by
  unfold OnPresentInternal
  split_ifs
  · exact ⟨_, rfl⟩
  · obtain ⟨r1, hr1⟩ := DetectDepthSource_defined device network r htable heffect
    rw [hr1]
    simp only
    split_ifs
    · exact ⟨_, rfl⟩
    · exact ⟨_, rfl⟩

/-- C28 amended: for every present that the runtime enters not lost, `OnPresentInternal`
returns when every candidate of the table is a view of a 2D texture and the registers of the
depth textures of the effect lie inside the views of its passes, whatever the number of draw
calls; and when it returns with the runtime still not lost, the eight render-target views
bound to the device are the ones bound when it was entered, and so is the depth-stencil view,
unless `DetectDepthSource` has, in this present, bound the replacement in the place of the
depth source (lines 2726 to 2747): then the replacement is bound. In a present in which the
cool-down has not expired the depth-stencil view is the one bound before. -/
theorem C28_present_restores (base : RuntimeBase) (device : Device) (network : Int)
    (r : D3D10RuntimeState) (hlost : r.mLost = false) :
    ((∀ e ∈ r.mDepthSourceTable,
        ∃ texture, e.1.resource = ID3D10Resource.Texture2D texture) →
      (∀ srv, (UpdateEffectTextures r.mEffect srv).isSome = true) →
      ∃ r2, OnPresentInternal base device network r = some r2) ∧
    ∀ r2 : D3D10RuntimeState,
      OnPresentInternal base device network r = some r2 → r2.mLost = false →
      r2.pipeline.RenderTargets =
        OMGetRenderTargets D3D10_SIMULTANEOUS_RENDER_TARGET_COUNT r.pipeline ∧
      (r2.pipeline.DepthStencil = r.pipeline.DepthStencil ∨
        ∃ r1, DetectDepthSource device network r = some r1 ∧
          Rebound r.pipeline r1.pipeline r1.mDepthStencil r1.mDepthStencilReplacement ∧
          r2.pipeline.DepthStencil = r1.mDepthStencilReplacement) ∧
      (0 < r.cooldown → r2.pipeline.DepthStencil = r.pipeline.DepthStencil) := by
  refine ⟨OnPresentInternal_defined base device network r, ?_⟩
  intro r2 h hstill
  unfold OnPresentInternal at h
  rw [if_neg (by simp [hlost])] at h
  split at h
  · simp at h
  · rename_i r1 hdetect
    simp only at h
    split at h
    · rename_i hlost5
      simp only [Option.some.injEq] at h
      subst h
      rw [hlost5] at hstill
      simp at hstill
    · simp only [Option.some.injEq] at h
      subst h
      obtain ⟨hpipe, hcool⟩ := DetectDepthSource_pipeline device network r r1 hdetect
      have htargets := (OMGet_OMSet r1.pipeline.DepthStencil r1.pipeline).1
      rcases hpipe with hpipe | hrebound
      · refine ⟨?_, Or.inl ?_, fun _ => ?_⟩
        · rw [← hpipe]
          exact htargets
        · rw [← hpipe]
          rfl
        · rw [← hpipe]
          rfl
      · refine ⟨?_, Or.inr ⟨r1, hdetect, hrebound, ?_⟩, fun hc => ?_⟩
        · refine htargets.trans ?_
          rw [hrebound.2.2.2]
          exact (OMGet_OMSet r1.mDepthStencilReplacement r.pipeline).2
        · show r1.pipeline.DepthStencil = _
          rw [hrebound.2.2.2]
          rfl
        · show r1.pipeline.DepthStencil = _
          rw [hcool hc]

open Example in
set_option maxRecDepth 100000 in
/-- Witness of C28: the present of the runtime `drawn`, and of the same runtime with no draw
call counted in total, with a base class that changes nothing. In the second present the
quotient of line 2490 has the divisor zero, no candidate is chosen, the counters of the
candidate are reset and the depth-stencil view bound before is bound again. -/
theorem C28_present_restores_witness :
    (∃ r2, OnPresentInternal quietBase okDevice 0 drawn = some r2 ∧
      r2.pipeline.RenderTargets =
        OMGetRenderTargets D3D10_SIMULTANEOUS_RENDER_TARGET_COUNT drawn.pipeline ∧
      (r2.pipeline.DepthStencil = drawn.pipeline.DepthStencil ∨
        ∃ r1, DetectDepthSource okDevice 0 drawn = some r1 ∧
          Rebound drawn.pipeline r1.pipeline r1.mDepthStencil r1.mDepthStencilReplacement ∧
          r2.pipeline.DepthStencil = r1.mDepthStencilReplacement)) ∧
    (∃ r2, OnPresentInternal quietBase okDevice 0 { drawn with mLastDrawCalls := 0 } = some r2 ∧
      r2.mDepthStencil = none ∧ r2.mDepthSourceTable = [(depthView 1, counted 0 0)] ∧
      r2.pipeline.RenderTargets =
        OMGetRenderTargets D3D10_SIMULTANEOUS_RENDER_TARGET_COUNT drawn.pipeline ∧
      r2.pipeline.DepthStencil = drawn.pipeline.DepthStencil) := by
  have htable : ∀ e ∈ drawn.mDepthSourceTable,
      ∃ texture, e.1.resource = ID3D10Resource.Texture2D texture := by
    intro e he
    simp only [drawn, List.mem_singleton] at he
    subst he
    exact ⟨depthTexture 1, rfl⟩
  constructor
  · obtain ⟨r2, hr2⟩ :=
      (C28_present_restores quietBase okDevice 0 drawn rfl).1 htable (fun _ => rfl)
    have h : (OnPresentInternal quietBase okDevice 0 drawn).map (fun r => r.mLost) =
        some false := by decide!
    rw [hr2] at h
    simp only [Option.map_some', Option.some.injEq] at h
    obtain ⟨k1, k2, -⟩ := (C28_present_restores quietBase okDevice 0 drawn rfl).2 r2 hr2 h
    exact ⟨r2, hr2, k1, k2⟩
  · have h : (OnPresentInternal quietBase okDevice 0 { drawn with mLastDrawCalls := 0 }).map
        (fun r =>
          decide (r.mLost = false) && decide (r.mDepthStencil = none) &&
            decide (r.mDepthSourceTable = [(depthView 1, counted 0 0)]) &&
            decide (r.pipeline.RenderTargets =
              OMGetRenderTargets D3D10_SIMULTANEOUS_RENDER_TARGET_COUNT drawn.pipeline) &&
            decide (r.pipeline.DepthStencil = drawn.pipeline.DepthStencil)) = some true := by
      decide!
    obtain ⟨r2, hr2, hvalue⟩ := Option.map_eq_some'.1 h
    simp only [Bool.and_eq_true, decide_eq_true_eq] at hvalue
    exact ⟨r2, hr2, hvalue.1.1.1.2, hvalue.1.1.2, hvalue.1.2, hvalue.2⟩

/-- What the loop over the constant buffers leaves: as many slots as before, the null slots
null, and for every buffer a call `Map` in the history of the device; the buffer is unchanged
when this call failed and holds the first `ByteWidth` bytes of its mirror otherwise. -/
theorem UploadConstants_spec (device : Device) :
    ∀ (buffers : List (Option ID3D10Buffer)) (storages : List Storage)
      (calls : List DeviceCall) (buffers1 : List (Option ID3D10Buffer))
      (calls1 : List DeviceCall),
      UploadConstants device buffers storages calls = some (buffers1, calls1) →
      buffers1.length = buffers.length ∧
      (∃ added, calls1 = calls ++ added) ∧
      ∀ i : Nat,
        (buffers[i]? = some none → buffers1[i]? = some none) ∧
        ∀ b : ID3D10Buffer, buffers[i]? = some (some b) →
          ∃ e ∈ calls1, e.request = DeviceRequest.Map b ∧
            (FAILED e.response.hr = true → buffers1[i]? = some (some b)) ∧
            (FAILED e.response.hr = false →
              ∃ mirror bytes, storages[i]? = some (some mirror) ∧
                ReadBytes mirror 0 b.desc.ByteWidth = some bytes ∧
                buffers1[i]? = some (some { b with content := bytes }))
  | [], storages, calls, buffers1, calls1, h => by
      rw [UploadConstants] at h
      simp only [Option.some.injEq, Prod.mk.injEq] at h
      obtain ⟨rfl, rfl⟩ := h
      exact ⟨rfl, ⟨[], by simp⟩, fun i => ⟨by simp, by simp⟩⟩
  | _ :: _, [], calls, buffers1, calls1, h => by
      rw [UploadConstants] at h
      simp at h
  | none :: buffers, storage :: storages, calls, buffers1, calls1, h => by
      rw [UploadConstants] at h
      split at h
      · simp at h
      · rename_i rest calls2 hrest
        simp only [Option.some.injEq, Prod.mk.injEq] at h
        obtain ⟨rfl, rfl⟩ := h
        obtain ⟨hlen, hcalls, hall⟩ :=
          UploadConstants_spec device buffers storages calls rest calls2 hrest
        refine ⟨by simp [hlen], hcalls, ?_⟩
        intro i
        cases i with
        | zero => exact ⟨fun _ => by simp, by simp⟩
        | succ j =>
          simp only [List.getElem?_cons_succ]
          exact hall j
  | some buffer :: buffers, storage :: storages, calls, buffers1, calls1, h => by
      unfold UploadConstants at h
      simp only at h
      have hmem : ∀ (later : List DeviceCall),
          (∃ added, later = (device.call calls (DeviceRequest.Map buffer)).2 ++ added) →
          ({ request := DeviceRequest.Map buffer,
             response := device.respond calls (DeviceRequest.Map buffer) } : DeviceCall)
            ∈ later := by
        rintro later ⟨added, rfl⟩
        simp [Device.call]
      have hext : ∀ (later : List DeviceCall),
          (∃ added, later = (device.call calls (DeviceRequest.Map buffer)).2 ++ added) →
          ∃ added, later = calls ++ added := by
        rintro later ⟨added, rfl⟩
        exact ⟨{ request := DeviceRequest.Map buffer,
                 response := device.respond calls (DeviceRequest.Map buffer) } :: added,
          by simp [Device.call]⟩
      split_ifs at h with hfail
      · split at h
        · simp at h
        · rename_i rest calls2 hrest
          simp only [Option.some.injEq, Prod.mk.injEq] at h
          obtain ⟨rfl, rfl⟩ := h
          obtain ⟨hlen, hcalls, hall⟩ :=
            UploadConstants_spec device buffers storages _ rest calls2 hrest
          refine ⟨by simp [hlen], hext _ hcalls, ?_⟩
          intro i
          cases i with
          | zero =>
            refine ⟨by simp, ?_⟩
            intro b hb
            simp only [List.getElem?_cons_zero, Option.some.injEq] at hb
            subst hb
            refine ⟨_, hmem _ hcalls, rfl, fun _ => by simp, ?_⟩
            intro hok
            simp only [Device.call] at hfail
            rw [hfail] at hok
            simp at hok
          | succ j =>
            simp only [List.getElem?_cons_succ]
            exact hall j
      · split at h
        · simp at h
        · rename_i mirror
          split at h
          · simp at h
          · rename_i bytes hbytes
            split at h
            · simp at h
            · rename_i rest calls2 hrest
              simp only [Option.some.injEq, Prod.mk.injEq] at h
              obtain ⟨rfl, rfl⟩ := h
              obtain ⟨hlen, hcalls, hall⟩ :=
                UploadConstants_spec device buffers storages _ rest calls2 hrest
              refine ⟨by simp [hlen], hext _ hcalls, ?_⟩
              intro i
              cases i with
              | zero =>
                refine ⟨by simp, ?_⟩
                intro b hb
                simp only [List.getElem?_cons_zero, Option.some.injEq] at hb
                subst hb
                refine ⟨_, hmem _ hcalls, rfl, ?_,
                  fun _ => ⟨mirror, bytes, by simp, hbytes, by simp⟩⟩
                intro hf
                simp only [Device.call] at hfail
                exact absurd hf hfail
              | succ j =>
                simp only [List.getElem?_cons_succ]
                exact hall j

/-- Every constant buffer has a mirror of at least its byte width: the loop over the constant
buffers returns. -/
theorem UploadConstants_defined (device : Device) :
    ∀ (buffers : List (Option ID3D10Buffer)) (storages : List Storage)
      (calls : List DeviceCall),
      buffers.length ≤ storages.length →
      (∀ (i : Nat) (b : ID3D10Buffer), buffers[i]? = some (some b) →
        ∃ mirror, storages[i]? = some (some mirror) ∧ b.desc.ByteWidth ≤ mirror.length) →
      (UploadConstants device buffers storages calls).isSome = true
  | [], storages, calls, _, _ => by
      rw [UploadConstants]
      rfl
  | _ :: _, [], calls, hlen, _ => by
      simp at hlen
  | none :: buffers, storage :: storages, calls, hlen, hall => by
      rw [UploadConstants]
      have ih := UploadConstants_defined device buffers storages calls
        (by simpa using hlen) (fun i b hb => by simpa using hall (i + 1) b (by simpa using hb))
      obtain ⟨res, hres⟩ := Option.isSome_iff_exists.1 ih
      rw [hres]
      rfl
  | some buffer :: buffers, storage :: storages, calls, hlen, hall => by
      unfold UploadConstants
      simp only
      have ih := fun calls2 => UploadConstants_defined device buffers storages calls2
        (by simpa using hlen) (fun i b hb => by simpa using hall (i + 1) b (by simpa using hb))
      obtain ⟨mirror, hmirror, hwidth⟩ := hall 0 buffer (by simp)
      simp only [List.getElem?_cons_zero, Option.some.injEq] at hmirror
      subst hmirror
      split_ifs
      · obtain ⟨res, hres⟩ := Option.isSome_iff_exists.1 (ih _)
        rw [hres]
        rfl
      · simp only
        have hread : ReadBytes mirror 0 buffer.desc.ByteWidth =
            some ((mirror.drop 0).take buffer.desc.ByteWidth) := by
          unfold ReadBytes
          rw [if_pos (by omega)]
        rw [hread]
        simp only
        obtain ⟨res, hres⟩ := Option.isSome_iff_exists.1 (ih _)
        rw [hres]
        rfl

open Example in
set_option maxRecDepth 100000 in
/-- C29: `RenderPass` uploads the mirrors of the uniforms exactly when the dirty flag is set.
Whenever it returns, the dirty flag is clear and the mirrors are unchanged. With the flag clear
on entry, the effect and the history of the device are unchanged. With the flag set on entry,
every null slot stays null and every constant buffer is mapped: it is unchanged when the call
`Map` failed, and holds the first `ByteWidth` bytes of the mirror of its slot otherwise.
`RenderPass` returns when the pass exists, its table of views has at most 128 slots and every
constant buffer has a mirror of at least its byte width. For `uniform float gain;` compiled on
a device that succeeds and set to the four bytes of 0.5, the dirty flag is set, and after
`RenderPass` the first four bytes of the constant buffer of slot 0 are these bytes and the
dirty flag is clear. -/
theorem C29_render_pass_upload :
    (∀ (device : Device) (r : D3D10RuntimeState) (effect effect1 : D3D10Effect)
        (technique : D3D10Technique) (index : Nat) (calls1 : List DeviceCall)
        (commands : List Command),
      RenderPass device r effect technique index = some (effect1, calls1, commands) →
      effect1.mConstantsDirty = false ∧
      effect1.mConstantStorages = effect.mConstantStorages ∧
      (effect.mConstantsDirty = false → effect1 = effect ∧ calls1 = r.calls) ∧
      (effect.mConstantsDirty = true →
        effect1.mConstantBuffers.length = effect.mConstantBuffers.length ∧
        ∀ i : Nat,
          (effect.mConstantBuffers[i]? = some none → effect1.mConstantBuffers[i]? = some none) ∧
          ∀ b : ID3D10Buffer, effect.mConstantBuffers[i]? = some (some b) →
            ∃ e ∈ calls1, e.request = DeviceRequest.Map b ∧
              (FAILED e.response.hr = true → effect1.mConstantBuffers[i]? = some (some b)) ∧
              (FAILED e.response.hr = false →
                ∃ mirror bytes, effect.mConstantStorages[i]? = some (some mirror) ∧
                  ReadBytes mirror 0 b.desc.ByteWidth = some bytes ∧
                  effect1.mConstantBuffers[i]? = some (some { b with content := bytes })))) ∧
    (∀ (device : Device) (r : D3D10RuntimeState) (effect : D3D10Effect)
        (technique : D3D10Technique) (index : Nat),
      index < technique.mPasses.length →
      (∀ pass ∈ technique.mPasses,
        pass.SRV.length ≤ D3D10_COMMONSHADER_INPUT_RESOURCE_SLOT_COUNT) →
      effect.mConstantBuffers.length ≤ effect.mConstantStorages.length →
      (∀ (i : Nat) (b : ID3D10Buffer), effect.mConstantBuffers[i]? = some (some b) →
        ∃ mirror, effect.mConstantStorages[i]? = some (some mirror) ∧
          b.desc.ByteWidth ≤ mirror.length) →
      (RenderPass device r effect technique index).isSome = true) ∧
    ((CompileEffect (env okDevice) [] uniformTree "").bind (fun compiled =>
      compiled.1.bind (fun effect =>
        (List.lookup "gain" effect.mConstants).bind (fun gain =>
          (SetValue effect gain half 4).bind (fun effect2 =>
            effect2.mTechniques.head?.bind (fun technique =>
              (RenderPass okDevice { idle with calls := compiled.2.2 } effect2
                  technique.2 0).map (fun result =>
                (effect2.mConstantsDirty, result.1.mConstantsDirty,
                  result.1.mConstantBuffers.head?.join.map (fun buffer =>
                    buffer.content.take 4)))))))) =
      some (true, false, some half)) := by
  refine ⟨?_, ?_, by decide!⟩
  · intro device r effect effect1 technique index calls1 commands h
    unfold RenderPass at h
    split at h
    · simp at h
    · rename_i pass hpass
      split at h
      · simp at h
      · rename_i effect2 calls2 hupdate
        split_ifs at h
        simp only [Option.some.injEq, Prod.mk.injEq] at h
        obtain ⟨rfl, rfl, -⟩ := h
        unfold UpdateShaderConstants at hupdate
        by_cases hdirty : effect.mConstantsDirty = true
        · rw [if_pos hdirty] at hupdate
          split at hupdate
          · simp at hupdate
          · rename_i buffers calls3 hupload
            simp only [Option.some.injEq, Prod.mk.injEq] at hupdate
            obtain ⟨rfl, rfl⟩ := hupdate
            obtain ⟨hlen, -, hall⟩ := UploadConstants_spec device _ _ _ _ _ hupload
            refine ⟨rfl, rfl, ?_, fun _ => ⟨hlen, hall⟩⟩
            intro hclear
            rw [hclear] at hdirty
            simp at hdirty
        · rw [if_neg hdirty] at hupdate
          simp only [Option.some.injEq, Prod.mk.injEq] at hupdate
          obtain ⟨rfl, rfl⟩ := hupdate
          exact ⟨by simpa using hdirty, rfl, fun _ => ⟨rfl, rfl⟩, fun h1 => absurd h1 hdirty⟩
  · intro device r effect technique index hindex hslots hlen hcover
    unfold RenderPass
    have hpass : technique.mPasses[index]? = some (technique.mPasses.get ⟨index, hindex⟩) := by
      simp [List.getElem?_eq_getElem hindex]
    rw [hpass]
    simp only
    have hup : (UpdateShaderConstants device effect r.calls).isSome = true := by
      unfold UpdateShaderConstants
      split_ifs
      · obtain ⟨res, hres⟩ := Option.isSome_iff_exists.1
          (UploadConstants_defined device _ _ r.calls hlen hcover)
        rw [hres]
        rfl
      · rfl
    obtain ⟨res, hres⟩ := Option.isSome_iff_exists.1 hup
    rw [hres]
    simp only
    rw [if_neg (not_lt.2 (hslots _ (List.get_mem _ _ _)))]
    rfl

open Example in
set_option maxRecDepth 100000 in
/-- Witness of C29: the effect of `uniform float gain;` compiled on a device that succeeds,
rendered with the dirty flag set. -/
theorem C29_render_pass_upload_witness :
    ∃ effect technique result,
      (CompileEffect (env okDevice) [] uniformTree "").map (fun compiled => compiled.1) =
        some (some effect) ∧
      effect.mTechniques.head? = some technique ∧
      RenderPass okDevice idle effect technique.2 0 = some result ∧
      effect.mConstantsDirty = true ∧ result.1.mConstantsDirty = false ∧
      result.1.mConstantBuffers.length = effect.mConstantBuffers.length := by
  have h : ((CompileEffect (env okDevice) [] uniformTree "").bind (fun compiled =>
      compiled.1.bind (fun effect =>
        effect.mTechniques.head?.bind (fun technique =>
          (RenderPass okDevice idle effect technique.2 0).map (fun _ =>
            effect.mConstantsDirty))))) = some true := by decide!
  obtain ⟨compiled, hc, h1⟩ := Option.bind_eq_some.1 h
  obtain ⟨effect, he, h2⟩ := Option.bind_eq_some.1 h1
  obtain ⟨technique, ht, h3⟩ := Option.bind_eq_some.1 h2
  obtain ⟨result, hr, hdirty⟩ := Option.map_eq_some'.1 h3
  obtain ⟨effect1, calls1, commands⟩ := result
  obtain ⟨k1, -, -, k4⟩ :=
    C29_render_pass_upload.1 okDevice idle effect effect1 technique.2 0 calls1 commands hr
  exact ⟨effect, technique, (effect1, calls1, commands), by rw [hc]; simp [he], ht, hr, hdirty,
    k1, (k4 hdirty).1⟩

/-! ## The render targets and the viewport of a pass -/

theorem VisitShader_targets (env : Env) (c c1 : D3D10EffectCompiler) (node : FX.Function)
    (shadertype : String) (pass pass1 : Pass)
    (h : VisitShader env c node shadertype pass = some (c1, pass1)) :
    pass1.RT = pass.RT ∧ pass1.Viewport = pass.Viewport := by
  unfold VisitShader at h
  simp only at h
  generalize (if env.mRuntime.mSkipShaderOptimization = true then
    D3DCOMPILE_ENABLE_STRICTNESS ||| D3DCOMPILE_SKIP_OPTIMIZATION
    else D3DCOMPILE_ENABLE_STRICTNESS) = flags at h
  split_ifs at h with h1
  · simp only [Option.some.injEq, Prod.mk.injEq] at h
    rw [← h.2]
    exact ⟨rfl, rfl⟩
  all_goals
    split at h
    · simp at h
    · first
      | (split_ifs at h <;> simp only [Option.some.injEq, Prod.mk.injEq] at h <;> rw [← h.2] <;>
          exact ⟨rfl, rfl⟩)
      | (simp only [Option.some.injEq, Prod.mk.injEq] at h
         rw [← h.2]
         exact ⟨rfl, rfl⟩)

theorem VisitPassShaders_targets (env : Env) (node : FX.Pass) (c c1 : D3D10EffectCompiler)
    (pass pass1 : Pass) (h : VisitPassShaders env node c pass = some (c1, pass1)) :
    pass1.RT = pass.RT ∧ pass1.Viewport = pass.Viewport := by
  unfold VisitPassShaders at h
  simp only at h
  split at h
  · simp at h
  · rename_i c2 pass2 hvs
    have h1 : pass2.RT = pass.RT ∧ pass2.Viewport = pass.Viewport := by
      split at hvs
      · exact VisitShader_targets _ _ _ _ _ _ _ hvs
      · simp only [Option.some.injEq, Prod.mk.injEq] at hvs
        rw [← hvs.2]
        exact ⟨rfl, rfl⟩
    have h2 : pass1.RT = pass2.RT ∧ pass1.Viewport = pass2.Viewport := by
      split at h
      · exact VisitShader_targets _ _ _ _ _ _ _ h
      · simp only [Option.some.injEq, Prod.mk.injEq] at h
        rw [← h.2]
        exact ⟨rfl, rfl⟩
    exact ⟨h2.1.trans h1.1, h2.2.trans h1.2⟩

/-- An iteration of the loop over the render targets at an index other than 0 leaves the
target 0 of the pass. -/
theorem VisitPassTarget_first (env : Env) (node : FX.Pass) (c c1 : D3D10EffectCompiler)
    (pass pass1 : Pass) (i : Nat) (name : String) (hi : i ≠ 0)
    (h : VisitPassTarget env node c pass i name = some (c1, TargetsResult.Done pass1)) :
    pass1.RT.getD 0 none = pass.RT.getD 0 none := by
  unfold VisitPassTarget at h
  simp only at h
  split at h
  · simp at h
  · split at h
    · simp at h
    · split_ifs at h
      all_goals
        simp only [Option.some.injEq, Prod.mk.injEq] at h
        obtain ⟨-, h2⟩ := h
        cases h2 <;> simp [List.getD_eq_getElem?_getD, List.getElem?_set_ne hi]

/-- The loop over the render targets leaves the target 0 of the pass when no render target 0
is declared. -/
theorem VisitPassTargets_first (env : Env) (node : FX.Pass)
    (hfirst : node.States.RenderTargets.getD 0 none = none) :
    ∀ (indices : List Nat) (c c1 : D3D10EffectCompiler) (pass pass1 : Pass),
      VisitPassTargets env node c pass indices = some (c1, TargetsResult.Done pass1) →
      pass1.RT.getD 0 none = pass.RT.getD 0 none
  | [], c, c1, pass, pass1, h => by
      unfold VisitPassTargets at h
      simp only [Option.some.injEq, Prod.mk.injEq, TargetsResult.Done.injEq] at h
      rw [h.2]
  | i :: rest, c, c1, pass, pass1, h => by
      unfold VisitPassTargets at h
      split at h
      · exact VisitPassTargets_first env node hfirst rest c c1 pass pass1 h
      · rename_i name hname
        have hi : i ≠ 0 := by
          rintro rfl
          rw [hfirst] at hname
          simp at hname
        split at h
        · simp at h
        · simp at h
        · rename_i c2 pass2 htarget
          rw [VisitPassTargets_first env node hfirst rest c2 c1 pass2 pass1 h]
          exact VisitPassTarget_first env node c c2 pass pass2 i name hi htarget

/-- The loop over the render targets does nothing when no render target is declared. -/
theorem VisitPassTargets_undeclared (env : Env) (node : FX.Pass)
    (hnone : ∀ i : Nat, node.States.RenderTargets.getD i none = none) :
    ∀ (indices : List Nat) (c : D3D10EffectCompiler) (pass : Pass),
      VisitPassTargets env node c pass indices = some (c, TargetsResult.Done pass)
  | [], c, pass => by
      unfold VisitPassTargets
      rfl
  | i :: rest, c, pass => by
      unfold VisitPassTargets
      rw [hnone i]
      exact VisitPassTargets_undeclared env node hnone rest c pass

/-- The pass that lines 1961 to 2033 of `Visit(Pass)` append has the render targets and the
viewport of the pass built before. -/
theorem VisitPassStates_targets (env : Env) (node : FX.Pass) (c : D3D10EffectCompiler)
    (pass0 : Pass) (passes : List Pass) :
    ∃ p, (VisitPassStates env node c pass0 passes).2 = passes ++ [p] ∧ p.RT = pass0.RT ∧
      p.Viewport = pass0.Viewport := by
  unfold VisitPassStates
  simp only
  refine ⟨_, rfl, ?_, ?_⟩
  all_goals
    split_ifs <;> rfl

/-- A run of `Visit(Pass)` either returns from the loop over the render targets with no pass
appended, or appends a pass whose render targets and viewport are those at the end of the
loop. -/
theorem VisitPass_targets (env : Env) (node : FX.Pass) (c c1 : D3D10EffectCompiler)
    (passes passes1 : List Pass) (h : VisitPass env c node passes = some (c1, passes1)) :
    passes1 = passes ∨
      ∃ (c2 c3 : D3D10EffectCompiler) (pass1 pass3 p : Pass),
        pass1.RT = List.replicate 8 none ∧ pass1.Viewport.Width = 0 ∧
        pass1.Viewport.Height = 0 ∧
        VisitPassTargets env node c2
          { pass1 with
            RT := pass1.RT.set 0
              (At2 env.mRuntime.mBackBufferTargets (if node.States.SRGBWriteEnable then 1 else 0)),
            RTSRV := pass1.RTSRV.set 0
              (At2 env.mRuntime.mBackBufferTextureSRV
                (if node.States.SRGBWriteEnable then 1 else 0)) }
          (List.range 8) = some (c3, TargetsResult.Done pass3) ∧
        passes1 = passes ++ [p] ∧ p.RT = pass3.RT ∧
        (pass3.Viewport.Width = 0 ∧ pass3.Viewport.Height = 0 →
          p.Viewport.Width = env.mRuntime.mSwapChainDescWidth ∧
          p.Viewport.Height = env.mRuntime.mSwapChainDescHeight) ∧
        (¬ (pass3.Viewport.Width = 0 ∧ pass3.Viewport.Height = 0) →
          p.Viewport = pass3.Viewport) := by
  unfold VisitPass at h
  split at h
  · simp at h
  · rename_i c2 pass1 hshaders
    have h1 := VisitPassShaders_targets env node c c2 _ pass1 hshaders
    simp only at h
    split at h
    · simp at h
    · simp only [Option.some.injEq, Prod.mk.injEq] at h
      exact Or.inl h.2.symm
    · rename_i c3 pass3 htargets
      simp only [Option.some.injEq] at h
      obtain ⟨p, hp, hrt, hview⟩ := VisitPassStates_targets env node c3
        (if pass3.Viewport.Width = 0 ∧ pass3.Viewport.Height = 0 then
          { pass3 with
            Viewport :=
              { pass3.Viewport with
                Width := env.mRuntime.mSwapChainDescWidth,
                Height := env.mRuntime.mSwapChainDescHeight } }
         else pass3) passes
      rw [h] at hp
      refine Or.inr ⟨c2, c3, pass1, pass3, p, h1.1, ?_, ?_, htargets, hp, ?_, ?_, ?_⟩
      · rw [h1.2]
        rfl
      · rw [h1.2]
        rfl
      · rw [hrt]
        split_ifs <;> rfl
      · intro hzero
        rw [hview, if_pos hzero]
        exact ⟨rfl, rfl⟩
      · intro hzero
        rw [hview, if_neg hzero]

/-- The two views that `CreateBackBufferReplacement` creates when it succeeds are views of the
member `mBackBuffer`; the first has the linear and the second the sRGB variant of the typeless
format of the description of the back buffer. -/
theorem CreateBackBufferReplacement_targets (device : Device) (backbuffer : ID3D10Texture2D)
    (samplesCount samplesQuality : Nat) (r r1 : D3D10RuntimeState)
    (h : CreateBackBufferReplacement device backbuffer samplesCount samplesQuality r =
      some (r1, true)) :
    ∃ (texture : ID3D10Texture2D) (linear srgb : ID3D10RenderTargetView),
      r.mBackBuffer = some texture ∧ r1.mBackBuffer = some texture ∧
      r1.mBackBufferTargets = (some linear, some srgb) ∧
      linear.resource = texture ∧ srgb.resource = texture ∧
      linear.desc.Format = MakeNonSRBFormat (MakeTypelessFormat backbuffer.desc.Format) ∧
      srgb.desc.Format = MakeSRGBFormat (MakeTypelessFormat backbuffer.desc.Format) := by
  unfold CreateBackBufferReplacement at h
  split at h
  · simp at h
  · rename_i texture htexture
    simp only at h
    split_ifs at h
    all_goals
      simp only [Option.some.injEq, Prod.mk.injEq, Bool.false_eq_true, and_false] at h
    all_goals
      obtain ⟨h1, -⟩ := h
      subst h1
      exact ⟨texture, _, _, htexture, htexture, rfl, rfl, rfl, rfl, rfl⟩

/-- A pass that declares no render target 0 and is appended by `Visit(Pass)` has as target 0
the second view of `mBackBufferTargets` when its state `SRGBWriteEnable` is true and the first
one otherwise. -/
theorem VisitPass_back_buffer_target (env : Env) (c c1 : D3D10EffectCompiler) (node : FX.Pass)
    (passes passes1 : List Pass) (h : VisitPass env c node passes = some (c1, passes1))
    (hfirst : node.States.RenderTargets.getD 0 none = none) :
    (passes1 = passes ∧ c1.mFatal = true) ∨
      ∃ p : Pass, passes1 = passes ++ [p] ∧
        p.RT.getD 0 none =
          (if node.States.SRGBWriteEnable = true then env.mRuntime.mBackBufferTargets.2
           else env.mRuntime.mBackBufferTargets.1) := by
  rcases VisitPass_states env node c c1 passes passes1 h with hret | ⟨c4, pass0, -, -, hstates⟩
  · exact Or.inl hret
  · rcases VisitPass_targets env node c c1 passes passes1 h with
      hsame | ⟨c2, c3, pass1, pass3, p, hrt, -, -, htargets, hp, hprt, -, -⟩
    · exfalso
      obtain ⟨q, hq, -⟩ := VisitPassStates_targets env node c4 pass0 passes
      rw [hstates] at hq
      simp only at hq
      rw [hsame] at hq
      have hlen := congrArg List.length hq
      simp at hlen
    · refine Or.inr ⟨p, hp, ?_⟩
      rw [hprt, VisitPassTargets_first env node hfirst _ _ _ _ _ htargets, hrt]
      simp only [At2]
      split_ifs <;> simp_all

open Example in
set_option maxRecDepth 100000 in
/-- C30: a pass that declares no render target 0 and is appended by `Visit(Pass)` has as
target 0 the second view of `mBackBufferTargets` when its state `SRGBWriteEnable` is true and
the first one otherwise; the only other outcome is the return from the loop over the render
targets with the fatal flag set. The two views are the views that
`CreateBackBufferReplacement` creates, on success, on the one texture `mBackBuffer`: the first
with the linear format `MakeNonSRBFormat` and the second with the sRGB format `MakeSRGBFormat`
of the typeless format of the back buffer. A pass
that declares no render target at all is appended with the width and the height of the swap
chain as its viewport, and `RenderPass`, on a runtime with this swap chain, binds its render
targets with the default depth-stencil view; without shaders the visit of such a pass returns.
For the back buffer of 640 by 480 pixels of the example and a pass that writes sRGB, the
replacement is created, the target 0 of the pass is the sRGB view, both views are on the back
buffer, the first has the format `R8G8B8A8_UNORM` and the second `R8G8B8A8_UNORM_SRGB`, and
`RenderPass` binds the default depth-stencil view; the same pass without the sRGB state has
the first view as its target 0. In general, on a runtime whose views
`CreateBackBufferReplacement` has created, the target 0 of such a pass is a view on the back
buffer with the sRGB format when the state `SRGBWriteEnable` is true and with the linear
format otherwise. -/
theorem C30_back_buffer_target :
    (∀ (env : Env) (c c1 : D3D10EffectCompiler) (node : FX.Pass) (passes passes1 : List Pass),
      VisitPass env c node passes = some (c1, passes1) →
      node.States.RenderTargets.getD 0 none = none →
      (passes1 = passes ∧ c1.mFatal = true) ∨
        ∃ p : Pass, passes1 = passes ++ [p] ∧
          p.RT.getD 0 none =
            (if node.States.SRGBWriteEnable = true then env.mRuntime.mBackBufferTargets.2
             else env.mRuntime.mBackBufferTargets.1)) ∧
    (∀ (device : Device) (backbuffer : ID3D10Texture2D) (samplesCount samplesQuality : Nat)
        (r r1 : D3D10RuntimeState),
      CreateBackBufferReplacement device backbuffer samplesCount samplesQuality r =
        some (r1, true) →
      ∃ (texture : ID3D10Texture2D) (linear srgb : ID3D10RenderTargetView),
        r.mBackBuffer = some texture ∧ r1.mBackBuffer = some texture ∧
        r1.mBackBufferTargets = (some linear, some srgb) ∧
        linear.resource = texture ∧ srgb.resource = texture ∧
        linear.desc.Format = MakeNonSRBFormat (MakeTypelessFormat backbuffer.desc.Format) ∧
        srgb.desc.Format = MakeSRGBFormat (MakeTypelessFormat backbuffer.desc.Format)) ∧
    (∀ (env : Env) (c c1 : D3D10EffectCompiler) (node : FX.Pass) (passes passes1 : List Pass),
      VisitPass env c node passes = some (c1, passes1) →
      (∀ i : Nat, node.States.RenderTargets.getD i none = none) →
      ∃ p : Pass, passes1 = passes ++ [p] ∧
        p.Viewport.Width = env.mRuntime.mSwapChainDescWidth ∧
        p.Viewport.Height = env.mRuntime.mSwapChainDescHeight ∧
        ∀ (device : Device) (r : D3D10RuntimeState) (effect effect1 : D3D10Effect)
          (technique : D3D10Technique) (index : Nat) (calls : List DeviceCall)
          (commands : List Command),
          r.mSwapChainDescWidth = env.mRuntime.mSwapChainDescWidth →
          r.mSwapChainDescHeight = env.mRuntime.mSwapChainDescHeight →
          technique.mPasses[index]? = some p →
          RenderPass device r effect technique index = some (effect1, calls, commands) →
          Command.OMSetRenderTargets D3D10_SIMULTANEOUS_RENDER_TARGET_COUNT p.RT
            r.mDefaultDepthStencil ∈ commands) ∧
    (∀ (env : Env) (c : D3D10EffectCompiler) (node : FX.Pass) (passes : List Pass),
      node.States.VertexShader = none → node.States.PixelShader = none →
      (∀ i : Nat, node.States.RenderTargets.getD i none = none) →
      ∃ c1 p, VisitPass env c node passes = some (c1, passes ++ [p])) ∧
    ((CreateBackBufferReplacement okDevice backBuffer 1 0 presenting).bind (fun created =>
      (VisitPass { env okDevice with mRuntime := created.1.toRuntime okDevice false } start
          srgbPass []).bind (fun visited =>
        visited.2.head?.bind (fun p =>
          (RenderPass okDevice created.1 start.mEffect
              { mDescPasses := 1, mAnnotations := [], mPasses := visited.2 } 0).map
            (fun result =>
              (created.2 && visited.2.length == 1 &&
                decide (p.RT.getD 0 none = created.1.mBackBufferTargets.2) &&
                decide (created.1.mBackBufferTargets.1.map (fun v => v.resource) =
                  some backBuffer) &&
                decide (created.1.mBackBufferTargets.2.map (fun v => v.resource) =
                  some backBuffer) &&
                decide (created.1.mBackBufferTargets.1 ≠ created.1.mBackBufferTargets.2) &&
                decide (Command.OMSetRenderTargets 8 p.RT (some (depthView 9)) ∈
                  result.2.2)))))) = some true) ∧
    ((CreateBackBufferReplacement okDevice backBuffer 1 0 presenting).bind (fun created =>
      (VisitPass { env okDevice with mRuntime := created.1.toRuntime okDevice false } start
          srgbPass []).bind (fun visited =>
        (VisitPass { env okDevice with mRuntime := created.1.toRuntime okDevice false } start
            (pass []) []).map (fun plain =>
          (created.2 &&
            decide (created.1.mBackBufferTargets.1.map (fun v => v.desc.Format) =
              some DXGI_FORMAT_R8G8B8A8_UNORM) &&
            decide (created.1.mBackBufferTargets.2.map (fun v => v.desc.Format) =
              some DXGI_FORMAT_R8G8B8A8_UNORM_SRGB) &&
            decide (visited.2.map (fun p => (p.RT.getD 0 none).map (fun v => v.desc.Format)) =
              [some DXGI_FORMAT_R8G8B8A8_UNORM_SRGB]) &&
            decide (plain.2.map (fun p => (p.RT.getD 0 none).map (fun v => v.desc.Format)) =
              [some DXGI_FORMAT_R8G8B8A8_UNORM]) &&
            decide (visited.2.map (fun p => (p.RT.getD 0 none).map (fun v => v.resource)) =
              [some backBuffer]) &&
            decide (plain.2.map (fun p => (p.RT.getD 0 none).map (fun v => v.resource)) =
              [some backBuffer]))))) = some true) ∧
    (∀ (device : Device) (backbuffer : ID3D10Texture2D) (samplesCount samplesQuality : Nat)
        (r r1 : D3D10RuntimeState) (env : Env) (c c1 : D3D10EffectCompiler) (node : FX.Pass)
        (passes passes1 : List Pass),
      CreateBackBufferReplacement device backbuffer samplesCount samplesQuality r =
        some (r1, true) →
      env.mRuntime.mBackBufferTargets = r1.mBackBufferTargets →
      VisitPass env c node passes = some (c1, passes1) →
      node.States.RenderTargets.getD 0 none = none →
      (passes1 = passes ∧ c1.mFatal = true) ∨
        ∃ (p : Pass) (view : ID3D10RenderTargetView),
          passes1 = passes ++ [p] ∧ p.RT.getD 0 none = some view ∧
          r1.mBackBuffer = some view.resource ∧
          view.desc.Format =
            (if node.States.SRGBWriteEnable = true then
              MakeSRGBFormat (MakeTypelessFormat backbuffer.desc.Format)
             else MakeNonSRBFormat (MakeTypelessFormat backbuffer.desc.Format))) := by
  refine ⟨VisitPass_back_buffer_target, CreateBackBufferReplacement_targets, ?_, ?_,
    by decide!, by decide!, ?_⟩
  rotate_left 2
  · intro device backbuffer samplesCount samplesQuality r r1 env c c1 node passes passes1
      hcreate henv h hfirst
    obtain ⟨texture, linear, srgb, -, hback, htargets, hl, hs, hlf, hsf⟩ :=
      CreateBackBufferReplacement_targets device backbuffer samplesCount samplesQuality r r1
        hcreate
    rcases VisitPass_back_buffer_target env c c1 node passes passes1 h hfirst with
      hret | ⟨p, hp, hrt⟩
    · exact Or.inl hret
    · rw [henv, htargets] at hrt
      by_cases hsrgb : node.States.SRGBWriteEnable = true
      · rw [if_pos hsrgb] at hrt
        exact Or.inr ⟨p, srgb, hp, hrt, by rw [hback, hs], by rw [if_pos hsrgb]; exact hsf⟩
      · rw [if_neg hsrgb] at hrt
        exact Or.inr ⟨p, linear, hp, hrt, by rw [hback, hl], by rw [if_neg hsrgb]; exact hlf⟩
  · intro env c c1 node passes passes1 h hnone
    rcases VisitPass_states env node c c1 passes passes1 h with hret | ⟨c4, pass0, -, -, hstates⟩
    · exfalso
      obtain ⟨hsame, -⟩ := hret
      unfold VisitPass at h
      split at h
      · simp at h
      · simp only at h
        rw [VisitPassTargets_undeclared env node hnone] at h
        simp only [Option.some.injEq] at h
        obtain ⟨q, hq, -⟩ := VisitPassStates_targets env node _
          (if (_ : Pass).Viewport.Width = 0 ∧ (_ : Pass).Viewport.Height = 0 then _ else _)
          passes
        rw [h] at hq
        simp only at hq
        rw [hsame] at hq
        have hlen := congrArg List.length hq
        simp at hlen
    · rcases VisitPass_targets env node c c1 passes passes1 h with
        hsame | ⟨c2, c3, pass1, pass3, p, hrt, hw, hh, htargets, hp, hprt, hzero, -⟩
      · exfalso
        obtain ⟨q, hq, -⟩ := VisitPassStates_targets env node c4 pass0 passes
        rw [hstates] at hq
        simp only at hq
        rw [hsame] at hq
        have hlen := congrArg List.length hq
        simp at hlen
      · rw [VisitPassTargets_undeclared env node hnone] at htargets
        simp only [Option.some.injEq, Prod.mk.injEq, TargetsResult.Done.injEq] at htargets
        obtain ⟨-, h3⟩ := htargets
        have hzero1 := hzero (by rw [← h3]; exact ⟨hw, hh⟩)
        refine ⟨p, hp, hzero1.1, hzero1.2, ?_⟩
        intro device r effect effect1 technique index calls commands hwidth hheight hpass hrender
        unfold RenderPass at hrender
        rw [hpass] at hrender
        simp only at hrender
        split at hrender
        · simp at hrender
        · split_ifs at hrender
          simp only [Option.some.injEq, Prod.mk.injEq] at hrender
          obtain ⟨-, -, hcommands⟩ := hrender
          rw [← hcommands]
          have hds : PassDepthStencil r p = r.mDefaultDepthStencil := by
            unfold PassDepthStencil
            rw [if_pos ⟨by rw [hzero1.1, hwidth], by rw [hzero1.2, hheight]⟩]
          rw [hds]
          simp
  · intro env c node passes hvs hps hnone
    unfold VisitPass
    have hshaders : VisitPassShaders env node c (InitialPass c) = some (c, InitialPass c) := by
      unfold VisitPassShaders
      rw [hvs, hps]
    rw [hshaders]
    simp only
    rw [VisitPassTargets_undeclared env node hnone]
    simp only
    obtain ⟨q, hq, -⟩ := VisitPassStates_targets env node c
      (if (_ : Pass).Viewport.Width = 0 ∧ (_ : Pass).Viewport.Height = 0 then _ else _)
      passes
    exact ⟨_, q, by rw [← hq]⟩

open Example in
set_option maxRecDepth 100000 in
/-- Witness of C30: on the runtime of the example, whose views of the back buffer
`CreateBackBufferReplacement` has created, the pass without render targets that writes sRGB is
appended, and its target 0 is a view on the back buffer with the format
`R8G8B8A8_UNORM_SRGB`. -/
theorem C30_back_buffer_target_witness :
    CreateBackBufferReplacement okDevice backBuffer 1 0 presenting = some (presented, true) ∧
    ∃ c1 passes1,
      VisitPass presentedEnv start srgbPass [] = some (c1, passes1) ∧
      srgbPass.States.RenderTargets.getD 0 none = none ∧
      ∃ (p : Pass) (view : ID3D10RenderTargetView),
        passes1 = [] ++ [p] ∧ p.RT.getD 0 none = some view ∧
        presented.mBackBuffer = some view.resource ∧
        presented.mBackBuffer = some backBuffer ∧
        view.desc.Format = DXGI_FORMAT_R8G8B8A8_UNORM_SRGB := by
  have hok : (CreateBackBufferReplacement okDevice backBuffer 1 0 presenting).map
      (fun created => created.2) = some true := by decide!
  obtain ⟨created, hcreated, hvalue0⟩ := Option.map_eq_some'.1 hok
  obtain ⟨r1, ok⟩ := created
  simp only at hvalue0
  subst hvalue0
  have hr1 : presented = r1 := by
    simp only [presented, hcreated, Option.map_some', Option.getD_some]
  rw [← hr1] at hcreated
  have h : (VisitPass presentedEnv start srgbPass []).map (fun visited =>
      (visited.1.mFatal, visited.2.length)) = some (false, 1) := by decide!
  obtain ⟨visited, hv, hvalue⟩ := Option.map_eq_some'.1 h
  obtain ⟨c1, passes1⟩ := visited
  simp only [Prod.mk.injEq] at hvalue
  have hback : presented.mBackBuffer = some backBuffer := by decide!
  rcases C30_back_buffer_target.2.2.2.2.2.2 okDevice backBuffer 1 0 presenting presented
      presentedEnv start c1 srgbPass [] passes1 hcreated rfl hv rfl with
    hret | ⟨p, view, hp, hrt, hres, hformat⟩
  · rw [hvalue.1] at hret
    simp at hret
  · exact ⟨hcreated, c1, passes1, hv, rfl, p, view, hp, hrt, hres, hback, hformat⟩

/-! ## The table of sampler states -/

theorem find_zip_range (h : Nat) :
    ∀ (seen : List Nat) (k : Nat),
      (seen.zip (List.range' k seen.length)).find? (fun p => p.1 == h) =
        if h ∈ seen then some (h, k + seen.indexOf h) else none
  | [], k => by simp
  | a :: rest, k => by
      by_cases ha : a = h
      · subst ha
        simp [List.range'_succ]
      · have hne : (a == h) = false := by simpa using ha
        have hne1 : ¬ h = a := fun e => ha e.symm
        simp only [List.length_cons, List.range'_succ, List.zip_cons_cons, List.find?_cons, hne,
          List.mem_cons, hne1, false_or, find_zip_range h rest (k + 1)]
        split_ifs with hmem
        · rw [List.indexOf_cons_ne _ ha]
          simp only [Option.some.injEq, Prod.mk.injEq, true_and]
          omega
        · rfl

theorem FirstOccurrences_extends :
    ∀ (hs seen : List Nat), ∃ extra, FirstOccurrences seen hs = seen ++ extra
  | [], seen => ⟨[], by simp [FirstOccurrences]⟩
  | h :: rest, seen => by
      unfold FirstOccurrences
      obtain ⟨extra, he⟩ := FirstOccurrences_extends rest (if h ∈ seen then seen else seen ++ [h])
      rw [he]
      split_ifs
      · exact ⟨extra, rfl⟩
      · exact ⟨h :: extra, by simp⟩

theorem FirstOccurrences_nodup :
    ∀ (hs seen : List Nat), seen.Nodup → (FirstOccurrences seen hs).Nodup
  | [], seen, hn => by simpa [FirstOccurrences] using hn
  | h :: rest, seen, hn => by
      unfold FirstOccurrences
      apply FirstOccurrences_nodup rest
      split_ifs with hmem
      · exact hn
      · exact List.Nodup.append hn (List.nodup_singleton h) (by simpa using hmem)

theorem FirstOccurrences_mem (x : Nat) :
    ∀ (hs seen : List Nat), x ∈ FirstOccurrences seen hs ↔ x ∈ seen ∨ x ∈ hs
  | [], seen => by simp [FirstOccurrences]
  | h :: rest, seen => by
      unfold FirstOccurrences
      rw [FirstOccurrences_mem x rest]
      split_ifs with hmem
      · constructor
        · rintro (h1 | h1)
          · exact Or.inl h1
          · exact Or.inr (List.mem_cons_of_mem _ h1)
        · rintro (h1 | h1)
          · exact Or.inl h1
          · rcases List.mem_cons.1 h1 with rfl | h2
            · exact Or.inl hmem
            · exact Or.inr h2
      · simp only [List.mem_append, List.mem_singleton, List.mem_cons]
        tauto

theorem FirstOccurrences_indexOf (hs seen : List Nat) (x : Nat) (hx : x ∈ seen) :
    (FirstOccurrences seen hs).indexOf x = seen.indexOf x := by
  obtain ⟨extra, he⟩ := FirstOccurrences_extends hs seen
  rw [he, List.indexOf_append_of_mem hx]

theorem SamplerEvents_length :
    ∀ (hs seen : List Nat), (SamplerEvents seen hs).length = hs.length
  | [], seen => rfl
  | h :: rest, seen => by
      unfold SamplerEvents
      split_ifs <;> simp [SamplerEvents_length rest]

/-- Every sampler refers to the sampler state whose number is the position of its hash among
the hashes in the order of their first occurrence. -/
theorem SamplerEvents_index :
    ∀ (hs seen : List Nat) (j : Nat) (h : Nat) (e : Bool × Nat),
      hs[j]? = some h → (SamplerEvents seen hs)[j]? = some e →
      e.2 = (FirstOccurrences seen hs).indexOf h
  | [], seen, j, h, e, hj, _ => by simp at hj
  | a :: rest, seen, 0, h, e, hj, he => by
      simp only [List.getElem?_cons_zero, Option.some.injEq] at hj
      subst hj
      unfold SamplerEvents at he
      unfold FirstOccurrences
      split_ifs at he ⊢ with hmem
      · simp only [List.getElem?_cons_zero, Option.some.injEq] at he
        rw [← he, FirstOccurrences_indexOf _ _ _ hmem]
      · simp only [List.getElem?_cons_zero, Option.some.injEq] at he
        rw [← he, FirstOccurrences_indexOf _ _ _ (by simp),
          List.indexOf_append_of_not_mem hmem]
        simp
  | a :: rest, seen, j + 1, h, e, hj, he => by
      simp only [List.getElem?_cons_succ] at hj
      unfold SamplerEvents at he
      unfold FirstOccurrences
      split_ifs at he ⊢ with hmem
      · simp only [List.getElem?_cons_succ] at he
        exact SamplerEvents_index rest seen j h e hj he
      · simp only [List.getElem?_cons_succ] at he
        exact SamplerEvents_index rest _ j h e hj he

/-- A sampler state is created for a hash exactly at its first occurrence. -/
theorem SamplerEvents_created :
    ∀ (hs seen : List Nat) (j : Nat) (h : Nat) (e : Bool × Nat),
      hs[j]? = some h → (SamplerEvents seen hs)[j]? = some e →
      (e.1 = true ↔ h ∉ seen ∧ h ∉ hs.take j)
  | [], seen, j, h, e, hj, _ => by simp at hj
  | a :: rest, seen, 0, h, e, hj, he => by
      simp only [List.getElem?_cons_zero, Option.some.injEq] at hj
      subst hj
      unfold SamplerEvents at he
      split_ifs at he with hmem
      · simp only [List.getElem?_cons_zero, Option.some.injEq] at he
        rw [← he]
        simp [hmem]
      · simp only [List.getElem?_cons_zero, Option.some.injEq] at he
        rw [← he]
        simp [hmem]
  | a :: rest, seen, j + 1, h, e, hj, he => by
      simp only [List.getElem?_cons_succ] at hj
      unfold SamplerEvents at he
      split_ifs at he with hmem
      · simp only [List.getElem?_cons_succ] at he
        rw [SamplerEvents_created rest seen j h e hj he]
        simp only [List.take_succ_cons, List.mem_cons, not_or]
        constructor
        · rintro ⟨h1, h2⟩
          exact ⟨h1, fun e1 => h1 (e1 ▸ hmem), h2⟩
        · rintro ⟨h1, -, h2⟩
          exact ⟨h1, h2⟩
      · simp only [List.getElem?_cons_succ] at he
        rw [SamplerEvents_created rest _ j h e hj he]
        simp only [List.take_succ_cons, List.mem_cons, not_or, List.mem_append,
          List.mem_singleton]
        tauto

/-- The sampler states that are created are numbered from the number of those that exist, one
after the other. -/
theorem SamplerEvents_numbers :
    ∀ (hs seen : List Nat),
      ((SamplerEvents seen hs).filter (fun e => e.1)).map (fun e => e.2) =
        List.range' seen.length ((FirstOccurrences seen hs).length - seen.length)
  | [], seen => by simp [SamplerEvents, FirstOccurrences]
  | a :: rest, seen => by
      unfold SamplerEvents FirstOccurrences
      split_ifs with hmem
      · simp only [List.filter_cons, Bool.false_eq_true, if_false]
        exact SamplerEvents_numbers rest seen
      · simp only [List.filter_cons, if_true, List.map_cons]
        rw [SamplerEvents_numbers rest (seen ++ [a])]
        obtain ⟨extra, he⟩ := FirstOccurrences_extends rest (seen ++ [a])
        rw [he]
        simp only [List.length_append, List.length_singleton, List.length_cons, List.length_nil]
        have h1 : seen.length + 1 + extra.length - (seen.length + 1) = extra.length := by omega
        have h2 : seen.length + 1 + extra.length - seen.length = extra.length + 1 := by omega
        rw [h1, h2, List.range'_succ]

theorem VisitSamplerEmit_source (c : D3D10EffectCompiler) (node : FX.Variable)
    (textureName : String) (texture : D3D10Texture) (index : Nat) :
    (VisitSamplerEmit c node textureName texture index).mCurrentSource =
      c.mCurrentSource ++ SamplerInitializer node textureName texture index := by
  simp only [VisitSamplerEmit, SamplerInitializer, SamplerTextureName, String.append_assoc]

/-- One call of `VisitSampler` for a sampler whose texture is registered, on a device that
creates every sampler state: a sampler state is created exactly when the hash of the
descriptor is not in the table, and the initializer names the sampler state of the hash. -/
theorem VisitSampler_spec (env : Env) (c : D3D10EffectCompiler) (node : FX.Variable)
    (seen : List Nat) (textureName : String) (texture : D3D10Texture) (border : List FLOAT)
    (hborder : env.indeterminate c = border)
    (hdevice : ∀ (history : List DeviceCall) (desc : D3D10_SAMPLER_DESC),
      FAILED (env.mRuntime.mDevice.respond history
        (DeviceRequest.CreateSamplerState desc)).hr = false)
    (htable : c.mSamplerDescs = seen.zip (List.range seen.length))
    (hstates : c.mEffect.mSamplerStates.length = seen.length)
    (ht : node.Properties.Texture = some textureName)
    (hg : c.mEffect.GetTexture textureName = some texture) :
    ∃ c1, VisitSampler env c node = some c1 ∧
      c1.mSamplerDescs =
        (if SamplerHash env border node ∈ seen then seen else seen ++ [SamplerHash env border node]).zip
          (List.range
            (if SamplerHash env border node ∈ seen then seen
             else seen ++ [SamplerHash env border node]).length) ∧
      c1.mEffect.mSamplerStates =
        c.mEffect.mSamplerStates ++
          (if SamplerHash env border node ∈ seen then []
           else [{ id := ObjectId.Created c.mDeviceCalls.length,
                   desc := SamplerDescOf env.literals border node }]) ∧
      c1.mEffect.mTextures = c.mEffect.mTextures ∧ c1.mFatal = c.mFatal ∧
      c1.mErrors = c.mErrors ∧
      c1.mCurrentSource =
        c.mCurrentSource ++
          ((if SamplerHash env border node ∈ seen then "" else SamplerStateLine seen.length) ++
            SamplerInitializer node textureName texture
              (if SamplerHash env border node ∈ seen then seen.indexOf (SamplerHash env border node)
               else seen.length)) := by
  subst hborder
  unfold VisitSampler
  rw [ht]
  simp only
  rw [hg]
  simp only
  have hfind := find_zip_range (SamplerHash env (env.indeterminate c) node) seen 0
  rw [← List.range_eq_range', ← htable] at hfind
  change List.find? (fun p => p.1 == SamplerHash env (env.indeterminate c) node) c.mSamplerDescs = _ at hfind
  change ∃ c1, (match List.find? (fun p => p.1 == SamplerHash env (env.indeterminate c) node) c.mSamplerDescs with
    | some it => _
    | none => _) = some c1 ∧ _
  rw [hfind]
  by_cases hmem : SamplerHash env (env.indeterminate c) node ∈ seen
  · simp only [if_pos hmem]
    refine ⟨_, rfl, htable, by simp [VisitSamplerEmit], rfl, rfl, rfl, ?_⟩
    rw [VisitSamplerEmit_source]
    simp
  · simp only [if_neg hmem]
    have hok := hdevice c.mDeviceCalls (SamplerDescOf env.literals (env.indeterminate c) node)
    simp only [Device.call]
    change ∃ c1, (if FAILED (env.mRuntime.mDevice.respond c.mDeviceCalls
        (DeviceRequest.CreateSamplerState (SamplerDescOf env.literals (env.indeterminate c) node))).hr = true
      then _ else _) = some c1 ∧ _
    rw [hok]
    simp only [Bool.false_eq_true, if_false]
    refine ⟨_, rfl, ?_, ?_, rfl, rfl, rfl, ?_⟩
    · simp only [VisitSamplerEmit, htable, hstates, List.length_append, List.length_singleton,
        List.range_succ]
      rw [List.zip_append (by simp)]
      rfl
    · simp only [VisitSamplerEmit]
      rfl
    · rw [VisitSamplerEmit_source]
      simp only [SamplerStateLine, hstates, String.append_assoc]

theorem SamplersText_textures (e e1 : D3D10Effect) (h : e1.mTextures = e.mTextures) :
    ∀ (nodes : List FX.Variable) (events : List (Bool × Nat)),
      SamplersText e1 nodes events = SamplersText e nodes events
  | [], _ => by simp [SamplersText]
  | _ :: _, [] => by simp [SamplersText]
  | node :: nodes, (created, index) :: events => by
      simp only [SamplersText, D3D10Effect.GetTexture, h,
        SamplersText_textures e e1 h nodes events]

/-- A run of the loop over declarations that are samplers with registered textures, on a device
that creates every sampler state. -/
theorem VisitVariables_samplers (env : Env) (border : List FLOAT)
    (hborder : ∀ c, env.indeterminate c = border)
    (hdevice : ∀ (history : List DeviceCall) (desc : D3D10_SAMPLER_DESC),
      FAILED (env.mRuntime.mDevice.respond history
        (DeviceRequest.CreateSamplerState desc)).hr = false) :
    ∀ (nodes : List FX.Variable) (c : D3D10EffectCompiler) (seen : List Nat),
      c.mCurrentInParameterBlock = false → c.mCurrentInFunctionBlock = false →
      c.mSamplerDescs = seen.zip (List.range seen.length) →
      c.mEffect.mSamplerStates.map (StateHash env) = seen →
      (∀ node ∈ nodes, node.Ty.IsSampler = true ∧
        ∃ textureName, node.Properties.Texture = some textureName ∧
          (c.mEffect.GetTexture textureName).isSome = true) →
      ∃ c1, VisitVariables env c nodes = some c1 ∧
        c1.mSamplerDescs =
          (FirstOccurrences seen (nodes.map (SamplerHash env border))).zip
            (List.range (FirstOccurrences seen (nodes.map (SamplerHash env border))).length) ∧
        c1.mEffect.mSamplerStates.map (StateHash env) =
          FirstOccurrences seen (nodes.map (SamplerHash env border)) ∧
        (∃ added, c1.mEffect.mSamplerStates = c.mEffect.mSamplerStates ++ added) ∧
        c1.mEffect.mTextures = c.mEffect.mTextures ∧ c1.mFatal = c.mFatal ∧
        c1.mErrors = c.mErrors ∧
        c1.mCurrentSource =
          c.mCurrentSource ++
            SamplersText c.mEffect nodes (SamplerEvents seen (nodes.map (SamplerHash env border)))
  | [], c, seen, _, _, htable, hobjects, _ => by
      refine ⟨c, rfl, ?_, ?_, ⟨[], by simp⟩, rfl, rfl, rfl, ?_⟩
      · simpa [FirstOccurrences] using htable
      · simpa [FirstOccurrences] using hobjects
      · simp [SamplersText, SamplerEvents]
  | node :: rest, c, seen, hp, hf, htable, hobjects, hsamplers => by
      obtain ⟨hs, textureName, ht, hg⟩ := hsamplers node (List.mem_cons_self _ _)
      obtain ⟨texture, hg1⟩ := Option.isSome_iff_exists.1 hg
      have hlen : c.mEffect.mSamplerStates.length = seen.length := by
        rw [← hobjects, List.length_map]
      obtain ⟨c2, hv, k1, k2, k3, k4, k5, k6⟩ :=
        VisitSampler_spec env c node seen textureName texture border (hborder c) hdevice htable hlen ht hg1
      have hvisit : VisitVariable env c node = some c2 := by
        rw [VisitVariable_sampler env c node hs hp hf]
        exact hv
      have hstep := VisitVariable_step env node c c2 hvisit
      have hobjects2 : c2.mEffect.mSamplerStates.map (StateHash env) =
          (if SamplerHash env border node ∈ seen then seen else seen ++ [SamplerHash env border node]) := by
        rw [k2]
        split_ifs
        · simpa using hobjects
        · simp only [List.map_append, hobjects, List.map_cons, List.map_nil]
          rfl
      obtain ⟨c1, hrun, r1, r2, r3, r4, r5, r6, r7⟩ :=
        VisitVariables_samplers env border hborder hdevice rest c2
          (if SamplerHash env border node ∈ seen then seen else seen ++ [SamplerHash env border node])
          (by rw [hstep.parameterBlock]; exact hp) (by rw [hstep.functionBlock]; exact hf)
          k1 hobjects2
          (fun other hother => by
            obtain ⟨h1, name, h2, h3⟩ := hsamplers other (List.mem_cons_of_mem _ hother)
            refine ⟨h1, name, h2, ?_⟩
            simpa only [D3D10Effect.GetTexture, k3] using h3)
      refine ⟨c1, ?_, ?_, ?_, ?_, r4.trans k3, r5.trans k4, r6.trans k5, ?_⟩
      · unfold VisitVariables
        rw [hvisit]
        exact hrun
      · simpa only [List.map_cons, FirstOccurrences] using r1
      · simpa only [List.map_cons, FirstOccurrences] using r2
      · obtain ⟨added, ha⟩ := r3
        rw [k2] at ha
        exact ⟨_, by rw [ha, List.append_assoc]⟩
      · rw [r7, k6, SamplersText_textures c.mEffect c2.mEffect k3]
        simp only [List.map_cons, SamplerEvents]
        split_ifs <;>
          simp only [SamplersText, ht, hg1, String.append_assoc, Bool.false_eq_true, if_false,
            if_true]

theorem FirstOccurrences_card (hs seen : List Nat) (hn : seen.Nodup) :
    (FirstOccurrences seen hs).length = (seen ++ hs).toFinset.card := by
  rw [← List.toFinset_card_of_nodup (FirstOccurrences_nodup hs seen hn)]
  congr 1
  ext x
  simp [FirstOccurrences_mem]

theorem indexOf_getElem_mem (l : List Nat) (x : Nat) (hx : x ∈ l) :
    l[l.indexOf x]? = some x := by
  rw [List.getElem?_eq_getElem (List.indexOf_lt_length.2 hx)]
  simp

/-- A list of file-scope declarations of samplers whose textures are registered, visited on a
device that creates every sampler state, from a visitor whose table of sampler states holds
the distinct hashes `seen` of its sampler states, in an environment in which the storage of
`BorderColor` holds the same words `border` at every call of `VisitSampler`. The loop returns
and leaves the fatal flag; the hashes of the sampler states of the effect are then the hashes
in the order of their first occurrence, without repetition, so that their number is the number
of distinct hashes; the generated source grows by the text of `SamplersText`, where a sampler
state is declared exactly at the first occurrence of its hash, the states declared are numbered
from the number of the states that existed, one after the other, the initializer of each
sampler names the sampler state whose descriptor has the hash of the sampler, and two samplers
with the same descriptor name the same sampler state. -/
theorem VisitVariables_sampler_states (env : Env) (c : D3D10EffectCompiler)
    (nodes : List FX.Variable) (seen : List Nat) (border : List FLOAT)
    (hborder : ∀ c, env.indeterminate c = border)
    (hdevice : ∀ (history : List DeviceCall) (desc : D3D10_SAMPLER_DESC),
      FAILED (env.mRuntime.mDevice.respond history
        (DeviceRequest.CreateSamplerState desc)).hr = false)
    (hp : c.mCurrentInParameterBlock = false) (hf : c.mCurrentInFunctionBlock = false)
    (htable : c.mSamplerDescs = seen.zip (List.range seen.length))
    (hobjects : c.mEffect.mSamplerStates.map (StateHash env) = seen)
    (hnodup : seen.Nodup)
    (hsamplers : ∀ node ∈ nodes, node.Ty.IsSampler = true ∧
      ∃ textureName, node.Properties.Texture = some textureName ∧
        (c.mEffect.GetTexture textureName).isSome = true) :
    ∃ c1, VisitVariables env c nodes = some c1 ∧ c1.mFatal = c.mFatal ∧
      c1.mEffect.mSamplerStates.map (StateHash env) =
        FirstOccurrences seen (nodes.map (SamplerHash env border)) ∧
      (c1.mEffect.mSamplerStates.map (StateHash env)).Nodup ∧
      c1.mEffect.mSamplerStates.length = (seen ++ nodes.map (SamplerHash env border)).toFinset.card ∧
      c1.mCurrentSource =
        c.mCurrentSource ++
          SamplersText c.mEffect nodes (SamplerEvents seen (nodes.map (SamplerHash env border))) ∧
      (SamplerEvents seen (nodes.map (SamplerHash env border))).length = nodes.length ∧
      ((SamplerEvents seen (nodes.map (SamplerHash env border))).filter (fun e => e.1)).map
          (fun e => e.2) =
        List.range' seen.length (c1.mEffect.mSamplerStates.length - seen.length) ∧
      (∀ (j : Nat) (node : FX.Variable) (e : Bool × Nat),
        nodes[j]? = some node →
        (SamplerEvents seen (nodes.map (SamplerHash env border)))[j]? = some e →
        (c1.mEffect.mSamplerStates[e.2]?).map (StateHash env) = some (SamplerHash env border node) ∧
        (e.1 = true ↔
          SamplerHash env border node ∉ seen ∧
            SamplerHash env border node ∉ (nodes.map (SamplerHash env border)).take j)) ∧
      (∀ (j k : Nat) (a b : FX.Variable) (ea eb : Bool × Nat),
        nodes[j]? = some a → nodes[k]? = some b →
        SamplerDescOf env.literals border a = SamplerDescOf env.literals border b →
        (SamplerEvents seen (nodes.map (SamplerHash env border)))[j]? = some ea →
        (SamplerEvents seen (nodes.map (SamplerHash env border)))[k]? = some eb →
        ea.2 = eb.2) := by
  obtain ⟨c1, hrun, -, r2, -, -, r5, -, r7⟩ :=
    VisitVariables_samplers env border hborder hdevice nodes c seen hp hf htable hobjects hsamplers
  have hlen : c1.mEffect.mSamplerStates.length =
      (FirstOccurrences seen (nodes.map (SamplerHash env border))).length := by
    rw [← r2, List.length_map]
  have hindex : ∀ (j : Nat) (node : FX.Variable) (e : Bool × Nat),
      nodes[j]? = some node →
      (SamplerEvents seen (nodes.map (SamplerHash env border)))[j]? = some e →
      e.2 = (FirstOccurrences seen (nodes.map (SamplerHash env border))).indexOf
        (SamplerHash env border node) := by
    intro j node e hj he
    exact SamplerEvents_index _ seen j _ e (by rw [List.getElem?_map, hj]; rfl) he
  refine ⟨c1, hrun, r5, r2, ?_, ?_, r7, ?_, ?_, ?_, ?_⟩
  · rw [r2]
    exact FirstOccurrences_nodup _ _ hnodup
  · rw [hlen]
    exact FirstOccurrences_card _ _ hnodup
  · rw [SamplerEvents_length, List.length_map]
  · rw [hlen]
    exact SamplerEvents_numbers _ _
  · intro j node e hj he
    have hmapped : (nodes.map (SamplerHash env border))[j]? = some (SamplerHash env border node) := by
      rw [List.getElem?_map, hj]
      rfl
    refine ⟨?_, SamplerEvents_created _ seen j _ e hmapped he⟩
    rw [← List.getElem?_map, r2, hindex j node e hj he]
    apply indexOf_getElem_mem
    rw [FirstOccurrences_mem]
    exact Or.inr (List.mem_iff_getElem?.2 ⟨j, hmapped⟩)
  · intro j k a b ea eb hj hk hsame hea heb
    rw [hindex j a ea hj hea, hindex k b eb hk heb]
    simp only [SamplerHash, hsame]

open Example in
set_option maxRecDepth 100000 in
/-- With zeros in the storage of `BorderColor` at every call, the samplers `A` and `C` with the
default states and the sampler `B` with a point filter, all on the texture `T`, give two
sampler states; `A` and `C` name the state 0 and `B` names the state 1. -/
theorem VisitVariables_sampler_states_example :
    ∃ c1,
      VisitVariables (samplerEnv okDevice) withTexture
        [samplerOf "A" "T", pointSamplerOf "B" "T", samplerOf "C" "T"] = some c1 ∧
      c1.mFatal = false ∧ c1.mEffect.mSamplerStates.length = 2 ∧
      c1.mCurrentSource =
        withTexture.mCurrentSource ++
          ("SamplerState __SamplerState0 : register(s0);\n" ++
           "static const __sampler2D A = \x7b T, __SamplerState0 \x7d;\n" ++
           "SamplerState __SamplerState1 : register(s1);\n" ++
           "static const __sampler2D B = \x7b T, __SamplerState1 \x7d;\n" ++
           "static const __sampler2D C = \x7b T, __SamplerState0 \x7d;\n") := by
  obtain ⟨c1, hrun, hfatal, -, -, hcard, hsource, -⟩ :=
    VisitVariables_sampler_states (samplerEnv okDevice) withTexture
      [samplerOf "A" "T", pointSamplerOf "B" "T", samplerOf "C" "T"] [] [0, 0, 0, 0]
      (fun _ => rfl)
      (fun _ _ => rfl) (by decide!) (by decide!) (by decide!) (by decide!) List.nodup_nil
      (by
        intro node hnode
        simp only [List.mem_cons, List.mem_singleton, List.not_mem_nil, or_false] at hnode
        rcases hnode with rfl | rfl | rfl
        · exact ⟨rfl, "T", rfl, by decide!⟩
        · exact ⟨rfl, "T", rfl, by decide!⟩
        · exact ⟨rfl, "T", rfl, by decide!⟩)
  refine ⟨c1, hrun, ?_, ?_, ?_⟩
  · rw [hfatal]
    decide!
  · rw [hcard]
    decide!
  · rw [hsource]
    congr 1

open Example in
set_option maxRecDepth 100000 in
/-- C21 fails in the code: the samplers `A` and `B` are declared with the same properties on
the texture `T`, and the descriptors that `VisitSampler` fills for them agree in every member
that the method assigns. The member `BorderColor` is never assigned, and the hash is taken over
all bytes of the descriptor: when the storage of `BorderColor` holds at the second call other
words than at the first, two sampler states are created, `A` names `__SamplerState0` and `B`
names `__SamplerState1`. With the same words at both calls there is one sampler state. -/
theorem C21_identical_samplers :
    (samplerOf "A" "T").Properties = (samplerOf "B" "T").Properties ∧
    (∃ c1,
      VisitVariables (staleEnv okDevice) withTexture [samplerOf "A" "T", samplerOf "B" "T"] =
        some c1 ∧
      c1.mFatal = false ∧ c1.mErrors = withTexture.mErrors ∧
      c1.mEffect.mSamplerStates.length = 2 ∧
      c1.mEffect.mSamplerStates.map (fun s => { s.desc with BorderColor := [] }) =
        [SamplerDescOf literals [] (samplerOf "A" "T"), SamplerDescOf literals [] (samplerOf "B" "T")] ∧
      SamplerDescOf literals [] (samplerOf "A" "T") = SamplerDescOf literals [] (samplerOf "B" "T") ∧
      c1.mEffect.mSamplerStates.map (fun s => s.desc.BorderColor) =
        [[withTexture.mCurrentSource.length, 0, 0, 0],
         [withTexture.mCurrentSource.length + 98, 0, 0, 0]] ∧
      c1.mCurrentSource =
        withTexture.mCurrentSource ++
          ("SamplerState __SamplerState0 : register(s0);\n" ++
           "static const __sampler2D A = \x7b T, __SamplerState0 \x7d;\n" ++
           "SamplerState __SamplerState1 : register(s1);\n" ++
           "static const __sampler2D B = \x7b T, __SamplerState1 \x7d;\n")) ∧
    ∃ c1,
      VisitVariables (samplerEnv okDevice) withTexture [samplerOf "A" "T", samplerOf "B" "T"] =
        some c1 ∧
      c1.mEffect.mSamplerStates.length = 1 ∧
      c1.mCurrentSource =
        withTexture.mCurrentSource ++
          ("SamplerState __SamplerState0 : register(s0);\n" ++
           "static const __sampler2D A = \x7b T, __SamplerState0 \x7d;\n" ++
           "static const __sampler2D B = \x7b T, __SamplerState0 \x7d;\n") := by
  have h1 : (VisitVariables (staleEnv okDevice) withTexture
      [samplerOf "A" "T", samplerOf "B" "T"]).map (fun c1 =>
        decide (c1.mFatal = false) && decide (c1.mErrors = withTexture.mErrors) &&
        decide (c1.mEffect.mSamplerStates.length = 2) &&
        decide (c1.mEffect.mSamplerStates.map (fun s => { s.desc with BorderColor := [] }) =
          [SamplerDescOf literals [] (samplerOf "A" "T"),
           SamplerDescOf literals [] (samplerOf "B" "T")]) &&
        decide (c1.mEffect.mSamplerStates.map (fun s => s.desc.BorderColor) =
          [[withTexture.mCurrentSource.length, 0, 0, 0],
           [withTexture.mCurrentSource.length + 98, 0, 0, 0]]) &&
        decide (c1.mCurrentSource =
          withTexture.mCurrentSource ++
            ("SamplerState __SamplerState0 : register(s0);\n" ++
             "static const __sampler2D A = \x7b T, __SamplerState0 \x7d;\n" ++
             "SamplerState __SamplerState1 : register(s1);\n" ++
             "static const __sampler2D B = \x7b T, __SamplerState1 \x7d;\n"))) = some true := by
    decide!
  have h2 : (VisitVariables (samplerEnv okDevice) withTexture
      [samplerOf "A" "T", samplerOf "B" "T"]).map (fun c1 =>
        decide (c1.mEffect.mSamplerStates.length = 1) &&
        decide (c1.mCurrentSource =
          withTexture.mCurrentSource ++
            ("SamplerState __SamplerState0 : register(s0);\n" ++
             "static const __sampler2D A = \x7b T, __SamplerState0 \x7d;\n" ++
             "static const __sampler2D B = \x7b T, __SamplerState0 \x7d;\n"))) = some true := by
    decide!
  obtain ⟨c1, hr1, hc1⟩ := Option.map_eq_some'.1 h1
  obtain ⟨c2, hr2, hc2⟩ := Option.map_eq_some'.1 h2
  simp only [Bool.and_eq_true, decide_eq_true_eq] at hc1 hc2
  obtain ⟨⟨⟨⟨⟨k1, k2⟩, k3⟩, k4⟩, k5⟩, k6⟩ := hc1
  exact ⟨by decide!, ⟨c1, hr1, k1, k2, k3, k4, by decide!, k5, k6⟩, c2, hr2, hc2.1, hc2.2⟩

theorem srgb_name_ne (textureName : String) : "__" ++ textureName ++ "SRGB" ≠ textureName := by
  intro h
  have hlen := congrArg String.length h
  simp only [String.length_append] at hlen
  have h1 : "__".length = 2 := by decide
  have h2 : "SRGB".length = 4 := by decide
  omega

/-- C22: a declaration of a sampler on the registered texture `T` that `VisitSampler` compiles
without setting the fatal flag adds to the generated source, behind the declaration of a
sampler state if one is created, the initializer
`static const __sampler2D S = \x7b name, __SamplerStateN \x7d;`, where `name` is `__TSRGB`
if and only if the property `SRGBTexture` of the sampler is set and the second
shader-resource view of the texture is not null, and `T` otherwise. -/
theorem C22_sampler_texture_name (env : Env) (c c1 : D3D10EffectCompiler) (node : FX.Variable)
    (textureName : String) (texture : D3D10Texture)
    (ht : node.Properties.Texture = some textureName)
    (hg : c.mEffect.GetTexture textureName = some texture)
    (h : VisitSampler env c node = some c1)
    (hcompiles : c1.mFatal = false) :
    ∃ (declaration name : String) (index : Nat),
      c1.mCurrentSource =
        c.mCurrentSource ++ declaration ++ "static const __sampler2D " ++ node.Name ++
          " = \x7b " ++ name ++ ", __SamplerState" ++ toString index ++ " \x7d;\n" ∧
      (declaration = "" ∨ declaration = SamplerStateLine index) ∧
      (name = "__" ++ textureName ++ "SRGB" ↔
        node.Properties.SRGBTexture = true ∧ texture.mShaderResourceView.2.isSome = true) ∧
      (¬ (node.Properties.SRGBTexture = true ∧ texture.mShaderResourceView.2.isSome = true) →
        name = textureName) := by
  have hname : (SamplerTextureName node textureName texture = "__" ++ textureName ++ "SRGB" ↔
        node.Properties.SRGBTexture = true ∧ texture.mShaderResourceView.2.isSome = true) ∧
      (¬ (node.Properties.SRGBTexture = true ∧ texture.mShaderResourceView.2.isSome = true) →
        SamplerTextureName node textureName texture = textureName) := by
    unfold SamplerTextureName
    by_cases hc : node.Properties.SRGBTexture = true ∧ texture.mShaderResourceView.2.isSome = true
    · rw [if_pos hc]
      exact ⟨⟨fun _ => hc, fun _ => rfl⟩, fun hn => absurd hc hn⟩
    · rw [if_neg hc]
      exact ⟨⟨fun e => absurd e.symm (srgb_name_ne textureName), fun h1 => absurd h1 hc⟩,
        fun _ => rfl⟩
  unfold VisitSampler at h
  rw [ht] at h
  simp only at h
  rw [hg] at h
  simp only at h
  split at h
  · rename_i it hit
    simp only [Option.some.injEq] at h
    refine ⟨"", SamplerTextureName node textureName texture, it.2, ?_, Or.inl rfl, hname⟩
    rw [← h, VisitSamplerEmit_source]
    simp only [SamplerInitializer, String.append_assoc, String.append_empty]
  · split_ifs at h with hfailed
    · simp only [Option.some.injEq] at h
      rw [← h] at hcompiles
      simp at hcompiles
    · simp only [Option.some.injEq] at h
      refine ⟨SamplerStateLine c.mEffect.mSamplerStates.length,
        SamplerTextureName node textureName texture, c.mEffect.mSamplerStates.length, ?_,
        Or.inr rfl, hname⟩
      rw [← h, VisitSamplerEmit_source]
      simp only [SamplerInitializer, SamplerStateLine, String.append_assoc]

open Example in
set_option maxRecDepth 100000 in
/-- Witness of C22: a sampler with `SRGBTexture = true` on the texture `T`, whose format RGBA8
has an sRGB variant, names `__TSRGB`; on the texture `F`, whose format R32F has none and whose
second view is null, the same sampler names `F`. -/
theorem C22_sampler_texture_name_witness :
    (∃ (c1 : D3D10EffectCompiler) (declaration : String) (index : Nat),
      VisitSampler (samplerEnv okDevice) withTextures (srgbSamplerOf "S" "T") = some c1 ∧
      c1.mCurrentSource =
        withTextures.mCurrentSource ++ declaration ++ "static const __sampler2D " ++ "S" ++
          " = \x7b " ++ "__TSRGB" ++ ", __SamplerState" ++ toString index ++ " \x7d;\n") ∧
    (∃ (c1 : D3D10EffectCompiler) (declaration : String) (index : Nat),
      VisitSampler (samplerEnv okDevice) withTextures (srgbSamplerOf "S" "F") = some c1 ∧
      c1.mCurrentSource =
        withTextures.mCurrentSource ++ declaration ++ "static const __sampler2D " ++ "S" ++
          " = \x7b " ++ "F" ++ ", __SamplerState" ++ toString index ++ " \x7d;\n") := by
  have run : ∀ textureName : String, textureName = "T" ∨ textureName = "F" →
      ∃ c1 texture,
        VisitSampler (samplerEnv okDevice) withTextures (srgbSamplerOf "S" textureName) =
          some c1 ∧
        withTextures.mEffect.GetTexture textureName = some texture ∧ c1.mFatal = false ∧
        texture.mShaderResourceView.2.isSome = decide (textureName = "T") := by
    intro textureName hcases
    have h : ∀ name : String, name = "T" ∨ name = "F" →
        ((VisitSampler (samplerEnv okDevice) withTextures (srgbSamplerOf "S" name)).bind
          (fun c1 => (withTextures.mEffect.GetTexture name).map (fun texture =>
            (c1.mFatal, texture.mShaderResourceView.2.isSome)))) =
          some (false, decide (name = "T")) := by
      intro name hname
      rcases hname with rfl | rfl <;> decide!
    obtain ⟨c1, hc, h1⟩ := Option.bind_eq_some.1 (h textureName hcases)
    obtain ⟨texture, hg, hvalue⟩ := Option.map_eq_some'.1 h1
    simp only [Prod.mk.injEq] at hvalue
    exact ⟨c1, texture, hc, hg, hvalue.1, hvalue.2⟩
  constructor
  · obtain ⟨c1, texture, hc, hg, hfatal, hview⟩ := run "T" (Or.inl rfl)
    obtain ⟨declaration, name, index, hsource, -, hiff, -⟩ :=
      C22_sampler_texture_name (samplerEnv okDevice) withTextures c1 (srgbSamplerOf "S" "T")
        "T" texture rfl hg hc hfatal
    have hn : name = "__" ++ "T" ++ "SRGB" := hiff.2 ⟨rfl, by rw [hview]; rfl⟩
    rw [hn] at hsource
    exact ⟨c1, declaration, index, hc, hsource⟩
  · obtain ⟨c1, texture, hc, hg, hfatal, hview⟩ := run "F" (Or.inr rfl)
    obtain ⟨declaration, name, index, hsource, -, -, helse⟩ :=
      C22_sampler_texture_name (samplerEnv okDevice) withTextures c1 (srgbSamplerOf "S" "F")
        "F" texture rfl hg hc hfatal
    have hn : name = "F" := helse (by
      rintro ⟨-, h2⟩
      rw [hview] at h2
      simp at h2)
    rw [hn] at hsource
    exact ⟨c1, declaration, index, hc, hsource⟩

/-- A memory texture that is declared with 0 mip levels and registered by `VisitTexture` keeps
0 levels in its description, on a texture of the device with one mip level. -/
theorem VisitTexture_zero_levels (env : Env) (c c1 : D3D10EffectCompiler) (node : FX.Variable)
    (hzero : node.Properties.MipLevels = 0)
    (hcolor : ¬ (node.Semantic = "COLOR" ∨ node.Semantic = "SV_TARGET"))
    (hdepth : ¬ (node.Semantic = "DEPTH" ∨ node.Semantic = "SV_DEPTH"))
    (h : VisitTexture env c node = some c1) (hfatal : c1.mFatal = false) :
    ∃ t : D3D10Texture,
      c1.mEffect.mTextures = c.mEffect.mTextures ++ [(node.Name, t)] ∧ t.mDesc.Levels = 0 ∧
      t.mTexture.map (fun resource => resource.desc.MipLevels) = some 1 ∧
      c1.mErrors = c.mErrors ++ PrintLocation node.Location ++
        "warning: a texture cannot have 0 miplevels, changed it to 1.\n" := by
  unfold VisitTexture at h
  simp only [if_neg hcolor, if_neg hdepth, hzero] at h
  simp only [ne_eq, not_true_eq_false, if_false, Option.some.injEq] at h
  subst h
  unfold VisitTextureCreate at hfatal ⊢
  simp only [if_true] at hfatal ⊢
  split_ifs at hfatal ⊢
  all_goals exact ⟨_, rfl, rfl, rfl, rfl⟩

open Example in
set_option maxRecDepth 100000 in
/-- C23: `VisitTexture` on the declaration `texture T \x7b MipLevels = 0; \x7d;` of a memory
texture, on a device that succeeds: the method returns, the fatal flag stays clear, exactly the
warning about 0 miplevels is appended, the texture of the device and its view are created with
one mip level, and the description of the registered texture keeps 0 levels. -/
theorem C23_zero_mip_levels :
    (VisitTexture (env okDevice) start (zeroMipTexture "T")).map (fun c1 =>
        (c1.mFatal, c1.mErrors)) =
      some (false,
        "effect.fx(3, 9): warning: a texture cannot have 0 miplevels, changed it to 1.\n") ∧
    (VisitTexture (env okDevice) start (zeroMipTexture "T")).map (fun c1 =>
        c1.mEffect.mTextures.map (fun entry =>
          (entry.1, entry.2.mDesc.Levels,
            entry.2.mTexture.map (fun resource => resource.desc.MipLevels)))) =
      some [("T", 0, some 1)] ∧
    (VisitTexture (env okDevice) start (zeroMipTexture "T")).map (fun c1 =>
        c1.mDeviceCalls.filterMap (fun call =>
          match call.request with
          | DeviceRequest.CreateTexture2D desc => some desc.MipLevels
          | _ => none)) =
      some [1] := by
  refine ⟨by decide!, by decide!, by decide!⟩

/-- C39: for every 32-bit unsigned size `s` of at most `0xFFFFFFF0` the value of
`RoundToMultipleOf16` is the least multiple of 16 that is not below `s`: it is a multiple of
16, at least `s` and below `s + 16`, and no multiple of 16 between `s` and it is smaller. The
function is idempotent on every 32-bit size. For a 32-bit size above `0xFFFFFFF0` the addition
wraps and the result is 0. -/
theorem C39_round_to_multiple_of_16 :
    (∀ s : Nat, s ≤ 0xFFFFFFF0 →
      RoundToMultipleOf16 s % 16 = 0 ∧ s ≤ RoundToMultipleOf16 s ∧
      RoundToMultipleOf16 s < s + 16 ∧
      ∀ m : Nat, m % 16 = 0 → s ≤ m → RoundToMultipleOf16 s ≤ m) ∧
    (∀ s : Nat, s < 2 ^ 32 →
      RoundToMultipleOf16 (RoundToMultipleOf16 s) = RoundToMultipleOf16 s) ∧
    (∀ s : Nat, 0xFFFFFFF0 < s → s < 2 ^ 32 → RoundToMultipleOf16 s = 0) := by
  refine ⟨?_, ?_, ?_⟩
  · intro s hs
    have h15 : (s + 15) % 2 ^ 32 = s + 15 := Nat.mod_eq_of_lt (by omega)
    rw [RoundToMultipleOf16_eq, h15]
    refine ⟨by omega, by omega, by omega, ?_⟩
    intro m hm hle
    omega
  · intro s hs
    by_cases hsmall : s ≤ 0xFFFFFFF0
    · have h15 : (s + 15) % 2 ^ 32 = s + 15 := Nat.mod_eq_of_lt (by omega)
      have h16 : ((s + 15) / 16 * 16 + 15) % 2 ^ 32 = (s + 15) / 16 * 16 + 15 :=
        Nat.mod_eq_of_lt (by omega)
      rw [RoundToMultipleOf16_eq s, h15, RoundToMultipleOf16_eq, h16]
      omega
    · have hzero : RoundToMultipleOf16 s = 0 := by
        rw [RoundToMultipleOf16_eq]
        omega
      rw [hzero]
      decide
  · intro s hlarge hs
    rw [RoundToMultipleOf16_eq]
    omega

/-- Witness of C39: the sizes 0, 1, 16, 17 and `0xFFFFFFF0` are rounded to 0, 16, 16, 32 and
`0xFFFFFFF0`, and the size `0xFFFFFFF1` wraps to 0. -/
theorem C39_round_to_multiple_of_16_witness :
    RoundToMultipleOf16 0 = 0 ∧ RoundToMultipleOf16 1 = 16 ∧ RoundToMultipleOf16 16 = 16 ∧
    RoundToMultipleOf16 17 = 32 ∧ RoundToMultipleOf16 0xFFFFFFF0 = 0xFFFFFFF0 ∧
    RoundToMultipleOf16 0xFFFFFFF1 = 0 ∧
    (17 ≤ 0xFFFFFFF0 ∧ RoundToMultipleOf16 17 < 17 + 16) := by
  refine ⟨by decide, by decide, by decide, by decide, by decide, ?_, by decide, ?_⟩
  · exact C39_round_to_multiple_of_16.2.2 0xFFFFFFF1 (by decide) (by decide)
  · exact (C39_round_to_multiple_of_16.1 17 (by decide)).2.2.1

theorem MakeTypelessFormat_MakeSRGBFormat (f : Nat) :
    MakeTypelessFormat (MakeSRGBFormat f) = MakeTypelessFormat f := by
  unfold MakeTypelessFormat MakeSRGBFormat DXGI_FORMAT_R8G8B8A8_TYPELESS
    DXGI_FORMAT_R8G8B8A8_UNORM DXGI_FORMAT_R8G8B8A8_UNORM_SRGB DXGI_FORMAT_BC1_TYPELESS
    DXGI_FORMAT_BC1_UNORM DXGI_FORMAT_BC1_UNORM_SRGB DXGI_FORMAT_BC2_TYPELESS
    DXGI_FORMAT_BC2_UNORM DXGI_FORMAT_BC2_UNORM_SRGB DXGI_FORMAT_BC3_TYPELESS
    DXGI_FORMAT_BC3_UNORM DXGI_FORMAT_BC3_UNORM_SRGB
  split_ifs <;> simp_all

theorem MakeTypelessFormat_MakeNonSRBFormat (f : Nat) :
    MakeTypelessFormat (MakeNonSRBFormat f) = MakeTypelessFormat f := by
  unfold MakeTypelessFormat MakeNonSRBFormat DXGI_FORMAT_R8G8B8A8_TYPELESS
    DXGI_FORMAT_R8G8B8A8_UNORM DXGI_FORMAT_R8G8B8A8_UNORM_SRGB DXGI_FORMAT_BC1_TYPELESS
    DXGI_FORMAT_BC1_UNORM DXGI_FORMAT_BC1_UNORM_SRGB DXGI_FORMAT_BC2_TYPELESS
    DXGI_FORMAT_BC2_UNORM DXGI_FORMAT_BC2_UNORM_SRGB DXGI_FORMAT_BC3_TYPELESS
    DXGI_FORMAT_BC3_UNORM DXGI_FORMAT_BC3_UNORM_SRGB
  split_ifs <;> simp_all

theorem ite_mem_list {α : Type} (c : Prop) [Decidable c] (a b : α) (l : List α) (ha : a ∈ l)
    (hb : b ∈ l) : (if c then a else b) ∈ l := by
  split_ifs <;> assumption

/-- The pairs that `LiteralToFormat` returns. -/
theorem LiteralToFormat_mem (k : FX.Literals) (value : Nat) :
    LiteralToFormat k value ∈
      [(DXGI_FORMAT_R8_UNORM, FX.TextureFormat.R8),
       (DXGI_FORMAT_R32_FLOAT, FX.TextureFormat.R32F),
       (DXGI_FORMAT_R8G8_UNORM, FX.TextureFormat.RG8),
       (DXGI_FORMAT_R8G8B8A8_TYPELESS, FX.TextureFormat.RGBA8),
       (DXGI_FORMAT_R16G16B16A16_UNORM, FX.TextureFormat.RGBA16),
       (DXGI_FORMAT_R16G16B16A16_FLOAT, FX.TextureFormat.RGBA16F),
       (DXGI_FORMAT_R32G32B32A32_FLOAT, FX.TextureFormat.RGBA32F),
       (DXGI_FORMAT_BC1_TYPELESS, FX.TextureFormat.DXT1),
       (DXGI_FORMAT_BC2_TYPELESS, FX.TextureFormat.DXT3),
       (DXGI_FORMAT_BC3_TYPELESS, FX.TextureFormat.DXT5),
       (DXGI_FORMAT_BC4_UNORM, FX.TextureFormat.LATC1),
       (DXGI_FORMAT_BC5_UNORM, FX.TextureFormat.LATC2),
       (DXGI_FORMAT_UNKNOWN, FX.TextureFormat.Unknown)] := by
  unfold LiteralToFormat
  repeat' apply ite_mem_list
  all_goals decide

/-- The formats that `LiteralToFormat` produces and that `MakeSRGBFormat` changes. -/
theorem MakeSRGBFormat_LiteralToFormat (k : FX.Literals) (value : Nat) :
    MakeSRGBFormat (LiteralToFormat k value).1 ≠ (LiteralToFormat k value).1 ↔
      ((LiteralToFormat k value).2 = FX.TextureFormat.RGBA8 ∨
        (LiteralToFormat k value).2 = FX.TextureFormat.DXT1 ∨
        (LiteralToFormat k value).2 = FX.TextureFormat.DXT3 ∨
        (LiteralToFormat k value).2 = FX.TextureFormat.DXT5) := by
  have hmem := LiteralToFormat_mem k value
  generalize LiteralToFormat k value = p at hmem ⊢
  simp only [List.mem_cons, List.mem_singleton, List.not_mem_nil, or_false] at hmem
  rcases hmem with rfl | rfl | rfl | rfl | rfl | rfl | rfl | rfl | rfl | rfl | rfl | rfl | rfl <;>
    decide

/-- A memory texture that `VisitTexture` registers without setting the fatal flag has a second
shader-resource view exactly when `MakeSRGBFormat` changes its format. -/
theorem VisitTexture_srgb_view (env : Env) (c c1 : D3D10EffectCompiler) (node : FX.Variable)
    (hcolor : ¬ (node.Semantic = "COLOR" ∨ node.Semantic = "SV_TARGET"))
    (hdepth : ¬ (node.Semantic = "DEPTH" ∨ node.Semantic = "SV_DEPTH"))
    (h : VisitTexture env c node = some c1) (hfatal : c1.mFatal = false) :
    ∃ t : D3D10Texture,
      c1.mEffect.mTextures = c.mEffect.mTextures ++ [(node.Name, t)] ∧
      t.mDesc.Format = (LiteralToFormat env.literals node.Properties.Format).2 ∧
      (t.mShaderResourceView.2.isSome = true ↔
        MakeSRGBFormat (LiteralToFormat env.literals node.Properties.Format).1 ≠
          (LiteralToFormat env.literals node.Properties.Format).1) := by
  unfold VisitTexture at h
  simp only [if_neg hcolor, if_neg hdepth] at h
  simp only [ne_eq, not_true_eq_false, if_false, Option.some.injEq] at h
  subst h
  generalize LiteralToFormat env.literals node.Properties.Format = format at hfatal ⊢
  unfold VisitTextureCreate at hfatal ⊢
  simp only at hfatal ⊢
  split_ifs at hfatal ⊢ with h1 h2 h3 h4 h5
  all_goals first
    | exact ⟨_, rfl, rfl, ⟨fun _ => by assumption, fun _ => rfl⟩⟩
    | exact ⟨_, rfl, rfl, ⟨fun hsome => by simp at hsome, fun hne => absurd hne (by assumption)⟩⟩

/-- C38: for every DXGI format the sRGB format, the format that is not sRGB and the format
itself have the same typeless format. Among the formats that `LiteralToFormat` produces,
`MakeSRGBFormat` changes exactly those of the effect formats RGBA8, DXT1, DXT3 and DXT5, and
a memory texture that `VisitTexture` registers without setting the fatal flag has its sRGB
view exactly for these formats. -/
theorem C38_format_families :
    (∀ f : DXGI_FORMAT,
      MakeTypelessFormat (MakeSRGBFormat f) = MakeTypelessFormat f ∧
      MakeTypelessFormat (MakeNonSRBFormat f) = MakeTypelessFormat f) ∧
    (∀ (k : FX.Literals) (value : Nat),
      MakeSRGBFormat (LiteralToFormat k value).1 ≠ (LiteralToFormat k value).1 ↔
        ((LiteralToFormat k value).2 = FX.TextureFormat.RGBA8 ∨
          (LiteralToFormat k value).2 = FX.TextureFormat.DXT1 ∨
          (LiteralToFormat k value).2 = FX.TextureFormat.DXT3 ∨
          (LiteralToFormat k value).2 = FX.TextureFormat.DXT5)) ∧
    (∀ (env : Env) (c c1 : D3D10EffectCompiler) (node : FX.Variable),
      ¬ (node.Semantic = "COLOR" ∨ node.Semantic = "SV_TARGET") →
      ¬ (node.Semantic = "DEPTH" ∨ node.Semantic = "SV_DEPTH") →
      VisitTexture env c node = some c1 → c1.mFatal = false →
      ∃ t : D3D10Texture,
        c1.mEffect.mTextures = c.mEffect.mTextures ++ [(node.Name, t)] ∧
        (t.mShaderResourceView.2.isSome = true ↔
          (t.mDesc.Format = FX.TextureFormat.RGBA8 ∨ t.mDesc.Format = FX.TextureFormat.DXT1 ∨
            t.mDesc.Format = FX.TextureFormat.DXT3 ∨
            t.mDesc.Format = FX.TextureFormat.DXT5))) := by
  refine ⟨fun f => ⟨MakeTypelessFormat_MakeSRGBFormat f, MakeTypelessFormat_MakeNonSRBFormat f⟩,
    MakeSRGBFormat_LiteralToFormat, ?_⟩
  intro env c c1 node hcolor hdepth h hfatal
  obtain ⟨t, ht, hformat, hview⟩ := VisitTexture_srgb_view env c c1 node hcolor hdepth h hfatal
  refine ⟨t, ht, ?_⟩
  rw [hview, hformat]
  exact MakeSRGBFormat_LiteralToFormat env.literals node.Properties.Format

open Example in
set_option maxRecDepth 100000 in
/-- Witness of C38: the texture `T` of format RGBA8 is registered with an sRGB view, and the
typeless format of the three formats of its family is `R8G8B8A8_TYPELESS`. -/
theorem C38_format_families_witness :
    (∃ c1 t, VisitTexture (env okDevice) start (texture "T") = some c1 ∧
      c1.mEffect.mTextures = start.mEffect.mTextures ++ [("T", t)] ∧
      t.mDesc.Format = FX.TextureFormat.RGBA8 ∧ t.mShaderResourceView.2.isSome = true) ∧
    MakeTypelessFormat (MakeSRGBFormat DXGI_FORMAT_R8G8B8A8_UNORM) =
      DXGI_FORMAT_R8G8B8A8_TYPELESS := by
  have h : (VisitTexture (env okDevice) start (texture "T")).map (fun c1 =>
      (c1.mFatal, c1.mEffect.mTextures.map (fun entry => entry.2.mDesc.Format))) =
      some (false, [FX.TextureFormat.RGBA8]) := by decide!
  obtain ⟨c1, hc1, hvalue⟩ := Option.map_eq_some'.1 h
  simp only [Prod.mk.injEq] at hvalue
  obtain ⟨t, ht, hview⟩ :=
    C38_format_families.2.2 (env okDevice) start c1 (texture "T") (by decide) (by decide) hc1
      hvalue.1
  have hformat : t.mDesc.Format = FX.TextureFormat.RGBA8 := by
    have h2 := hvalue.2
    rw [ht] at h2
    have h3 : (start.mEffect.mTextures ++ [((texture "T").Name, t)]).map
        (fun entry => entry.2.mDesc.Format) = [t.mDesc.Format] := rfl
    exact (List.cons.inj (h3.symm.trans h2)).1
  refine ⟨⟨c1, t, hc1, ht, hformat, hview.2 (Or.inl hformat)⟩, ?_⟩
  rw [(C38_format_families.1 DXGI_FORMAT_R8G8B8A8_UNORM).1]
  decide

/-- C37: the view that `OnGetDepthStencilView` gives for the view that
`OnSetDepthStencilView` gave for `x` is the pointer `x`, if and only if `x` is not the
replacement, or the replacement is the selected depth source, or no replacement exists; both
methods leave the runtime as it is. A view that is neither the depth source nor the
replacement comes back as the same object. -/
theorem C37_get_after_set (r : D3D10RuntimeState) (x : Option ID3D10DepthStencilView) :
    (OnSetDepthStencilView r x).1 = r ∧
    (OnGetDepthStencilView (OnSetDepthStencilView r x).1 (OnSetDepthStencilView r x).2).1 = r ∧
    (SameView
        (OnGetDepthStencilView (OnSetDepthStencilView r x).1 (OnSetDepthStencilView r x).2).2 x ↔
      (¬ SameView x r.mDepthStencilReplacement ∨
        SameView r.mDepthStencilReplacement r.mDepthStencil ∨
        r.mDepthStencilReplacement = none)) ∧
    (¬ SameView x r.mDepthStencil → ¬ SameView x r.mDepthStencilReplacement →
      (OnGetDepthStencilView (OnSetDepthStencilView r x).1 (OnSetDepthStencilView r x).2).2 =
        x) := by
  have h1 : (OnSetDepthStencilView r x).1 = r := by
    unfold OnSetDepthStencilView
    split_ifs <;> rfl
  have h2 : ∀ y, (OnGetDepthStencilView r y).1 = r := by
    intro y
    unfold OnGetDepthStencilView
    split_ifs <;> rfl
  rw [h1]
  refine ⟨rfl, h2 _, ?_⟩
  unfold OnSetDepthStencilView OnGetDepthStencilView SameView
  generalize r.mDepthStencilReplacement = R
  generalize r.mDepthStencil = D
  rcases R with _ | replacement
  · simp
  · by_cases hd : x.map (fun v => v.id) = D.map (fun v => v.id)
    · by_cases hx : D.map (fun v => v.id) = some replacement.id
      · simp [hd, hx]
      · have hx1 : ¬ some replacement.id = D.map (fun v => v.id) := fun e => hx e.symm
        simp [hd, hx, hx1]
    · by_cases hx : x.map (fun v => v.id) = some replacement.id
      · have hx1 : ¬ D.map (fun v => v.id) = some replacement.id := fun e => hd (hx.trans e.symm)
        have hx2 : ¬ some replacement.id = D.map (fun v => v.id) := fun e => hx1 e.symm
        have hx3 : ¬ D.map (fun v => v.id) = x.map (fun v => v.id) := fun e => hd e.symm
        simp [hd, hx, hx1, hx2, hx3]
      · simp [hd, hx]

open Example in
/-- Witness of C37: in the runtime `replaced`, whose depth source is the view 1 and whose
replacement is the view 2, the views 1 and 3 are read back as they were set, and the view 2 is
not. -/
theorem C37_get_after_set_witness :
    (OnGetDepthStencilView replaced (OnSetDepthStencilView replaced (some (depthView 1))).2).2 =
      some (depthView 1) ∧
    (OnGetDepthStencilView replaced (OnSetDepthStencilView replaced (some (depthView 3))).2).2 =
      some (depthView 3) ∧
    ¬ SameView
      (OnGetDepthStencilView (OnSetDepthStencilView replaced (some (depthView 2))).1
        (OnSetDepthStencilView replaced (some (depthView 2))).2).2 (some (depthView 2)) := by
  refine ⟨by decide, ?_, ?_⟩
  · exact (C37_get_after_set replaced (some (depthView 3))).2.2.2 (by decide) (by decide)
  · rw [(C37_get_after_set replaced (some (depthView 2))).2.2.1]
    decide

/-- C32: a binary node whose operands emit the texts `L` and `R` emits `(L op R)`, where `op`
is the token of HLSL for its operator, for every operator but element extraction, and `L[R]`
for element extraction; a conditional node whose condition emits `C` emits `(C ? L : R)`, and
an assignment node emits `(L op R)` with the token of its assignment operator: each of them
between one pair of parentheses. -/
theorem C32_operators_text (printFloat : Nat → String) (type : FX.TypeNode)
    (condition left right : FX.Expr) (C L R : String)
    (hC : EmitsText printFloat condition C) (hL : EmitsText printFloat left L)
    (hR : EmitsText printFloat right R) :
    (∀ operator : FX.BinaryOp, operator ≠ FX.BinaryOp.ElementExtract →
      EmitsText printFloat (FX.Expr.Binary type operator left right)
        ("(" ++ L ++ " " ++ BinaryToken operator ++ " " ++ R ++ ")")) ∧
    EmitsText printFloat (FX.Expr.Binary type FX.BinaryOp.ElementExtract left right)
      (L ++ "[" ++ R ++ "]") ∧
    EmitsText printFloat (FX.Expr.Conditional type condition left right)
      ("(" ++ C ++ " ? " ++ L ++ " : " ++ R ++ ")") ∧
    (∀ operator : FX.AssignmentOp,
      EmitsText printFloat (FX.Expr.Assignment type operator left right)
        ("(" ++ L ++ " " ++ AssignmentToken operator ++ " " ++ R ++ ")")) := by
  have hparts : ∀ operator : FX.BinaryOp, operator ≠ FX.BinaryOp.ElementExtract →
      BinaryParts operator = ("(", " " ++ BinaryToken operator ++ " ", ")") := by
    intro operator hne
    cases operator <;> first | rfl | exact absurd rfl hne
  refine ⟨?_, ?_, ?_, ?_⟩
  · intro operator hne s
    simp only [VisitExpression, hparts operator hne, hL _, hR _, String.append_assoc]
  · intro s
    simp only [VisitExpression, BinaryParts, hL _, hR _, String.append_assoc, String.append_empty]
  · intro s
    simp only [VisitExpression, hC _, hL _, hR _, String.append_assoc]
  · intro operator s
    simp only [VisitExpression, hL _, hR _, String.append_assoc]

open Example in
/-- Witness of C32: the sum, the element, the choice and the assignment of `a` and `b`. -/
theorem C32_operators_text_witness :
    VisitExpression printHalf
      (FX.Expr.Binary float FX.BinaryOp.Add (reference "a") (reference "b")) "x = " =
      some "x = (a + b)" ∧
    VisitExpression printHalf
      (FX.Expr.Binary float FX.BinaryOp.ElementExtract (reference "a") (reference "b")) "" =
      some "a[b]" ∧
    VisitExpression printHalf
      (FX.Expr.Conditional float (reference "c") (reference "a") (reference "b")) "" =
      some "(c ? a : b)" ∧
    VisitExpression printHalf
      (FX.Expr.Assignment float FX.AssignmentOp.Add (reference "a") (reference "b")) "" =
      some "(a += b)" := by
  have h := C32_operators_text printHalf float (reference "c") (reference "a") (reference "b")
    "c" "a" "b" (EmitsText_LValue _ _ _) (EmitsText_LValue _ _ _) (EmitsText_LValue _ _ _)
  refine ⟨?_, ?_, ?_, ?_⟩
  · rw [h.1 FX.BinaryOp.Add (by decide) "x = "]
    decide
  · rw [h.2.1 ""]
    decide
  · rw [h.2.2.1 ""]
    decide
  · rw [h.2.2.2 FX.AssignmentOp.Add ""]
    decide

/-- What `D3D10Texture::Update` returns: `true`, with the call of `UpdateSubresource`, exactly
when the pointer to the data is not null, the size is not 0, the source of the texture is the
memory and the level is not above the number `Levels` of the description; `false`, with no
call on the device, otherwise. -/
theorem Update_returns (t : D3D10Texture) (level : Nat) (data : Option (List Nat)) (size : Nat)
    (result : Bool × List Command) (h : Update t level data size = some result) :
    (result.1 = true ↔
      data.isSome = true ∧ size ≠ 0 ∧ level ≤ t.mDesc.Levels ∧ t.mSource = Source.Memory) ∧
    (result.1 = false → result.2 = []) ∧
    (result.1 = true →
      ∃ bytes rest, data = some bytes ∧
        result.2 =
          Command.UpdateSubresource t.mTexture level bytes
            ((size / t.mDesc.Height) % UINT_MOD) (size % UINT_MOD) :: rest) := by
  unfold Update at h
  cases data with
  | none =>
    simp only [Option.some.injEq] at h
    subst h
    simp
  | some bytes =>
    simp only at h
    split_ifs at h with h1 h2 h3
    · simp only [Option.some.injEq] at h
      subst h
      simp only [Bool.false_eq_true, Option.isSome_some, ne_eq, true_and, false_iff, not_and,
        forall_true_left, false_implies, and_true]
      intro hsize hlevel hsource
      rcases h1 with h1 | h1 | h1
      · exact hsize h1
      · omega
      · exact h1 hsource
    · have h4 : size ≠ 0 ∧ level ≤ t.mDesc.Levels ∧ t.mSource = Source.Memory := by
        refine ⟨fun e => h1 (Or.inl e), ?_, ?_⟩
        · by_contra hlevel
          exact h1 (Or.inr (Or.inl (by omega)))
        · by_contra hsource
          exact h1 (Or.inr (Or.inr hsource))
      split at h
      · simp only [Option.some.injEq] at h
        subst h
        exact ⟨⟨fun _ => ⟨rfl, h4⟩, fun _ => rfl⟩, by simp, fun _ => ⟨bytes, _, rfl, rfl⟩⟩
      · simp at h
    · have h4 : size ≠ 0 ∧ level ≤ t.mDesc.Levels ∧ t.mSource = Source.Memory := by
        refine ⟨fun e => h1 (Or.inl e), ?_, ?_⟩
        · by_contra hlevel
          exact h1 (Or.inr (Or.inl (by omega)))
        · by_contra hsource
          exact h1 (Or.inr (Or.inr hsource))
      simp only [Option.some.injEq] at h
      subst h
      exact ⟨⟨fun _ => ⟨rfl, h4⟩, fun _ => rfl⟩, by simp, fun _ => ⟨bytes, _, rfl, rfl⟩⟩

open Example in
set_option maxRecDepth 100000 in
/-- C40: the texture `T` that `VisitTexture` registers on a device that succeeds has one mip
level (`Levels = 1`, and the texture of the device has one mip level) and the memory as its
source; `Update` at level 1, which is not below the number of its mip levels, with four bytes
of data returns `true` and calls `UpdateSubresource` for the subresource 1. At level 2 it
returns `false` without a call. -/
theorem C40_update_at_level_count :
    (withTexture.mEffect.GetTexture "T").map (fun t =>
        (t.mDesc.Levels, t.mTexture.map (fun resource => resource.desc.MipLevels),
          decide (t.mSource = Source.Memory))) = some (1, some 1, true) ∧
    (withTexture.mEffect.GetTexture "T").bind (fun t =>
        (Update t 1 (some [0, 0, 0, 0]) 4).map (fun result =>
          (result.1,
            decide (result.2 = [Command.UpdateSubresource t.mTexture 1 [0, 0, 0, 0] 4 4])))) =
      some (true, true) ∧
    (withTexture.mEffect.GetTexture "T").bind (fun t =>
        (Update t 2 (some [0, 0, 0, 0]) 4).map (fun result =>
          (result.1, decide (result.2 = [])))) = some (false, true) := by
  refine ⟨by decide!, by decide!, by decide!⟩

/-- The end of `VisitUniformBuffer` either appends the constant buffer of the block and its
mirror, or, when the creation of the buffer has failed, leaves both lists and the fatal flag as
they are; in the second case the block is registered with a buffer index that is the length of
the list of constant buffers. -/
theorem UniformBufferEnd_failure (env : Env) (name : String)
    (annotations : List FX.AnnotationNode) (fields : Nat) (c c1 : D3D10EffectCompiler)
    (locals : BlockLocals)
    (h : UniformBufferEnd env name annotations fields c locals = some c1) :
    c1.mFatal = c.mFatal ∧ c1.mErrors = c.mErrors ∧
    ∃ u : D3D10Constant,
      c1.mEffect.mConstants = c.mEffect.mConstants ++ [(name, u)] ∧
      u.mBufferIndex = c.mEffect.mConstantBuffers.length ∧
      ((∃ b, c1.mEffect.mConstantBuffers = c.mEffect.mConstantBuffers ++ [some b] ∧
          c1.mEffect.mConstantStorages = c.mEffect.mConstantStorages ++ [locals.storage]) ∨
        (c1.mEffect.mConstantBuffers = c.mEffect.mConstantBuffers ∧
          c1.mEffect.mConstantStorages = c.mEffect.mConstantStorages ∧
          ∃ e ∈ c1.mDeviceCalls, e.isFailedBuffer = true)) := by
  unfold UniformBufferEnd at h
  simp only at h
  split at h
  · simp at h
  · rename_i bytes hbytes
    split_ifs at h with hok <;> simp only [Option.some.injEq] at h <;> subst h
    · exact ⟨rfl, rfl, _, rfl, rfl, Or.inl ⟨_, rfl, rfl⟩⟩
    · refine ⟨rfl, rfl, _, rfl, rfl, Or.inr ⟨rfl, rfl, ?_⟩⟩
      refine ⟨_, List.mem_append_right _ (List.mem_singleton_self _), ?_⟩
      simp only [DeviceCall.isFailedBuffer, Device.call] at hok ⊢
      simp only [FAILED, SUCCEEDED, decide_eq_true_eq, not_le] at hok ⊢
      exact hok

open Example in
set_option maxRecDepth 100000 in
/-- C35: the effect file with the uniform block `Params`, compiled on a device on which only
the creation of buffers fails. The compilation succeeds without a diagnostic; the effect has
one slot of constant buffers and one mirror, and the four uniforms of the block are registered
with the buffer index 1, which is no index of these lists; `GetValue` and `SetValue` on the
uniform `Params.mode` read outside the list of mirrors. -/
theorem C35_block_on_failed_buffer :
    (CompileEffect (env noBufferDevice) [] blockTree "").map (fun compiled =>
        (compiled.1.map (fun effect =>
          (effect.mConstantBuffers.length, effect.mConstantStorages.length)),
          compiled.2.1)) = some (some (1, 1), "") ∧
    (CompileEffect (env noBufferDevice) [] blockTree "").map (fun compiled =>
        compiled.1.map (fun effect =>
          effect.mConstants.map (fun entry => (entry.1, entry.2.mBufferIndex)))) =
      some (some [("Params.scale", 1), ("Params.mode", 1), ("Params.color", 1),
        ("Params", 1)]) ∧
    (CompileEffect (env noBufferDevice) [] blockTree "").bind (fun compiled =>
        compiled.1.bind (fun effect =>
          (List.lookup "Params.mode" effect.mConstants).map (fun mode =>
            ((GetValue effect mode [0, 0, 0, 0] 4).isNone,
              (SetValue effect mode [1, 0, 0, 0] 4).isNone)))) = some (true, true) := by
  refine ⟨by decide!, by decide!, by decide!⟩

open Example in
set_option maxRecDepth 100000 in
/-- C36: on a runtime whose back buffer of 640 by 480 pixels has its two render-target views,
a pass that declares the texture `T` of 1 by 1 pixel as its render target 1 and declares no
render target 0 is compiled without a fatal error and without a diagnostic. Its viewport is 1
by 1; its render target 1 is a view of the texture of 1 by 1, and its render target 0 is the
view of the back buffer of 640 by 480. -/
theorem C36_default_target_size :
    (CreateBackBufferReplacement okDevice backBuffer 1 0 presenting).bind (fun created =>
      (VisitTexture { env okDevice with mRuntime := created.1.toRuntime okDevice false } start
          (texture "T")).bind (fun c =>
        (VisitPass { env okDevice with mRuntime := created.1.toRuntime okDevice false } c
            (pass [none, some "T"]) []).map (fun visited =>
          (visited.1.mFatal, visited.1.mErrors,
            visited.2.map (fun p => (p.Viewport.Width, p.Viewport.Height)))))) =
      some (false, "", [(1, 1)]) ∧
    (CreateBackBufferReplacement okDevice backBuffer 1 0 presenting).bind (fun created =>
      (VisitTexture { env okDevice with mRuntime := created.1.toRuntime okDevice false } start
          (texture "T")).bind (fun c =>
        (VisitPass { env okDevice with mRuntime := created.1.toRuntime okDevice false } c
            (pass [none, some "T"]) []).map (fun visited =>
          visited.2.map (fun p =>
            p.RT.map (fun target =>
              target.map (fun view =>
                (view.resource.desc.Width, view.resource.desc.Height))))))) =
      some [[some (640, 480), some (1, 1), none, none, none, none, none, none]] := by
  refine ⟨by decide!, by decide!⟩

/-- The field of a uniform block at file scope, as `Visit(Variable)` routes it and as
`Visit(FieldSelection)` refers to it: a field whose type has the qualifier `uniform` is handed
to `VisitUniform`, which leaves the shader source, and is referred to as `(B_f)`; a field whose
type does not have it is declared in the shader source under the name `B_f` and is referred to
as `(B.f)`. -/
theorem block_field_names (env : Env) (printFloat : Nat → String) (c : D3D10EffectCompiler)
    (f : FX.Variable) (type : FX.TypeNode) (operand : FX.Expr) (B T : String)
    (hp : c.mCurrentInParameterBlock = false) (hf : c.mCurrentInFunctionBlock = false)
    (hfor : c.mCurrentInForInitialization ≤ 1)
    (hname : c.mCurrentBlockName = B) (hB : B ≠ "")
    (hblock : DeclaresBlock f = false) (htexture : f.Ty.IsTexture = false)
    (hsampler : f.Ty.IsSampler = false) (hfield : f.Name ≠ "")
    (hinit : f.Initializer = none) (hT : PrintTypeWithQualifiers f.Ty = some T)
    (hoperand : EmitsText printFloat operand B) :
    (f.Ty.HasQualifier FX.Qualifier.Uniform = true →
      VisitVariable env c f = VisitUniform env c f ∧
      (∀ c1, VisitVariable env c f = some c1 → c1.mCurrentSource = c.mCurrentSource) ∧
      EmitsText printFloat (FX.Expr.FieldSelection type operand f)
        ("(" ++ B ++ "_" ++ f.Name ++ ")")) ∧
    (f.Ty.HasQualifier FX.Qualifier.Uniform = false →
      VisitVariable env c f =
        some { c with
          mCurrentSource :=
            c.mCurrentSource ++ T ++ " " ++ B ++ "_" ++ f.Name ++ PrintArray f.Ty ++
              (if f.Semantic ≠ "" then " : " ++ ConvertSemantic f.Semantic else "") ++ ";\n" } ∧
      EmitsText printFloat (FX.Expr.FieldSelection type operand f)
        ("(" ++ B ++ "." ++ f.Name ++ ")")) := by
  have hroute := VisitVariable_route env c f hblock hp hf
  rw [htexture, hsampler] at hroute
  simp only [Bool.false_eq_true, if_false] at hroute
  constructor
  · intro hu
    rw [hu] at hroute
    simp only [if_true] at hroute
    refine ⟨hroute, ?_, ?_⟩
    · intro c1 h1
      rw [hroute] at h1
      exact VisitUniform_source env c c1 f h1
    · intro s
      simp only [VisitExpression, hoperand _, hu, if_true, String.append_assoc]
  · intro hu
    rw [hu] at hroute
    simp only [Bool.false_eq_true, if_false] at hroute
    refine ⟨?_, ?_⟩
    · rw [hroute]
      unfold VisitVariableDecl
      simp only [hfor, if_true, hT, hname, hinit, hp, hf, Bool.or_self, Bool.not_false, ne_eq,
        hfield, not_false_eq_true, hB, String.append_assoc]
      split_ifs <;> simp only [String.append_assoc, String.append_empty, String.empty_append]
    · intro s
      simp only [VisitExpression, hoperand _, hu, Bool.false_eq_true, if_false,
        String.append_assoc]

open Example in
set_option maxRecDepth 100000 in
/-- C31: the uniform block `Params` with the field `int mode;` is emitted with the declaration
`int Params_mode;` in its body, and the selection of this field from `Params` is emitted as
`(Params.mode)`. The uniform block `Globals` with the field `uniform int mode;` is emitted with
an empty body, the field being declared as `uniform int mode;` among the global uniforms, and
the selection of this field from `Globals` is emitted as `(Globals_mode)`. -/
theorem C31_block_field_reference :
    (VisitVariable (env okDevice) start block).map (fun c => c.mCurrentSource) =
      some ("cbuffer Params : register(b1)\n\x7b\n" ++
        "float2 Params_scale;\nint Params_mode;\nfloat4 Params_color;\n" ++ "\x7d;\n") ∧
    VisitExpression printHalf
      (FX.Expr.FieldSelection modeField.Ty (FX.Expr.LValue blockType block) modeField) "" =
      some "(Params.mode)" ∧
    modeField ∈ [numeric FX.Class.Float [] 2 1 "scale", modeField,
      numeric FX.Class.Float [] 4 1 "color"] ∧
    (VisitVariable (env okDevice) start uniformBlock).map (fun c =>
        (c.mCurrentSource, c.mCurrentGlobalConstants)) =
      some ("cbuffer Globals : register(b1)\n\x7b\n" ++ "\x7d;\n", "uniform int mode;\n") ∧
    VisitExpression printHalf
      (FX.Expr.FieldSelection uniformModeField.Ty (FX.Expr.LValue uniformBlock.Ty uniformBlock)
        uniformModeField) "" =
      some "(Globals_mode)" := by
  refine ⟨by decide!, by decide!, by simp, by decide!, by decide!⟩

/-- A uniform of a type with at most four rows and columns has at most 64 bytes. -/
theorem ConstantDescriptionOf_size_small (t : FX.TypeNode) (hr : t.Rows ≤ 4) (hc : t.Cols ≤ 4) :
    (ConstantDescriptionOf t).Size ≤ 64 := by
  have hn : t.Rows * t.Cols ≤ 16 := by nlinarith
  have hm : (t.Rows * t.Cols) % UINT_MOD = t.Rows * t.Cols :=
    Nat.mod_eq_of_lt (by unfold UINT_MOD; omega)
  unfold ConstantDescriptionOf
  simp only [hm]
  cases t.BaseClass <;> simp only <;> omega

/-- A multiple of 128 above the used size is not below the used size rounded up to a multiple
of 16. -/
theorem RoundToMultipleOf16_le_capacity (used cap : Nat) (h128 : cap % 128 = 0)
    (hused : used < cap) (hcap : cap < 2 ^ 32) : RoundToMultipleOf16 used ≤ cap := by
  have h15 : (used + 15) % 2 ^ 32 = used + 15 := Nat.mod_eq_of_lt (by omega)
  rw [RoundToMultipleOf16_eq, h15]
  omega

/-- One uniform of at most 64 bytes is laid out in a mirror that is not about to exceed 32
bits: the write of its initial value is inside the mirror, after it the capacity is above the
used size and not below the used size rounded up to a multiple of 16, and the invariant of the
mirror is kept. -/
theorem layout_inside (g : Nat → Nat) (used cap : Nat) (storage : Storage) (size : Nat)
    (init : Option FX.Expression) (hsize : size ≤ 64) (hinv : LayoutInv used cap storage)
    (hcap : cap + 128 < 2 ^ 32) (hinit : (InitialBytes init size).isSome = true) :
    ∃ mem,
      InitStorage (GrowStorage g (AdvanceSize used size) cap storage).2
        (SizeSub (AdvanceSize used size) size) init size = some mem ∧
      mem.length = (GrowStorage g (AdvanceSize used size) cap storage).1 ∧
      AdvanceSize used size < (GrowStorage g (AdvanceSize used size) cap storage).1 ∧
      RoundToMultipleOf16 (AdvanceSize used size) ≤
        (GrowStorage g (AdvanceSize used size) cap storage).1 ∧
      SizeSub (AdvanceSize used size) size + size = AdvanceSize used size ∧
      ((GrowStorage g (AdvanceSize used size) cap storage).1 = cap ∨
        (GrowStorage g (AdvanceSize used size) cap storage).1 = cap + 128) ∧
      LayoutInv (AdvanceSize used size) (GrowStorage g (AdvanceSize used size) cap storage).1
        (some mem) := by
  obtain ⟨h128, hcap32, hused, hlen⟩ := hinv
  obtain ⟨bytes, hbytes⟩ := Option.isSome_iff_exists.1 hinit
  have hblen := InitialBytes_length _ _ _ hbytes
  have hadv : used + size ≤ AdvanceSize used size ∧ AdvanceSize used size ≤ used + size + 15 := by
    unfold AdvanceSize UINT_MOD
    simp only
    split_ifs <;> omega
  have hsub : SizeSub (AdvanceSize used size) size + size = AdvanceSize used size := by
    unfold SizeSub SIZE_MOD
    omega
  have hgrown : ∃ mem0, (GrowStorage g (AdvanceSize used size) cap storage).2 = some mem0 ∧
      mem0.length = (GrowStorage g (AdvanceSize used size) cap storage).1 ∧
      AdvanceSize used size < (GrowStorage g (AdvanceSize used size) cap storage).1 ∧
      (GrowStorage g (AdvanceSize used size) cap storage).1 % 128 = 0 ∧
      ((GrowStorage g (AdvanceSize used size) cap storage).1 = cap ∨
        (GrowStorage g (AdvanceSize used size) cap storage).1 = cap + 128) := by
    unfold GrowStorage
    split_ifs with hge
    · have hmod : (cap + 128) % UINT_MOD = cap + 128 :=
        Nat.mod_eq_of_lt (by unfold UINT_MOD; omega)
      simp only [hmod]
      have hne : cap + 128 ≠ 0 := by omega
      refine ⟨_, by unfold Realloc; rw [if_neg hne], ?_, by omega, by omega, ?_⟩
      · simp only [List.length_append, List.length_map, List.length_range, List.length_take]
        omega
      · first
          | exact Or.inr rfl
          | exact Or.inr trivial
    · cases storage with
      | none =>
        simp only [Option.getD_none, List.length_nil] at hlen
        omega
      | some mem0 =>
        simp only [Option.getD_some] at hlen
        exact ⟨mem0, rfl, hlen, by omega, h128, Or.inl rfl⟩
  obtain ⟨mem0, hs, hl0, hstrict, hmod, hor⟩ := hgrown
  have hwrite : ∃ mem, WriteBytes mem0 (SizeSub (AdvanceSize used size) size) bytes = some mem := by
    unfold WriteBytes
    rw [if_pos (by rw [hblen]; omega)]
    exact ⟨_, rfl⟩
  obtain ⟨mem, hmem⟩ := hwrite
  have hmlen := WriteBytes_length hmem
  have hcap1 : (GrowStorage g (AdvanceSize used size) cap storage).1 < 2 ^ 32 := by
    rcases hor with h | h <;> omega
  refine ⟨mem, ?_, by rw [hmlen, hl0], hstrict,
    RoundToMultipleOf16_le_capacity _ _ hmod hstrict hcap1, hsub, hor, ?_⟩
  · unfold InitStorage
    rw [hs, hbytes]
    exact hmem
  · refine ⟨hmod, hcap1, by omega, ?_⟩
    simp only [Option.getD_some]
    rw [hmlen, hl0]

/-- The method `VisitUniform` returns for a uniform of a printable type with at most four rows
and columns: its initial value is written inside the mirror of slot 0, which afterwards is
longer than the used size and not shorter than the used size rounded up to a multiple of 16. -/
theorem VisitUniform_inside (env : Env) (c : D3D10EffectCompiler) (v : FX.Variable)
    (s0 : Storage) (rest : List Storage) (hr : v.Ty.Rows ≤ 4) (hc : v.Ty.Cols ≤ 4)
    (hst : c.mEffect.mConstantStorages = s0 :: rest)
    (hinv : LayoutInv c.mCurrentGlobalSize c.mCurrentGlobalStorageSize s0)
    (hcap : c.mCurrentGlobalStorageSize + 128 < 2 ^ 32)
    (hty : (PrintTypeWithQualifiers v.Ty).isSome = true)
    (hinit : (InitialBytes v.Initializer (ConstantDescriptionOf v.Ty).Size).isSome = true) :
    ∃ (c1 : D3D10EffectCompiler) (mem : List Nat) (obj : D3D10Constant),
      VisitUniform env c v = some c1 ∧
      c1.mEffect.mConstantStorages = some mem :: rest ∧
      c1.mEffect.mConstantBuffers = c.mEffect.mConstantBuffers ∧
      mem.length = c1.mCurrentGlobalStorageSize ∧
      c1.mCurrentGlobalSize < c1.mCurrentGlobalStorageSize ∧
      RoundToMultipleOf16 c1.mCurrentGlobalSize ≤ c1.mCurrentGlobalStorageSize ∧
      (c1.mCurrentGlobalStorageSize = c.mCurrentGlobalStorageSize ∨
        c1.mCurrentGlobalStorageSize = c.mCurrentGlobalStorageSize + 128) ∧
      LayoutInv c1.mCurrentGlobalSize c1.mCurrentGlobalStorageSize (some mem) ∧
      c1.mEffect.mConstants = c.mEffect.mConstants ++ [(v.Name, obj)] ∧
      obj.mDesc = ConstantDescriptionOf v.Ty ∧
      obj.mBufferOffset + obj.mDesc.Size = c1.mCurrentGlobalSize := by
  obtain ⟨mem, hmem, hlen, hlt, hround, hsub, hor, hinv1⟩ :=
    layout_inside env.garbage _ _ _ _ v.Initializer (ConstantDescriptionOf_size_small _ hr hc)
      hinv hcap hinit
  obtain ⟨typeText, htext⟩ := Option.isSome_iff_exists.1 hty
  have hex : ∃ c1, VisitUniform env c v = some c1 := by
    unfold VisitUniform
    rw [htext]
    simp only [hst, hmem]
    exact ⟨_, rfl⟩
  obtain ⟨c1, h1⟩ := hex
  obtain ⟨s0', rest', mem', hst', hmem', hst1, hused, hcap1, hconst, hbuf, -, -⟩ :=
    VisitUniform_spec env c c1 v h1
  rw [hst] at hst'
  obtain ⟨rfl, rfl⟩ := List.cons.inj hst'
  rw [hmem] at hmem'
  obtain rfl := Option.some.inj hmem'
  rw [← hcap1] at hlen hlt hround hor hinv1
  rw [← hused] at hlt hround hinv1
  exact ⟨c1, mem, _, h1, hst1, hbuf, hlen, hlt, hround, hor, hinv1, hconst, rfl,
    by rw [hused]; exact hsub⟩

/-- The body of the loop over the fields of a uniform block returns for a field with at most
four rows and columns: its initial value is written inside the mirror of the block, which
afterwards is longer than the used size and not shorter than the used size rounded up to a
multiple of 16. -/
theorem UniformBufferField_inside (env : Env) (name : String) (c : D3D10EffectCompiler)
    (l : BlockLocals) (f : FX.Variable) (hr : f.Ty.Rows ≤ 4) (hc : f.Ty.Cols ≤ 4)
    (hinv : LayoutInv l.totalsize l.currentsize l.storage)
    (hcap : l.currentsize + 128 < 2 ^ 32)
    (hinit : (InitialBytes f.Initializer (ConstantDescriptionOf f.Ty).Size).isSome = true) :
    ∃ (c1 : D3D10EffectCompiler) (l1 : BlockLocals) (mem : List Nat) (obj : D3D10Constant),
      UniformBufferField env name c l f = some (c1, l1) ∧
      l1.storage = some mem ∧
      mem.length = l1.currentsize ∧
      l1.totalsize < l1.currentsize ∧
      RoundToMultipleOf16 l1.totalsize ≤ l1.currentsize ∧
      (l1.currentsize = l.currentsize ∨ l1.currentsize = l.currentsize + 128) ∧
      LayoutInv l1.totalsize l1.currentsize l1.storage ∧
      c1.mEffect.mConstantBuffers = c.mEffect.mConstantBuffers ∧
      c1.mEffect.mConstantStorages = c.mEffect.mConstantStorages ∧
      c1.mEffect.mConstants = c.mEffect.mConstants ++ [(name ++ "." ++ f.Name, obj)] ∧
      obj.mDesc = ConstantDescriptionOf f.Ty ∧
      obj.mBufferOffset + obj.mDesc.Size = l1.totalsize := by
  obtain ⟨mem, hmem, hlen, hlt, hround, hsub, hor, hinv1⟩ :=
    layout_inside env.garbage _ _ _ _ f.Initializer (ConstantDescriptionOf_size_small _ hr hc)
      hinv hcap hinit
  have hex : ∃ r, UniformBufferField env name c l f = some r := by
    unfold UniformBufferField
    simp only [hmem]
    exact ⟨_, rfl⟩
  obtain ⟨⟨c1, l1⟩, h1⟩ := hex
  obtain ⟨mem', hmem', hl1, hconst, hbuf, -, -⟩ := UniformBufferField_spec env name c c1 l l1 f h1
  rw [hmem] at hmem'
  obtain rfl := Option.some.inj hmem'
  have hsto : c1.mEffect.mConstantStorages = c.mEffect.mConstantStorages := by
    unfold UniformBufferField at h1
    simp only [hmem, Option.some.injEq, Prod.mk.injEq] at h1
    rw [← h1.1]
    rfl
  subst hl1
  exact ⟨c1, _, mem, _, h1, rfl, hlen, hlt, hround, hor, hinv1, hbuf, hsto, hconst, rfl, hsub⟩

/-- The mirrors stay long enough when the mirror of slot 0 is replaced by a block that is not
shorter. -/
theorem Mirrored_longer (e e1 : D3D10Effect) (s0 : Storage) (rest : List Storage)
    (mem : List Nat) (hm : Mirrored e) (hst : e.mConstantStorages = s0 :: rest)
    (hst1 : e1.mConstantStorages = some mem :: rest)
    (hbuf : e1.mConstantBuffers = e.mConstantBuffers)
    (hlen : (s0.getD []).length ≤ mem.length) : Mirrored e1 := by
  obtain ⟨hl, hall⟩ := hm
  refine ⟨by rw [hbuf, hst1, hl, hst]; rfl, ?_⟩
  intro i b hb
  rw [hbuf] at hb
  obtain ⟨mirror, h1, h2⟩ := hall i b hb
  rw [hst] at h1
  rw [hst1]
  cases i with
  | zero =>
    simp only [List.getElem?_cons_zero, Option.some.injEq] at h1
    subst h1
    simp only [Option.getD_some] at hlen
    exact ⟨mem, by simp, le_trans h2 hlen⟩
  | succ j =>
    simp only [List.getElem?_cons_succ] at h1 ⊢
    exact ⟨mirror, h1, h2⟩

/-- The mirrors stay long enough when a constant buffer is appended together with a mirror of
at least its byte width. -/
theorem Mirrored_append (e e1 : D3D10Effect) (b : ID3D10Buffer) (mirror : List Nat)
    (hm : Mirrored e) (hbuf : e1.mConstantBuffers = e.mConstantBuffers ++ [some b])
    (hst : e1.mConstantStorages = e.mConstantStorages ++ [some mirror])
    (hlen : b.desc.ByteWidth ≤ mirror.length) : Mirrored e1 := by
  obtain ⟨hl, hall⟩ := hm
  refine ⟨by rw [hbuf, hst, List.length_append, List.length_append, hl]; rfl, ?_⟩
  intro i b1 hb
  rw [hbuf] at hb
  rw [hst]
  by_cases hi : i < e.mConstantBuffers.length
  · rw [List.getElem?_append_left hi] at hb
    rw [List.getElem?_append_left (by rw [← hl]; exact hi)]
    exact hall i b1 hb
  · have hi1 : e.mConstantBuffers.length ≤ i := Nat.le_of_not_lt hi
    rw [List.getElem?_append_right hi1] at hb
    rw [List.getElem?_append_right (by rw [← hl]; exact hi1), ← hl]
    generalize i - e.mConstantBuffers.length = j at hb ⊢
    cases j with
    | zero =>
      simp only [List.getElem?_cons_zero, Option.some.injEq] at hb ⊢
      subst hb
      exact ⟨mirror, rfl, hlen⟩
    | succ k => simp at hb

/-- The end of `VisitUniformBuffer` returns for a block in which a field was placed: the
initial data of the constant buffer are read inside the mirror of the block, and a buffer that
is created has a mirror of at least its byte width. -/
theorem UniformBufferEnd_inside (env : Env) (name : String)
    (annotations : List FX.AnnotationNode) (fields : Nat) (c : D3D10EffectCompiler)
    (l : BlockLocals) (hinv : LayoutInv l.totalsize l.currentsize l.storage)
    (hlt : l.totalsize < l.currentsize) :
    ∃ (c1 : D3D10EffectCompiler) (mirror : List Nat),
      UniformBufferEnd env name annotations fields c l = some c1 ∧
      l.storage = some mirror ∧
      RoundToMultipleOf16 l.totalsize ≤ mirror.length ∧
      (ReadBytes mirror 0 (RoundToMultipleOf16 l.totalsize)).isSome = true ∧
      ((c1.mEffect.mConstantBuffers = c.mEffect.mConstantBuffers ∧
          c1.mEffect.mConstantStorages = c.mEffect.mConstantStorages) ∨
        ∃ b : ID3D10Buffer,
          c1.mEffect.mConstantBuffers = c.mEffect.mConstantBuffers ++ [some b] ∧
          c1.mEffect.mConstantStorages = c.mEffect.mConstantStorages ++ [some mirror] ∧
          b.desc.ByteWidth = RoundToMultipleOf16 l.totalsize ∧
          ReadBytes mirror 0 b.desc.ByteWidth = some b.content) ∧
      (Mirrored c.mEffect → Mirrored c1.mEffect) := by
  have hround := RoundToMultipleOf16_le_capacity _ _ hinv.1 hlt hinv.2.1
  obtain ⟨-, -, -, hlen⟩ := hinv
  cases hs : l.storage with
  | none =>
    rw [hs] at hlen
    simp only [Option.getD_none, List.length_nil] at hlen
    omega
  | some mirror =>
    rw [hs] at hlen
    simp only [Option.getD_some] at hlen
    rw [← hlen] at hround
    have hread : ReadBytes mirror 0 (RoundToMultipleOf16 l.totalsize) =
        some ((mirror.drop 0).take (RoundToMultipleOf16 l.totalsize)) := by
      unfold ReadBytes
      rw [if_pos (by omega)]
    have hex : ∃ c1, UniformBufferEnd env name annotations fields c l = some c1 ∧
        ((c1.mEffect.mConstantBuffers = c.mEffect.mConstantBuffers ∧
            c1.mEffect.mConstantStorages = c.mEffect.mConstantStorages) ∨
          ∃ b : ID3D10Buffer,
            c1.mEffect.mConstantBuffers = c.mEffect.mConstantBuffers ++ [some b] ∧
            c1.mEffect.mConstantStorages = c.mEffect.mConstantStorages ++ [some mirror] ∧
            b.desc.ByteWidth = RoundToMultipleOf16 l.totalsize ∧
            ReadBytes mirror 0 b.desc.ByteWidth = some b.content) := by
      unfold UniformBufferEnd
      simp only [hs, hread]
      split_ifs
      · exact ⟨_, rfl, Or.inr ⟨_, rfl, rfl, rfl, hread⟩⟩
      · exact ⟨_, rfl, Or.inl ⟨rfl, rfl⟩⟩
    obtain ⟨c1, h1, hor⟩ := hex
    refine ⟨c1, mirror, h1, rfl, hround, by rw [hread]; rfl, hor, ?_⟩
    intro hm
    rcases hor with ⟨hb, hst⟩ | ⟨b, hb, hst, hw, -⟩
    · exact ⟨by rw [hb, hst]; exact hm.1, by rw [hb, hst]; exact hm.2⟩
    · exact Mirrored_append _ _ b mirror hm hb hst (by rw [hw]; exact hround)

/-- The end of `Traverse` returns when the used size of the global uniforms is zero or below
the capacity of the mirror of slot 0: the initial data of the global constant buffer are read
inside that mirror, and the buffer that is created has a mirror of at least its byte width. -/
theorem TraverseEnd_inside (env : Env) (c : D3D10EffectCompiler) (s0 : Storage)
    (rest : List Storage) (hst : c.mEffect.mConstantStorages = s0 :: rest)
    (hinv : LayoutInv c.mCurrentGlobalSize c.mCurrentGlobalStorageSize s0)
    (hlt : c.mCurrentGlobalSize ≠ 0 → c.mCurrentGlobalSize < c.mCurrentGlobalStorageSize)
    (hm : Mirrored c.mEffect) :
    ∃ c1 : D3D10EffectCompiler,
      TraverseEnd env c = some c1 ∧
      c1.mEffect.mConstantStorages = c.mEffect.mConstantStorages ∧
      Mirrored c1.mEffect ∧
      (c.mCurrentGlobalSize ≠ 0 →
        ∃ mirror, s0 = some mirror ∧
          RoundToMultipleOf16 c.mCurrentGlobalSize ≤ mirror.length ∧
          ∃ bytes, GlobalBufferRequest c =
            some ({ ByteWidth := RoundToMultipleOf16 c.mCurrentGlobalSize,
                    BindFlags := D3D10_BIND_CONSTANT_BUFFER, Usage := D3D10_USAGE_DYNAMIC,
                    CPUAccessFlags := D3D10_CPU_ACCESS_WRITE, MiscFlags := 0 }, bytes) ∧
            ReadBytes mirror 0 (RoundToMultipleOf16 c.mCurrentGlobalSize) = some bytes) := by
  by_cases h0 : c.mCurrentGlobalSize = 0
  · refine ⟨c, ?_, rfl, hm, fun h => absurd h0 h⟩
    unfold TraverseEnd
    rw [if_neg (by simpa using h0)]
  · have hlt1 := hlt h0
    have hround := RoundToMultipleOf16_le_capacity _ _ hinv.1 hlt1 hinv.2.1
    obtain ⟨-, -, -, hlen⟩ := hinv
    cases s0 with
    | none =>
      simp only [Option.getD_none, List.length_nil] at hlen
      omega
    | some mirror =>
      simp only [Option.getD_some] at hlen
      rw [← hlen] at hround
      have hread : ReadBytes mirror 0 (RoundToMultipleOf16 c.mCurrentGlobalSize) =
          some ((mirror.drop 0).take (RoundToMultipleOf16 c.mCurrentGlobalSize)) := by
        unfold ReadBytes
        rw [if_pos (by omega)]
      have hreq : GlobalBufferRequest c =
          some ({ ByteWidth := RoundToMultipleOf16 c.mCurrentGlobalSize,
                  BindFlags := D3D10_BIND_CONSTANT_BUFFER, Usage := D3D10_USAGE_DYNAMIC,
                  CPUAccessFlags := D3D10_CPU_ACCESS_WRITE, MiscFlags := 0 },
                (mirror.drop 0).take (RoundToMultipleOf16 c.mCurrentGlobalSize)) := by
        unfold GlobalBufferRequest
        simp only [hst, hread]
      have hbuffers : ∃ b0 buffers, c.mEffect.mConstantBuffers = b0 :: buffers := by
        have hl := hm.1
        rw [hst] at hl
        cases hb : c.mEffect.mConstantBuffers with
        | nil => rw [hb] at hl; simp at hl
        | cons b0 buffers => exact ⟨b0, buffers, rfl⟩
      obtain ⟨b0, buffers, hb⟩ := hbuffers
      have hex : ∃ c1, TraverseEnd env c = some c1 ∧
          c1.mEffect.mConstantStorages = c.mEffect.mConstantStorages ∧
          (c1.mEffect.mConstantBuffers = c.mEffect.mConstantBuffers ∨
            ∃ b : ID3D10Buffer, c1.mEffect.mConstantBuffers = some b :: buffers ∧
              b.desc.ByteWidth = RoundToMultipleOf16 c.mCurrentGlobalSize) := by
        unfold TraverseEnd
        rw [if_pos h0]
        simp only [hreq, hb]
        split_ifs
        · exact ⟨_, rfl, rfl, Or.inr ⟨_, rfl, rfl⟩⟩
        · exact ⟨_, rfl, rfl, Or.inl hb⟩
      obtain ⟨c1, h1, hst1, hor⟩ := hex
      refine ⟨c1, h1, hst1, ?_, fun _ => ⟨mirror, rfl, hround, _, hreq, hread⟩⟩
      rcases hor with hsame | ⟨b, hb1, hw⟩
      · exact ⟨by rw [hsame, hst1]; exact hm.1, by rw [hsame, hst1]; exact hm.2⟩
      · obtain ⟨hl, hall⟩ := hm
        refine ⟨by rw [hb1, hst1, ← hl, hb]; rfl, ?_⟩
        intro i b1 hi
        rw [hst1]
        rw [hb1] at hi
        cases i with
        | zero =>
          simp only [List.getElem?_cons_zero, Option.some.injEq] at hi
          subst hi
          rw [hst]
          exact ⟨mirror, by simp, by rw [hw]; exact hround⟩
        | succ j =>
          have hj : c.mEffect.mConstantBuffers[j + 1]? = some (some b1) := by
            rw [hb]
            simpa using hi
          exact hall (j + 1) b1 hj

/-- The upload of the uniforms returns on an effect whose constant buffers have mirrors of at
least their byte widths. -/
theorem UpdateShaderConstants_inside (device : Device) (effect : D3D10Effect)
    (calls : List DeviceCall) (hm : Mirrored effect) :
    (UpdateShaderConstants device effect calls).isSome = true := by
  have h := UploadConstants_defined device effect.mConstantBuffers effect.mConstantStorages calls
    (le_of_eq hm.1) hm.2
  obtain ⟨r, hr⟩ := Option.isSome_iff_exists.1 h
  unfold UpdateShaderConstants
  split_ifs
  · rw [hr]
    rfl
  · rfl

/-- The effect that `Traverse` starts from, with the slot of the global constant buffer pushed,
has no constant buffer yet. -/
theorem Mirrored_begin (history : List DeviceCall) :
    Mirrored (TraverseBegin (D3D10EffectCompiler.new history) D3D10Effect.new).mEffect := by
  refine ⟨rfl, ?_⟩
  intro i b hb
  cases i with
  | zero => simp [TraverseBegin, D3D10Effect.new] at hb
  | succ j => simp [TraverseBegin, D3D10Effect.new] at hb

/-- C34: while uniforms of types with at most four rows and columns are laid out, with the
capacity of the mirror at least 128 bytes away from the end of the 32-bit range, `VisitUniform`
and the body of the loop of `VisitUniformBuffer` return with the initial value of the uniform
written inside the mirror; after each uniform the capacity, grown by nothing or by 128 bytes,
is the length of the mirror, is above the used size and is not below the used size rounded up
to a multiple of 16, and the uniform ends at the used size. Hence the read of the initial data
at the end of `VisitUniformBuffer` and at the end of `Traverse` is inside the mirror, every
constant buffer keeps a mirror of at least its byte width, and the upload of the uniforms of
such an effect returns. -/
theorem C34_layout_inside_mirror (env : Env) :
    (∀ (c : D3D10EffectCompiler) (v : FX.Variable) (s0 : Storage) (rest : List Storage),
      v.Ty.Rows ≤ 4 → v.Ty.Cols ≤ 4 →
      c.mEffect.mConstantStorages = s0 :: rest →
      LayoutInv c.mCurrentGlobalSize c.mCurrentGlobalStorageSize s0 →
      c.mCurrentGlobalStorageSize + 128 < 2 ^ 32 →
      (PrintTypeWithQualifiers v.Ty).isSome = true →
      (InitialBytes v.Initializer (ConstantDescriptionOf v.Ty).Size).isSome = true →
      Mirrored c.mEffect →
      ∃ (c1 : D3D10EffectCompiler) (mem : List Nat) (obj : D3D10Constant),
        VisitUniform env c v = some c1 ∧
        c1.mEffect.mConstantStorages = some mem :: rest ∧
        mem.length = c1.mCurrentGlobalStorageSize ∧
        c1.mCurrentGlobalSize < c1.mCurrentGlobalStorageSize ∧
        RoundToMultipleOf16 c1.mCurrentGlobalSize ≤ c1.mCurrentGlobalStorageSize ∧
        (c1.mCurrentGlobalStorageSize = c.mCurrentGlobalStorageSize ∨
          c1.mCurrentGlobalStorageSize = c.mCurrentGlobalStorageSize + 128) ∧
        LayoutInv c1.mCurrentGlobalSize c1.mCurrentGlobalStorageSize (some mem) ∧
        c1.mEffect.mConstants = c.mEffect.mConstants ++ [(v.Name, obj)] ∧
        obj.mDesc = ConstantDescriptionOf v.Ty ∧
        obj.mBufferOffset + obj.mDesc.Size = c1.mCurrentGlobalSize ∧
        Mirrored c1.mEffect) ∧
    (∀ (name : String) (c : D3D10EffectCompiler) (l : BlockLocals) (f : FX.Variable),
      f.Ty.Rows ≤ 4 → f.Ty.Cols ≤ 4 →
      LayoutInv l.totalsize l.currentsize l.storage →
      l.currentsize + 128 < 2 ^ 32 →
      (InitialBytes f.Initializer (ConstantDescriptionOf f.Ty).Size).isSome = true →
      ∃ (c1 : D3D10EffectCompiler) (l1 : BlockLocals) (mem : List Nat) (obj : D3D10Constant),
        UniformBufferField env name c l f = some (c1, l1) ∧
        l1.storage = some mem ∧
        mem.length = l1.currentsize ∧
        l1.totalsize < l1.currentsize ∧
        RoundToMultipleOf16 l1.totalsize ≤ l1.currentsize ∧
        (l1.currentsize = l.currentsize ∨ l1.currentsize = l.currentsize + 128) ∧
        LayoutInv l1.totalsize l1.currentsize l1.storage ∧
        c1.mEffect.mConstants = c.mEffect.mConstants ++ [(name ++ "." ++ f.Name, obj)] ∧
        obj.mDesc = ConstantDescriptionOf f.Ty ∧
        obj.mBufferOffset + obj.mDesc.Size = l1.totalsize ∧
        (Mirrored c.mEffect → Mirrored c1.mEffect)) ∧
    (∀ (name : String) (annotations : List FX.AnnotationNode) (fields : Nat)
        (c : D3D10EffectCompiler) (l : BlockLocals),
      LayoutInv l.totalsize l.currentsize l.storage →
      l.totalsize < l.currentsize →
      Mirrored c.mEffect →
      ∃ (c1 : D3D10EffectCompiler) (mirror : List Nat),
        UniformBufferEnd env name annotations fields c l = some c1 ∧
        l.storage = some mirror ∧
        RoundToMultipleOf16 l.totalsize ≤ mirror.length ∧
        (ReadBytes mirror 0 (RoundToMultipleOf16 l.totalsize)).isSome = true ∧
        ((c1.mEffect.mConstantBuffers = c.mEffect.mConstantBuffers ∧
            c1.mEffect.mConstantStorages = c.mEffect.mConstantStorages) ∨
          ∃ b : ID3D10Buffer,
            c1.mEffect.mConstantBuffers = c.mEffect.mConstantBuffers ++ [some b] ∧
            c1.mEffect.mConstantStorages = c.mEffect.mConstantStorages ++ [some mirror] ∧
            b.desc.ByteWidth = RoundToMultipleOf16 l.totalsize ∧
            ReadBytes mirror 0 b.desc.ByteWidth = some b.content) ∧
        Mirrored c1.mEffect) ∧
    (∀ (c : D3D10EffectCompiler) (s0 : Storage) (rest : List Storage),
      c.mEffect.mConstantStorages = s0 :: rest →
      LayoutInv c.mCurrentGlobalSize c.mCurrentGlobalStorageSize s0 →
      (c.mCurrentGlobalSize ≠ 0 → c.mCurrentGlobalSize < c.mCurrentGlobalStorageSize) →
      Mirrored c.mEffect →
      ∃ c1 : D3D10EffectCompiler,
        TraverseEnd env c = some c1 ∧
        c1.mEffect.mConstantStorages = c.mEffect.mConstantStorages ∧
        Mirrored c1.mEffect ∧
        (c.mCurrentGlobalSize ≠ 0 →
          ∃ mirror, s0 = some mirror ∧
            RoundToMultipleOf16 c.mCurrentGlobalSize ≤ mirror.length ∧
            ∃ bytes, GlobalBufferRequest c =
              some ({ ByteWidth := RoundToMultipleOf16 c.mCurrentGlobalSize,
                      BindFlags := D3D10_BIND_CONSTANT_BUFFER, Usage := D3D10_USAGE_DYNAMIC,
                      CPUAccessFlags := D3D10_CPU_ACCESS_WRITE, MiscFlags := 0 }, bytes) ∧
              ReadBytes mirror 0 (RoundToMultipleOf16 c.mCurrentGlobalSize) = some bytes)) ∧
    (∀ (device : Device) (effect : D3D10Effect) (calls : List DeviceCall),
      Mirrored effect → (UpdateShaderConstants device effect calls).isSome = true) := by
  refine ⟨?_, ?_, ?_, ?_, ?_⟩
  · intro c v s0 rest hr hc hst hinv hcap hty hinit hm
    obtain ⟨c1, mem, obj, h1, hst1, hbuf, hlen, hlt, hround, hor, hinv1, hconst, hdesc, hend⟩ :=
      VisitUniform_inside env c v s0 rest hr hc hst hinv hcap hty hinit
    refine ⟨c1, mem, obj, h1, hst1, hlen, hlt, hround, hor, hinv1, hconst, hdesc, hend, ?_⟩
    refine Mirrored_longer c.mEffect c1.mEffect s0 rest mem hm hst hst1 hbuf ?_
    rw [hinv.2.2.2, hlen]
    rcases hor with h | h <;> omega
  · intro name c l f hr hc hinv hcap hinit
    obtain ⟨c1, l1, mem, obj, h1, hs, hlen, hlt, hround, hor, hinv1, hbuf, hst, hconst, hdesc,
        hend⟩ := UniformBufferField_inside env name c l f hr hc hinv hcap hinit
    exact ⟨c1, l1, mem, obj, h1, hs, hlen, hlt, hround, hor, hinv1, hconst, hdesc, hend,
      fun hm => ⟨by rw [hbuf, hst]; exact hm.1, by rw [hbuf, hst]; exact hm.2⟩⟩
  · intro name annotations fields c l hinv hlt hm
    obtain ⟨c1, mirror, h1, hs, hround, hread, hor, hkeep⟩ :=
      UniformBufferEnd_inside env name annotations fields c l hinv hlt
    exact ⟨c1, mirror, h1, hs, hround, hread, hor, hkeep hm⟩
  · intro c s0 rest hst hinv hlt hm
    exact TraverseEnd_inside env c s0 rest hst hinv hlt hm
  · intro device effect calls hm
    exact UpdateShaderConstants_inside device effect calls hm

/-- The theorem of C34 on the effect file `uniform float gain;`: the uniform is laid out from
the state in which `Traverse` starts, the global constant buffer is created, and the upload of
the uniforms of the effect returns. -/
theorem C34_layout_inside_mirror_witness :
    ∃ (c1 c2 : D3D10EffectCompiler) (mem : List Nat),
      VisitUniform (Example.env Example.okDevice) Example.start Example.gain = some c1 ∧
      c1.mEffect.mConstantStorages = [some mem] ∧
      mem.length = c1.mCurrentGlobalStorageSize ∧
      c1.mCurrentGlobalSize < c1.mCurrentGlobalStorageSize ∧
      RoundToMultipleOf16 c1.mCurrentGlobalSize ≤ c1.mCurrentGlobalStorageSize ∧
      TraverseEnd (Example.env Example.okDevice) c1 = some c2 ∧
      (UpdateShaderConstants Example.okDevice c2.mEffect c2.mDeviceCalls).isSome = true := by
  have h := C34_layout_inside_mirror (Example.env Example.okDevice)
  have hinv : LayoutInv Example.start.mCurrentGlobalSize Example.start.mCurrentGlobalStorageSize
      none := ⟨by decide, by decide, by decide, by decide⟩
  obtain ⟨c1, mem, obj, h1, hst1, hlen, hlt, hround, hor, hinv1, -, -, -, hm1⟩ :=
    h.1 Example.start Example.gain none [] (by decide) (by decide) rfl hinv (by decide)
      (by decide) (by decide) (Mirrored_begin [])
  obtain ⟨c2, h2, -, hm2, -⟩ := h.2.2.2.1 c1 (some mem) [] hst1 hinv1 (fun _ => hlt) hm1
  exact ⟨c1, c2, mem, h1, hst1, hlen, hlt, hround, h2, h.2.2.2.2 _ _ _ hm2⟩

/-! ## Balanced texts -/

/-- The scan of two texts in a row continues on the second text with the stack that the first
text leaves. -/
theorem Scan_append :
    ∀ (a b stack : List Char), Scan stack (a ++ b) = (Scan stack a).bind (fun st => Scan st b)
  | [], b, stack => by simp [Scan]
  | ch :: a, b, stack => by
      simp only [List.cons_append, Scan]
      split_ifs
      · exact Scan_append a b _
      · exact Scan_append a b _
      · exact Scan_append a b _
      · cases stack with
        | nil => rfl
        | cons top below =>
          simp only
          split_ifs
          · exact Scan_append a b _
          · rfl
      · exact Scan_append a b _

/-- A scan that succeeds does not look below the stack it started with. -/
theorem Scan_frame (base : List Char) :
    ∀ (text stack stack1 : List Char), Scan stack text = some stack1 →
      Scan (stack ++ base) text = some (stack1 ++ base)
  | [], stack, stack1, h => by
      simp only [Scan, Option.some.injEq] at h ⊢
      rw [h]
  | ch :: text, stack, stack1, h => by
      simp only [Scan] at h ⊢
      split_ifs at h ⊢
      · exact Scan_frame base text _ _ h
      · exact Scan_frame base text _ _ h
      · exact Scan_frame base text _ _ h
      · cases stack with
        | nil => simp at h
        | cons top below =>
          simp only [List.cons_append] at h ⊢
          split_ifs at h ⊢
          exact Scan_frame base text _ _ h
      · exact Scan_frame base text _ _ h

/-- A balanced text leaves every stack as it found it. -/
theorem Scan_balanced (text : String) (h : Balanced text) (stack : List Char) :
    Scan stack text.data = some stack := by
  have := Scan_frame stack text.data [] [] h
  simpa using this

/-- A text without brackets leaves every stack as it found it. -/
theorem Scan_plain :
    ∀ (text stack : List Char), (text.all (fun ch => !IsBracket ch)) = true →
      Scan stack text = some stack
  | [], stack, _ => rfl
  | ch :: text, stack, h => by
      simp only [List.all_cons, Bool.and_eq_true, Bool.not_eq_true', IsBracket, Bool.or_eq_false_iff,
        decide_eq_false_iff_not] at h
      obtain ⟨⟨⟨⟨⟨⟨h1, h2⟩, h3⟩, h4⟩, h5⟩, h6⟩, hrest⟩ := h
      simp only [Scan, h1, h2, h3, h4, h5, h6, if_false, or_self]
      exact Scan_plain text stack hrest

theorem Balanced_of_NoBrackets (text : String) (h : NoBrackets text = true) : Balanced text :=
  Scan_plain text.data [] h

theorem Balanced_empty : Balanced "" := rfl

theorem Balanced_append (a b : String) (ha : Balanced a) (hb : Balanced b) :
    Balanced (a ++ b) := by
  unfold Balanced at ha hb ⊢
  rw [String.data_append, Scan_append, ha]
  exact hb

theorem NoBrackets_append (a b : String) (ha : NoBrackets a = true) (hb : NoBrackets b = true) :
    NoBrackets (a ++ b) = true := by
  unfold NoBrackets at ha hb ⊢
  rw [String.data_append, List.all_append, ha, hb]
  rfl

/-- A text without brackets at the end of a text does not change whether it is balanced. -/
theorem Balanced_append_plain (a b : String) (hb : NoBrackets b = true)
    (h : Balanced (a ++ b)) : Balanced a := by
  unfold Balanced at h ⊢
  rw [String.data_append, Scan_append] at h
  cases ha : Scan [] a.data with
  | none => rw [ha] at h; simp at h
  | some st =>
    rw [ha] at h
    simp only [Option.some_bind] at h
    rw [Scan_plain b.data st hb] at h
    exact h

/-- A balanced text put into a balanced text leaves it balanced. -/
theorem Balanced_fill1 (p1 p2 t : String) (h : Balanced (p1 ++ p2)) (ht : Balanced t) :
    Balanced (p1 ++ t ++ p2) := by
  unfold Balanced at h ⊢
  simp only [String.data_append, Scan_append] at h ⊢
  cases h1 : Scan [] p1.data with
  | none => rw [h1] at h; simp at h
  | some st1 =>
    rw [h1] at h
    simp only [Option.some_bind] at h ⊢
    rw [Scan_balanced t ht st1]
    exact h

/-- Two balanced texts put into a balanced text leave it balanced. -/
theorem Balanced_fill2 (p1 p2 p3 t1 t2 : String) (h : Balanced (p1 ++ p2 ++ p3))
    (h1 : Balanced t1) (h2 : Balanced t2) : Balanced (p1 ++ t1 ++ p2 ++ t2 ++ p3) := by
  have ha : Balanced (p1 ++ p2 ++ t2 ++ p3) := Balanced_fill1 (p1 ++ p2) p3 t2 h h2
  have hb := Balanced_fill1 p1 (p2 ++ t2 ++ p3) t1
    (by simpa only [String.append_assoc] using ha) h1
  simpa only [String.append_assoc] using hb

/-- Three balanced texts put into a balanced text leave it balanced. -/
theorem Balanced_fill3 (p1 p2 p3 p4 t1 t2 t3 : String) (h : Balanced (p1 ++ p2 ++ p3 ++ p4))
    (h1 : Balanced t1) (h2 : Balanced t2) (h3 : Balanced t3) :
    Balanced (p1 ++ t1 ++ p2 ++ t2 ++ p3 ++ t3 ++ p4) := by
  have ha : Balanced (p1 ++ p2 ++ p3 ++ t3 ++ p4) := Balanced_fill1 (p1 ++ p2 ++ p3) p4 t3 h h3
  have hb := Balanced_fill2 p1 p2 (p3 ++ t3 ++ p4) t1 t2
    (by simpa only [String.append_assoc] using ha) h1 h2
  simpa only [String.append_assoc] using hb

/-- The texts of a list, each followed by `", "`, are balanced when each of them is. -/
theorem Balanced_Terminated :
    ∀ texts : List String, (∀ t ∈ texts, Balanced t) → Balanced (Terminated texts)
  | [], _ => Balanced_empty
  | t :: rest, h => by
      rw [Terminated]
      exact Balanced_append _ _
        (Balanced_append _ _ (h t (List.mem_cons_self _ _)) (by decide))
        (Balanced_Terminated rest (fun x hx => h x (List.mem_cons_of_mem _ hx)))

/-! ## The texts that the visitor of expressions emits by itself -/

theorem digitChar_plain (n : Nat) (h : n < 10) : IsBracket (Nat.digitChar n) = false := by
  interval_cases n <;> decide

theorem toDigitsCore_plain :
    ∀ (fuel n : Nat) (acc : List Char), (acc.all (fun ch => !IsBracket ch)) = true →
      ((Nat.toDigitsCore 10 fuel n acc).all (fun ch => !IsBracket ch)) = true
  | 0, n, acc, h => by
      simpa [Nat.toDigitsCore] using h
  | fuel + 1, n, acc, h => by
      have hd : IsBracket (Nat.digitChar (n % 10)) = false :=
        digitChar_plain _ (Nat.mod_lt _ (by decide))
      have hacc : ((Nat.digitChar (n % 10) :: acc).all (fun ch => !IsBracket ch)) = true := by
        simp only [List.all_cons, hd, Bool.not_false, Bool.true_and]
        exact h
      simp only [Nat.toDigitsCore]
      split_ifs
      · exact hacc
      · exact toDigitsCore_plain fuel _ _ hacc

theorem NoBrackets_toString_nat (n : Nat) : NoBrackets (toString n) = true := by
  show ((Nat.toDigits 10 n).asString.data.all (fun ch => !IsBracket ch)) = true
  exact toDigitsCore_plain _ _ [] rfl

theorem NoBrackets_toString_int (i : Int) : NoBrackets (toString i) = true := by
  cases i with
  | ofNat n => exact NoBrackets_toString_nat n
  | negSucc n =>
    show NoBrackets ("-" ++ toString (n + 1)) = true
    exact NoBrackets_append _ _ (by decide) (NoBrackets_toString_nat _)

/-- A text without brackets in front of a balanced text leaves it balanced. -/
theorem Balanced_append_plain_left (a b : String) (ha : NoBrackets a = true)
    (hb : Balanced b) : Balanced (a ++ b) :=
  Balanced_append a b (Balanced_of_NoBrackets a ha) hb

/-- The text of a type whose struct name holds no bracket holds no bracket. -/
theorem PrintType_plain (type : FX.TypeNode) (T : String) (hplain : PlainType type = true)
    (h : PrintType type = some T) : NoBrackets T = true := by
  have hsuffix : NoBrackets
      (if type.IsMatrix = true then toString type.Rows ++ "x" ++ toString type.Cols
       else if type.IsVector = true then toString type.Rows else "") = true := by
    split_ifs
    · exact NoBrackets_append _ _ (NoBrackets_append _ _ (NoBrackets_toString_nat _) (by decide))
        (NoBrackets_toString_nat _)
    · exact NoBrackets_toString_nat _
    · decide
  unfold PrintType at h
  simp only at h
  split at h
  all_goals first
    | (simp only [Option.some.injEq] at h
       rw [← h]
       exact NoBrackets_append _ _ (by decide) hsuffix)
    | (simp only [Option.some.injEq] at h
       rw [← h]
       exact hsuffix)
    | skip
  split at h
  · rename_i d hd
    simp only [Option.some.injEq] at h
    rw [← h]
    unfold PlainType at hplain
    rw [hd] at hplain
    exact NoBrackets_append _ _ hplain hsuffix
  · simp at h

/-- The text of a component of a literal is balanced when the texts of `std::to_string` are. -/
theorem LiteralComponent_balanced (printFloat : Nat → String)
    (hp : ∀ w, Balanced (printFloat w)) (type : FX.TypeNode) (value : List Nat) (i : Nat)
    (text : String) (h : LiteralComponent printFloat type value i = some text) :
    Balanced text := by
  unfold LiteralComponent at h
  split at h
  · split at h
    · simp only [Option.some.injEq] at h
      rw [← h]
      split_ifs <;> decide
    · simp at h
  · split at h
    · simp only [Option.some.injEq] at h
      rw [← h]
      exact Balanced_of_NoBrackets _ (NoBrackets_toString_int _)
    · simp at h
  · split at h
    · simp only [Option.some.injEq] at h
      rw [← h]
      exact Balanced_of_NoBrackets _ (NoBrackets_toString_nat _)
    · simp at h
  · split at h
    · simp only [Option.some.injEq] at h
      rw [← h]
      exact Balanced_append _ _ (hp _) (by decide)
    · simp at h
  · simp only [Option.some.injEq] at h
    rw [← h]
    exact Balanced_empty

/-- The loop over the components of a literal appends their texts, each followed by `", "`. -/
theorem VisitLiteralComponents_balanced (printFloat : Nat → String)
    (hp : ∀ w, Balanced (printFloat w)) (type : FX.TypeNode) (value : List Nat) :
    ∀ (indices : List Nat) (s s1 : String),
      VisitLiteralComponents printFloat type value indices s = some s1 →
      ∃ texts : List String, texts.length = indices.length ∧ s1 = s ++ Terminated texts ∧
        ∀ t ∈ texts, Balanced t
  | [], s, s1, h => by
      simp only [VisitLiteralComponents, Option.some.injEq] at h
      exact ⟨[], rfl, by simp [Terminated, ← h], by simp⟩
  | i :: rest, s, s1, h => by
      simp only [VisitLiteralComponents] at h
      split at h
      · simp at h
      · rename_i text htext
        obtain ⟨texts, hlen, hs1, hall⟩ :=
          VisitLiteralComponents_balanced printFloat hp type value rest _ _ h
        refine ⟨text :: texts, by simp [hlen], ?_, ?_⟩
        · rw [hs1]
          simp only [Terminated, String.append_assoc]
        · intro t ht
          rcases List.mem_cons.1 ht with rfl | ht
          · exact LiteralComponent_balanced printFloat hp type value i _ htext
          · exact hall t ht

/-- The texts of a non-empty list joined by `", "` are balanced when each of them is. -/
theorem Balanced_intercalate (texts : List String) (hne : texts ≠ [])
    (h : ∀ t ∈ texts, Balanced t) : Balanced (", ".intercalate texts) := by
  have hb := Balanced_Terminated texts h
  rw [Terminated_eq_intercalate texts hne] at hb
  exact Balanced_append_plain _ _ (by decide) hb

/-- A literal with at least one component appends a balanced text. -/
theorem VisitLiteral_balanced (printFloat : Nat → String) (hp : ∀ w, Balanced (printFloat w))
    (type : FX.TypeNode) (value : List Nat) (s s1 : String)
    (hn : 1 ≤ (type.Rows * type.Cols) % UINT_MOD) (hplain : PlainType type = true)
    (h : VisitLiteral printFloat type value s = some s1) :
    ∃ t, s1 = s ++ t ∧ Balanced t := by
  unfold VisitLiteral at h
  by_cases hs : type.IsScalar = true
  · simp only [hs, Bool.not_true, Bool.false_eq_true, if_false] at h
    split at h
    · simp at h
    · rename_i s2 hs2
      obtain ⟨texts, hlen, rfl, hall⟩ :=
        VisitLiteralComponents_balanced printFloat hp type value _ _ _ hs2
      have hne : texts ≠ [] := by
        intro h0
        rw [h0, List.length_range] at hlen
        simp only [List.length_nil] at hlen
        omega
      rw [PopBack2_Terminated s texts hne] at h
      simp only [Option.some.injEq] at h
      exact ⟨_, h.symm, Balanced_intercalate texts hne hall⟩
  · simp only [Bool.not_eq_true] at hs
    simp only [hs, Bool.not_false, if_true] at h
    cases hT : PrintType type with
    | none =>
      rw [hT] at h
      simp at h
    | some T =>
      rw [hT] at h
      simp only at h
      split at h
      · simp at h
      · rename_i s2 hs2
        obtain ⟨texts, hlen, rfl, hall⟩ :=
          VisitLiteralComponents_balanced printFloat hp type value _ _ _ hs2
        have hne : texts ≠ [] := by
          intro h0
          rw [h0, List.length_range] at hlen
          simp only [List.length_nil] at hlen
          omega
        rw [PopBack2_Terminated _ texts hne] at h
        simp only [Option.some.injEq] at h
        refine ⟨T ++ "(" ++ ", ".intercalate texts ++ ")", ?_, ?_⟩
        · rw [← h]
          simp only [String.append_assoc]
        · have hfill := Balanced_fill1 (T ++ "(") ")" (", ".intercalate texts)
            (by
              rw [String.append_assoc]
              exact Balanced_append_plain_left T ("(" ++ ")")
                (PrintType_plain type T hplain hT) (by decide))
            (Balanced_intercalate texts hne hall)
          exact hfill

/-! ## The texts around the operands -/

theorem UnaryParts_balanced (type : FX.TypeNode) (op : FX.UnaryOp) (parts : String × String)
    (hplain : PlainType type = true) (h : UnaryParts type op = some parts) :
    Balanced (parts.1 ++ parts.2) := by
  cases op
  case Cast =>
    simp only [UnaryParts] at h
    split at h
    · rename_i T hT
      simp only [Option.some.injEq] at h
      rw [← h]
      simp only
      rw [String.append_assoc]
      exact Balanced_append_plain_left T ("(" ++ ")") (PrintType_plain type T hplain hT)
        (by decide)
    · simp at h
  all_goals
    simp only [UnaryParts, Option.some.injEq] at h
    rw [← h]
    decide

theorem BinaryParts_balanced (op : FX.BinaryOp) :
    Balanced ((BinaryParts op).1 ++ (BinaryParts op).2.1 ++ (BinaryParts op).2.2) := by
  cases op <;> decide

theorem IntrinsicParts_balanced (op : FX.IntrinsicOp) :
    Balanced ((IntrinsicParts op).1 ++ (IntrinsicParts op).2.1 ++ (IntrinsicParts op).2.2.1 ++
      (IntrinsicParts op).2.2.2) := by
  cases op <;> decide

theorem AssignmentToken_balanced (op : FX.AssignmentOp) :
    Balanced ("(" ++ (" " ++ AssignmentToken op ++ " ") ++ ")") := by
  cases op <;> decide

/-- The loop over the entries of a swizzle mask appends a text without brackets. -/
theorem VisitMask_plain (table : List String) (htable : ∀ t ∈ table, NoBrackets t = true) :
    ∀ (mask : List Int) (s s1 : String), VisitMask table mask s = some s1 →
      ∃ t, s1 = s ++ t ∧ NoBrackets t = true
  | [], s, s1, h => by
      simp only [VisitMask, Option.some.injEq] at h
      exact ⟨"", by simp [← h], by decide⟩
  | m :: rest, s, s1, h => by
      simp only [VisitMask] at h
      split_ifs at h
      · simp only [Option.some.injEq] at h
        exact ⟨"", by simp [← h], by decide⟩
      · split at h
        · rename_i entry hentry
          obtain ⟨t, rfl, ht⟩ := VisitMask_plain table htable rest _ _ h
          exact ⟨entry ++ t, by simp only [String.append_assoc],
            NoBrackets_append _ _ (htable entry (List.mem_iff_getElem?.2 ⟨_, hentry⟩)) ht⟩
        · simp at h

theorem swizzle_table_plain (matrix : Bool) :
    ∀ t ∈ (if matrix = true then MatrixSwizzle else VectorSwizzle), NoBrackets t = true := by
  cases matrix <;> decide

/-! ## The text that `Visit(Expression)` appends -/

mutual
/-- The visitor of a plain expression, when it returns, has appended a balanced text. -/
theorem VisitExpression_appends (printFloat : Nat → String)
    (hp : ∀ w, Balanced (printFloat w)) :
    ∀ (e : FX.Expr) (s s1 : String), PlainExpr e = true →
      VisitExpression printFloat e s = some s1 → ∃ t, s1 = s ++ t ∧ Balanced t
  | FX.Expr.LValue _ reference, s, s1, hplain, h => by
      simp only [VisitExpression, Option.some.injEq] at h
      simp only [PlainExpr] at hplain
      exact ⟨reference.Name, h.symm, Balanced_of_NoBrackets _ hplain⟩
  | FX.Expr.Literal type value, s, s1, hplain, h => by
      simp only [VisitExpression] at h
      simp only [PlainExpr, Bool.and_eq_true, decide_eq_true_eq] at hplain
      exact VisitLiteral_balanced printFloat hp type value s s1 hplain.1 hplain.2 h
  | FX.Expr.Sequence _ expressions, s, s1, hplain, h => by
      simp only [VisitExpression] at h
      simp only [PlainExpr, Bool.and_eq_true, Bool.not_eq_true'] at hplain
      split at h
      · simp at h
      · rename_i s2 hs2
        obtain ⟨texts, hlen, rfl, hall⟩ :=
          VisitExpressionList_appends printFloat hp expressions s s2 hplain.2 hs2
        have hne : texts ≠ [] := by
          intro h0
          rw [h0] at hlen
          have := List.length_eq_zero.1 hlen.symm
          rw [this] at hplain
          simp at hplain
        rw [PopBack2_Terminated s texts hne] at h
        simp only [Option.some.injEq] at h
        exact ⟨_, h.symm, Balanced_intercalate texts hne hall⟩
  | FX.Expr.Unary type operator operand, s, s1, hplain, h => by
      simp only [VisitExpression] at h
      simp only [PlainExpr, Bool.and_eq_true] at hplain
      split at h
      · simp at h
      · rename_i parts hparts
        split at h
        · simp at h
        · rename_i s2 hs2
          obtain ⟨t, rfl, ht⟩ :=
            VisitExpression_appends printFloat hp operand _ s2 hplain.2 hs2
          simp only [Option.some.injEq] at h
          refine ⟨parts.1 ++ t ++ parts.2, ?_, ?_⟩
          · rw [← h]
            simp only [String.append_assoc]
          · exact Balanced_fill1 _ _ t (UnaryParts_balanced type operator parts hplain.1 hparts)
              ht
  | FX.Expr.Binary _ operator operand0 operand1, s, s1, hplain, h => by
      simp only [VisitExpression] at h
      simp only [PlainExpr, Bool.and_eq_true] at hplain
      split at h
      · simp at h
      · rename_i s2 hs2
        split at h
        · simp at h
        · rename_i s3 hs3
          obtain ⟨t0, rfl, ht0⟩ :=
            VisitExpression_appends printFloat hp operand0 _ s2 hplain.1 hs2
          obtain ⟨t1, rfl, ht1⟩ :=
            VisitExpression_appends printFloat hp operand1 _ s3 hplain.2 hs3
          simp only [Option.some.injEq] at h
          refine ⟨(BinaryParts operator).1 ++ t0 ++ (BinaryParts operator).2.1 ++ t1 ++
            (BinaryParts operator).2.2, ?_, ?_⟩
          · rw [← h]
            simp only [String.append_assoc]
          · exact Balanced_fill2 _ _ _ t0 t1 (BinaryParts_balanced operator) ht0 ht1
  | FX.Expr.Intrinsic _ operator argument0 argument1 argument2, s, s1, hplain, h => by
      simp only [VisitExpression] at h
      simp only [PlainExpr, Bool.and_eq_true] at hplain
      split at h
      · simp at h
      · rename_i s2 hs2
        split at h
        · simp at h
        · rename_i s3 hs3
          split at h
          · simp at h
          · rename_i s4 hs4
            obtain ⟨t0, rfl, ht0⟩ :=
              VisitArgument_appends printFloat hp argument0 _ s2 hplain.1.1 hs2
            obtain ⟨t1, rfl, ht1⟩ :=
              VisitArgument_appends printFloat hp argument1 _ s3 hplain.1.2 hs3
            obtain ⟨t2, rfl, ht2⟩ :=
              VisitArgument_appends printFloat hp argument2 _ s4 hplain.2 hs4
            simp only [Option.some.injEq] at h
            refine ⟨(IntrinsicParts operator).1 ++ t0 ++ (IntrinsicParts operator).2.1 ++ t1 ++
              (IntrinsicParts operator).2.2.1 ++ t2 ++ (IntrinsicParts operator).2.2.2, ?_, ?_⟩
            · rw [← h]
              simp only [String.append_assoc]
            · exact Balanced_fill3 _ _ _ _ t0 t1 t2 (IntrinsicParts_balanced operator) ht0 ht1
                ht2
  | FX.Expr.Conditional _ condition onTrue onFalse, s, s1, hplain, h => by
      simp only [VisitExpression] at h
      simp only [PlainExpr, Bool.and_eq_true] at hplain
      split at h
      · simp at h
      · rename_i s2 hs2
        split at h
        · simp at h
        · rename_i s3 hs3
          split at h
          · simp at h
          · rename_i s4 hs4
            obtain ⟨t0, rfl, ht0⟩ :=
              VisitExpression_appends printFloat hp condition _ s2 hplain.1.1 hs2
            obtain ⟨t1, rfl, ht1⟩ :=
              VisitExpression_appends printFloat hp onTrue _ s3 hplain.1.2 hs3
            obtain ⟨t2, rfl, ht2⟩ :=
              VisitExpression_appends printFloat hp onFalse _ s4 hplain.2 hs4
            simp only [Option.some.injEq] at h
            refine ⟨"(" ++ t0 ++ " ? " ++ t1 ++ " : " ++ t2 ++ ")", ?_, ?_⟩
            · rw [← h]
              simp only [String.append_assoc]
            · exact Balanced_fill3 "(" " ? " " : " ")" t0 t1 t2 (by decide) ht0 ht1 ht2
  | FX.Expr.Swizzle _ operand mask, s, s1, hplain, h => by
      simp only [VisitExpression] at h
      simp only [PlainExpr] at hplain
      split at h
      · simp at h
      · rename_i s2 hs2
        obtain ⟨t0, rfl, ht0⟩ := VisitExpression_appends printFloat hp operand _ s2 hplain hs2
        obtain ⟨t1, rfl, ht1⟩ := VisitMask_plain _ (swizzle_table_plain operand.Ty.IsMatrix) _ _ _ h
        refine ⟨t0 ++ "." ++ t1, by simp only [String.append_assoc], ?_⟩
        exact Balanced_append _ _ (Balanced_append _ _ ht0 (by decide))
          (Balanced_of_NoBrackets _ ht1)
  | FX.Expr.FieldSelection _ operand field, s, s1, hplain, h => by
      simp only [VisitExpression] at h
      simp only [PlainExpr, Bool.and_eq_true] at hplain
      split at h
      · simp at h
      · rename_i s2 hs2
        obtain ⟨t0, rfl, ht0⟩ :=
          VisitExpression_appends printFloat hp operand _ s2 hplain.1 hs2
        simp only [Option.some.injEq] at h
        refine ⟨"(" ++ t0 ++
          ((if field.Ty.HasQualifier FX.Qualifier.Uniform = true then "_" else ".") ++
            field.Name ++ ")"), ?_, ?_⟩
        · rw [← h]
          simp only [String.append_assoc]
        · refine Balanced_fill1 "(" _ t0 ?_ ht0
          have hsep : NoBrackets
              ((if field.Ty.HasQualifier FX.Qualifier.Uniform = true then "_" else ".") ++
                field.Name) = true :=
            NoBrackets_append _ _ (by split_ifs <;> decide) hplain.2
          have := Balanced_fill1 "(" ")" _ (by decide) (Balanced_of_NoBrackets _ hsep)
          simpa only [String.append_assoc] using this
  | FX.Expr.Assignment _ operator left right, s, s1, hplain, h => by
      simp only [VisitExpression] at h
      simp only [PlainExpr, Bool.and_eq_true] at hplain
      split at h
      · simp at h
      · rename_i s2 hs2
        split at h
        · simp at h
        · rename_i s3 hs3
          obtain ⟨t0, rfl, ht0⟩ :=
            VisitExpression_appends printFloat hp left _ s2 hplain.1 hs2
          obtain ⟨t1, rfl, ht1⟩ :=
            VisitExpression_appends printFloat hp right _ s3 hplain.2 hs3
          simp only [Option.some.injEq] at h
          refine ⟨"(" ++ t0 ++ (" " ++ AssignmentToken operator ++ " ") ++ t1 ++ ")", ?_, ?_⟩
          · rw [← h]
            simp only [String.append_assoc]
          · exact Balanced_fill2 "(" _ ")" t0 t1 (AssignmentToken_balanced operator) ht0 ht1
  | FX.Expr.Call _ callee arguments, s, s1, hplain, h => by
      simp only [VisitExpression] at h
      simp only [PlainExpr, Bool.and_eq_true] at hplain
      split at h
      · simp at h
      · rename_i s2 hs2
        obtain ⟨texts, hlen, rfl, hall⟩ :=
          VisitExpressionList_appends printFloat hp arguments _ s2 hplain.2 hs2
        have hhead : Balanced (callee ++ "(" ++ ")") := by
          rw [String.append_assoc]
          exact Balanced_append_plain_left callee ("(" ++ ")") hplain.1 (by decide)
        cases arguments with
        | nil =>
          have htexts : texts = [] := List.length_eq_zero.1 hlen
          subst htexts
          simp only [List.isEmpty_nil, Bool.not_true, Bool.false_eq_true, if_false,
            Option.some.injEq] at h
          refine ⟨callee ++ "(" ++ ")", ?_, hhead⟩
          rw [← h]
          simp only [Terminated, String.append_assoc, String.empty_append]
        | cons a rest =>
          have hne : texts ≠ [] := by
            intro h0
            rw [h0] at hlen
            simp at hlen
          simp only [List.isEmpty_cons, Bool.not_false, if_true,
            PopBack2_Terminated _ texts hne, Option.some.injEq] at h
          refine ⟨callee ++ "(" ++ ", ".intercalate texts ++ ")", ?_, ?_⟩
          · rw [← h]
            simp only [String.append_assoc]
          · exact Balanced_fill1 _ _ _ hhead (Balanced_intercalate texts hne hall)
  | FX.Expr.Constructor type arguments, s, s1, hplain, h => by
      simp only [VisitExpression] at h
      simp only [PlainExpr, Bool.and_eq_true] at hplain
      split at h
      · simp at h
      · rename_i T hT
        split at h
        · simp at h
        · rename_i s2 hs2
          obtain ⟨texts, hlen, rfl, hall⟩ :=
            VisitExpressionList_appends printFloat hp arguments _ s2 hplain.2 hs2
          have hhead : Balanced (T ++ "(" ++ ")") := by
            rw [String.append_assoc]
            exact Balanced_append_plain_left T ("(" ++ ")")
              (PrintType_plain type T hplain.1 hT) (by decide)
          cases arguments with
          | nil =>
            have htexts : texts = [] := List.length_eq_zero.1 hlen
            subst htexts
            simp only [List.isEmpty_nil, Bool.not_true, Bool.false_eq_true, if_false,
              Option.some.injEq] at h
            refine ⟨T ++ "(" ++ ")", ?_, hhead⟩
            rw [← h]
            simp only [Terminated, String.append_assoc, String.empty_append]
          | cons a rest =>
            have hne : texts ≠ [] := by
              intro h0
              rw [h0] at hlen
              simp at hlen
            simp only [List.isEmpty_cons, Bool.not_false, if_true,
              PopBack2_Terminated _ texts hne, Option.some.injEq] at h
            refine ⟨T ++ "(" ++ ", ".intercalate texts ++ ")", ?_, ?_⟩
            · rw [← h]
              simp only [String.append_assoc]
            · exact Balanced_fill1 _ _ _ hhead (Balanced_intercalate texts hne hall)
  | FX.Expr.InitializerList _ values, s, s1, hplain, h => by
      simp only [VisitExpression] at h
      simp only [PlainExpr] at hplain
      split at h
      · simp at h
      · rename_i s2 hs2
        obtain ⟨texts, hlen, rfl, hall⟩ :=
          VisitExpressionList_appends printFloat hp values _ s2 hplain hs2
        simp only [Option.some.injEq] at h
        refine ⟨"\x7b " ++ Terminated texts ++ " \x7d", ?_, ?_⟩
        · rw [← h]
          simp only [String.append_assoc]
        · exact Balanced_fill1 "\x7b " " \x7d" _ (by decide) (Balanced_Terminated texts hall)
/-- The visitor of a plain argument, when it returns, has appended a balanced text. -/
theorem VisitArgument_appends (printFloat : Nat → String)
    (hp : ∀ w, Balanced (printFloat w)) :
    ∀ (a : Option FX.Expr) (s s1 : String), PlainArgument a = true →
      VisitArgument printFloat a s = some s1 → ∃ t, s1 = s ++ t ∧ Balanced t
  | none, s, s1, _, h => by
      simp only [VisitArgument, Option.some.injEq] at h
      exact ⟨"", by simp [← h], Balanced_empty⟩
  | some argument, s, s1, hplain, h => by
      simp only [VisitArgument] at h
      simp only [PlainArgument] at hplain
      exact VisitExpression_appends printFloat hp argument s s1 hplain h
/-- The loop over plain expressions, when it returns, has appended one balanced text for each
expression, each followed by `", "`. -/
theorem VisitExpressionList_appends (printFloat : Nat → String)
    (hp : ∀ w, Balanced (printFloat w)) :
    ∀ (es : List FX.Expr) (s s1 : String), PlainList es = true →
      VisitExpressionList printFloat es s = some s1 →
      ∃ texts : List String, texts.length = es.length ∧ s1 = s ++ Terminated texts ∧
        ∀ t ∈ texts, Balanced t
  | [], s, s1, _, h => by
      simp only [VisitExpressionList, Option.some.injEq] at h
      exact ⟨[], rfl, by simp [Terminated, ← h], by simp⟩
  | expression :: rest, s, s1, hplain, h => by
      simp only [VisitExpressionList] at h
      simp only [PlainList, Bool.and_eq_true] at hplain
      split at h
      · simp at h
      · rename_i s2 hs2
        obtain ⟨t, rfl, ht⟩ :=
          VisitExpression_appends printFloat hp expression s s2 hplain.1 hs2
        obtain ⟨texts, hlen, rfl, hall⟩ :=
          VisitExpressionList_appends printFloat hp rest _ s1 hplain.2 h
        refine ⟨t :: texts, by simp [hlen], by simp only [Terminated, String.append_assoc], ?_⟩
        intro x hx
        rcases List.mem_cons.1 hx with rfl | hx
        · exact ht
        · exact hall x hx
end

/-! ## The visitor of expressions returns -/

/-- The loop over the entries of a swizzle mask returns when the entries that are not negative
are indices into the table. -/
theorem VisitMask_defined (table : List String) :
    ∀ (mask : List Int) (s : String), MaskInside table mask = true →
      ∃ s1, VisitMask table mask s = some s1
  | [], s, _ => ⟨s, rfl⟩
  | m :: rest, s, h => by
      simp only [MaskInside, List.all_cons, Bool.and_eq_true, Bool.or_eq_true,
        decide_eq_true_eq] at h
      simp only [VisitMask]
      split_ifs with hm
      · exact ⟨s, rfl⟩
      · have hlt : m.toNat < table.length := by
          rcases h.1 with h1 | h1
          · exact absurd h1 hm
          · exact h1
        rw [List.getElem?_eq_getElem hlt]
        exact VisitMask_defined table rest _ h.2

/-- A literal with at least one component, a word for every component and a type that can be
printed is emitted. -/
theorem VisitLiteral_defined (printFloat : Nat → String) (type : FX.TypeNode)
    (value : List Nat) (s : String) (hn : 1 ≤ (type.Rows * type.Cols) % UINT_MOD)
    (hlen : (type.Rows * type.Cols) % UINT_MOD ≤ value.length)
    (hty : type.IsScalar = true ∨ (PrintType type).isSome = true) :
    ∃ s1, VisitLiteral printFloat type value s = some s1 := by
  obtain ⟨texts, htexts⟩ := LiteralComponents_defined printFloat type value
    (List.range ((type.Rows * type.Cols) % UINT_MOD))
    (fun i hi => lt_of_lt_of_le (List.mem_range.1 hi) hlen)
  have hne : texts ≠ [] := by
    intro h0
    have hl := htexts.length_eq
    rw [h0, List.length_range] at hl
    simp only [List.length_nil] at hl
    omega
  rw [VisitLiteral_spec printFloat type value texts hne htexts s]
  split_ifs with hs
  · exact ⟨_, rfl⟩
  · rcases hty with h | h
    · exact absurd h hs
    · obtain ⟨T, hT⟩ := Option.isSome_iff_exists.1 h
      rw [hT]
      exact ⟨_, rfl⟩

mutual
/-- The visitor of a plain expression whose reads are defined returns. -/
theorem VisitExpression_defined (printFloat : Nat → String)
    (hp : ∀ w, Balanced (printFloat w)) :
    ∀ (e : FX.Expr) (s : String), PlainExpr e = true → DefinedExpr e = true →
      ∃ s1, VisitExpression printFloat e s = some s1
  | FX.Expr.LValue _ reference, s, _, _ => by
      simp only [VisitExpression]
      exact ⟨_, rfl⟩
  | FX.Expr.Literal type value, s, hplain, hdef => by
      simp only [VisitExpression]
      simp only [PlainExpr, Bool.and_eq_true, decide_eq_true_eq] at hplain
      simp only [DefinedExpr, Bool.and_eq_true, decide_eq_true_eq, Bool.or_eq_true] at hdef
      exact VisitLiteral_defined printFloat type value s hplain.1 hdef.1 hdef.2
  | FX.Expr.Sequence _ expressions, s, hplain, hdef => by
      simp only [VisitExpression]
      simp only [PlainExpr, Bool.and_eq_true, Bool.not_eq_true'] at hplain
      simp only [DefinedExpr] at hdef
      obtain ⟨s2, hs2⟩ := VisitExpressionList_defined printFloat hp expressions s hplain.2 hdef
      obtain ⟨texts, hlen, rfl, -⟩ :=
        VisitExpressionList_appends printFloat hp expressions s s2 hplain.2 hs2
      have hne : texts ≠ [] := by
        intro h0
        rw [h0] at hlen
        have := List.length_eq_zero.1 hlen.symm
        rw [this] at hplain
        simp at hplain
      rw [hs2]
      simp only [PopBack2_Terminated s texts hne]
      exact ⟨_, rfl⟩
  | FX.Expr.Unary type operator operand, s, hplain, hdef => by
      simp only [VisitExpression]
      simp only [PlainExpr, Bool.and_eq_true] at hplain
      simp only [DefinedExpr, Bool.and_eq_true] at hdef
      obtain ⟨parts, hparts⟩ := Option.isSome_iff_exists.1 hdef.1
      rw [hparts]
      obtain ⟨s2, hs2⟩ :=
        VisitExpression_defined printFloat hp operand (s ++ parts.1) hplain.2 hdef.2
      simp only [hs2]
      exact ⟨_, rfl⟩
  | FX.Expr.Binary _ operator operand0 operand1, s, hplain, hdef => by
      simp only [VisitExpression]
      simp only [PlainExpr, Bool.and_eq_true] at hplain
      simp only [DefinedExpr, Bool.and_eq_true] at hdef
      obtain ⟨s2, hs2⟩ := VisitExpression_defined printFloat hp operand0
        (s ++ (BinaryParts operator).1) hplain.1 hdef.1
      obtain ⟨s3, hs3⟩ := VisitExpression_defined printFloat hp operand1
        (s2 ++ (BinaryParts operator).2.1) hplain.2 hdef.2
      simp only [hs2, hs3]
      exact ⟨_, rfl⟩
  | FX.Expr.Intrinsic _ operator argument0 argument1 argument2, s, hplain, hdef => by
      simp only [VisitExpression]
      simp only [PlainExpr, Bool.and_eq_true] at hplain
      simp only [DefinedExpr, Bool.and_eq_true] at hdef
      obtain ⟨s2, hs2⟩ := VisitArgument_defined printFloat hp argument0
        (s ++ (IntrinsicParts operator).1) hplain.1.1 hdef.1.1
      obtain ⟨s3, hs3⟩ := VisitArgument_defined printFloat hp argument1
        (s2 ++ (IntrinsicParts operator).2.1) hplain.1.2 hdef.1.2
      obtain ⟨s4, hs4⟩ := VisitArgument_defined printFloat hp argument2
        (s3 ++ (IntrinsicParts operator).2.2.1) hplain.2 hdef.2
      simp only [hs2, hs3, hs4]
      exact ⟨_, rfl⟩
  | FX.Expr.Conditional _ condition onTrue onFalse, s, hplain, hdef => by
      simp only [VisitExpression]
      simp only [PlainExpr, Bool.and_eq_true] at hplain
      simp only [DefinedExpr, Bool.and_eq_true] at hdef
      obtain ⟨s2, hs2⟩ := VisitExpression_defined printFloat hp condition (s ++ "(")
        hplain.1.1 hdef.1.1
      obtain ⟨s3, hs3⟩ := VisitExpression_defined printFloat hp onTrue (s2 ++ " ? ")
        hplain.1.2 hdef.1.2
      obtain ⟨s4, hs4⟩ := VisitExpression_defined printFloat hp onFalse (s3 ++ " : ")
        hplain.2 hdef.2
      simp only [hs2, hs3, hs4]
      exact ⟨_, rfl⟩
  | FX.Expr.Swizzle _ operand mask, s, hplain, hdef => by
      simp only [VisitExpression]
      simp only [PlainExpr] at hplain
      simp only [DefinedExpr, Bool.and_eq_true] at hdef
      obtain ⟨s2, hs2⟩ := VisitExpression_defined printFloat hp operand s hplain hdef.1
      simp only [hs2]
      exact VisitMask_defined _ _ _ hdef.2
  | FX.Expr.FieldSelection _ operand field, s, hplain, hdef => by
      simp only [VisitExpression]
      simp only [PlainExpr, Bool.and_eq_true] at hplain
      simp only [DefinedExpr] at hdef
      obtain ⟨s2, hs2⟩ := VisitExpression_defined printFloat hp operand (s ++ "(") hplain.1 hdef
      simp only [hs2]
      exact ⟨_, rfl⟩
  | FX.Expr.Assignment _ operator left right, s, hplain, hdef => by
      simp only [VisitExpression]
      simp only [PlainExpr, Bool.and_eq_true] at hplain
      simp only [DefinedExpr, Bool.and_eq_true] at hdef
      obtain ⟨s2, hs2⟩ := VisitExpression_defined printFloat hp left (s ++ "(") hplain.1 hdef.1
      obtain ⟨s3, hs3⟩ := VisitExpression_defined printFloat hp right
        (s2 ++ " " ++ AssignmentToken operator ++ " ") hplain.2 hdef.2
      simp only [hs2, hs3]
      exact ⟨_, rfl⟩
  | FX.Expr.Call _ callee arguments, s, hplain, hdef => by
      simp only [VisitExpression]
      simp only [PlainExpr, Bool.and_eq_true] at hplain
      simp only [DefinedExpr] at hdef
      obtain ⟨s2, hs2⟩ := VisitExpressionList_defined printFloat hp arguments
        (s ++ callee ++ "(") hplain.2 hdef
      obtain ⟨texts, hlen, rfl, -⟩ :=
        VisitExpressionList_appends printFloat hp arguments _ s2 hplain.2 hs2
      rw [hs2]
      cases arguments with
      | nil =>
        simp only [List.isEmpty_nil, Bool.not_true, Bool.false_eq_true, if_false]
        exact ⟨_, rfl⟩
      | cons a rest =>
        have hne : texts ≠ [] := by
          intro h0
          rw [h0] at hlen
          simp at hlen
        simp only [List.isEmpty_cons, Bool.not_false, if_true, PopBack2_Terminated _ texts hne]
        exact ⟨_, rfl⟩
  | FX.Expr.Constructor type arguments, s, hplain, hdef => by
      simp only [VisitExpression]
      simp only [PlainExpr, Bool.and_eq_true] at hplain
      simp only [DefinedExpr, Bool.and_eq_true] at hdef
      obtain ⟨T, hT⟩ := Option.isSome_iff_exists.1 hdef.1
      rw [hT]
      obtain ⟨s2, hs2⟩ := VisitExpressionList_defined printFloat hp arguments
        (s ++ T ++ "(") hplain.2 hdef.2
      obtain ⟨texts, hlen, rfl, -⟩ :=
        VisitExpressionList_appends printFloat hp arguments _ s2 hplain.2 hs2
      simp only [hs2]
      cases arguments with
      | nil =>
        simp only [List.isEmpty_nil, Bool.not_true, Bool.false_eq_true, if_false]
        exact ⟨_, rfl⟩
      | cons a rest =>
        have hne : texts ≠ [] := by
          intro h0
          rw [h0] at hlen
          simp at hlen
        simp only [List.isEmpty_cons, Bool.not_false, if_true, PopBack2_Terminated _ texts hne]
        exact ⟨_, rfl⟩
  | FX.Expr.InitializerList _ values, s, hplain, hdef => by
      simp only [VisitExpression]
      simp only [PlainExpr] at hplain
      simp only [DefinedExpr] at hdef
      obtain ⟨s2, hs2⟩ := VisitExpressionList_defined printFloat hp values
        (s ++ "\x7b ") hplain hdef
      simp only [hs2]
      exact ⟨_, rfl⟩
/-- The visitor of a plain argument whose reads are defined returns. -/
theorem VisitArgument_defined (printFloat : Nat → String)
    (hp : ∀ w, Balanced (printFloat w)) :
    ∀ (a : Option FX.Expr) (s : String), PlainArgument a = true → DefinedArgument a = true →
      ∃ s1, VisitArgument printFloat a s = some s1
  | none, s, _, _ => ⟨s, by simp only [VisitArgument]⟩
  | some argument, s, hplain, hdef => by
      simp only [VisitArgument]
      simp only [PlainArgument] at hplain
      simp only [DefinedArgument] at hdef
      exact VisitExpression_defined printFloat hp argument s hplain hdef
/-- The loop over plain expressions whose reads are defined returns. -/
theorem VisitExpressionList_defined (printFloat : Nat → String)
    (hp : ∀ w, Balanced (printFloat w)) :
    ∀ (es : List FX.Expr) (s : String), PlainList es = true → DefinedList es = true →
      ∃ s1, VisitExpressionList printFloat es s = some s1
  | [], s, _, _ => ⟨s, by simp only [VisitExpressionList]⟩
  | expression :: rest, s, hplain, hdef => by
      simp only [VisitExpressionList]
      simp only [PlainList, Bool.and_eq_true] at hplain
      simp only [DefinedList, Bool.and_eq_true] at hdef
      obtain ⟨s2, hs2⟩ := VisitExpression_defined printFloat hp expression s hplain.1 hdef.1
      simp only [hs2]
      exact VisitExpressionList_defined printFloat hp rest _ hplain.2 hdef.2
end

/-- C33: for every expression tree whose identifiers hold no bracket character, whose literals
have at least one component and whose sequences are not empty, and for texts of
`std::to_string` with balanced brackets, `Visit(Expression)`, when it returns, has appended a
text to the shader source, whose characters before it are kept, and the appended text has
balanced round, square and curly brackets; it returns on every such tree whose reads are
inside their arrays and whose printed types have a definition. -/
theorem C33_balanced_brackets (printFloat : Nat → String)
    (hp : ∀ w, Balanced (printFloat w)) (e : FX.Expr) (hplain : PlainExpr e = true) :
    (∀ s s1 : String, VisitExpression printFloat e s = some s1 →
      ∃ t, s1 = s ++ t ∧ Balanced t) ∧
    (DefinedExpr e = true →
      ∀ s : String, ∃ t, VisitExpression printFloat e s = some (s ++ t) ∧ Balanced t) := by
  refine ⟨fun s s1 h => VisitExpression_appends printFloat hp e s s1 hplain h, ?_⟩
  intro hdef s
  obtain ⟨s1, hs1⟩ := VisitExpression_defined printFloat hp e s hplain hdef
  obtain ⟨t, rfl, ht⟩ := VisitExpression_appends printFloat hp e s s1 hplain hs1
  exact ⟨t, hs1, ht⟩

open Example in
/-- The theorem of C33 on the expression `mad(tone(a, float3(0.5, 0.5, 0.5)), b[a], c.xy)`
behind the text `x = `. -/
theorem C33_balanced_brackets_witness :
    PlainExpr nested = true ∧ DefinedExpr nested = true ∧
    VisitExpression printHalf nested "x = " =
      some "x = ((tone(a, float3(0.500000f, 0.500000f, 0.500000f))) * (b[a]) + (c.xy))" ∧
    ∃ t, VisitExpression printHalf nested "x = " = some ("x = " ++ t) ∧ Balanced t :=
  ⟨by decide, by decide, by decide,
    (C33_balanced_brackets printHalf (fun _ => (show Balanced "0.500000" by decide)) nested
      (by decide)).2 (by decide)
      "x = "⟩

end ReShade
